import Mathlib

/-!
Invader: bitmap sizes, dependency search and scenario merging.

A shallow embedding of parts of the Invader tag compiler:

* `size_of_bitmap` from `src/tag/parser/compile/bitmap.cpp` and its sibling in
  `src/tag/parser/compile/bitmap/decompile.cpp`;
* `FoundTagDependency::find_dependencies` from
  `src/dependency/found_tag_dependency.cpp`;
* `merge_child_scenario` and `merge_child_scenarios` from
  `src/tag/parser/compile/scenario/pre_compile.cpp`.

`std::size_t` is taken to be 64 bits wide; arithmetic on it is written on `Nat`
with an explicit reduction modulo `size_t_modulus`.
-/

namespace Invader

/-! ## Bitmap data -/

/-- Number of values of `std::size_t`. -/
def size_t_modulus : Nat := 2 ^ 64

/-- Number of values of a 16-bit field (`std::uint16_t`, `HEK::Index`). -/
def uint16_modulus : Nat := 65536

/-- The formats `size_of_bitmap` names in its switch. The enumeration itself is
declared in a header; every value the switch does not name is `other raw`. -/
inductive BitmapDataFormat where
  | BITMAP_DATA_FORMAT_A8R8G8B8
  | BITMAP_DATA_FORMAT_X8R8G8B8
  | BITMAP_DATA_FORMAT_R5G6B5
  | BITMAP_DATA_FORMAT_A1R5G5B5
  | BITMAP_DATA_FORMAT_A4R4G4B4
  | BITMAP_DATA_FORMAT_A8Y8
  | BITMAP_DATA_FORMAT_P8_BUMP
  | BITMAP_DATA_FORMAT_A8
  | BITMAP_DATA_FORMAT_AY8
  | BITMAP_DATA_FORMAT_Y8
  | BITMAP_DATA_FORMAT_DXT5
  | BITMAP_DATA_FORMAT_DXT3
  | BITMAP_DATA_FORMAT_DXT1
  | other (raw : Nat)
  deriving DecidableEq, Repr

/-- The bitmap data types. -/
inductive BitmapDataType where
  | BITMAP_DATA_TYPE_2D_TEXTURE
  | BITMAP_DATA_TYPE_3D_TEXTURE
  | BITMAP_DATA_TYPE_CUBE_MAP
  | BITMAP_DATA_TYPE_WHITE
  deriving DecidableEq, Repr

/-- The flags of a bitmap data that the size and layout code reads. -/
structure BitmapDataFlags where
  power_of_two_dimensions : Bool := false
  compressed : Bool := false
  swizzled : Bool := false
  external : Bool := false
  deriving DecidableEq, Repr

/-- The fields of `BitmapData` that `size_of_bitmap` and the compile and cache
parse steps read. `width`, `height`, `depth` and `mipmap_count` are 16-bit
fields in the tag, `pixel_data_offset` and `pixel_data_size` 32-bit ones. -/
structure BitmapData where
  width : Nat
  height : Nat
  depth : Nat
  type : BitmapDataType
  format : BitmapDataFormat
  flags : BitmapDataFlags
  mipmap_count : Nat
  pixel_data_offset : Nat := 0
  pixel_data_size : Nat := 0
  deriving DecidableEq, Repr

/-- The dimensions and the mipmap count fit their 16-bit fields. -/
def BitmapData.fits_fields (data : BitmapData) : Prop :=
  data.width < uint16_modulus ∧ data.height < uint16_modulus ∧
    data.depth < uint16_modulus ∧ data.mipmap_count < uint16_modulus

instance (data : BitmapData) : Decidable data.fits_fields := by
  unfold BitmapData.fits_fields; infer_instance

/-- The switch at the head of `size_of_bitmap` (bitmap.cpp): the bits per
pixel of a named format, `none` for the `default:` branch, which throws. -/
def bits_per_pixel_of_format : BitmapDataFormat → Option Nat
  | .BITMAP_DATA_FORMAT_A8R8G8B8 => some 32
  | .BITMAP_DATA_FORMAT_X8R8G8B8 => some 32
  | .BITMAP_DATA_FORMAT_R5G6B5 => some 16
  | .BITMAP_DATA_FORMAT_A1R5G5B5 => some 16
  | .BITMAP_DATA_FORMAT_A4R4G4B4 => some 16
  | .BITMAP_DATA_FORMAT_A8Y8 => some 16
  | .BITMAP_DATA_FORMAT_P8_BUMP => some 8
  | .BITMAP_DATA_FORMAT_A8 => some 8
  | .BITMAP_DATA_FORMAT_AY8 => some 8
  | .BITMAP_DATA_FORMAT_Y8 => some 8
  | .BITMAP_DATA_FORMAT_DXT5 => some 8
  | .BITMAP_DATA_FORMAT_DXT3 => some 8
  | .BITMAP_DATA_FORMAT_DXT1 => some 4
  | .other _ => none

/-- Modelled from the spec: `HEK::calculate_bits_per_pixel` is declared in a
header that is not part of the sources at hand. The spec gives the table
(32, 16, 8 and 4 bits per pixel by format); the caller in decompile.cpp treats
a result of `0` as "unknown format". -/
def calculate_bits_per_pixel : BitmapDataFormat → Nat
  | .BITMAP_DATA_FORMAT_A8R8G8B8 => 32
  | .BITMAP_DATA_FORMAT_X8R8G8B8 => 32
  | .BITMAP_DATA_FORMAT_R5G6B5 => 16
  | .BITMAP_DATA_FORMAT_A1R5G5B5 => 16
  | .BITMAP_DATA_FORMAT_A4R4G4B4 => 16
  | .BITMAP_DATA_FORMAT_A8Y8 => 16
  | .BITMAP_DATA_FORMAT_P8_BUMP => 8
  | .BITMAP_DATA_FORMAT_A8 => 8
  | .BITMAP_DATA_FORMAT_AY8 => 8
  | .BITMAP_DATA_FORMAT_Y8 => 8
  | .BITMAP_DATA_FORMAT_DXT5 => 8
  | .BITMAP_DATA_FORMAT_DXT3 => 8
  | .BITMAP_DATA_FORMAT_DXT1 => 4
  | .other _ => 0

/-- The face multiplier: `data.type == BITMAP_DATA_TYPE_CUBE_MAP ? 6 : 1`. -/
def face_multiplier (type : BitmapDataType) : Nat :=
  if type = .BITMAP_DATA_TYPE_CUBE_MAP then 6 else 1

/-- The amount one loop iteration adds to `size`:
`width * height * depth * multiplier * bits_per_pixel / 8` on `std::size_t`. -/
def level_size (width height depth multiplier bits_per_pixel : Nat) : Nat :=
  (width * height * depth * multiplier * bits_per_pixel % size_t_modulus) / 8

/-- The update of `width` and of `height` in bitmap.cpp: halve, reset `0` to
`1`, then raise to `4` when the bitmap is compressed. -/
def next_extent (should_be_compressed : Bool) (x : Nat) : Nat :=
  let x := x / 2
  let x := if x = 0 then 1 else x
  if should_be_compressed then (if x < 4 then 4 else x) else x

/-- The update of `depth` in bitmap.cpp: halve and reset `0` to `1`. -/
def next_depth (x : Nat) : Nat :=
  let x := x / 2
  if x = 0 then 1 else x

/-- The `for` loop of `size_of_bitmap` (bitmap.cpp), by the number of
iterations left; `size`, `width`, `height` and `depth` are its variables. -/
def size_of_bitmap_loop (should_be_compressed : Bool) (multiplier bits_per_pixel : Nat) :
    Nat → Nat → Nat → Nat → Nat → Nat
  | 0, size, _, _, _ => size
  | n + 1, size, width, height, depth =>
    size_of_bitmap_loop should_be_compressed multiplier bits_per_pixel n
      ((size + level_size width height depth multiplier bits_per_pixel) % size_t_modulus)
      (next_extent should_be_compressed width)
      (next_extent should_be_compressed height)
      (next_depth depth)

/-- The function `size_of_bitmap` of bitmap.cpp. `none` is the thrown
exception of the `default:` branch. The loop runs for `i = 0 .. mipmap_count`. -/
def size_of_bitmap (data : BitmapData) : Option Nat :=
  match bits_per_pixel_of_format data.format with
  | none => none
  | some bits_per_pixel =>
    some (size_of_bitmap_loop data.flags.compressed (face_multiplier data.type) bits_per_pixel
      (data.mipmap_count + 1) 0 data.width data.height data.depth)

/-- The `for` loop of `size_of_bitmap` in decompile.cpp, which clamps with
`std::max` against `block_length`. -/
def size_of_bitmap_loop_decompile (block_length multiplier bits_per_pixel : Nat) :
    Nat → Nat → Nat → Nat → Nat → Nat
  | 0, size, _, _, _ => size
  | n + 1, size, width, height, depth =>
    size_of_bitmap_loop_decompile block_length multiplier bits_per_pixel n
      ((size + level_size width height depth multiplier bits_per_pixel) % size_t_modulus)
      (max (width / 2) block_length)
      (max (height / 2) block_length)
      (max (depth / 2) 1)

/-- The function `size_of_bitmap` of decompile.cpp, over the bits-per-pixel
lookup it calls. `none` is the exception thrown when the lookup yields `0`. -/
def size_of_bitmap_decompile (bpp_of : BitmapDataFormat → Nat) (data : BitmapData) :
    Option Nat :=
  let bits_per_pixel := bpp_of data.format
  if bits_per_pixel = 0 then none
  else
    let block_length := if data.flags.compressed then 4 else 1
    some (size_of_bitmap_loop_decompile block_length (face_multiplier data.type) bits_per_pixel
      (data.mipmap_count + 1) 0 data.width data.height data.depth)

/-- The values of `width`, `height` and `depth` at the start of iteration `i`
of the loop in bitmap.cpp. -/
def dimensions_at (data : BitmapData) : Nat → Nat × Nat × Nat
  | 0 => (data.width, data.height, data.depth)
  | i + 1 =>
    let p := dimensions_at data i
    (next_extent data.flags.compressed p.1, next_extent data.flags.compressed p.2.1,
      next_depth p.2.2)

/-- The amount iteration `i` of the loop in bitmap.cpp adds to `size`. -/
def level_size_at (data : BitmapData) (bits_per_pixel : Nat) (i : Nat) : Nat :=
  let p := dimensions_at data i
  level_size p.1 p.2.1 p.2.2 (face_multiplier data.type) bits_per_pixel

/-! ### The mip chain size as the specification words it -/

/-- Dimension of level `i`: the declared one at level `0`, afterwards
`max (x / 2) minimum` of the level before. -/
def mip_dimension (minimum : Nat) (x : Nat) : Nat → Nat
  | 0 => x
  | i + 1 => max (mip_dimension minimum x i / 2) minimum

/-- The sum over the levels `0 .. mipmap_count` of
`floor (w_i * h_i * d_i * m * bpp / 8)`. -/
def mip_chain_size (bits_per_pixel width height depth mipmap_count : Nat)
    (is_cube_map is_compressed : Bool) : Nat :=
  let m := if is_cube_map then 6 else 1
  let block := if is_compressed then 4 else 1
  ∑ i in Finset.range (mipmap_count + 1),
    mip_dimension block width i * mip_dimension block height i * mip_dimension 1 depth i
      * m * bits_per_pixel / 8

/-! ## Dependency search -/

/-- The tag classes the dependency search and the scenario merge name. The
enumeration is declared in a header; every other class is `other fourcc`. -/
inductive TagClassInt where
  | TAG_CLASS_NULL
  | TAG_CLASS_BITMAP
  | TAG_CLASS_CAMERA_TRACK
  | TAG_CLASS_HUD_MESSAGE_TEXT
  | TAG_CLASS_PHYSICS
  | TAG_CLASS_SOUND_ENVIRONMENT
  | TAG_CLASS_UNICODE_STRING_LIST
  | TAG_CLASS_WIND
  | TAG_CLASS_MODEL
  | TAG_CLASS_GBXMODEL
  | TAG_CLASS_SCENARIO
  | TAG_CLASS_NONE
  | TAG_CLASS_SOUND
  | TAG_CLASS_FONT
  | other (fourcc : Nat)
  deriving DecidableEq, Repr

/-- One entry of `CompiledTag::dependencies`: the path and class referenced. -/
structure CompiledTagDependency where
  path : String
  tag_class_int : TagClassInt
  deriving DecidableEq, Repr

/-- The class `FoundTagDependency`, fields in constructor order. -/
structure FoundTagDependency where
  path : String
  class_int : TagClassInt
  broken : Bool
  file_path : String
  deriving DecidableEq, Repr

/-- What the search takes from outside: the path helpers of `File` and `HEK`,
the file system as `std::fopen` and `std::filesystem` see it, and the
constructor of `CompiledTag` (`none` when it throws). Files hold a list of
bytes. -/
structure TagFileSystem where
  halo_path_to_preferred_path : String → String
  preferred_path_to_halo_path : String → String
  tag_class_to_extension : TagClassInt → String
  extension_to_tag_class : String → TagClassInt
  path_append : String → String → String
  fopen : String → Option (List Nat)
  is_regular_file : String → Bool
  compile_tag : String → TagClassInt → List Nat → Option (List CompiledTagDependency)

/-- The first `for(auto &tags_directory : tags)` loop of the forward search up
to the successful `std::fopen`: the path and contents of the first file that
opens. -/
def open_in_directories (fs : TagFileSystem) (relative : String) :
    List String → Option (String × List Nat)
  | [] => none
  | tags_directory :: rest =>
    let tag_path := fs.path_append tags_directory relative
    match fs.fopen tag_path with
    | none => open_in_directories fs relative rest
    | some tag_data => some (tag_path, tag_data)

/-- The inner `for(auto &tags_directory : tags)` loop of the forward search:
the first directory in which the dependency is a regular file. -/
def locate_in_directories (fs : TagFileSystem) (path_copy : String) :
    List String → Option String
  | [] => none
  | tags_directory :: rest =>
    let complete_tag_path := fs.path_append tags_directory path_copy
    if fs.is_regular_file complete_tag_path then some complete_tag_path
    else locate_in_directories fs path_copy rest

/-- The "Make sure it's not in found_tags" loop: some found tag has the
dependency's path and the dependency's declared class. -/
def is_dupe (found_tags : List FoundTagDependency) (dependency : CompiledTagDependency) : Bool :=
  found_tags.any (fun tag => tag.path = dependency.path ∧ tag.class_int = dependency.tag_class_int)

/-- The variables the lambda `find_dependencies_in_tag` captures by
reference and writes. -/
structure SearchState where
  found_tags : List FoundTagDependency
  success : Bool
  deriving DecidableEq, Repr

/-- The lambda `find_dependencies_in_tag`. The first argument bounds the depth
of the recursion; `none` means the bound was reached. -/
def find_dependencies_in_tag (fs : TagFileSystem) (tags : List String) (recursive : Bool) :
    Nat → String → TagClassInt → SearchState → Option SearchState
  | 0, _, _, _ => none
  | fuel + 1, tag_path_to_find_2, tag_int_to_find, state =>
    let tag_path_to_find := fs.halo_path_to_preferred_path tag_path_to_find_2
    match open_in_directories fs
        (tag_path_to_find ++ "." ++ fs.tag_class_to_extension tag_int_to_find) tags with
    | none => some { state with success := false }
    | some (tag_path, tag_data) =>
      match fs.compile_tag tag_path tag_int_to_find tag_data with
      | none => some { state with success := false }
      | some dependencies =>
        dependencies.foldlM (fun (state : SearchState) dependency =>
          if is_dupe state.found_tags dependency then some state
          else
            let class_to_use :=
              if dependency.tag_class_int = .TAG_CLASS_MODEL then TagClassInt.TAG_CLASS_GBXMODEL
              else dependency.tag_class_int
            let path_copy := fs.halo_path_to_preferred_path
              (dependency.path ++ "." ++ fs.tag_class_to_extension class_to_use)
            match locate_in_directories fs path_copy tags with
            | some complete_tag_path =>
              let state := { state with found_tags := state.found_tags ++
                [{ path := dependency.path, class_int := class_to_use, broken := false,
                   file_path := complete_tag_path }] }
              if recursive then
                find_dependencies_in_tag fs tags recursive fuel dependency.path class_to_use state
              else some state
            | none =>
              some { state with found_tags := state.found_tags ++
                [{ path := dependency.path, class_int := class_to_use, broken := true,
                   file_path := "" }] }) state

mutual
/-- What `std::filesystem::directory_iterator` yields for one entry. -/
inductive DirectoryEntry where
  | directory (filename : String) (path : String) (entries : DirectoryListing)
  | regular_file (stem : String) (extension : String) (path : String)
  | other (path : String)
/-- The entries of a directory in the order the iterator yields them. -/
inductive DirectoryListing where
  | nil
  | cons (file : DirectoryEntry) (rest : DirectoryListing)
end

/-- The classes the reverse search skips. -/
def is_skipped_class (class_int : TagClassInt) : Bool :=
  class_int = .TAG_CLASS_NULL ∨ class_int = .TAG_CLASS_BITMAP
    ∨ class_int = .TAG_CLASS_CAMERA_TRACK ∨ class_int = .TAG_CLASS_HUD_MESSAGE_TEXT
    ∨ class_int = .TAG_CLASS_PHYSICS ∨ class_int = .TAG_CLASS_SOUND_ENVIRONMENT
    ∨ class_int = .TAG_CLASS_UNICODE_STRING_LIST ∨ class_int = .TAG_CLASS_WIND

/-- The lambda `iterate_recursively`: the `for` loop over the entries of a
directory. `continue` goes on with `rest`, `break` returns the list found so
far. -/
def iterate_recursively (fs : TagFileSystem) (tag_path_to_find : String)
    (tag_int_to_find : TagClassInt) (current_path : String) :
    DirectoryListing → List FoundTagDependency → List FoundTagDependency
  | .nil, found_tags => found_tags
  | .cons (.directory filename _ entries) rest, found_tags =>
    let dir_tag_path := current_path ++ filename ++ "\\"
    iterate_recursively fs tag_path_to_find tag_int_to_find current_path rest
      (iterate_recursively fs tag_path_to_find tag_int_to_find dir_tag_path entries found_tags)
  | .cons (.regular_file stem extension path) rest, found_tags =>
    let dir_tag_path := current_path ++ stem
    let class_int := fs.extension_to_tag_class (extension.drop 1)
    if is_skipped_class class_int then
      iterate_recursively fs tag_path_to_find tag_int_to_find current_path rest found_tags
    else if found_tags.any (fun f => f.path = dir_tag_path ∧ f.class_int = class_int) then
      found_tags
    else
      match fs.fopen path with
      | none => iterate_recursively fs tag_path_to_find tag_int_to_find current_path rest found_tags
      | some tag_data =>
        match fs.compile_tag dir_tag_path class_int tag_data with
        | none =>
          iterate_recursively fs tag_path_to_find tag_int_to_find current_path rest found_tags
        | some dependencies =>
          if dependencies.any (fun dependency =>
              dependency.path = tag_path_to_find ∧ dependency.tag_class_int = tag_int_to_find) then
            iterate_recursively fs tag_path_to_find tag_int_to_find current_path rest
              (found_tags ++ [{ path := dir_tag_path, class_int := class_int, broken := false,
                                file_path := path }])
          else
            iterate_recursively fs tag_path_to_find tag_int_to_find current_path rest found_tags
  | .cons (.other _) rest, found_tags =>
    iterate_recursively fs tag_path_to_find tag_int_to_find current_path rest found_tags

/-- The function `FoundTagDependency::find_dependencies`: the list returned
and the final value of `success`. `tags` are the search directories, and
`listing` gives the contents of a search directory for the reverse search.
`none` means the forward recursion went deeper than `fuel`. -/
def find_dependencies (fs : TagFileSystem) (listing : String → DirectoryListing) (fuel : Nat)
    (tag_path_to_find_2 : String) (tag_int_to_find : TagClassInt) (tags : List String)
    (reverse recursive : Bool) : Option (List FoundTagDependency × Bool) :=
  let state : SearchState := { found_tags := [], success := true }
  if !reverse then
    match find_dependencies_in_tag fs tags recursive fuel tag_path_to_find_2 tag_int_to_find
        state with
    | none => none
    | some state =>
      let success := true
      some (state.found_tags, success)
  else
    let tag_path_to_find := fs.preferred_path_to_halo_path tag_path_to_find_2
    let found_tags := tags.foldl (fun found_tags tags_directory =>
      iterate_recursively fs tag_path_to_find tag_int_to_find "" (listing tags_directory)
        found_tags) state.found_tags
    let success := true
    some (found_tags, success)

/-- A small concrete file system for examples: `files` lists the paths of the
regular files with the dependencies their contents compile to (`none` for
contents that cannot be parsed). A file holds its position in the list; both
path dialects coincide; paths are joined with a slash. -/
def list_file_system (files : List (String × Option (List CompiledTagDependency))) :
    TagFileSystem where
  halo_path_to_preferred_path := id
  preferred_path_to_halo_path := id
  tag_class_to_extension := fun c =>
    match c with
    | .TAG_CLASS_MODEL => "model"
    | .TAG_CLASS_GBXMODEL => "gbxmodel"
    | TagClassInt.TAG_CLASS_SCENARIO => "scenario"
    | .TAG_CLASS_BITMAP => "bitmap"
    | _ => "unknown"
  extension_to_tag_class := fun e =>
    if e = "model" then .TAG_CLASS_MODEL
    else if e = "gbxmodel" then .TAG_CLASS_GBXMODEL
    else if e = "scenario" then TagClassInt.TAG_CLASS_SCENARIO
    else if e = "bitmap" then .TAG_CLASS_BITMAP
    else .TAG_CLASS_NULL
  path_append := fun a b => a ++ "/" ++ b
  fopen := fun p =>
    match files.findIdx? (fun f => f.1 = p) with
    | none => none
    | some i => some [i]
  is_regular_file := fun p => files.any (fun f => f.1 = p)
  compile_tag := fun _ _ tag_data =>
    match tag_data with
    | [i] => (files.get? i).bind (fun f => f.2)
    | _ => none

/-! ## Scenario merging -/

/-- The null value of `HEK::Index`, a 16-bit index. -/
def NULL_INDEX : Nat := 65535

/-- A tag reference held in a tag: `path` and `tag_class_int`. -/
structure Dependency where
  path : String := ""
  tag_class_int : TagClassInt := .TAG_CLASS_NULL
  deriving DecidableEq, Repr

/-- An element whose fields the merge only copies (functions, comments,
starting profiles and locations, netgame flags and equipment, starting
equipment); `data` stands for its fields. -/
structure ScenarioBlock where
  data : List Nat := []
  deriving DecidableEq, Repr

/-- An element of `child_scenarios`. -/
structure ScenarioChildScenario where
  child_scenario : Dependency
  deriving DecidableEq, Repr

/-- An element of `object_names`. -/
structure ScenarioObjectName where
  name : String
  object_type : Nat := 0
  object_index : Nat := NULL_INDEX
  deriving DecidableEq, Repr

/-- An element the merge identifies by `name` (device groups, trigger volumes,
recorded animations, cutscene flags, camera points and titles, source
files); `data` stands for its other fields. -/
structure ScenarioNamedBlock where
  name : String
  data : List Nat := []
  deriving DecidableEq, Repr

/-- An element the merge identifies by `reference` (actor palette, references,
decal palette). -/
structure ScenarioReferenceBlock where
  reference : Dependency
  deriving DecidableEq, Repr

/-- An element of `ai_animation_references`. -/
structure ScenarioAIAnimationReference where
  animation_name : String
  animation_graph : Dependency := {}
  deriving DecidableEq, Repr

/-- An element of `ai_script_references`. -/
structure ScenarioAIScriptReference where
  script_name : String
  deriving DecidableEq, Repr

/-- An element of `ai_recording_references`. -/
structure ScenarioAIRecordingReference where
  recording_name : String
  deriving DecidableEq, Repr

/-- An element of one of the nine object palettes; the reference is the field
`name`. -/
structure ScenarioObjectPalette where
  name : Dependency
  deriving DecidableEq, Repr

/-- An object instance (scenery, bipeds, vehicles, equipment, weapons, sound
scenery): `type` indexes its palette, `name` indexes `object_names`. -/
structure ScenarioObject where
  type : Nat := NULL_INDEX
  name : Nat := NULL_INDEX
  data : List Nat := []
  deriving DecidableEq, Repr

/-- A device instance (machines, controls, light fixtures). -/
structure ScenarioDevice where
  type : Nat := NULL_INDEX
  name : Nat := NULL_INDEX
  power_group : Nat := NULL_INDEX
  position_group : Nat := NULL_INDEX
  data : List Nat := []
  deriving DecidableEq, Repr

/-- An element of `decals`. -/
structure ScenarioDecal where
  decal_type : Nat := NULL_INDEX
  data : List Nat := []
  deriving DecidableEq, Repr

/-- A participant of an AI conversation. -/
structure ScenarioAIConversationParticipant where
  use_this_object : Nat := NULL_INDEX
  set_new_name : Nat := NULL_INDEX
  data : List Nat := []
  deriving DecidableEq, Repr

/-- An element of `ai_conversations`. -/
structure ScenarioAIConversation where
  name : String := ""
  participants : List ScenarioAIConversationParticipant := []
  deriving DecidableEq, Repr

/-- A command of a command list. -/
structure ScenarioCommand where
  animation : Nat := NULL_INDEX
  script : Nat := NULL_INDEX
  recording : Nat := NULL_INDEX
  object_name : Nat := NULL_INDEX
  data : List Nat := []
  deriving DecidableEq, Repr

/-- An element of `command_lists`. -/
structure ScenarioCommandList where
  name : String
  commands : List ScenarioCommand := []
  deriving DecidableEq, Repr

/-- A move position of a squad. -/
structure ScenarioMovePosition where
  animation : Nat := NULL_INDEX
  data : List Nat := []
  deriving DecidableEq, Repr

/-- A starting location of a squad. -/
structure ScenarioActorStartingLocation where
  actor_type : Nat := NULL_INDEX
  command_list : Nat := NULL_INDEX
  data : List Nat := []
  deriving DecidableEq, Repr

/-- A squad of an encounter. -/
structure ScenarioSquad where
  name : String := ""
  actor_type : Nat := NULL_INDEX
  move_positions : List ScenarioMovePosition := []
  starting_locations : List ScenarioActorStartingLocation := []
  deriving DecidableEq, Repr

/-- An element of `encounters`. -/
structure ScenarioEncounter where
  name : String
  squads : List ScenarioSquad := []
  deriving DecidableEq, Repr

/-- The arrays of a scenario tag that `merge_child_scenario` reads or writes;
`unmerged` stands for every other member of the tag (structure BSPs, scripts,
globals, script data and the rest), which the function never names. -/
structure Scenario where
  child_scenarios : List ScenarioChildScenario := []
  functions : List ScenarioBlock := []
  comments : List ScenarioBlock := []
  object_names : List ScenarioObjectName := []
  device_groups : List ScenarioNamedBlock := []
  player_starting_profile : List ScenarioBlock := []
  player_starting_locations : List ScenarioBlock := []
  trigger_volumes : List ScenarioNamedBlock := []
  recorded_animations : List ScenarioNamedBlock := []
  netgame_flags : List ScenarioBlock := []
  netgame_equipment : List ScenarioBlock := []
  starting_equipment : List ScenarioBlock := []
  actor_palette : List ScenarioReferenceBlock := []
  ai_animation_references : List ScenarioAIAnimationReference := []
  ai_script_references : List ScenarioAIScriptReference := []
  ai_recording_references : List ScenarioAIRecordingReference := []
  references : List ScenarioReferenceBlock := []
  cutscene_flags : List ScenarioNamedBlock := []
  cutscene_camera_points : List ScenarioNamedBlock := []
  cutscene_titles : List ScenarioNamedBlock := []
  source_files : List ScenarioNamedBlock := []
  decal_palette : List ScenarioReferenceBlock := []
  scenery_palette : List ScenarioObjectPalette := []
  biped_palette : List ScenarioObjectPalette := []
  vehicle_palette : List ScenarioObjectPalette := []
  equipment_palette : List ScenarioObjectPalette := []
  weapon_palette : List ScenarioObjectPalette := []
  machine_palette : List ScenarioObjectPalette := []
  control_palette : List ScenarioObjectPalette := []
  light_fixture_palette : List ScenarioObjectPalette := []
  sound_scenery_palette : List ScenarioObjectPalette := []
  scenery : List ScenarioObject := []
  bipeds : List ScenarioObject := []
  vehicles : List ScenarioObject := []
  equipment : List ScenarioObject := []
  weapons : List ScenarioObject := []
  machines : List ScenarioDevice := []
  controls : List ScenarioDevice := []
  light_fixtures : List ScenarioDevice := []
  sound_scenery : List ScenarioObject := []
  decals : List ScenarioDecal := []
  ai_conversations : List ScenarioAIConversation := []
  command_lists : List ScenarioCommandList := []
  encounters : List ScenarioEncounter := []
  unmerged : List Nat := []
  deriving DecidableEq, Repr

/-- The exceptions the scenario code throws; `std_exception` is any other
`std::exception`. -/
inductive ScenarioException where
  | OutOfBoundsException
  | InvalidTagDataException
  | std_exception
  deriving DecidableEq, Repr

deriving instance DecidableEq for Except

/-- The macro `MERGE_ARRAY(what, condition)`: each element of the child is
pushed to the base unless `condition` fails against some element the base
holds at that moment. -/
def merge_array {α : Type} (condition : α → α → Bool) : List α → List α → List α
  | base, [] => base
  | base, merge :: rest =>
    merge_array condition
      (if base.all (fun b => condition merge b) then base ++ [merge] else base) rest

/-- The loop `for(name = 0; name < new_count; name++)` of `TRANSLATE_PALETTE`:
the first index from `name` on whose element matches. -/
def find_match {α : Type} (match_comparison : α → Bool) : List α → Nat → Option Nat
  | [], _ => none
  | base :: rest, name =>
    if match_comparison base then some name else find_match match_comparison rest (name + 1)

/-- The lambda the macro `TRANSLATE_PALETTE(what, match_comparison)` makes, over
the base and child arrays `what` as they stand when it is called. -/
def translate_palette {α : Type} (match_comparison : α → α → Bool)
    (base_what merge_what : List α) (old_index : Nat) : Except ScenarioException Nat :=
  if old_index = NULL_INDEX then .ok NULL_INDEX
  else if old_index ≥ merge_what.length then .error .OutOfBoundsException
  else
    match merge_what.get? old_index with
    | none => .error .OutOfBoundsException
    | some merge =>
      match find_match (fun base => match_comparison merge base) base_what 0 with
      | some name =>
        if name ≥ NULL_INDEX then .error .InvalidTagDataException else .ok name
      | none => .error .OutOfBoundsException

/-- A `for` loop whose body rewrites one element and may throw. -/
def for_each {α β : Type} (body : α → Except ScenarioException β) :
    List α → Except ScenarioException (List β)
  | [] => .ok []
  | x :: rest =>
    match body x with
    | .error e => .error e
    | .ok y =>
      match for_each body rest with
      | .error e => .error e
      | .ok ys => .ok (y :: ys)

/-- The match comparison of the nine object palettes. -/
def palette_matches (merge base : ScenarioObjectPalette) : Bool :=
  merge.name.path = base.name.path ∧ merge.name.tag_class_int = base.name.tag_class_int

/-- The match comparison of the decal and actor palettes. -/
def reference_matches (merge base : ScenarioReferenceBlock) : Bool :=
  merge.reference.tag_class_int = base.reference.tag_class_int
    ∧ merge.reference.path = base.reference.path

/-- The loop "Merge AI conversations". -/
def merge_ai_conversations (translate_object_name : Nat → Except ScenarioException Nat)
    (base merge : List ScenarioAIConversation) :
    Except ScenarioException (List ScenarioAIConversation) := do
  let added ← for_each (fun (aic : ScenarioAIConversation) => do
    let participants ← for_each (fun (p : ScenarioAIConversationParticipant) => do
      let set_new_name ← translate_object_name p.set_new_name
      let use_this_object ← translate_object_name p.use_this_object
      pure { p with set_new_name := set_new_name, use_this_object := use_this_object })
      aic.participants
    pure { aic with participants := participants }) merge
  pure (base ++ added)

/-- The macro `MERGE_OBJECTS(what, what_palette)`. -/
def merge_objects (translate_object_name translate_palette : Nat → Except ScenarioException Nat)
    (base merge : List ScenarioObject) : Except ScenarioException (List ScenarioObject) := do
  let added ← for_each (fun (new_element : ScenarioObject) => do
    let name ← translate_object_name new_element.name
    let type ← translate_palette new_element.type
    pure { new_element with name := name, type := type }) merge
  pure (base ++ added)

/-- The macro `MERGE_DEVICES(what, what_palette)`. -/
def merge_devices (translate_object_name translate_palette translate_device_group :
      Nat → Except ScenarioException Nat)
    (base merge : List ScenarioDevice) : Except ScenarioException (List ScenarioDevice) := do
  let added ← for_each (fun (new_element : ScenarioDevice) => do
    let name ← translate_object_name new_element.name
    let type ← translate_palette new_element.type
    let power_group ← translate_device_group new_element.power_group
    let position_group ← translate_device_group new_element.position_group
    pure { new_element with name := name, type := type, power_group := power_group,
                            position_group := position_group }) merge
  pure (base ++ added)

/-- The loop "Decals". -/
def merge_decals (translate_decal_palette : Nat → Except ScenarioException Nat)
    (base merge : List ScenarioDecal) : Except ScenarioException (List ScenarioDecal) := do
  let added ← for_each (fun (new_decal : ScenarioDecal) => do
    let decal_type ← translate_decal_palette new_decal.decal_type
    pure { new_decal with decal_type := decal_type }) merge
  pure (base ++ added)

/-- The body of the loop over the commands of a new command list, statement
by statement: `animation` is translated, then `recording`, `object_name`,
`animation` once more, and `script`. -/
def translate_command (translate_animation_palette translate_recording translate_object_name
      translate_script_reference : Nat → Except ScenarioException Nat)
    (command : ScenarioCommand) : Except ScenarioException ScenarioCommand := do
  let animation ← translate_animation_palette command.animation
  let command := { command with animation := animation }
  let recording ← translate_recording command.recording
  let command := { command with recording := recording }
  let object_name ← translate_object_name command.object_name
  let command := { command with object_name := object_name }
  let animation ← translate_animation_palette command.animation
  let command := { command with animation := animation }
  let script ← translate_script_reference command.script
  pure { command with script := script }

/-- The loop "Merge command lists": a child list whose name the base already
holds is skipped, any other is pushed with its commands translated. -/
def merge_command_lists (translate_animation_palette translate_recording translate_object_name
      translate_script_reference : Nat → Except ScenarioException Nat) :
    List ScenarioCommandList → List ScenarioCommandList →
      Except ScenarioException (List ScenarioCommandList)
  | base, [] => .ok base
  | base, command_list :: rest =>
    if base.any (fun existing_command_list => existing_command_list.name = command_list.name) then
      merge_command_lists translate_animation_palette translate_recording translate_object_name
        translate_script_reference base rest
    else
      match for_each (translate_command translate_animation_palette translate_recording
          translate_object_name translate_script_reference) command_list.commands with
      | .error e => .error e
      | .ok commands =>
        merge_command_lists translate_animation_palette translate_recording
          translate_object_name translate_script_reference
          (base ++ [{ command_list with commands := commands }]) rest

/-- The body of the loop over the squads of a new encounter. -/
def translate_squad (translate_actor_palette translate_animation_palette translate_command_list :
      Nat → Except ScenarioException Nat)
    (squad : ScenarioSquad) : Except ScenarioException ScenarioSquad := do
  let actor_type ← translate_actor_palette squad.actor_type
  let move_positions ← for_each (fun (mp : ScenarioMovePosition) => do
    let animation ← translate_animation_palette mp.animation
    pure { mp with animation := animation }) squad.move_positions
  let starting_locations ← for_each (fun (sl : ScenarioActorStartingLocation) => do
    let actor_type ← translate_actor_palette sl.actor_type
    let command_list ← translate_command_list sl.command_list
    pure { sl with actor_type := actor_type, command_list := command_list })
    squad.starting_locations
  pure { squad with actor_type := actor_type, move_positions := move_positions,
                    starting_locations := starting_locations }

/-- The loop "Merge encounters". -/
def merge_encounters (translate_actor_palette translate_animation_palette translate_command_list :
      Nat → Except ScenarioException Nat) :
    List ScenarioEncounter → List ScenarioEncounter →
      Except ScenarioException (List ScenarioEncounter)
  | base, [] => .ok base
  | base, encounter :: rest =>
    if base.any (fun existing_encounters => existing_encounters.name = encounter.name) then
      merge_encounters translate_actor_palette translate_animation_palette
        translate_command_list base rest
    else
      match for_each (translate_squad translate_actor_palette translate_animation_palette
          translate_command_list) encounter.squads with
      | .error e => .error e
      | .ok squads =>
        merge_encounters translate_actor_palette translate_animation_palette
          translate_command_list (base ++ [{ encounter with squads := squads }]) rest

/-- The `MERGE_ARRAY` and `MERGE_PALETTE` lines at the head of
`merge_child_scenario`. -/
def merge_arrays (base_scenario scenario_to_merge : Scenario) : Scenario :=
  { base_scenario with
    child_scenarios := merge_array (fun _ _ => true)
      base_scenario.child_scenarios scenario_to_merge.child_scenarios,
    functions := merge_array (fun _ _ => true)
      base_scenario.functions scenario_to_merge.functions,
    comments := merge_array (fun _ _ => true)
      base_scenario.comments scenario_to_merge.comments,
    object_names := merge_array (fun merge base => merge.name != base.name)
      base_scenario.object_names scenario_to_merge.object_names,
    device_groups := merge_array (fun merge base => merge.name != base.name)
      base_scenario.device_groups scenario_to_merge.device_groups,
    player_starting_profile := merge_array (fun _ _ => true)
      base_scenario.player_starting_profile scenario_to_merge.player_starting_profile,
    player_starting_locations := merge_array (fun _ _ => true)
      base_scenario.player_starting_locations scenario_to_merge.player_starting_locations,
    trigger_volumes := merge_array (fun merge base => merge.name != base.name)
      base_scenario.trigger_volumes scenario_to_merge.trigger_volumes,
    recorded_animations := merge_array (fun merge base => merge.name != base.name)
      base_scenario.recorded_animations scenario_to_merge.recorded_animations,
    netgame_flags := merge_array (fun _ _ => true)
      base_scenario.netgame_flags scenario_to_merge.netgame_flags,
    netgame_equipment := merge_array (fun _ _ => true)
      base_scenario.netgame_equipment scenario_to_merge.netgame_equipment,
    starting_equipment := merge_array (fun _ _ => true)
      base_scenario.starting_equipment scenario_to_merge.starting_equipment,
    actor_palette := merge_array (fun merge base => merge.reference.path != base.reference.path
        || merge.reference.tag_class_int != base.reference.tag_class_int)
      base_scenario.actor_palette scenario_to_merge.actor_palette,
    ai_animation_references := merge_array (fun merge base => merge.animation_name != base.animation_name)
      base_scenario.ai_animation_references scenario_to_merge.ai_animation_references,
    ai_script_references := merge_array (fun merge base => merge.script_name != base.script_name)
      base_scenario.ai_script_references scenario_to_merge.ai_script_references,
    ai_recording_references := merge_array (fun merge base => merge.recording_name != base.recording_name)
      base_scenario.ai_recording_references scenario_to_merge.ai_recording_references,
    references := merge_array (fun merge base => merge.reference.path != base.reference.path
        || merge.reference.tag_class_int != base.reference.tag_class_int)
      base_scenario.references scenario_to_merge.references,
    cutscene_flags := merge_array (fun merge base => merge.name != base.name)
      base_scenario.cutscene_flags scenario_to_merge.cutscene_flags,
    cutscene_camera_points := merge_array (fun merge base => merge.name != base.name)
      base_scenario.cutscene_camera_points scenario_to_merge.cutscene_camera_points,
    cutscene_titles := merge_array (fun merge base => merge.name != base.name)
      base_scenario.cutscene_titles scenario_to_merge.cutscene_titles,
    source_files := merge_array (fun merge base => merge.name != base.name)
      base_scenario.source_files scenario_to_merge.source_files,
    decal_palette := merge_array (fun merge base => merge.reference.path != base.reference.path
        || merge.reference.tag_class_int != base.reference.tag_class_int)
      base_scenario.decal_palette scenario_to_merge.decal_palette,
    scenery_palette := merge_array (fun merge base => merge.name.path != base.name.path
        || merge.name.tag_class_int != base.name.tag_class_int)
      base_scenario.scenery_palette scenario_to_merge.scenery_palette,
    biped_palette := merge_array (fun merge base => merge.name.path != base.name.path
        || merge.name.tag_class_int != base.name.tag_class_int)
      base_scenario.biped_palette scenario_to_merge.biped_palette,
    vehicle_palette := merge_array (fun merge base => merge.name.path != base.name.path
        || merge.name.tag_class_int != base.name.tag_class_int)
      base_scenario.vehicle_palette scenario_to_merge.vehicle_palette,
    equipment_palette := merge_array (fun merge base => merge.name.path != base.name.path
        || merge.name.tag_class_int != base.name.tag_class_int)
      base_scenario.equipment_palette scenario_to_merge.equipment_palette,
    weapon_palette := merge_array (fun merge base => merge.name.path != base.name.path
        || merge.name.tag_class_int != base.name.tag_class_int)
      base_scenario.weapon_palette scenario_to_merge.weapon_palette,
    machine_palette := merge_array (fun merge base => merge.name.path != base.name.path
        || merge.name.tag_class_int != base.name.tag_class_int)
      base_scenario.machine_palette scenario_to_merge.machine_palette,
    control_palette := merge_array (fun merge base => merge.name.path != base.name.path
        || merge.name.tag_class_int != base.name.tag_class_int)
      base_scenario.control_palette scenario_to_merge.control_palette,
    light_fixture_palette := merge_array (fun merge base => merge.name.path != base.name.path
        || merge.name.tag_class_int != base.name.tag_class_int)
      base_scenario.light_fixture_palette scenario_to_merge.light_fixture_palette,
    sound_scenery_palette := merge_array (fun merge base => merge.name.path != base.name.path
        || merge.name.tag_class_int != base.name.tag_class_int)
      base_scenario.sound_scenery_palette scenario_to_merge.sound_scenery_palette }

/-- The function `merge_child_scenario`: the merged base scenario, or the
exception a translation throws. `merged` is the base scenario after the
`MERGE_ARRAY` lines; each later statement writes one further array of it. -/
def merge_child_scenario (base_scenario scenario_to_merge : Scenario) :
    Except ScenarioException Scenario := do
  let merged := merge_arrays base_scenario scenario_to_merge
  let translate_object_name := translate_palette
    (fun (merge base : ScenarioObjectName) => decide (merge.name = base.name))
    merged.object_names scenario_to_merge.object_names
  let translate_device_group := translate_palette
    (fun (merge base : ScenarioNamedBlock) => decide (merge.name = base.name))
    merged.device_groups scenario_to_merge.device_groups
  let ai_conversations ← merge_ai_conversations translate_object_name
    merged.ai_conversations scenario_to_merge.ai_conversations
  let scenery ← merge_objects translate_object_name
    (translate_palette palette_matches merged.scenery_palette scenario_to_merge.scenery_palette)
    merged.scenery scenario_to_merge.scenery
  let bipeds ← merge_objects translate_object_name
    (translate_palette palette_matches merged.biped_palette scenario_to_merge.biped_palette)
    merged.bipeds scenario_to_merge.bipeds
  let vehicles ← merge_objects translate_object_name
    (translate_palette palette_matches merged.vehicle_palette scenario_to_merge.vehicle_palette)
    merged.vehicles scenario_to_merge.vehicles
  let equipment ← merge_objects translate_object_name
    (translate_palette palette_matches merged.equipment_palette scenario_to_merge.equipment_palette)
    merged.equipment scenario_to_merge.equipment
  let weapons ← merge_objects translate_object_name
    (translate_palette palette_matches merged.weapon_palette scenario_to_merge.weapon_palette)
    merged.weapons scenario_to_merge.weapons
  let machines ← merge_devices translate_object_name
    (translate_palette palette_matches merged.machine_palette scenario_to_merge.machine_palette) translate_device_group
    merged.machines scenario_to_merge.machines
  let controls ← merge_devices translate_object_name
    (translate_palette palette_matches merged.control_palette scenario_to_merge.control_palette) translate_device_group
    merged.controls scenario_to_merge.controls
  let light_fixtures ← merge_devices translate_object_name
    (translate_palette palette_matches merged.light_fixture_palette scenario_to_merge.light_fixture_palette) translate_device_group
    merged.light_fixtures scenario_to_merge.light_fixtures
  let sound_scenery ← merge_objects translate_object_name
    (translate_palette palette_matches merged.sound_scenery_palette scenario_to_merge.sound_scenery_palette)
    merged.sound_scenery scenario_to_merge.sound_scenery
  let translate_decal_palette := translate_palette reference_matches
    merged.decal_palette scenario_to_merge.decal_palette
  let decals ← merge_decals translate_decal_palette merged.decals scenario_to_merge.decals
  let translate_actor_palette := translate_palette reference_matches
    merged.actor_palette scenario_to_merge.actor_palette
  let translate_animation_palette := translate_palette
    (fun (merge base : ScenarioAIAnimationReference) =>
      decide (merge.animation_name = base.animation_name))
    merged.ai_animation_references scenario_to_merge.ai_animation_references
  let translate_recording := translate_palette
    (fun (merge base : ScenarioAIRecordingReference) =>
      decide (merge.recording_name = base.recording_name))
    merged.ai_recording_references scenario_to_merge.ai_recording_references
  let translate_script_reference := translate_palette
    (fun (merge base : ScenarioAIScriptReference) =>
      decide (merge.script_name = base.script_name))
    merged.ai_script_references scenario_to_merge.ai_script_references
  let command_lists ← merge_command_lists translate_animation_palette translate_recording
    translate_object_name translate_script_reference
    merged.command_lists scenario_to_merge.command_lists
  let translate_command_list := translate_palette
    (fun (merge base : ScenarioCommandList) => decide (merge.name = base.name))
    command_lists scenario_to_merge.command_lists
  let encounters ← merge_encounters translate_actor_palette translate_animation_palette
    translate_command_list merged.encounters scenario_to_merge.encounters
  pure { merged with
    ai_conversations := ai_conversations, scenery := scenery, bipeds := bipeds,
    vehicles := vehicles, equipment := equipment, weapons := weapons, machines := machines,
    controls := controls, light_fixtures := light_fixtures, sound_scenery := sound_scenery,
    decals := decals, command_lists := command_lists, encounters := encounters }

/-- The number of elements of every family the merge handles, in the order of
the fields of `Scenario`. -/
def Scenario.family_lengths (s : Scenario) : List Nat :=
  [s.child_scenarios.length,
    s.functions.length,
    s.comments.length,
    s.object_names.length,
    s.device_groups.length,
    s.player_starting_profile.length,
    s.player_starting_locations.length,
    s.trigger_volumes.length,
    s.recorded_animations.length,
    s.netgame_flags.length,
    s.netgame_equipment.length,
    s.starting_equipment.length,
    s.actor_palette.length,
    s.ai_animation_references.length,
    s.ai_script_references.length,
    s.ai_recording_references.length,
    s.references.length,
    s.cutscene_flags.length,
    s.cutscene_camera_points.length,
    s.cutscene_titles.length,
    s.source_files.length,
    s.decal_palette.length,
    s.scenery_palette.length,
    s.biped_palette.length,
    s.vehicle_palette.length,
    s.equipment_palette.length,
    s.weapon_palette.length,
    s.machine_palette.length,
    s.control_palette.length,
    s.light_fixture_palette.length,
    s.sound_scenery_palette.length,
    s.scenery.length,
    s.bipeds.length,
    s.vehicles.length,
    s.equipment.length,
    s.weapons.length,
    s.machines.length,
    s.controls.length,
    s.light_fixtures.length,
    s.sound_scenery.length,
    s.decals.length,
    s.ai_conversations.length,
    s.command_lists.length,
    s.encounters.length]

/-- No element of `child` has the identity of an element of `base` or of
another element of `child`. -/
def no_shared_identity {α κ : Type} (key : α → κ) (base child : List α) : Prop :=
  (∀ m ∈ child, ∀ b ∈ base, key m ≠ key b) ∧ child.Pairwise (fun x y => key x ≠ key y)

instance {α κ : Type} [DecidableEq κ] (key : α → κ) (base child : List α) :
    Decidable (no_shared_identity key base child) := by
  unfold no_shared_identity; infer_instance

/-- The child shares no identity with the base nor between its own elements,
in every family that has one: the name, or the path and class of the
reference. -/
def Scenario.shares_no_identity (base child : Scenario) : Prop :=
  no_shared_identity (fun x => x.name) base.object_names child.object_names
    ∧ no_shared_identity (fun x => x.name) base.device_groups child.device_groups
    ∧ no_shared_identity (fun x => x.name) base.trigger_volumes child.trigger_volumes
    ∧ no_shared_identity (fun x => x.name) base.recorded_animations child.recorded_animations
    ∧ no_shared_identity (fun x => (x.reference.path, x.reference.tag_class_int)) base.actor_palette child.actor_palette
    ∧ no_shared_identity (fun x => x.animation_name) base.ai_animation_references child.ai_animation_references
    ∧ no_shared_identity (fun x => x.script_name) base.ai_script_references child.ai_script_references
    ∧ no_shared_identity (fun x => x.recording_name) base.ai_recording_references child.ai_recording_references
    ∧ no_shared_identity (fun x => (x.reference.path, x.reference.tag_class_int)) base.references child.references
    ∧ no_shared_identity (fun x => x.name) base.cutscene_flags child.cutscene_flags
    ∧ no_shared_identity (fun x => x.name) base.cutscene_camera_points child.cutscene_camera_points
    ∧ no_shared_identity (fun x => x.name) base.cutscene_titles child.cutscene_titles
    ∧ no_shared_identity (fun x => x.name) base.source_files child.source_files
    ∧ no_shared_identity (fun x => (x.reference.path, x.reference.tag_class_int)) base.decal_palette child.decal_palette
    ∧ no_shared_identity (fun x => (x.name.path, x.name.tag_class_int)) base.scenery_palette child.scenery_palette
    ∧ no_shared_identity (fun x => (x.name.path, x.name.tag_class_int)) base.biped_palette child.biped_palette
    ∧ no_shared_identity (fun x => (x.name.path, x.name.tag_class_int)) base.vehicle_palette child.vehicle_palette
    ∧ no_shared_identity (fun x => (x.name.path, x.name.tag_class_int)) base.equipment_palette child.equipment_palette
    ∧ no_shared_identity (fun x => (x.name.path, x.name.tag_class_int)) base.weapon_palette child.weapon_palette
    ∧ no_shared_identity (fun x => (x.name.path, x.name.tag_class_int)) base.machine_palette child.machine_palette
    ∧ no_shared_identity (fun x => (x.name.path, x.name.tag_class_int)) base.control_palette child.control_palette
    ∧ no_shared_identity (fun x => (x.name.path, x.name.tag_class_int)) base.light_fixture_palette child.light_fixture_palette
    ∧ no_shared_identity (fun x => (x.name.path, x.name.tag_class_int)) base.sound_scenery_palette child.sound_scenery_palette
    ∧ no_shared_identity (fun x => x.name) base.command_lists child.command_lists
    ∧ no_shared_identity (fun x => x.name) base.encounters child.encounters

instance (base child : Scenario) : Decidable (Scenario.shares_no_identity base child) := by
  unfold Scenario.shares_no_identity; infer_instance

/-! ## Child scenarios -/

/-- The severities of `BuildWorkload::ErrorType`. -/
inductive ErrorType where
  | ERROR_TYPE_WARNING_PEDANTIC
  | ERROR_TYPE_WARNING
  | ERROR_TYPE_ERROR
  | ERROR_TYPE_FATAL_ERROR
  deriving DecidableEq, Repr

/-- An entry of `BuildWorkload::tags`: the path and class of a tag. -/
structure BuildWorkloadTag where
  path : String
  tag_class_int : TagClassInt
  deriving DecidableEq, Repr

/-- A pointer of a struct: the position of the pointer field in the struct's
data and the index of the struct it points to. -/
structure BuildWorkloadStructPointer where
  offset : Nat
  struct_index : Nat
  deriving DecidableEq, Repr

/-- An entry of `BuildWorkload::structs`; `data` are its bytes. -/
structure BuildWorkloadStruct where
  data : List Nat := []
  pointers : List BuildWorkloadStructPointer := []
  deriving DecidableEq, Repr

/-- The engines `HEK::CacheFileEngine` names in the code at hand. -/
inductive CacheFileEngine where
  | CACHE_FILE_XBOX
  | CACHE_FILE_DEMO
  | CACHE_FILE_RETAIL
  | CACHE_FILE_CUSTOM_EDITION
  | CACHE_FILE_ANNIVERSARY
  | other (value : Nat)
  deriving DecidableEq, Repr

/-- One call of `report_error`: severity, message and tag index. -/
structure ErrorReport where
  type : ErrorType
  message : String
  tag_index : Nat
  deriving DecidableEq, Repr

/-- The members of `BuildWorkload` that the child scenario merge and the bitmap
compile step read or write, and the reports made so far. `asset_data` holds
the pairs (tag index, raw data index) pushed to `tags[tag_index].asset_data`. -/
structure BuildWorkload where
  disable_recursion : Bool := false
  tags : List BuildWorkloadTag := []
  structs : List BuildWorkloadStruct := []
  reports : List ErrorReport := []
  hide_pedantic_warnings : Bool := false
  engine_target : CacheFileEngine := .CACHE_FILE_CUSTOM_EDITION
  raw_data : List (List Nat) := []
  asset_data : List (Nat × Nat) := []
  deriving DecidableEq, Repr

/-- The call `workload.report_error(type, message, tag_index)`. -/
def BuildWorkload.report_error (workload : BuildWorkload) (type : ErrorType) (message : String)
    (tag_index : Nat) : BuildWorkload :=
  { workload with reports := workload.reports ++
      [{ type := type, message := message, tag_index := tag_index }] }

/-- What `merge_child_scenarios` takes from outside: the path helpers, the
lookup of a tag path in the tags directories, the file contents and the
parser of scenario tags (`none` when it throws). -/
structure ScenarioFiles where
  halo_path_to_preferred_path : String → String
  tag_class_to_extension : TagClassInt → String
  tag_path_to_file_path : String → Option String
  open_file : String → Option (List Nat)
  parse_hek_tag_file : List Nat → Option Scenario

/-- How one pass through the body of the `while` loop ends. -/
inductive MergeStep where
  | finished
  | next (scenario : Scenario) (merged_scenarios : List String)
  | thrown (workload : BuildWorkload) (exception : ScenarioException)

/-- The loop condition and one pass through the body of the `while` loop of
`merge_child_scenarios`. Messages are recorded without their arguments. -/
def merge_child_scenarios_step (files : ScenarioFiles) (workload : BuildWorkload)
    (tag_index : Nat) (scenario : Scenario) (merged_scenarios : List String) : MergeStep :=
  match scenario.child_scenarios with
  | [] => .finished
  | first :: _ =>
    let first_scenario := first.child_scenario
    if first_scenario.path ≠ "" then
      if first_scenario.tag_class_int ≠ TagClassInt.TAG_CLASS_SCENARIO then
        .thrown (workload.report_error .ERROR_TYPE_FATAL_ERROR
          "Non-scenario referenced in child scenarios" tag_index) .InvalidTagDataException
      else if merged_scenarios.any (fun m => m = first_scenario.path) then
        .thrown (workload.report_error .ERROR_TYPE_FATAL_ERROR
          "Duplicate or cyclical child scenario references are present" tag_index)
          .InvalidTagDataException
      else
        let merged_scenarios := merged_scenarios ++ [first_scenario.path]
        let file_path_cstr := files.halo_path_to_preferred_path first_scenario.path ++ "."
          ++ files.tag_class_to_extension first_scenario.tag_class_int
        match files.tag_path_to_file_path file_path_cstr with
        | none =>
          .thrown (workload.report_error .ERROR_TYPE_FATAL_ERROR
            "Child scenario not found" tag_index) .InvalidTagDataException
        | some found_path =>
          match files.open_file found_path with
          | none =>
            .thrown (workload.report_error .ERROR_TYPE_FATAL_ERROR
              "Failed to open" tag_index) .InvalidTagDataException
          | some data =>
            match files.parse_hek_tag_file data with
            | none =>
              .thrown (workload.report_error .ERROR_TYPE_FATAL_ERROR
                "Failed to merge" tag_index) .std_exception
            | some child =>
              match merge_child_scenario scenario child with
              | .error e =>
                .thrown (workload.report_error .ERROR_TYPE_FATAL_ERROR
                  "Failed to merge" tag_index) e
              | .ok scenario =>
                .next { scenario with child_scenarios := scenario.child_scenarios.tail }
                  merged_scenarios
    else
      .next { scenario with child_scenarios := scenario.child_scenarios.tail } merged_scenarios

/-- The `while` loop of `merge_child_scenarios`; the first argument bounds the
number of passes, `none` means the bound was reached. -/
def merge_child_scenarios_loop (files : ScenarioFiles) (workload : BuildWorkload)
    (tag_index : Nat) :
    Nat → Scenario → List String → Option (BuildWorkload × Except ScenarioException Scenario)
  | 0, _, _ => none
  | fuel + 1, scenario, merged_scenarios =>
    match merge_child_scenarios_step files workload tag_index scenario merged_scenarios with
    | .finished => some (workload, .ok scenario)
    | .next scenario merged_scenarios =>
      merge_child_scenarios_loop files workload tag_index fuel scenario merged_scenarios
    | .thrown workload e => some (workload, .error e)

/-- The path `workload.tags[tag_index].path`; `tag_index` is a valid index in
every call, for any other the path is left empty. -/
def BuildWorkload.tag_path (workload : BuildWorkload) (tag_index : Nat) : String :=
  match workload.tags.get? tag_index with
  | some tag => tag.path
  | none => ""

/-- The function `merge_child_scenarios`: the workload with the reports made,
and the merged scenario or the exception thrown. -/
def merge_child_scenarios (files : ScenarioFiles) (fuel : Nat) (workload : BuildWorkload)
    (tag_index : Nat) (scenario : Scenario) :
    Option (BuildWorkload × Except ScenarioException Scenario) :=
  if scenario.child_scenarios.length ≠ 0 ∧ ¬ workload.disable_recursion then
    let merged_scenarios := [workload.tag_path tag_index]
    merge_child_scenarios_loop files workload tag_index fuel scenario merged_scenarios
  else some (workload, .ok scenario)

/-- The state of the loop of `merge_child_scenarios` after `k` passes that
ended neither the loop nor the call: the scenario and `merged_scenarios`. -/
def merge_child_scenarios_after (files : ScenarioFiles) (workload : BuildWorkload)
    (tag_index : Nat) : Nat → Scenario → List String → Option (Scenario × List String)
  | 0, scenario, merged_scenarios => some (scenario, merged_scenarios)
  | k + 1, scenario, merged_scenarios =>
    match merge_child_scenarios_step files workload tag_index scenario merged_scenarios with
    | .next scenario merged_scenarios =>
      merge_child_scenarios_after files workload tag_index k scenario merged_scenarios
    | _ => none

/-- The function `Scenario::pre_compile`: the call of `merge_child_scenarios`,
then the statements after it, which `body` stands for; an exception thrown by
the call leaves the function at once. -/
def Scenario.pre_compile (files : ScenarioFiles)
    (body : BuildWorkload → Nat → Nat → Scenario →
      BuildWorkload × Except ScenarioException Scenario)
    (fuel : Nat) (workload : BuildWorkload) (tag_index struct_index : Nat)
    (scenario : Scenario) : Option (BuildWorkload × Except ScenarioException Scenario) :=
  match merge_child_scenarios files fuel workload tag_index scenario with
  | none => none
  | some (workload, .error e) => some (workload, .error e)
  | some (workload, .ok scenario) => some (body workload tag_index struct_index scenario)

/-- A small concrete set of scenario tags for examples: `scenarios` lists tag
paths with the scenario their file parses to. Both path dialects coincide, and
a file holds its position in the list. -/
def list_scenario_files (scenarios : List (String × Scenario)) : ScenarioFiles where
  halo_path_to_preferred_path := id
  tag_class_to_extension := fun _ => "scenario"
  tag_path_to_file_path := fun p =>
    if scenarios.any (fun f => f.1 ++ ".scenario" = p) then some p else none
  open_file := fun p =>
    match scenarios.findIdx? (fun f => f.1 ++ ".scenario" = p) with
    | none => none
    | some i => some [i]
  parse_hek_tag_file := fun data =>
    match data with
    | [i] => (scenarios.get? i).map (fun f => f.2)
    | _ => none

/-! ### The merge of one family as the specification words it -/

/-- Every child element, in child order, is appended to the base unless some
element the base holds at that moment (an original one, or one appended
earlier) has the same identity. -/
def append_new_by_identity {α κ : Type} [DecidableEq κ] (key : α → κ) :
    List α → List α → List α
  | base, [] => base
  | base, merge :: rest =>
    if ∃ b ∈ base, key b = key merge then append_new_by_identity key base rest
    else append_new_by_identity key (base ++ [merge]) rest

/-! ## Bitmap compile and cache parse -/

/-- Number of values of a 32-bit field (`std::uint32_t`, `HEK::Pointer`). -/
def uint32_modulus : Nat := 4294967296

/-- The loop of the template `power_of_two` (bitmap.cpp); the first argument
bounds the number of passes and is never reached when it starts at `value`. -/
def power_of_two_loop : Nat → Nat → Bool
  | 0, _ => true
  | fuel + 1, value =>
    if value > 1 then
      if value % 2 = 1 then false else power_of_two_loop fuel (value / 2)
    else true

/-- The template `power_of_two` of bitmap.cpp. -/
def power_of_two (value : Nat) : Bool := power_of_two_loop value value

/-- The values of `HEK::BitmapType`. -/
inductive BitmapType where
  | BITMAP_TYPE_2D_TEXTURES
  | BITMAP_TYPE_3D_TEXTURES
  | BITMAP_TYPE_CUBE_MAPS
  | BITMAP_TYPE_SPRITES
  | BITMAP_TYPE_INTERFACE_BITMAPS
  deriving DecidableEq, Repr

/-- A sprite of a sequence. -/
structure BitmapGroupSprite where
  bitmap_index : Nat
  deriving DecidableEq, Repr

/-- An element of `bitmap_group_sequence`. -/
structure BitmapGroupSequence where
  first_bitmap_index : Nat := NULL_INDEX
  bitmap_count : Nat := 0
  sprites : List BitmapGroupSprite := []
  deriving DecidableEq, Repr

/-- The members of a bitmap tag that the compile and cache parse steps read or
write. -/
structure Bitmap where
  type : BitmapType := .BITMAP_TYPE_2D_TEXTURES
  color_plate_width : Nat := 0
  color_plate_height : Nat := 0
  compressed_color_plate_data : List Nat := []
  processed_pixel_data : List Nat := []
  bitmap_group_sequence : List BitmapGroupSequence := []
  bitmap_data : List BitmapData := []
  deriving DecidableEq, Repr

/-- The block `if(!workload.hide_pedantic_warnings) { ... }` in the body of the
loop of `do_pre_compile`; messages are recorded without their arguments. -/
def pre_compile_warnings (bitmap_type : BitmapType) (tag_index : Nat)
    (workload : BuildWorkload) (data : BitmapData) : BuildWorkload :=
  let non_power_of_two :=
    !power_of_two data.height || !power_of_two data.width || !power_of_two data.depth
  let workload :=
    if bitmap_type ≠ .BITMAP_TYPE_INTERFACE_BITMAPS ∧ non_power_of_two = true then
      workload.report_error .ERROR_TYPE_WARNING_PEDANTIC "Data is non-power-of-two" tag_index
    else workload
  let workload :=
    if data.flags.power_of_two_dimensions = true ∧ non_power_of_two = true then
      workload.report_error .ERROR_TYPE_ERROR
        "Data is non-power-of-two but that flag is set" tag_index
    else workload
  let workload :=
    if data.flags.power_of_two_dimensions = false ∧ non_power_of_two = false then
      workload.report_error .ERROR_TYPE_ERROR
        "Data is power-of-two but that flag is not set" tag_index
    else workload
  if (workload.engine_target = .CACHE_FILE_CUSTOM_EDITION
      ∨ workload.engine_target = .CACHE_FILE_RETAIL
      ∨ workload.engine_target = .CACHE_FILE_DEMO) ∧ workload.hide_pedantic_warnings = false then
    match data.type with
    | .BITMAP_DATA_TYPE_2D_TEXTURE | .BITMAP_DATA_TYPE_WHITE =>
      if data.width > 2048 ∨ data.height > 2048 then
        workload.report_error .ERROR_TYPE_WARNING_PEDANTIC
          "Bitmap data exceeds 2048x2048" tag_index
      else workload
    | .BITMAP_DATA_TYPE_3D_TEXTURE =>
      if data.width > 256 ∨ data.height > 256 ∨ data.depth > 256 then
        workload.report_error .ERROR_TYPE_WARNING_PEDANTIC
          "Bitmap data exceeds 256x256x256" tag_index
      else workload
    | .BITMAP_DATA_TYPE_CUBE_MAP =>
      if data.width > 512 ∨ data.height > 512 then
        workload.report_error .ERROR_TYPE_WARNING_PEDANTIC
          "Bitmap data exceeds 512x512" tag_index
      else workload
  else workload

/-- The body of the loop `for(auto &data : bitmap->bitmap_data)` of
`do_pre_compile` (bitmap.cpp): the workload after the pass, and the bitmap
data as the pass leaves it or the exception thrown. `pixel_data` is
`bitmap->processed_pixel_data`. -/
def pre_compile_bitmap_data (bitmap_type : BitmapType) (pixel_data : List Nat)
    (tag_index : Nat) (workload : BuildWorkload) (data : BitmapData) :
    BuildWorkload × Except ScenarioException BitmapData :=
  if data.flags.swizzled = true ∧ data.flags.compressed = true then
    (workload, .error .InvalidTagDataException)
  else if data.flags.swizzled = true then
    (workload, .error .InvalidTagDataException)
  else
    let max_size := pixel_data.length
    let compressed := data.flags.compressed
    let should_be_compressed :=
      decide (data.format = .BITMAP_DATA_FORMAT_DXT1) || decide (data.format = .BITMAP_DATA_FORMAT_DXT3)
        || decide (data.format = .BITMAP_DATA_FORMAT_DXT5)
    let start := data.pixel_data_offset
    let workload :=
      if workload.hide_pedantic_warnings = false then
        pre_compile_warnings bitmap_type tag_index workload data
      else workload
    let workload :=
      if data.depth ≠ 1 ∧ data.type ≠ .BITMAP_DATA_TYPE_3D_TEXTURE then
        workload.report_error .ERROR_TYPE_ERROR
          "Bitmap data is not a 3D texture but has depth" tag_index
      else workload
    let workload :=
      if compressed ≠ should_be_compressed ∧ compressed = false then
        workload.report_error .ERROR_TYPE_ERROR
          "Bitmap data is not marked as compressed" tag_index
      else workload
    let data :=
      if compressed ≠ should_be_compressed ∧ compressed = true then
        { data with flags := { data.flags with compressed := false } }
      else data
    match size_of_bitmap data with
    | none => (workload, .error .std_exception)
    | some size =>
      let data_end := (start + size) % size_t_modulus
      if start > max_size ∨ size > max_size ∨ data_end > max_size then
        (workload.report_error .ERROR_TYPE_FATAL_ERROR
          "Bitmap data range exceeds the processed pixel data size" tag_index,
          .error .InvalidTagDataException)
      else
        let raw_data_index := workload.raw_data.length
        ({ workload with
            raw_data := workload.raw_data ++ [(pixel_data.drop start).take (data_end - start)],
            asset_data := workload.asset_data ++ [(tag_index, raw_data_index)] },
          .ok { data with pixel_data_size := size % uint32_modulus })

/-- The loop `for(auto &data : bitmap->bitmap_data)` of `do_pre_compile`: `done`
holds the bitmap data of the passes made. -/
def pre_compile_bitmap_data_loop (bitmap_type : BitmapType) (pixel_data : List Nat)
    (tag_index : Nat) :
    BuildWorkload → List BitmapData → List BitmapData →
      BuildWorkload × Except ScenarioException (List BitmapData)
  | workload, [], done => (workload, .ok done)
  | workload, data :: rest, done =>
    match pre_compile_bitmap_data bitmap_type pixel_data tag_index workload data with
    | (workload, .error e) => (workload, .error e)
    | (workload, .ok data) =>
      pre_compile_bitmap_data_loop bitmap_type pixel_data tag_index workload rest (done ++ [data])

/-- The template `do_pre_compile` of bitmap.cpp: the workload with the reports
and raw data added, and the bitmap tag or the exception thrown. -/
def do_pre_compile (bitmap : Bitmap) (workload : BuildWorkload) (tag_index : Nat) :
    BuildWorkload × Except ScenarioException Bitmap :=
  if bitmap.bitmap_group_sequence.any (fun sequence =>
      sequence.sprites.any (fun sprite => sprite.bitmap_index ≥ bitmap.bitmap_data.length)) then
    (workload.report_error .ERROR_TYPE_FATAL_ERROR
      "Sprite of sequence has an invalid bitmap index" tag_index, .error .InvalidTagDataException)
  else
    let bitmap_group_sequence := bitmap.bitmap_group_sequence.rdropWhile
      (fun sequence => sequence.first_bitmap_index = NULL_INDEX)
    match pre_compile_bitmap_data_loop bitmap.type bitmap.processed_pixel_data tag_index
        workload bitmap.bitmap_data [] with
    | (workload, .error e) => (workload, .error e)
    | (workload, .ok bitmap_data) =>
      (workload, .ok { bitmap with bitmap_group_sequence := bitmap_group_sequence,
                                   bitmap_data := bitmap_data })

/-- What `do_post_cache_parse` takes from the cache file and from outside: the
engine, the `external` flag of the little-endian bitmap data `bd` in the
map, the two lookups of pixel data (which may throw), `HEK::is_power_of_two`
and the two copy routines of the Xbox branch, applied to the bitmap data, the
`swizzled` and `compressed` flags, the input and its size, and the buffer. -/
structure CacheMap where
  engine : CacheFileEngine
  bitmap_data_le_external : Nat → Bool
  get_data_at_offset : Nat → Nat → Except ScenarioException (List Nat)
  get_internal_asset : Nat → Nat → Except ScenarioException (List Nat)
  is_power_of_two : Nat → Bool
  copy_cube_map : BitmapData → Bool → Bool → List Nat → Nat → List Nat →
    Except ScenarioException (List Nat)
  copy_texture : BitmapData → Bool → Bool → List Nat → Nat → List Nat →
    Except ScenarioException (List Nat)

/-- The body of the loop over the bitmap data of `do_post_cache_parse`
(decompile.cpp): the bitmap data and the processed pixel data after the pass,
or the exception thrown. -/
def post_cache_parse_bitmap_data (map : CacheMap) (bd : Nat) (processed_pixel_data : List Nat)
    (bitmap_data : BitmapData) : Except ScenarioException (BitmapData × List Nat) :=
  let size := bitmap_data.pixel_data_size
  let compressed := bitmap_data.flags.compressed
  let should_be_compressed :=
    match bitmap_data.format with
    | .BITMAP_DATA_FORMAT_DXT1 | .BITMAP_DATA_FORMAT_DXT3 | .BITMAP_DATA_FORMAT_DXT5 => true
    | _ => false
  if should_be_compressed ≠ compressed then .error .InvalidTagDataException
  else
    let swizzled := bitmap_data.flags.swizzled
    if swizzled = true ∧ compressed = true then .error .InvalidTagDataException
    else if bitmap_data.depth ≠ 1 ∧ bitmap_data.type ≠ .BITMAP_DATA_TYPE_3D_TEXTURE then
      .error .InvalidTagDataException
    else if map.is_power_of_two bitmap_data.depth = false then .error .InvalidTagDataException
    else do
      let bitmap_data_ptr ←
        if map.bitmap_data_le_external bd then
          map.get_data_at_offset bitmap_data.pixel_data_offset size
        else map.get_internal_asset bitmap_data.pixel_data_offset size
      let converted ←
        if map.engine = .CACHE_FILE_XBOX then do
          let bitmap_data := { bitmap_data with flags := { bitmap_data.flags with swizzled := false } }
          let buffer_size ←
            match size_of_bitmap_decompile calculate_bits_per_pixel bitmap_data with
            | none => Except.error ScenarioException.std_exception
            | some n => pure n
          let xbox_to_pc_buffer := List.replicate buffer_size 0
          let xbox_to_pc_buffer ←
            match bitmap_data.type with
            | .BITMAP_DATA_TYPE_CUBE_MAP =>
              map.copy_cube_map bitmap_data swizzled compressed bitmap_data_ptr size
                xbox_to_pc_buffer
            | .BITMAP_DATA_TYPE_3D_TEXTURE | .BITMAP_DATA_TYPE_WHITE
            | .BITMAP_DATA_TYPE_2D_TEXTURE =>
              map.copy_texture bitmap_data swizzled compressed bitmap_data_ptr size
                xbox_to_pc_buffer
          let size := xbox_to_pc_buffer.length
          pure ({ bitmap_data with pixel_data_size := size % uint32_modulus },
            xbox_to_pc_buffer, size)
        else pure (bitmap_data, bitmap_data_ptr, size)
      let bitmap_data := converted.1
      let bitmap_data_ptr := converted.2.1
      let size := converted.2.2
      pure ({ bitmap_data with pixel_data_offset := processed_pixel_data.length % uint32_modulus },
        processed_pixel_data ++ bitmap_data_ptr.take size)

/-- The state `do_post_cache_parse` leaves: the bitmap tag, the number of
bitmap data whose pixel data was inserted, and the exception thrown, if any. -/
structure PostCacheParse where
  bitmap : Bitmap
  inserted : Nat
  exception : Option ScenarioException
  deriving DecidableEq, Repr

/-- The loop over the bitmap data of `do_post_cache_parse`: `done` holds the
bitmap data of the passes made, `rest` those still to come. -/
def post_cache_parse_loop (map : CacheMap) :
    Nat → List BitmapData → List BitmapData → List Nat →
      List BitmapData × List Nat × Nat × Option ScenarioException
  | bd, [], done, processed_pixel_data => (done, processed_pixel_data, bd, none)
  | bd, bitmap_data :: rest, done, processed_pixel_data =>
    match post_cache_parse_bitmap_data map bd processed_pixel_data bitmap_data with
    | .error e => (done ++ bitmap_data :: rest, processed_pixel_data, bd, some e)
    | .ok (bitmap_data, processed_pixel_data) =>
      post_cache_parse_loop map (bd + 1) rest (done ++ [bitmap_data]) processed_pixel_data

/-- The template `do_post_cache_parse` of decompile.cpp. -/
def do_post_cache_parse (map : CacheMap) (bitmap : Bitmap) : PostCacheParse :=
  let bitmap :=
    if bitmap.compressed_color_plate_data.length = 0 then
      { bitmap with color_plate_height := 0, color_plate_width := 0 }
    else bitmap
  let bitmap :=
    if bitmap.type = .BITMAP_TYPE_SPRITES then
      { bitmap with bitmap_group_sequence := bitmap.bitmap_group_sequence.map (fun sequence =>
          { sequence with
            first_bitmap_index :=
              sequence.sprites.foldl (fun first sprite => min first sprite.bitmap_index) NULL_INDEX,
            bitmap_count := if sequence.sprites.length = 1 then 1 else 0 }) }
    else bitmap
  let result := post_cache_parse_loop map 0 bitmap.bitmap_data [] bitmap.processed_pixel_data
  { bitmap := { bitmap with bitmap_data := result.1, processed_pixel_data := result.2.1 },
    inserted := result.2.2.1,
    exception := result.2.2.2 }

/-! ## Script node table -/

/-- The sizes and field positions of `ScenarioScriptNodeTable` and
`ScenarioScriptNode`, which are declared in headers, the conversion of a
header and of a node from big to little endian, and the table built for
empty syntax data. `size_offset` is the position of the field `size` of the
header. -/
structure ScriptNodeTableLayout where
  header_size : Nat
  node_size : Nat
  maximum_count_offset : Nat
  element_size_offset : Nat
  to_little_header : List Nat → List Nat
  to_little_node : List Nat → List Nat
  default_table : List Nat
  size_offset : Nat := 0

/-- A big-endian 16-bit field at `offset`. -/
def read_u16_be (data : List Nat) (offset : Nat) : Nat :=
  data.getD offset 0 % 256 * 256 + data.getD (offset + 1) 0 % 256

/-- The loop `start_little[i] = start_big[i]` over `element_count` nodes. -/
def convert_script_nodes (layout : ScriptNodeTableLayout) : Nat → List Nat → List Nat
  | 0, nodes => nodes
  | element_count + 1, nodes =>
    layout.to_little_node (nodes.take layout.node_size)
      ++ convert_script_nodes layout element_count (nodes.drop layout.node_size)

/-- The step of `Scenario::pre_compile` on `script_syntax_data` ("If we don't
have any syntax data, let's make some stuff" and its `else` branch): the
workload with the report made, and the new syntax data or the exception. -/
def pre_compile_script_syntax_data (layout : ScriptNodeTableLayout) (workload : BuildWorkload)
    (tag_index : Nat) (script_syntax_data : List Nat) :
    BuildWorkload × Except ScenarioException (List Nat) :=
  if script_syntax_data.length = 0 then (workload, .ok layout.default_table)
  else if script_syntax_data.length < layout.header_size then
    (workload.report_error .ERROR_TYPE_FATAL_ERROR "Script syntax data is invalid" tag_index,
      .error .InvalidTagDataException)
  else
    let element_size := read_u16_be script_syntax_data layout.element_size_offset
    if element_size ≠ layout.node_size then
      (workload.report_error .ERROR_TYPE_FATAL_ERROR "Script node table header is invalid"
        tag_index, .error .InvalidTagDataException)
    else
      let element_count := read_u16_be script_syntax_data layout.maximum_count_offset
      let expected_table_size :=
        (element_count * layout.node_size + layout.header_size) % size_t_modulus
      if script_syntax_data.length ≠ expected_table_size then
        (workload.report_error .ERROR_TYPE_FATAL_ERROR "Script syntax data is the wrong size"
          tag_index, .error .InvalidTagDataException)
      else
        (workload, .ok (layout.to_little_header (script_syntax_data.take layout.header_size)
          ++ convert_script_nodes layout element_count
              (script_syntax_data.drop layout.header_size)))

/-! ## Resource maps -/

/-- The bytes `bytes` written over `data` from `position` on. Only positions
inside `data` are written. -/
def store (data : List Nat) (position : Nat) (bytes : List Nat) : List Nat :=
  (List.range data.length).map (fun i =>
    if position ≤ i ∧ i < position + bytes.length then bytes.getD (i - position) 0
    else data.getD i 0)

/-- The four bytes of a 32-bit little-endian field. -/
def u32_le_bytes (value : Nat) : List Nat :=
  [value % 256, value / 256 % 256, value / 65536 % 256, value / 16777216 % 256]

/-- The two bytes of a 16-bit little-endian field. -/
def u16_le_bytes (value : Nat) : List Nat :=
  [value % 256, value / 256 % 256]

/-- A 32-bit little-endian field at `position`. -/
def read_u32_le (data : List Nat) (position : Nat) : Nat :=
  data.getD position 0 % 256 + 256 * (data.getD (position + 1) 0 % 256)
    + 65536 * (data.getD (position + 2) 0 % 256) + 16777216 * (data.getD (position + 3) 0 % 256)

/-- A 16-bit little-endian field at `position`. -/
def read_u16_le (data : List Nat) (position : Nat) : Nat :=
  data.getD position 0 % 256 + 256 * (data.getD (position + 1) 0 % 256)

/-- The values of `ResourceMapType`. -/
inductive ResourceMapType where
  | RESOURCE_MAP_BITMAP
  | RESOURCE_MAP_SOUND
  | RESOURCE_MAP_LOC
  deriving DecidableEq, Repr

/-- The struct `ResourceMapHeader`; its four fields are 32 bits wide. -/
structure ResourceMapHeader where
  type : ResourceMapType
  paths : Nat
  resources : Nat
  resource_count : Nat
  deriving DecidableEq, Repr

/-- The struct `ResourceMapResource`, one index record; its three fields are
32 bits wide. -/
structure ResourceMapResource where
  size : Nat
  data_offset : Nat
  path_offset : Nat
  deriving DecidableEq, Repr

/-- Modelled from the spec: `sizeof(ResourceMapHeader)`. The struct is declared
in a header; the spec gives it four 32-bit fields. -/
def sizeof_ResourceMapHeader : Nat := 16

/-- Modelled from the spec: the macro `REQUIRED_PADDING_32_BIT`, which is
defined in a header. The spec has every insertion "padded to 4-byte
alignment": the number of bytes up to the next multiple of 4. -/
def REQUIRED_PADDING_32_BIT (size : Nat) : Nat := (4 - size % 4) % 4

/-- The sizes and field positions of the tag structs `main` reads through
`reinterpret_cast`, which are declared in headers, and the lookup
`BuildWorkloadStruct::resolve_pointer` of the struct a pointer field at a
given position of a struct points to. -/
structure ResourceLayout where
  resolve_pointer : BuildWorkloadStruct → Nat → Option Nat
  Bitmap_bitmap_data_count : Nat
  Bitmap_bitmap_data_pointer : Nat
  sizeof_BitmapData : Nat
  BitmapData_pixel_data_size : Nat
  BitmapData_pixel_data_offset : Nat
  BitmapData_flags : Nat
  BitmapData_flags_external : Nat
  sizeof_Sound : Nat
  Sound_pitch_ranges_count : Nat
  Sound_pitch_ranges_pointer : Nat
  sizeof_SoundPitchRange : Nat
  SoundPitchRange_permutations_count : Nat
  SoundPitchRange_permutations_pointer : Nat
  sizeof_SoundPermutation : Nat
  SoundPermutation_samples_size : Nat
  SoundPermutation_samples_external : Nat
  SoundPermutation_samples_file_offset : Nat

/-- The members of the workload `compile_single_tag` returns that `main`
reads: `tags[0].base_struct`, `structs` and `raw_data`. -/
structure SingleTagWorkload where
  base_struct : Nat := 0
  structs : List BuildWorkloadStruct := []
  raw_data : List (List Nat) := []
  deriving DecidableEq, Repr

/-- The struct `ResourceOption` of `main`, as the command line leaves it. -/
structure ResourceOption where
  tags : List String := []
  maps : String := "maps"
  type : ResourceMapType := .RESOURCE_MAP_BITMAP
  resource_map_set : Bool := false
  retail : Bool := false
  deriving DecidableEq, Repr

/-- The first loop of the lambda `write_pointers`: every struct's data is
appended to `data`, and its position is pushed to `structs`. -/
def write_pointers_copy : List BuildWorkloadStruct → List Nat → List Nat → List Nat × List Nat
  | [], data, structs => (data, structs)
  | s :: rest, data, structs => write_pointers_copy rest (data ++ s.data) (structs ++ [data.length])

/-- The value `structs[ptr.struct_index] - sound_offset` as stored in a 32-bit
little-endian pointer field. -/
def pointer_value (sound_offset : Nat) (structs : List Nat)
    (ptr : BuildWorkloadStructPointer) : Nat :=
  (structs.getD ptr.struct_index 0 + size_t_modulus - sound_offset) % size_t_modulus
    % uint32_modulus

/-- The inner loop of the second loop of `write_pointers`, over the pointers of
the struct placed at `struct_offset`. -/
def write_pointers_of_struct (sound_offset : Nat) (structs : List Nat) (struct_offset : Nat) :
    List BuildWorkloadStructPointer → List Nat → List Nat
  | [], data => data
  | ptr :: rest, data =>
    write_pointers_of_struct sound_offset structs struct_offset rest
      (store data (struct_offset + ptr.offset)
        (u32_le_bytes (pointer_value sound_offset structs ptr)))

/-- The second loop of `write_pointers`, over the structs; `k` is the index
`&s - compiled_tag.structs.data()` of the struct at the head. -/
def write_pointers_of_structs (sound_offset : Nat) (structs : List Nat) :
    List BuildWorkloadStruct → Nat → List Nat → List Nat
  | [], _, data => data
  | s :: rest, k, data =>
    write_pointers_of_structs sound_offset structs rest (k + 1)
      (write_pointers_of_struct sound_offset structs (structs.getD k 0) s.pointers data)

/-- The lambda `write_pointers` of `main`: the vectors `data` and `structs`
after the call. -/
def write_pointers (layout : ResourceLayout) (type : ResourceMapType)
    (compiled_structs : List BuildWorkloadStruct) : List Nat × List Nat :=
  let copied := write_pointers_copy compiled_structs [] []
  let sound_offset := if type = .RESOURCE_MAP_SOUND then layout.sizeof_Sound else 0
  (write_pointers_of_structs sound_offset copied.2 compiled_structs 0 copied.1, copied.2)

/-- The fields `write_pointers` overwrites, in the order of the writes: the
position of each pointer field in `data`, with the pointer written. -/
def pointer_fields (structs : List Nat) :
    List BuildWorkloadStruct → Nat → List (Nat × BuildWorkloadStructPointer)
  | [], _ => []
  | s :: rest, k =>
    s.pointers.map (fun ptr => (structs.getD k 0 + ptr.offset, ptr))
      ++ pointer_fields structs rest (k + 1)

/-- One entry pushed to the resource map: its path, the size recorded for it
and the bytes inserted into `resource_data`. -/
structure Resource where
  path : String
  size : Nat
  payload : List Nat
  deriving DecidableEq, Repr

/-- The vectors `resource_data`, `offsets`, `sizes` and `paths` of `main`. -/
structure ResourceBuild where
  resource_data : List Nat
  offsets : List Nat := []
  sizes : List Nat := []
  paths : List String := []
  deriving DecidableEq, Repr

/-- The macro `PAD_RESOURCES_32_BIT`. -/
def PAD_RESOURCES_32_BIT (resource_data : List Nat) : List Nat :=
  resource_data ++ List.replicate (REQUIRED_PADDING_32_BIT resource_data.length) 0

/-- The statements that push one entry: the position goes to `offsets`, the
bytes to `resource_data`, the path to `paths`, the size to `sizes`, and
`resource_data` is padded. -/
def push_resource (state : ResourceBuild) (resource : Resource) : ResourceBuild :=
  { resource_data := PAD_RESOURCES_32_BIT (state.resource_data ++ resource.payload),
    offsets := state.offsets ++ [state.resource_data.length],
    sizes := state.sizes ++ [resource.size],
    paths := state.paths ++ [resource.path] }

/-- The bytes of a `std::string`, one per character. -/
def string_bytes (s : String) : List Nat := s.toList.map Char.toNat

/-- The call `std::snprintf(path_temp, sizeof(path_temp), ...)` followed by
`paths.push_back(path_temp)`: `formatted` is the text the format yields, of
which the 256-byte buffer keeps the first 255 characters. -/
def path_temp (formatted : String) : String := String.mk (formatted.toList.take 255)

/-- The text of `s.c_str()` under `%s`: the characters before the first NUL. -/
def c_str (s : String) : String := String.mk (s.toList.takeWhile (fun c => c ≠ Char.ofNat 0))

/-- The loop over the bitmap data of a bitmap tag when `retail` is set: one
entry per bitmap data `b`. `bitmaps` are the bytes of the bitmap data array. -/
def bitmap_retail_resources (layout : ResourceLayout) (halo_tag_path : String)
    (bitmaps : List Nat) (raw_data : List (List Nat)) : Nat → Nat → List Resource
  | 0, _ => []
  | remaining + 1, b =>
    { path := path_temp (c_str halo_tag_path ++ "_" ++ toString b),
      size := read_u32_le bitmaps (b * layout.sizeof_BitmapData + layout.BitmapData_pixel_data_size),
      payload := raw_data.getD b [] }
      :: bitmap_retail_resources layout halo_tag_path bitmaps raw_data remaining (b + 1)

/-- The `else` branch of the loop body for one bitmap data when `retail` is not
set: `pixel_data_offset` is raised by `resource_data.size()` and the external
flag is set. -/
def bitmap_data_set_external (layout : ResourceLayout) (resource_data_size : Nat) (b : Nat)
    (bitmaps : List Nat) : List Nat :=
  let bitmap_data := b * layout.sizeof_BitmapData
  let pixel_data_offset := read_u32_le bitmaps (bitmap_data + layout.BitmapData_pixel_data_offset)
  let bitmaps := store bitmaps (bitmap_data + layout.BitmapData_pixel_data_offset)
    (u32_le_bytes ((resource_data_size + pixel_data_offset) % size_t_modulus % uint32_modulus))
  let flags := read_u16_le bitmaps (bitmap_data + layout.BitmapData_flags)
  store bitmaps (bitmap_data + layout.BitmapData_flags)
    (u16_le_bytes (flags ||| layout.BitmapData_flags_external))

/-- The loop over the bitmap data of a bitmap tag when `retail` is not set. -/
def bitmap_set_external (layout : ResourceLayout) (resource_data_size : Nat) :
    Nat → Nat → List Nat → List Nat
  | 0, _, bitmaps => bitmaps
  | remaining + 1, b, bitmaps =>
    bitmap_set_external layout resource_data_size remaining (b + 1)
      (bitmap_data_set_external layout resource_data_size b bitmaps)

/-- The struct at `index` of `structs` with its data replaced. -/
def set_struct_data (structs : List BuildWorkloadStruct) (index : Nat) (data : List Nat) :
    List BuildWorkloadStruct :=
  structs.set index { structs.getD index {} with data := data }

/-- The two entries pushed for a tag when `retail` is not set: the raw data
under the tag path with `suffix`, then the tag data under the tag path. -/
def embedded_resources (halo_tag_path suffix : String) (raw_data : List (List Nat))
    (data : List Nat) : List Resource :=
  [{ path := halo_tag_path ++ suffix,
     size := (raw_data.map List.length).sum % size_t_modulus,
     payload := raw_data.foldl (fun all r => all ++ r) [] },
   { path := halo_tag_path, size := data.length, payload := data }]

/-- The case `RESOURCE_MAP_BITMAP` of `main` for one compiled tag: the structs
of the compiled tag after the case, and the entries pushed, in order.
`resource_data_size` is `resource_data.size()` when the case is entered. -/
def bitmap_resources (layout : ResourceLayout) (retail : Bool) (halo_tag_path : String)
    (resource_data_size : Nat) (compiled_tag : SingleTagWorkload) :
    List BuildWorkloadStruct × List Resource :=
  let compiled_tag_struct := compiled_tag.structs.getD compiled_tag.base_struct {}
  let bitmap_count := read_u32_le compiled_tag_struct.data layout.Bitmap_bitmap_data_count
  let bitmaps_index :=
    (layout.resolve_pointer compiled_tag_struct layout.Bitmap_bitmap_data_pointer).getD 0
  let bitmaps := (compiled_tag.structs.getD bitmaps_index {}).data
  if retail then
    (compiled_tag.structs,
      if bitmap_count ≠ 0 then
        bitmap_retail_resources layout halo_tag_path bitmaps compiled_tag.raw_data bitmap_count 0
      else [])
  else
    let structs :=
      if bitmap_count ≠ 0 then
        set_struct_data compiled_tag.structs bitmaps_index
          (bitmap_set_external layout resource_data_size bitmap_count 0 bitmaps)
      else compiled_tag.structs
    let data := (write_pointers layout .RESOURCE_MAP_BITMAP structs).1
    (structs, embedded_resources halo_tag_path "__pixels" compiled_tag.raw_data data)

/-- The state of the loops of the case `RESOURCE_MAP_SOUND`: the structs of the
compiled tag, the counter `b` and the entries pushed so far. -/
structure SoundLoop where
  structs : List BuildWorkloadStruct
  b : Nat := 0
  resources : List Resource := []
  deriving DecidableEq, Repr

/-- The body of the loop over the permutations of pitch range `pr`, for
permutation `p`; `permutations_index` is the struct holding the permutations. -/
def sound_permutation (layout : ResourceLayout) (retail : Bool) (halo_tag_path : String)
    (resource_data_size : Nat) (raw_data : List (List Nat)) (permutations_index pr p : Nat)
    (state : SoundLoop) : SoundLoop :=
  let permutations := (state.structs.getD permutations_index {}).data
  let permutation := p * layout.sizeof_SoundPermutation
  if retail then
    { state with
      b := state.b + 1,
      resources := state.resources ++
        [{ path := path_temp (c_str halo_tag_path ++ "__" ++ toString pr ++ "__" ++ toString p),
           size := read_u32_le permutations (permutation + layout.SoundPermutation_samples_size),
           payload := raw_data.getD state.b [] }] }
  else
    let permutations := store permutations
      (permutation + layout.SoundPermutation_samples_external) (u32_le_bytes 1)
    let file_offset :=
      read_u32_le permutations (permutation + layout.SoundPermutation_samples_file_offset)
    let permutations := store permutations
      (permutation + layout.SoundPermutation_samples_file_offset)
      (u32_le_bytes ((resource_data_size + file_offset) % size_t_modulus % uint32_modulus))
    { state with structs := set_struct_data state.structs permutations_index permutations }

/-- The loop over the permutations of pitch range `pr`. -/
def sound_permutations (layout : ResourceLayout) (retail : Bool) (halo_tag_path : String)
    (resource_data_size : Nat) (raw_data : List (List Nat)) (permutations_index pr : Nat) :
    Nat → Nat → SoundLoop → SoundLoop
  | 0, _, state => state
  | remaining + 1, p, state =>
    sound_permutations layout retail halo_tag_path resource_data_size raw_data
      permutations_index pr remaining (p + 1)
      (sound_permutation layout retail halo_tag_path resource_data_size raw_data
        permutations_index pr p state)

/-- The loop over the pitch ranges of a sound tag; `pitch_ranges_index` is the
struct holding the pitch ranges. -/
def sound_pitch_ranges (layout : ResourceLayout) (retail : Bool) (halo_tag_path : String)
    (resource_data_size : Nat) (raw_data : List (List Nat)) (pitch_ranges_index : Nat) :
    Nat → Nat → SoundLoop → SoundLoop
  | 0, _, state => state
  | remaining + 1, pr, state =>
    let pitch_range_struct := state.structs.getD pitch_ranges_index {}
    let pitch_range := pr * layout.sizeof_SoundPitchRange
    let permutation_count := read_u32_le pitch_range_struct.data
      (pitch_range + layout.SoundPitchRange_permutations_count)
    let state :=
      if permutation_count ≠ 0 then
        sound_permutations layout retail halo_tag_path resource_data_size raw_data
          ((layout.resolve_pointer pitch_range_struct
            (pitch_range + layout.SoundPitchRange_permutations_pointer)).getD 0)
          pr permutation_count 0 state
      else state
    sound_pitch_ranges layout retail halo_tag_path resource_data_size raw_data
      pitch_ranges_index remaining (pr + 1) state

/-- The case `RESOURCE_MAP_SOUND` of `main` for one compiled tag. -/
def sound_resources (layout : ResourceLayout) (retail : Bool) (halo_tag_path : String)
    (resource_data_size : Nat) (compiled_tag : SingleTagWorkload) :
    List BuildWorkloadStruct × List Resource :=
  let compiled_tag_struct := compiled_tag.structs.getD compiled_tag.base_struct {}
  let pitch_range_count := read_u32_le compiled_tag_struct.data layout.Sound_pitch_ranges_count
  let state : SoundLoop := { structs := compiled_tag.structs }
  let state :=
    if pitch_range_count ≠ 0 then
      sound_pitch_ranges layout retail halo_tag_path resource_data_size compiled_tag.raw_data
        ((layout.resolve_pointer compiled_tag_struct layout.Sound_pitch_ranges_pointer).getD 0)
        pitch_range_count 0 state
    else state
  if retail then (state.structs, state.resources)
  else
    let data := (write_pointers layout .RESOURCE_MAP_SOUND state.structs).1
    (state.structs, embedded_resources halo_tag_path "__permutations" compiled_tag.raw_data data)

/-- The switch "Now, adjust stuff for pointers" of `main` for one compiled
tag: the entries pushed, in order. -/
def tag_resources (layout : ResourceLayout) (type : ResourceMapType) (retail : Bool)
    (halo_tag_path : String) (resource_data_size : Nat) (compiled_tag : SingleTagWorkload) :
    List Resource :=
  match type with
  | .RESOURCE_MAP_BITMAP =>
    (bitmap_resources layout retail halo_tag_path resource_data_size compiled_tag).2
  | .RESOURCE_MAP_SOUND =>
    (sound_resources layout retail halo_tag_path resource_data_size compiled_tag).2
  | .RESOURCE_MAP_LOC =>
    let data := (write_pointers layout .RESOURCE_MAP_LOC compiled_tag.structs).1
    [{ path := halo_tag_path, size := data.length, payload := data }]

/-- The ways `main` returns `EXIT_FAILURE`. -/
inductive ResourceError where
  | no_resource_map_type
  | retail_loc
  | failed_to_open
  | failed_to_read
  | failed_to_compile
  | exceeds_4_gib
  | failed_to_open_for_writing
  deriving DecidableEq, Repr

/-- The lambda `open_tag`: the contents of the first file that opens. -/
def open_tag (fs : TagFileSystem) (tag_path extension : String) : List String → Option (List Nat)
  | [] => none
  | tags_folder :: rest =>
    match fs.fopen (fs.path_append tags_folder tag_path ++ extension) with
    | some contents => some contents
    | none => open_tag fs tag_path extension rest

/-- The macro `ATTEMPT_TO_OPEN(extension)`: the file must open and hold at least
one byte, since `std::fread` of one item has to return 1. -/
def ATTEMPT_TO_OPEN (fs : TagFileSystem) (tags : List String) (tag_path extension : String) :
    Except ResourceError (List Nat) :=
  match open_tag fs tag_path extension tags with
  | none => .error .failed_to_open
  | some contents => if contents.length = 0 then .error .failed_to_read else .ok contents

/-- The macro `DO_THIS_FOR_ME_PLEASE(tci, extension)` on the pair of
`tag_class_int` and `tag_data`. -/
def DO_THIS_FOR_ME_PLEASE (fs : TagFileSystem) (tags : List String) (tag_path : String)
    (tci : TagClassInt) (extension : String) (state : TagClassInt × List Nat) :
    Except ResourceError (TagClassInt × List Nat) :=
  if state.2.length = 0 then
    match open_tag fs tag_path extension tags with
    | some contents =>
      if contents.length = 0 then .error .failed_to_read else .ok (tci, contents)
    | none => .ok (tci, state.2)
  else .ok state

/-- The switch of `main` that opens the tag file: the tag class to compile. -/
def open_listed_tag (fs : TagFileSystem) (resource_options : ResourceOption)
    (tag_path : String) : Except ResourceError TagClassInt :=
  match resource_options.type with
  | .RESOURCE_MAP_BITMAP => do
    let _ ← ATTEMPT_TO_OPEN fs resource_options.tags tag_path ".bitmap"
    pure .TAG_CLASS_BITMAP
  | .RESOURCE_MAP_SOUND => do
    let _ ← ATTEMPT_TO_OPEN fs resource_options.tags tag_path ".sound"
    pure .TAG_CLASS_SOUND
  | .RESOURCE_MAP_LOC => do
    let state ← DO_THIS_FOR_ME_PLEASE fs resource_options.tags tag_path .TAG_CLASS_FONT ".font"
      (.TAG_CLASS_FONT, [])
    let state ← DO_THIS_FOR_ME_PLEASE fs resource_options.tags tag_path
      .TAG_CLASS_HUD_MESSAGE_TEXT ".hud_message_text" state
    let state ← DO_THIS_FOR_ME_PLEASE fs resource_options.tags tag_path
      .TAG_CLASS_UNICODE_STRING_LIST ".unicode_string_list" state
    pure state.1

/-- The loop `for(const std::string &listed_tag : tags_list)` of `main`. -/
def build_resources (fs : TagFileSystem) (layout : ResourceLayout)
    (compile_single_tag : String → TagClassInt → List String → Option SingleTagWorkload)
    (resource_options : ResourceOption) :
    List String → ResourceBuild → Except ResourceError ResourceBuild
  | [], state => .ok state
  | listed_tag :: rest, state =>
    let tag_path := fs.halo_path_to_preferred_path listed_tag
    let halo_tag_path := fs.preferred_path_to_halo_path listed_tag
    match open_listed_tag fs resource_options tag_path with
    | .error e => .error e
    | .ok tag_class_int =>
      match compile_single_tag tag_path tag_class_int resource_options.tags with
      | none => .error .failed_to_compile
      | some compiled_tag =>
        build_resources fs layout compile_single_tag resource_options rest
          ((tag_resources layout resource_options.type resource_options.retail halo_tag_path
            state.resource_data.length compiled_tag).foldl push_resource state)

/-- The loop "Finish up building up the map": the index records and
`resource_names_arr`. `i` is the index of the path at the head. -/
def build_indices (sizes offsets : List Nat) :
    List String → Nat → List Nat → List ResourceMapResource × List Nat
  | [], _, resource_names_arr => ([], resource_names_arr)
  | path :: rest, i, resource_names_arr =>
    let index : ResourceMapResource :=
      { size := sizes.getD i 0 % uint32_modulus,
        data_offset := offsets.getD i 0 % uint32_modulus,
        path_offset := resource_names_arr.length % uint32_modulus }
    let result := build_indices sizes offsets rest (i + 1)
      (resource_names_arr ++ string_bytes path ++ [0])
    (index :: result.1, result.2)

/-- What the three `std::fwrite` calls of `main` write: `resource_data`, whose
first `sizeof(ResourceMapHeader)` bytes hold `header`, then
`resource_names_arr`, then `resource_indices`. -/
structure ResourceMapFile where
  header : ResourceMapHeader
  resource_data : List Nat
  resource_names_arr : List Nat
  resource_indices : List ResourceMapResource
  deriving DecidableEq, Repr

/-- The end of `main` from "Finish up building up the map" on; `output_opens`
tells whether the map file opens for writing. -/
def finish_resource_map (type : ResourceMapType) (output_opens : Bool) (state : ResourceBuild) :
    Except ResourceError ResourceMapFile :=
  let resource_count := state.paths.length
  let built := build_indices state.sizes state.offsets state.paths 0 []
  let header : ResourceMapHeader :=
    { type := type,
      resource_count := resource_count % uint32_modulus,
      paths := state.resource_data.length % uint32_modulus,
      resources := (built.2.length + state.resource_data.length) % size_t_modulus
        % uint32_modulus }
  if state.resource_data.length ≥ 0xFFFFFFFF then .error .exceeds_4_gib
  else if output_opens = false then .error .failed_to_open_for_writing
  else .ok { header := header, resource_data := state.resource_data,
             resource_names_arr := built.2, resource_indices := built.1 }

/-- The function `main` of resource.cpp after the command line is parsed;
`tags_list` is the list `resource_options.default_fn()` yields. -/
def main (fs : TagFileSystem) (layout : ResourceLayout)
    (compile_single_tag : String → TagClassInt → List String → Option SingleTagWorkload)
    (output_opens : Bool) (resource_options : ResourceOption) (tags_list : List String) :
    Except ResourceError ResourceMapFile :=
  if resource_options.resource_map_set = false then .error .no_resource_map_type
  else if resource_options.retail = true ∧ resource_options.type = .RESOURCE_MAP_LOC then
    .error .retail_loc
  else
    let resource_options :=
      if resource_options.tags.length = 0 then { resource_options with tags := ["tags"] }
      else resource_options
    match build_resources fs layout compile_single_tag resource_options tags_list
        { resource_data := List.replicate sizeof_ResourceMapHeader 0 } with
    | .error e => .error e
    | .ok state => finish_resource_map resource_options.type output_opens state

/-- The NUL-terminated string at `path_offset` of a path table. -/
def read_c_string (resource_names_arr : List Nat) (path_offset : Nat) : List Nat :=
  (resource_names_arr.drop path_offset).takeWhile (fun byte => byte ≠ 0)

/-- The entries the loop over `tags_list` pushes, in order, from `state` on:
the same recursion as `build_resources`, collecting what `push_resource` is
called with. -/
def pushed_resources (fs : TagFileSystem) (layout : ResourceLayout)
    (compile_single_tag : String → TagClassInt → List String → Option SingleTagWorkload)
    (resource_options : ResourceOption) :
    List String → ResourceBuild → List Resource
  | [], _ => []
  | listed_tag :: rest, state =>
    let tag_path := fs.halo_path_to_preferred_path listed_tag
    let halo_tag_path := fs.preferred_path_to_halo_path listed_tag
    match open_listed_tag fs resource_options tag_path with
    | .error _ => []
    | .ok tag_class_int =>
      match compile_single_tag tag_path tag_class_int resource_options.tags with
      | none => []
      | some compiled_tag =>
        let resources := tag_resources layout resource_options.type resource_options.retail
          halo_tag_path state.resource_data.length compiled_tag
        resources ++ pushed_resources fs layout compile_single_tag resource_options rest
          (resources.foldl push_resource state)

/-- The `resource_options` of `main` after `tags` is defaulted to `"tags"`. -/
def default_tags (resource_options : ResourceOption) : ResourceOption :=
  if resource_options.tags.length = 0 then { resource_options with tags := ["tags"] }
  else resource_options

/-- A small layout for worked examples. A bitmap or sound tag holds a count at
0 and a pointer at 4; a bitmap data is 12 bytes: `pixel_data_size` at 0,
`pixel_data_offset` at 4, `flags` at 8 with `external` as bit 0; a pitch range
is 8 bytes: count at 0, pointer at 4; a permutation is 12 bytes:
`samples.size` at 0, `samples.external` at 4, `samples.file_offset` at 8.
`resolve_pointer` looks the field up among the pointers of the struct. -/
def small_layout : ResourceLayout where
  resolve_pointer := fun s offset =>
    (s.pointers.find? (fun p => p.offset = offset)).map (fun p => p.struct_index)
  Bitmap_bitmap_data_count := 0
  Bitmap_bitmap_data_pointer := 4
  sizeof_BitmapData := 12
  BitmapData_pixel_data_size := 0
  BitmapData_pixel_data_offset := 4
  BitmapData_flags := 8
  BitmapData_flags_external := 1
  sizeof_Sound := 8
  Sound_pitch_ranges_count := 0
  Sound_pitch_ranges_pointer := 4
  sizeof_SoundPitchRange := 8
  SoundPitchRange_permutations_count := 0
  SoundPitchRange_permutations_pointer := 4
  sizeof_SoundPermutation := 12
  SoundPermutation_samples_size := 0
  SoundPermutation_samples_external := 4
  SoundPermutation_samples_file_offset := 8

/-- A compiled bitmap tag for worked examples, over `small_layout`: one bitmap
data of 3 bytes. -/
def small_bitmap_tag : SingleTagWorkload :=
  { base_struct := 0,
    structs := [{ data := [1, 0, 0, 0, 0, 0, 0, 0],
                  pointers := [{ offset := 4, struct_index := 1 }] },
                { data := [3, 0, 0, 0, 0, 0, 0, 0, 0, 0, 0, 0] }],
    raw_data := [[5, 6, 7]] }

/-- A compiled sound tag for worked examples, over `small_layout`: one pitch
range with two permutations, of 2 bytes and 1 byte. -/
def small_sound_tag : SingleTagWorkload :=
  { base_struct := 0,
    structs := [{ data := [1, 0, 0, 0, 0, 0, 0, 0],
                  pointers := [{ offset := 4, struct_index := 1 }] },
                { data := [2, 0, 0, 0, 0, 0, 0, 0],
                  pointers := [{ offset := 4, struct_index := 2 }] },
                { data := [2, 0, 0, 0, 0, 0, 0, 0, 0, 0, 0, 0,
                           1, 0, 0, 0, 0, 0, 0, 0, 2, 0, 0, 0] }],
    raw_data := [[1, 2], [3]] }

/-- A compile function for worked examples: a sound tag compiles to
`small_sound_tag`, any other tag to `small_bitmap_tag`. -/
def small_compile_single_tag : String → TagClassInt → List String → Option SingleTagWorkload
  | _, .TAG_CLASS_SOUND, _ => some small_sound_tag
  | _, _, _ => some small_bitmap_tag

/-- A file system for worked examples: the tags directory `tags` holds the
fonts `a` and `b`, the bitmap `a` and the sound `a`. -/
def small_file_system : TagFileSystem :=
  list_file_system [("tags/a.font", none), ("tags/b.font", none), ("tags/a.bitmap", none),
    ("tags/a.sound", none)]

/-! ## Xbox pixel data -/

/-- The template `fix_power_of_two(BitmapData &data, bool fix)` of bitmap.cpp:
the bitmap data after the call and the value returned. -/
def fix_power_of_two (data : BitmapData) (fix : Bool) : BitmapData × Bool :=
  let should_be_power_of_two :=
    power_of_two data.width && power_of_two data.height && power_of_two data.width
  if data.flags.power_of_two_dimensions = true ∧ should_be_power_of_two = false then
    (if fix then { data with flags := { data.flags with power_of_two_dimensions := false } }
      else data, true)
  else if data.flags.power_of_two_dimensions = false ∧ should_be_power_of_two = true then
    (if fix then { data with flags := { data.flags with power_of_two_dimensions := true } }
      else data, true)
  else (data, false)

/-- One call of `std::memcpy` in `copy_texture`: the position written in
`xbox_to_pc_buffer`, the position read, counted from `bitmap_data_ptr` (it is
negative before the data), the number of bytes, and, when the bytes are those
`Swizzle::swizzle` returns for the input at that position, the bits per pixel
and the width, height and depth passed to it. -/
structure Memcpy where
  output : Nat
  input : Int
  size : Nat
  swizzle : Option (Nat × Nat × Nat × Nat) := none
  deriving DecidableEq, Repr

/-- The value `mipmap_width * mipmap_height * mipmap_depth * bits_per_pixel / 8`
on `std::size_t`. -/
def mipmap_size (mipmap_width mipmap_height mipmap_depth bits_per_pixel : Nat) : Nat :=
  (mipmap_width * mipmap_height * mipmap_depth * bits_per_pixel % size_t_modulus) / 8

/-- The loop `while((height >> real_mipmap_count) < 4 && (width >>
real_mipmap_count) < 4 && real_mipmap_count > 0) real_mipmap_count--`, by the
value of `real_mipmap_count`. `height` and `width` are of type `std::size_t`,
and C++ leaves a shift of a `std::size_t` by 64 or more undefined; the shift
instruction of the 64-bit program takes the count modulo 64, and so does the
shift here. -/
def real_mipmap_count_loop (height width : Nat) : Nat → Nat
  | 0 => 0
  | real_mipmap_count + 1 =>
    if height >>> ((real_mipmap_count + 1) % 64) < 4
        ∧ width >>> ((real_mipmap_count + 1) % 64) < 4 then
      real_mipmap_count_loop height width real_mipmap_count
    else real_mipmap_count + 1

/-- The variables of the loop "Copy this stuff" of `copy_texture`: `input` and
`output` are counted from `base_input` and from the start of
`xbox_to_pc_buffer`; `copies` are the calls of `std::memcpy` made. -/
structure CopyTextureLoop where
  input : Nat
  output : Nat
  mipmap_width : Nat
  mipmap_height : Nat
  mipmap_depth : Nat
  copies : List Memcpy := []
  deriving DecidableEq, Repr

/-- The loop `for(std::size_t m = 0; m <= real_mipmap_count; m++)` of
`copy_texture`, by the number of passes left. -/
def copy_texture_loop (swizzled : Bool) (bits_per_pixel size base_input minimum_dimension : Nat)
    (output_cubemap_face : Option Nat) :
    Nat → CopyTextureLoop → Except ScenarioException CopyTextureLoop
  | 0, state => .ok state
  | passes + 1, state =>
    let size_of_mipmap :=
      mipmap_size state.mipmap_width state.mipmap_height state.mipmap_depth bits_per_pixel
    if (state.input + size_of_mipmap) % size_t_modulus > size then
      .error .OutOfBoundsException
    else
      let copy : Memcpy :=
        { output := state.output, input := base_input + state.input, size := size_of_mipmap,
          swizzle :=
            if swizzled then
              some (bits_per_pixel, state.mipmap_width, state.mipmap_height, state.mipmap_depth)
            else none }
      let stride_count :=
        match output_cubemap_face with
        | some face => (6 + size_t_modulus - face) % size_t_modulus
        | none => 1
      let output := state.output + stride_count * size_of_mipmap % size_t_modulus
      let input := state.input + size_of_mipmap
      let mipmap_width := max (state.mipmap_width / 2) minimum_dimension
      let mipmap_height := max (state.mipmap_height / 2) minimum_dimension
      let mipmap_depth := max (state.mipmap_depth / 2) 1
      let output :=
        match output_cubemap_face with
        | some face =>
          output + face * mipmap_size mipmap_width mipmap_height mipmap_depth bits_per_pixel
            % size_t_modulus
        | none => output
      copy_texture_loop swizzled bits_per_pixel size base_input minimum_dimension
        output_cubemap_face passes
        { input := input, output := output, mipmap_width := mipmap_width,
          mipmap_height := mipmap_height, mipmap_depth := mipmap_depth,
          copies := state.copies ++ [copy] }

/-- The loop `for(std::size_t m = real_mipmap_count; m < bitmap_data.mipmap_count;
m++)` of `copy_texture`, by the number of passes left: each pass copies the
block at `input` to `output`. -/
def copy_missing_mipmaps (input : Int) (block_size stride_count : Nat) :
    Nat → Nat → List Memcpy
  | 0, _ => []
  | passes + 1, output =>
    { output := output, input := input, size := block_size }
      :: copy_missing_mipmaps input block_size stride_count passes
          (output + stride_count * block_size % size_t_modulus)

/-- The lambda `copy_texture` of `do_post_cache_parse` (decompile.cpp), over
the variables it captures: the calls of `std::memcpy` it makes, in order, and
the value it returns, or the exception it throws. `size` is the size of the
data at `bitmap_data_ptr`. -/
def copy_texture (bitmap_data : BitmapData) (swizzled compressed : Bool) (size : Nat)
    (input_offset output_cubemap_face : Option Nat) :
    Except ScenarioException (List Memcpy × Nat) :=
  let bits_per_pixel := calculate_bits_per_pixel bitmap_data.format
  let real_mipmap_count := bitmap_data.mipmap_count
  let height := bitmap_data.height
  let width := bitmap_data.width
  let depth := bitmap_data.depth
  let base_input := input_offset.getD 0
  let output :=
    match output_cubemap_face with
    | some face =>
      (height * width * depth * bits_per_pixel % size_t_modulus) / 8 * face % size_t_modulus
    | none => 0
  let height := if compressed = true ∧ height % 4 ≠ 0 then height + (4 - height % 4) else height
  let width := if compressed = true ∧ width % 4 ≠ 0 then width + (4 - width % 4) else width
  let real_mipmap_count :=
    if compressed then real_mipmap_count_loop height width real_mipmap_count
    else real_mipmap_count
  let minimum_dimension := if compressed then 4 else 1
  match copy_texture_loop swizzled bits_per_pixel size base_input minimum_dimension
      output_cubemap_face (real_mipmap_count + 1)
      { input := 0, output := output, mipmap_width := width, mipmap_height := height,
        mipmap_depth := depth } with
  | .error e => .error e
  | .ok state =>
    if compressed then
      let block_size :=
        (minimum_dimension * minimum_dimension * bits_per_pixel % size_t_modulus) / 8
      let input : Int := (state.input : Int) - (block_size : Int)
      let stride_count := if output_cubemap_face.isSome then 6 else 1
      .ok (state.copies ++ copy_missing_mipmaps (base_input + input) block_size stride_count
          (bitmap_data.mipmap_count - real_mipmap_count) state.output,
        ((input + (block_size : Int)) % (size_t_modulus : Int)).toNat)
    else .ok (state.copies, state.input)

/-- Modelled from the spec: the macro `REQUIRED_PADDING_N_BYTES`, which is
defined in a header. The spec has each slab "padded to a fixed granularity":
the number of bytes from `size` up to the next multiple of `n`. -/
def REQUIRED_PADDING_N_BYTES (size n : Nat) : Nat := (n - size % n) % n

/-- Modelled from the spec: the constant
`HEK::CacheFileXboxConstants::CACHE_FILE_XBOX_BITMAP_SIZE_GRANULARITY`, which
is declared in a header; the comments of decompile.cpp give 128 ("the size
will always be a multiple of 128"). -/
def CACHE_FILE_XBOX_BITMAP_SIZE_GRANULARITY : Nat := 128

/-- The loop `for(std::size_t i = 0; i < 6; i++)` of the lambda
`copy_cube_map`, by the number of passes left. -/
def copy_cube_map_loop (bitmap_data : BitmapData) (swizzled compressed : Bool) (size : Nat) :
    Nat → Nat → Nat → List Memcpy → Except ScenarioException (List Memcpy)
  | 0, _, _, copies => .ok copies
  | passes + 1, i, offset, copies =>
    let to_i := if i = 1 then 2 else if i = 2 then 1 else i
    match copy_texture bitmap_data swizzled compressed size (some offset) (some to_i) with
    | .error e => .error e
    | .ok (made, consumed) =>
      let offset := (offset + consumed) % size_t_modulus
      let offset := (offset
        + REQUIRED_PADDING_N_BYTES offset CACHE_FILE_XBOX_BITMAP_SIZE_GRANULARITY) % size_t_modulus
      copy_cube_map_loop bitmap_data swizzled compressed size passes (i + 1) offset
        (copies ++ made)

/-- The lambda `copy_cube_map` of `do_post_cache_parse`: the calls of
`std::memcpy` made, in order, or the exception thrown. -/
def copy_cube_map (bitmap_data : BitmapData) (swizzled compressed : Bool) (size : Nat) :
    Except ScenarioException (List Memcpy) :=
  copy_cube_map_loop bitmap_data swizzled compressed size 6 0 0 []

/-! ## Checks of `Scenario::pre_compile` -/

/-- The body of the loop `for(auto &p : c.participants)` under "Next, let's
make sure "set new name" is used", over the participants of one conversation.
`name_used` holds, for every object name, the pairs of type string and spawn
index recorded so far; `emplace_back()` pushes an empty pair. `none` stands
for an access `name_used[new_name]` outside the vector. -/
def set_new_name_participants (name_count : Nat) :
    List ScenarioAIConversationParticipant → List (List (String × Nat)) →
      Option (List (List (String × Nat)))
  | [], name_used => some name_used
  | p :: rest, name_used =>
    let new_name := p.set_new_name
    if new_name > name_count ∨ new_name = NULL_INDEX then
      set_new_name_participants name_count rest name_used
    else
      match name_used.get? new_name with
      | none => none
      | some used =>
        set_new_name_participants name_count rest
          (if used.length = 0 then name_used.set new_name (used ++ [("", 0)]) else name_used)

/-- The loop `for(auto &c : this->ai_conversations)` of `Scenario::pre_compile`. -/
def set_new_name_conversations (name_count : Nat) :
    List ScenarioAIConversation → List (List (String × Nat)) →
      Option (List (List (String × Nat)))
  | [], name_used => some name_used
  | c :: rest, name_used =>
    match set_new_name_participants name_count c.participants name_used with
    | none => none
    | some name_used => set_new_name_conversations name_count rest name_used

/-- The statements of `Scenario::pre_compile` from `name_count` to the end of
the loop over the AI conversations, given the entries `name_used` that the
nine `CHECK_PALETTE_AND_SPAWNS` blocks have recorded in the vector of
`name_count` elements. -/
def check_set_new_name (scenario : Scenario) (name_used : List (List (String × Nat))) :
    Option (List (List (String × Nat))) :=
  let name_count := scenario.object_names.length
  set_new_name_conversations name_count scenario.ai_conversations name_used

/-- The loop `for(std::uint16_t i = 0; i < element_count; i++)` over the script
nodes of `Scenario::pre_compile`, by the number of passes left. `nodes[i]` are
the `node_size` bytes at `header_size + i * node_size` of `syntax_data`;
`body` stands for the statements of the loop body on that node: it gives the
node as they leave it, the state the loop carries, and `false` when they
leave the loop with `break`. `none` stands for a node outside `syntax_data`. -/
def script_node_loop {σ : Type} (layout : ScriptNodeTableLayout)
    (body : Nat → List Nat → σ → List Nat × σ × Bool) :
    Nat → Nat → List Nat → σ → Option (List Nat × σ)
  | 0, _, syntax_data, state => some (syntax_data, state)
  | passes + 1, i, syntax_data, state =>
    let position := layout.header_size + i * layout.node_size
    if position + layout.node_size > syntax_data.length then none
    else
      let result := body i ((syntax_data.drop position).take layout.node_size) state
      let syntax_data := store syntax_data position result.1
      if result.2.2 then script_node_loop layout body passes (i + 1) syntax_data result.2.1
      else some (syntax_data, result.2.1)

/-- The statements "Let's start on the script data" of `Scenario::pre_compile`
up to the end of the loop over the nodes: `element_count` is the field `size`
of the table header, which is little endian by then. -/
def rewrite_script_nodes {σ : Type} (layout : ScriptNodeTableLayout)
    (body : Nat → List Nat → σ → List Nat × σ × Bool) (syntax_data : List Nat) (state : σ) :
    Option (List Nat × σ) :=
  let element_count := read_u16_le syntax_data layout.size_offset
  script_node_loop layout body element_count 0 syntax_data state

/-- A small table layout for worked examples: a header of 6 bytes with
`maximum_count` at 0, `element_size` at 2 and `size` at 4, nodes of 2 bytes,
and conversions that swap the two bytes of every 16-bit field. -/
def small_table_layout : ScriptNodeTableLayout where
  header_size := 6
  node_size := 2
  maximum_count_offset := 0
  element_size_offset := 2
  to_little_header := fun header =>
    [header.getD 1 0, header.getD 0 0, header.getD 3 0, header.getD 2 0,
     header.getD 5 0, header.getD 4 0]
  to_little_node := fun node => [node.getD 1 0, node.getD 0 0]
  default_table := [32, 0, 2, 0, 0, 0] ++ List.replicate 64 202
  size_offset := 4

/-! ## Theorems -/

/-! ### Bitmap sizes -/

theorem next_extent_eq_max (c : Bool) (x : Nat) :
    next_extent c x = max (x / 2) (if c then 4 else 1) := by
  unfold next_extent
  cases c <;> simp <;> split_ifs <;> omega

theorem next_depth_eq_max (x : Nat) : next_depth x = max (x / 2) 1 := by
  unfold next_depth
  simp only []
  split_ifs <;> omega

theorem mip_dimension_shift (b x : Nat) (i : Nat) :
    mip_dimension b (max (x / 2) b) i = mip_dimension b x (i + 1) := by
  induction i with
  | zero => rfl
  | succ i ih =>
    show max (mip_dimension b (max (x / 2) b) i / 2) b = max (mip_dimension b x (i + 1) / 2) b
    rw [ih]

theorem mip_dimension_le (b x : Nat) (i : Nat) :
    mip_dimension b x i ≤ max (x / 2 ^ i) b := by
  induction i with
  | zero => simp [mip_dimension]
  | succ i ih =>
    show max (mip_dimension b x i / 2) b ≤ max (x / 2 ^ (i + 1)) b
    have h1 : x / 2 ^ (i + 1) = x / 2 ^ i / 2 := by
      rw [pow_succ, Nat.div_div_eq_div_mul]
    rw [h1]
    have h2 : mip_dimension b x i / 2 ≤ max (x / 2 ^ i) b / 2 := Nat.div_le_div_right ih
    rcases le_total (x / 2 ^ i) b with h | h
    · rw [max_eq_right h] at h2
      have : mip_dimension b x i / 2 ≤ b := le_trans h2 (Nat.div_le_self _ _)
      exact max_le (le_trans this (le_max_right _ _)) (le_max_right _ _)
    · rw [max_eq_left h] at h2
      exact max_le (le_trans h2 (le_max_left _ _)) (le_max_right _ _)

theorem mip_dimension_le_field (b x i : Nat) (hb : b ≤ 4) (hx : x < uint16_modulus) :
    mip_dimension b x i ≤ 65535 := by
  have h := mip_dimension_le b x i
  have h2 : x / 2 ^ i ≤ x := Nat.div_le_self _ _
  unfold uint16_modulus at hx
  have : max (x / 2 ^ i) b ≤ 65535 := max_le (by omega) (by omega)
  omega

theorem mip_dimension_le_block (b x i : Nat) (hx : x < uint16_modulus) (hi : 16 ≤ i) :
    mip_dimension b x i ≤ b := by
  have h := mip_dimension_le b x i
  have h2 : x / 2 ^ i = 0 := by
    apply Nat.div_eq_of_lt
    have : (2 : Nat) ^ 16 ≤ 2 ^ i := Nat.pow_le_pow_right (by norm_num) hi
    unfold uint16_modulus at hx
    omega
  rw [h2] at h
  simpa using h

theorem size_of_bitmap_loop_eq_decompile (c : Bool) (m bpp : Nat) (n size w h d : Nat) :
    size_of_bitmap_loop c m bpp n size w h d
      = size_of_bitmap_loop_decompile (if c then 4 else 1) m bpp n size w h d := by
  induction n generalizing size w h d with
  | zero => rfl
  | succ n ih =>
    simp only [size_of_bitmap_loop, size_of_bitmap_loop_decompile]
    rw [ih, next_extent_eq_max, next_extent_eq_max, next_depth_eq_max]

theorem size_of_bitmap_loop_decompile_eq_sum (b m bpp : Nat) (n size w h d : Nat)
    (hsize : size < size_t_modulus) :
    size_of_bitmap_loop_decompile b m bpp n size w h d
      = (size + ∑ i in Finset.range n,
          level_size (mip_dimension b w i) (mip_dimension b h i) (mip_dimension 1 d i) m bpp)
        % size_t_modulus := by
  induction n generalizing size w h d with
  | zero => simp [size_of_bitmap_loop_decompile, Nat.mod_eq_of_lt hsize]
  | succ n ih =>
    simp only [size_of_bitmap_loop_decompile]
    rw [ih _ _ _ _ (Nat.mod_lt _ (by unfold size_t_modulus; norm_num))]
    rw [Finset.sum_range_succ' _ n]
    simp only [mip_dimension_shift, Nat.mod_add_mod]
    congr 1
    simp only [mip_dimension]
    omega

theorem level_size_eq_div (w h d m bpp : Nat) (hw : w ≤ 65535) (hh : h ≤ 65535)
    (hd : d ≤ 65535) (hm : m ≤ 6) (hb : bpp ≤ 32) :
    level_size w h d m bpp = w * h * d * m * bpp / 8 := by
  unfold level_size
  have h1 : w * h * d * m * bpp ≤ 65535 * 65535 * 65535 * 6 * 32 :=
    Nat.mul_le_mul (Nat.mul_le_mul (Nat.mul_le_mul (Nat.mul_le_mul hw hh) hd) hm) hb
  rw [Nat.mod_eq_of_lt]
  unfold size_t_modulus
  omega

theorem level_size_le (w h d m bpp W H D : Nat) (hw : w ≤ W) (hh : h ≤ H)
    (hd : d ≤ D) (hm : m ≤ 6) (hb : bpp ≤ 32) :
    w * h * d * m * bpp / 8 ≤ W * H * D * 6 * 32 / 8 :=
  Nat.div_le_div_right
    (Nat.mul_le_mul (Nat.mul_le_mul (Nat.mul_le_mul (Nat.mul_le_mul hw hh) hd) hm) hb)

theorem sum_range_le_split (f : Nat → Nat) (B C : Nat) (hB : ∀ i, i < 16 → f i ≤ B)
    (hC : ∀ i, 16 ≤ i → f i ≤ C) (n : Nat) :
    ∑ i in Finset.range n, f i ≤ 16 * B + n * C := by
  induction n with
  | zero => simp
  | succ n ih =>
    rw [Finset.sum_range_succ]
    rcases Nat.lt_or_ge n 16 with h | h
    · have hle : ∑ i in Finset.range n, f i ≤ n * B := by
        have := Finset.sum_le_card_nsmul (Finset.range n) f B
          (fun i hi => hB i (lt_trans (Finset.mem_range.mp hi) h))
        simpa using this
      have h1 := hB n h
      have h2 : (n + 1) * B ≤ 16 * B := Nat.mul_le_mul_right B h
      nlinarith
    · have h1 := hC n h
      nlinarith

theorem size_of_bitmap_loop_decompile_total (b m bpp n w h d : Nat) (hb : b ≤ 4)
    (hm : m ≤ 6) (hbpp : bpp ≤ 32) (hw : w < uint16_modulus) (hh : h < uint16_modulus)
    (hd : d < uint16_modulus) (hn : n ≤ uint16_modulus) :
    size_of_bitmap_loop_decompile b m bpp n 0 w h d
      = ∑ i in Finset.range n,
          mip_dimension b w i * mip_dimension b h i * mip_dimension 1 d i * m * bpp / 8 := by
  rw [size_of_bitmap_loop_decompile_eq_sum _ _ _ _ _ _ _ _ (by unfold size_t_modulus; norm_num)]
  have hcongr : ∑ i in Finset.range n,
      level_size (mip_dimension b w i) (mip_dimension b h i) (mip_dimension 1 d i) m bpp
      = ∑ i in Finset.range n,
          mip_dimension b w i * mip_dimension b h i * mip_dimension 1 d i * m * bpp / 8 := by
    apply Finset.sum_congr rfl
    intro i _
    exact level_size_eq_div _ _ _ _ _ (mip_dimension_le_field b w i hb hw)
      (mip_dimension_le_field b h i hb hh) (mip_dimension_le_field 1 d i (by norm_num) hd) hm hbpp
  rw [hcongr, Nat.zero_add]
  apply Nat.mod_eq_of_lt
  have hbound := sum_range_le_split
    (fun i => mip_dimension b w i * mip_dimension b h i * mip_dimension 1 d i * m * bpp / 8)
    (65535 * 65535 * 65535 * 6 * 32 / 8) (4 * 4 * 1 * 6 * 32 / 8)
    (fun i _ => level_size_le _ _ _ _ _ _ _ _ (mip_dimension_le_field b w i hb hw)
      (mip_dimension_le_field b h i hb hh) (mip_dimension_le_field 1 d i (by norm_num) hd) hm hbpp)
    (fun i hi => level_size_le _ _ _ _ _ _ _ _
      (le_trans (mip_dimension_le_block b w i hw hi) hb)
      (le_trans (mip_dimension_le_block b h i hh hi) hb)
      (mip_dimension_le_block 1 d i hd hi) hm hbpp) n
  unfold uint16_modulus at hn
  unfold size_t_modulus
  norm_num at hbound ⊢
  omega

theorem bits_per_pixel_of_format_some (f : BitmapDataFormat) (bpp : Nat)
    (h : bits_per_pixel_of_format f = some bpp) :
    bpp ≤ 32 ∧ bpp ≠ 0 ∧ calculate_bits_per_pixel f = bpp := by
  cases f <;> simp [bits_per_pixel_of_format] at h <;> subst h <;>
    simp [calculate_bits_per_pixel]

theorem face_multiplier_le (t : BitmapDataType) : face_multiplier t ≤ 6 := by
  unfold face_multiplier; split_ifs <;> omega

/-- C1: for a bitmap data whose fields fit their 16 bits, both versions of
`size_of_bitmap` return the sum over the levels `0 .. mipmap_count` of
`floor (w_i * h_i * d_i * m * bpp / 8)` for a format the switch names (and fail
otherwise), the bits per pixel being 32, 16, 8 or 4 as the table says; a
128x128x1 DXT1 2D bitmap with no mipmaps has size 8192. -/
theorem size_of_bitmap_eq_mip_chain_size (data : BitmapData) (hfit : data.fits_fields) :
    (size_of_bitmap data
        = (bits_per_pixel_of_format data.format).map (fun bpp =>
            mip_chain_size bpp data.width data.height data.depth data.mipmap_count
              (decide (data.type = .BITMAP_DATA_TYPE_CUBE_MAP)) data.flags.compressed))
    ∧ (size_of_bitmap_decompile calculate_bits_per_pixel data = size_of_bitmap data)
    ∧ (bits_per_pixel_of_format .BITMAP_DATA_FORMAT_A8R8G8B8 = some 32
      ∧ bits_per_pixel_of_format .BITMAP_DATA_FORMAT_X8R8G8B8 = some 32
      ∧ bits_per_pixel_of_format .BITMAP_DATA_FORMAT_R5G6B5 = some 16
      ∧ bits_per_pixel_of_format .BITMAP_DATA_FORMAT_A1R5G5B5 = some 16
      ∧ bits_per_pixel_of_format .BITMAP_DATA_FORMAT_A4R4G4B4 = some 16
      ∧ bits_per_pixel_of_format .BITMAP_DATA_FORMAT_A8Y8 = some 16
      ∧ bits_per_pixel_of_format .BITMAP_DATA_FORMAT_P8_BUMP = some 8
      ∧ bits_per_pixel_of_format .BITMAP_DATA_FORMAT_A8 = some 8
      ∧ bits_per_pixel_of_format .BITMAP_DATA_FORMAT_AY8 = some 8
      ∧ bits_per_pixel_of_format .BITMAP_DATA_FORMAT_Y8 = some 8
      ∧ bits_per_pixel_of_format .BITMAP_DATA_FORMAT_DXT3 = some 8
      ∧ bits_per_pixel_of_format .BITMAP_DATA_FORMAT_DXT5 = some 8
      ∧ bits_per_pixel_of_format .BITMAP_DATA_FORMAT_DXT1 = some 4)
    ∧ (∀ flags : BitmapDataFlags,
        size_of_bitmap
          { width := 128, height := 128, depth := 1, type := .BITMAP_DATA_TYPE_2D_TEXTURE,
            format := .BITMAP_DATA_FORMAT_DXT1, flags := flags, mipmap_count := 0 }
          = some 8192) := by
  obtain ⟨hw, hh, hd, hn⟩ := hfit
  have hmain : size_of_bitmap data
        = (bits_per_pixel_of_format data.format).map (fun bpp =>
            mip_chain_size bpp data.width data.height data.depth data.mipmap_count
              (decide (data.type = .BITMAP_DATA_TYPE_CUBE_MAP)) data.flags.compressed) := by
    unfold size_of_bitmap
    cases hf : bits_per_pixel_of_format data.format with
    | none => rfl
    | some bpp =>
      obtain ⟨hbpp, _, _⟩ := bits_per_pixel_of_format_some _ _ hf
      simp only [Option.map_some']
      rw [size_of_bitmap_loop_eq_decompile,
        size_of_bitmap_loop_decompile_total _ _ _ _ _ _ _ (by split_ifs <;> omega)
          (face_multiplier_le _) hbpp hw hh hd (by omega)]
      simp [mip_chain_size, face_multiplier]
  refine ⟨hmain, ?_, by simp [bits_per_pixel_of_format], ?_⟩
  · unfold size_of_bitmap size_of_bitmap_decompile
    cases hf : bits_per_pixel_of_format data.format with
    | none =>
      cases hfm : data.format <;> simp [hfm, bits_per_pixel_of_format] at hf
      simp [calculate_bits_per_pixel]
    | some bpp =>
      obtain ⟨_, hne, hcalc⟩ := bits_per_pixel_of_format_some _ _ hf
      simp only [hcalc, hne, if_false]
      rw [size_of_bitmap_loop_eq_decompile]
  · intro flags
    simp [size_of_bitmap, bits_per_pixel_of_format, size_of_bitmap_loop, level_size,
      face_multiplier, size_t_modulus]

/-- Witness for C1: a 64x32x1 compressed DXT5 cube map with 3 mipmaps. -/
theorem size_of_bitmap_eq_mip_chain_size_witness :
    size_of_bitmap
        { width := 64, height := 32, depth := 1, type := .BITMAP_DATA_TYPE_CUBE_MAP,
          format := .BITMAP_DATA_FORMAT_DXT5, flags := { compressed := true },
          mipmap_count := 3 }
      = (some 8 : Option Nat).map (fun bpp => mip_chain_size bpp 64 32 1 3 true true) :=
  (size_of_bitmap_eq_mip_chain_size
    { width := 64, height := 32, depth := 1, type := .BITMAP_DATA_TYPE_CUBE_MAP,
      format := .BITMAP_DATA_FORMAT_DXT5, flags := { compressed := true },
      mipmap_count := 3 }
    (by unfold BitmapData.fits_fields uint16_modulus; norm_num)).1

theorem next_extent_bounds (c : Bool) (x : Nat) :
    1 ≤ next_extent c x ∧ (c = true → 4 ≤ next_extent c x)
      ∧ (x ≤ 65535 → next_extent c x ≤ 65535)
      ∧ (1 ≤ x → (c = true → 4 ≤ x) → next_extent c x ≤ x) := by
  rw [next_extent_eq_max]
  cases c <;> simp <;> omega

theorem next_depth_bounds (x : Nat) :
    1 ≤ next_depth x ∧ (x ≤ 65535 → next_depth x ≤ 65535) ∧ (1 ≤ x → next_depth x ≤ x) := by
  rw [next_depth_eq_max]
  refine ⟨le_max_right _ _, fun h => max_le (by omega) (by omega), fun h => max_le (by omega) h⟩

theorem dimensions_at_le_field (data : BitmapData) (hfit : data.fits_fields) (i : Nat) :
    (dimensions_at data i).1 ≤ 65535 ∧ (dimensions_at data i).2.1 ≤ 65535
      ∧ (dimensions_at data i).2.2 ≤ 65535 := by
  obtain ⟨hw, hh, hd, _⟩ := hfit
  unfold uint16_modulus at hw hh hd
  induction i with
  | zero => exact ⟨by simp only [dimensions_at]; omega, by simp only [dimensions_at]; omega,
      by simp only [dimensions_at]; omega⟩
  | succ i ih =>
    obtain ⟨h1, h2, h3⟩ := ih
    exact ⟨(next_extent_bounds _ _).2.2.1 h1, (next_extent_bounds _ _).2.2.1 h2,
      (next_depth_bounds _).2.1 h3⟩

theorem dimensions_at_succ_lower (data : BitmapData) (i : Nat) :
    1 ≤ (dimensions_at data (i + 1)).1 ∧ 1 ≤ (dimensions_at data (i + 1)).2.1
      ∧ 1 ≤ (dimensions_at data (i + 1)).2.2
      ∧ (data.flags.compressed = true →
          4 ≤ (dimensions_at data (i + 1)).1 ∧ 4 ≤ (dimensions_at data (i + 1)).2.1) :=
  ⟨(next_extent_bounds _ _).1, (next_extent_bounds _ _).1, (next_depth_bounds _).1,
    fun hc => ⟨(next_extent_bounds _ _).2.1 hc, (next_extent_bounds _ _).2.1 hc⟩⟩

/-- The loop of `size_of_bitmap` adds up the amounts `level_size_at`. -/
theorem size_of_bitmap_loop_eq_sum_level_size_at (data : BitmapData) (bpp n k size : Nat)
    (hsize : size < size_t_modulus) :
    size_of_bitmap_loop data.flags.compressed (face_multiplier data.type) bpp n size
        (dimensions_at data k).1 (dimensions_at data k).2.1 (dimensions_at data k).2.2
      = (size + ∑ i in Finset.range n, level_size_at data bpp (k + i)) % size_t_modulus := by
  induction n generalizing size k with
  | zero => simp [size_of_bitmap_loop, Nat.mod_eq_of_lt hsize]
  | succ n ih =>
    simp only [size_of_bitmap_loop]
    have hstep := ih (k + 1)
      ((size + level_size (dimensions_at data k).1 (dimensions_at data k).2.1
        (dimensions_at data k).2.2 (face_multiplier data.type) bpp) % size_t_modulus)
      (Nat.mod_lt _ (by unfold size_t_modulus; norm_num))
    simp only [dimensions_at] at hstep
    rw [hstep, Finset.sum_range_succ' _ n, Nat.mod_add_mod]
    congr 1
    have : ∀ i, k + 1 + i = k + (i + 1) := fun i => by omega
    simp only [this, level_size_at, Nat.add_zero]
    omega

/-- C2 (as stated) fails: a compressed 2x2x1 DXT1 bitmap with one mipmap adds
2 bytes for level 0 and 8 bytes for level 1. -/
theorem level_size_not_monotone :
    size_of_bitmap
        { width := 2, height := 2, depth := 1, type := .BITMAP_DATA_TYPE_2D_TEXTURE,
          format := .BITMAP_DATA_FORMAT_DXT1, flags := { compressed := true },
          mipmap_count := 0 } = some 2
    ∧ size_of_bitmap
        { width := 2, height := 2, depth := 1, type := .BITMAP_DATA_TYPE_2D_TEXTURE,
          format := .BITMAP_DATA_FORMAT_DXT1, flags := { compressed := true },
          mipmap_count := 1 } = some (2 + 8)
    ∧ ¬ (∀ (data : BitmapData) (bpp i : Nat), data.fits_fields →
          bits_per_pixel_of_format data.format = some bpp → i < data.mipmap_count →
          level_size_at data bpp (i + 1) ≤ level_size_at data bpp i) := by
  refine ⟨?_, ?_, ?_⟩
  · simp [size_of_bitmap, bits_per_pixel_of_format, size_of_bitmap_loop, level_size,
      face_multiplier, size_t_modulus]
  · simp [size_of_bitmap, bits_per_pixel_of_format, size_of_bitmap_loop, level_size,
      face_multiplier, size_t_modulus, next_extent, next_depth]
  · intro h
    have h0 := h
      { width := 2, height := 2, depth := 1, type := .BITMAP_DATA_TYPE_2D_TEXTURE,
        format := .BITMAP_DATA_FORMAT_DXT1, flags := { compressed := true },
        mipmap_count := 1 } 4 0
      (by unfold BitmapData.fits_fields uint16_modulus; norm_num) rfl (by norm_num)
    simp [level_size_at, dimensions_at, level_size, face_multiplier, size_t_modulus,
      next_extent, next_depth] at h0

/-- C2 (amended): the amount added for level `i + 1` is at most the amount
added for level `i` from level 1 on, and also at level 0 when the declared
dimensions are at least 1 and, for a compressed bitmap, the declared width and
height are at least 4. -/
theorem level_size_at_antitone (data : BitmapData) (bpp i : Nat) (hfit : data.fits_fields)
    (hfmt : bits_per_pixel_of_format data.format = some bpp)
    (hi : 1 ≤ i ∨ (1 ≤ data.width ∧ 1 ≤ data.height ∧ 1 ≤ data.depth
      ∧ (data.flags.compressed = true → 4 ≤ data.width ∧ 4 ≤ data.height))) :
    level_size_at data bpp (i + 1) ≤ level_size_at data bpp i := by
  obtain ⟨hbpp, _, _⟩ := bits_per_pixel_of_format_some _ _ hfmt
  have hlow : 1 ≤ (dimensions_at data i).1 ∧ 1 ≤ (dimensions_at data i).2.1
      ∧ 1 ≤ (dimensions_at data i).2.2
      ∧ (data.flags.compressed = true →
          4 ≤ (dimensions_at data i).1 ∧ 4 ≤ (dimensions_at data i).2.1) := by
    rcases hi with hi | hi
    · obtain ⟨j, rfl⟩ : ∃ j, i = j + 1 := ⟨i - 1, by omega⟩
      exact dimensions_at_succ_lower data j
    · cases i with
      | zero => exact hi
      | succ j => exact dimensions_at_succ_lower data j
  obtain ⟨l1, l2, l3, l4⟩ := hlow
  obtain ⟨u1, u2, u3⟩ := dimensions_at_le_field data hfit i
  obtain ⟨v1, v2, v3⟩ := dimensions_at_le_field data hfit (i + 1)
  unfold level_size_at
  simp only []
  rw [level_size_eq_div _ _ _ _ _ v1 v2 v3 (face_multiplier_le _) hbpp,
    level_size_eq_div _ _ _ _ _ u1 u2 u3 (face_multiplier_le _) hbpp]
  apply Nat.div_le_div_right
  have e1 : (dimensions_at data (i + 1)).1 ≤ (dimensions_at data i).1 :=
    (next_extent_bounds _ _).2.2.2 l1 (fun hc => (l4 hc).1)
  have e2 : (dimensions_at data (i + 1)).2.1 ≤ (dimensions_at data i).2.1 :=
    (next_extent_bounds _ _).2.2.2 l2 (fun hc => (l4 hc).2)
  have e3 : (dimensions_at data (i + 1)).2.2 ≤ (dimensions_at data i).2.2 :=
    (next_depth_bounds _).2.2 l3
  exact Nat.mul_le_mul (Nat.mul_le_mul (Nat.mul_le_mul (Nat.mul_le_mul e1 e2) e3) le_rfl) le_rfl

/-- Witness for C2 (amended): an uncompressed 8x8x1 A8R8G8B8 bitmap at level 0. -/
theorem level_size_at_antitone_witness :
    level_size_at
        { width := 8, height := 8, depth := 1, type := .BITMAP_DATA_TYPE_2D_TEXTURE,
          format := .BITMAP_DATA_FORMAT_A8R8G8B8, flags := {}, mipmap_count := 3 } 32 (0 + 1)
      ≤ level_size_at
        { width := 8, height := 8, depth := 1, type := .BITMAP_DATA_TYPE_2D_TEXTURE,
          format := .BITMAP_DATA_FORMAT_A8R8G8B8, flags := {}, mipmap_count := 3 } 32 0 :=
  level_size_at_antitone _ 32 0
    (by unfold BitmapData.fits_fields uint16_modulus; norm_num) rfl
    (Or.inr ⟨by norm_num, by norm_num, by norm_num, by intro h; cases h⟩)

/-- C3: for a format outside the thirteen named ones both versions of
`size_of_bitmap` fail, whatever the other fields are; no size is returned. -/
theorem size_of_bitmap_unknown_format (raw width height depth mipmap_count : Nat)
    (type : BitmapDataType) (flags : BitmapDataFlags) :
    size_of_bitmap
        { width := width, height := height, depth := depth, type := type,
          format := .other raw, flags := flags, mipmap_count := mipmap_count } = none
    ∧ size_of_bitmap_decompile calculate_bits_per_pixel
        { width := width, height := height, depth := depth, type := type,
          format := .other raw, flags := flags, mipmap_count := mipmap_count } = none
    ∧ ∀ data : BitmapData, (size_of_bitmap data).isSome
        → ∃ bpp, bits_per_pixel_of_format data.format = some bpp ∧ ∀ raw, data.format ≠ .other raw := by
  refine ⟨rfl, rfl, ?_⟩
  intro data h
  unfold size_of_bitmap at h
  cases hf : bits_per_pixel_of_format data.format with
  | none => simp [hf] at h
  | some bpp =>
    refine ⟨bpp, rfl, ?_⟩
    intro raw hraw
    rw [hraw] at hf
    simp [bits_per_pixel_of_format] at hf

/-! ### Dependency search -/

/-- C4 (failing input): a root tag that declares the dependency `p.model`
twice, with `p.gbxmodel` on disk. The duplicate check compares the stored
class (already `gbxmodel`) with the declared class (`model`), so the second
declaration is added again: the list has two entries `(p, gbxmodel)`. -/
theorem find_dependencies_model_duplicate :
    find_dependencies
        (list_file_system
          [("tags/root.scenario", some [⟨"p", .TAG_CLASS_MODEL⟩, ⟨"p", .TAG_CLASS_MODEL⟩]),
           ("tags/p.gbxmodel", some [])])
        (fun _ => .nil) 1 "root" TagClassInt.TAG_CLASS_SCENARIO ["tags"] false false
      = some ([⟨"p", .TAG_CLASS_GBXMODEL, false, "tags/p.gbxmodel"⟩,
               ⟨"p", .TAG_CLASS_GBXMODEL, false, "tags/p.gbxmodel"⟩], true)
    ∧ ¬ (∀ (fs : TagFileSystem) (fuel : Nat) (root : String) (root_class : TagClassInt)
          (tags : List String) (recursive : Bool) (found : List FoundTagDependency)
          (success : Bool),
          find_dependencies fs (fun _ => .nil) fuel root root_class tags false recursive
              = some (found, success) →
          (found.map (fun f => (f.path, f.class_int))).Nodup) := by
  have heval : find_dependencies
        (list_file_system
          [("tags/root.scenario", some [⟨"p", .TAG_CLASS_MODEL⟩, ⟨"p", .TAG_CLASS_MODEL⟩]),
           ("tags/p.gbxmodel", some [])])
        (fun _ => .nil) 1 "root" TagClassInt.TAG_CLASS_SCENARIO ["tags"] false false
      = some ([⟨"p", .TAG_CLASS_GBXMODEL, false, "tags/p.gbxmodel"⟩,
               ⟨"p", .TAG_CLASS_GBXMODEL, false, "tags/p.gbxmodel"⟩], true) := by
    decide
  refine ⟨heval, ?_⟩
  intro h
  have hnodup := h _ _ _ _ _ _ _ _ heval
  simp at hnodup

/-- C5 (failing input): a root tag whose file opens but cannot be parsed. The
lambda leaves `success = false`, and `find_dependencies` then overwrites it:
the call returns `success = true`. -/
theorem find_dependencies_parse_failure_success :
    find_dependencies_in_tag (list_file_system [("tags/root.scenario", none)]) ["tags"] true
        1 "root" TagClassInt.TAG_CLASS_SCENARIO { found_tags := [], success := true }
      = some { found_tags := [], success := false }
    ∧ find_dependencies (list_file_system [("tags/root.scenario", none)])
        (fun _ => .nil) 1 "root" TagClassInt.TAG_CLASS_SCENARIO ["tags"] false true
      = some ([], true)
    ∧ ∀ (fs : TagFileSystem) (listing : String → DirectoryListing) (fuel : Nat) (root : String)
        (root_class : TagClassInt) (tags : List String) (reverse recursive : Bool),
        (find_dependencies fs listing fuel root root_class tags reverse recursive).map Prod.snd
          ≠ some false := by
  refine ⟨by decide, by decide, ?_⟩
  intro fs listing fuel root root_class tags reverse recursive
  unfold find_dependencies
  cases reverse
  · simp only [Bool.not_false, if_true]
    cases find_dependencies_in_tag fs tags recursive fuel root root_class
      { found_tags := [], success := true } <;> simp
  · simp

/-- C6 (failing input): search directories `a` and `b`; `a` holds `x.scenario`,
`b` holds `x.scenario` and then `y.scenario`, and all three depend on the
target `t.bitmap`. In `b` the already-found `x` ends the loop over the
directory, so `y` is never visited: the result holds `x` only. Searching `b`
alone returns both. -/
theorem find_dependencies_reverse_skips_rest :
    find_dependencies
        (list_file_system
          [("a/x.scenario", some [⟨"t", .TAG_CLASS_BITMAP⟩]),
           ("b/x.scenario", some [⟨"t", .TAG_CLASS_BITMAP⟩]),
           ("b/y.scenario", some [⟨"t", .TAG_CLASS_BITMAP⟩])])
        (fun d =>
          if d = "a" then .cons (.regular_file "x" ".scenario" "a/x.scenario") .nil
          else .cons (.regular_file "x" ".scenario" "b/x.scenario")
            (.cons (.regular_file "y" ".scenario" "b/y.scenario") .nil))
        0 "t" .TAG_CLASS_BITMAP ["a", "b"] true false
      = some ([⟨"x", TagClassInt.TAG_CLASS_SCENARIO, false, "a/x.scenario"⟩], true)
    ∧ find_dependencies
        (list_file_system
          [("a/x.scenario", some [⟨"t", .TAG_CLASS_BITMAP⟩]),
           ("b/x.scenario", some [⟨"t", .TAG_CLASS_BITMAP⟩]),
           ("b/y.scenario", some [⟨"t", .TAG_CLASS_BITMAP⟩])])
        (fun d =>
          if d = "a" then .cons (.regular_file "x" ".scenario" "a/x.scenario") .nil
          else .cons (.regular_file "x" ".scenario" "b/x.scenario")
            (.cons (.regular_file "y" ".scenario" "b/y.scenario") .nil))
        0 "t" .TAG_CLASS_BITMAP ["b"] true false
      = some ([⟨"x", TagClassInt.TAG_CLASS_SCENARIO, false, "b/x.scenario"⟩,
               ⟨"y", TagClassInt.TAG_CLASS_SCENARIO, false, "b/y.scenario"⟩], true) := by
  constructor <;> decide

/-- C7: the reverse search over no search directory returns the empty list
and `success = true`, for every target path and class. -/
theorem find_dependencies_reverse_no_directories (fs : TagFileSystem)
    (listing : String → DirectoryListing) (fuel : Nat) (tag_path_to_find_2 : String)
    (tag_int_to_find : TagClassInt) (recursive : Bool) :
    find_dependencies fs listing fuel tag_path_to_find_2 tag_int_to_find [] true recursive
      = some ([], true) := by
  rfl

/-! ### Scenario merging -/

theorem except_bind_eq_ok {ε α β : Type} (x : Except ε α) (f : α → Except ε β) (b : β) :
    (x >>= f) = .ok b ↔ ∃ a, x = .ok a ∧ f a = .ok b := by
  cases x with
  | error e => simp [bind, Except.bind]
  | ok a => simp [bind, Except.bind]

theorem except_pure_eq_ok {ε α : Type} (a b : α) :
    (pure a : Except ε α) = .ok b ↔ a = b := by
  simp [pure, Except.pure]

theorem for_each_length {α β : Type} (body : α → Except ScenarioException β) (l : List α)
    (l' : List β) (h : for_each body l = .ok l') : l'.length = l.length := by
  induction l generalizing l' with
  | nil => simp [for_each] at h; subst h; rfl
  | cons x rest ih =>
    simp only [for_each] at h
    split at h
    · cases h
    · split at h
      · cases h
      · rename_i ys hys
        cases h
        simp [ih ys hys]

theorem merge_array_always {α : Type} (base child : List α) :
    merge_array (fun _ _ => true) base child = base ++ child := by
  induction child generalizing base with
  | nil => simp [merge_array]
  | cons m rest ih => simp [merge_array, ih]

theorem no_shared_identity_snoc {α κ : Type} (key : α → κ) (base rest : List α) (m m' : α)
    (hkey : key m' = key m) (h : no_shared_identity key base (m :: rest)) :
    no_shared_identity key (base ++ [m']) rest := by
  obtain ⟨h1, h2⟩ := h
  rw [List.pairwise_cons] at h2
  refine ⟨?_, h2.2⟩
  intro r hr b hb
  rw [List.mem_append, List.mem_singleton] at hb
  rcases hb with hb | hb
  · exact h1 r (List.mem_cons_of_mem _ hr) b hb
  · subst hb
    rw [hkey]
    exact fun e => h2.1 r hr e.symm

theorem merge_array_no_shared {α κ : Type} (key : α → κ) (condition : α → α → Bool)
    (hcond : ∀ m b, condition m b = true ↔ key m ≠ key b) (base child : List α)
    (h : no_shared_identity key base child) :
    merge_array condition base child = base ++ child := by
  induction child generalizing base with
  | nil => simp [merge_array]
  | cons m rest ih =>
    have hall : base.all (fun b => condition m b) = true := by
      rw [List.all_eq_true]
      intro b hb
      exact (hcond m b).mpr (h.1 m (List.mem_cons_self _ _) b hb)
    simp only [merge_array, hall, if_true]
    rw [ih _ (no_shared_identity_snoc key base rest m m rfl h)]
    simp

theorem merge_command_lists_length
    (t1 t2 t3 t4 : Nat → Except ScenarioException Nat)
    (base child result : List ScenarioCommandList)
    (hno : no_shared_identity (fun x => x.name) base child)
    (h : merge_command_lists t1 t2 t3 t4 base child = .ok result) :
    result.length = base.length + child.length := by
  induction child generalizing base with
  | nil => simp [merge_command_lists] at h; subst h; simp
  | cons m rest ih =>
    have hany : base.any (fun e => decide (e.name = m.name)) = false := by
      rw [List.any_eq_false]
      intro b hb
      have := hno.1 m (List.mem_cons_self _ _) b hb
      simpa using fun e => this e.symm
    simp only [merge_command_lists, hany, Bool.false_eq_true, if_false] at h
    split at h
    · cases h
    · rename_i commands _
      have := ih _ (no_shared_identity_snoc (fun (x : ScenarioCommandList) => x.name) base rest m
        { m with commands := commands } rfl hno) h
      simp at this ⊢
      omega

theorem merge_encounters_length
    (t1 t2 t3 : Nat → Except ScenarioException Nat)
    (base child result : List ScenarioEncounter)
    (hno : no_shared_identity (fun x => x.name) base child)
    (h : merge_encounters t1 t2 t3 base child = .ok result) :
    result.length = base.length + child.length := by
  induction child generalizing base with
  | nil => simp [merge_encounters] at h; subst h; simp
  | cons m rest ih =>
    have hany : base.any (fun e => decide (e.name = m.name)) = false := by
      rw [List.any_eq_false]
      intro b hb
      have := hno.1 m (List.mem_cons_self _ _) b hb
      simpa using fun e => this e.symm
    simp only [merge_encounters, hany, Bool.false_eq_true, if_false] at h
    split at h
    · cases h
    · rename_i squads _
      have := ih _ (no_shared_identity_snoc (fun (x : ScenarioEncounter) => x.name) base rest m
        { m with squads := squads } rfl hno) h
      simp at this ⊢
      omega

theorem merge_ai_conversations_length (t : Nat → Except ScenarioException Nat)
    (base child result : List ScenarioAIConversation)
    (h : merge_ai_conversations t base child = .ok result) :
    result.length = base.length + child.length := by
  simp only [merge_ai_conversations, except_bind_eq_ok, except_pure_eq_ok] at h
  obtain ⟨added, h1, rfl⟩ := h
  simp [for_each_length _ _ _ h1]

theorem merge_objects_length (t1 t2 : Nat → Except ScenarioException Nat)
    (base child result : List ScenarioObject)
    (h : merge_objects t1 t2 base child = .ok result) :
    result.length = base.length + child.length := by
  simp only [merge_objects, except_bind_eq_ok, except_pure_eq_ok] at h
  obtain ⟨added, h1, rfl⟩ := h
  simp [for_each_length _ _ _ h1]

theorem merge_devices_length (t1 t2 t3 : Nat → Except ScenarioException Nat)
    (base child result : List ScenarioDevice)
    (h : merge_devices t1 t2 t3 base child = .ok result) :
    result.length = base.length + child.length := by
  simp only [merge_devices, except_bind_eq_ok, except_pure_eq_ok] at h
  obtain ⟨added, h1, rfl⟩ := h
  simp [for_each_length _ _ _ h1]

theorem merge_decals_length (t : Nat → Except ScenarioException Nat)
    (base child result : List ScenarioDecal)
    (h : merge_decals t base child = .ok result) :
    result.length = base.length + child.length := by
  simp only [merge_decals, except_bind_eq_ok, except_pure_eq_ok] at h
  obtain ⟨added, h1, rfl⟩ := h
  simp [for_each_length _ _ _ h1]

theorem bne_or_bne_iff {α β : Type} [DecidableEq α] [DecidableEq β] (a a' : α) (b b' : β) :
    ((a != a') || (b != b')) = true ↔ (a, b) ≠ (a', b') := by
  simp only [Bool.or_eq_true, bne_iff_ne, ne_eq, Prod.mk.injEq, not_and_or]

/-- C9: if the child shares no identity (name, or reference path and class)
with an element of the base nor between its own elements, then after a
successful `merge_child_scenario base child` every merged family has exactly
`len base + len child` elements. -/
theorem merge_child_scenario_family_lengths (base child merged : Scenario)
    (hno : Scenario.shares_no_identity base child)
    (h : merge_child_scenario base child = .ok merged) :
    merged.family_lengths
      = List.zipWith (fun a b => a + b) base.family_lengths child.family_lengths := by
  obtain ⟨n_object_names, n_device_groups, n_trigger_volumes, n_recorded_animations, n_actor_palette, n_ai_animation_references, n_ai_script_references, n_ai_recording_references, n_references, n_cutscene_flags, n_cutscene_camera_points, n_cutscene_titles, n_source_files, n_decal_palette, n_scenery_palette, n_biped_palette, n_vehicle_palette, n_equipment_palette, n_weapon_palette, n_machine_palette, n_control_palette, n_light_fixture_palette, n_sound_scenery_palette, n_command_lists, n_encounters⟩ := hno
  simp only [merge_child_scenario, except_bind_eq_ok, except_pure_eq_ok] at h
  obtain ⟨r_ai_conversations, h_ai_conversations, r_scenery, h_scenery, r_bipeds, h_bipeds, r_vehicles, h_vehicles, r_equipment, h_equipment, r_weapons, h_weapons, r_machines, h_machines, r_controls, h_controls, r_light_fixtures, h_light_fixtures, r_sound_scenery, h_sound_scenery, r_decals, h_decals, r_command_lists, h_command_lists, r_encounters, h_encounters, rfl⟩ := h
  have e_object_names := merge_array_no_shared (fun (x : ScenarioObjectName) => x.name) _
    (fun _ _ => bne_iff_ne) _ _ n_object_names
  have e_device_groups := merge_array_no_shared (fun (x : ScenarioNamedBlock) => x.name) _
    (fun _ _ => bne_iff_ne) _ _ n_device_groups
  have e_trigger_volumes := merge_array_no_shared (fun (x : ScenarioNamedBlock) => x.name) _
    (fun _ _ => bne_iff_ne) _ _ n_trigger_volumes
  have e_recorded_animations := merge_array_no_shared (fun (x : ScenarioNamedBlock) => x.name) _
    (fun _ _ => bne_iff_ne) _ _ n_recorded_animations
  have e_actor_palette := merge_array_no_shared (fun (x : ScenarioReferenceBlock) => (x.reference.path, x.reference.tag_class_int)) _
    (fun _ _ => bne_or_bne_iff _ _ _ _) _ _ n_actor_palette
  have e_ai_animation_references := merge_array_no_shared (fun (x : ScenarioAIAnimationReference) => x.animation_name) _
    (fun _ _ => bne_iff_ne) _ _ n_ai_animation_references
  have e_ai_script_references := merge_array_no_shared (fun (x : ScenarioAIScriptReference) => x.script_name) _
    (fun _ _ => bne_iff_ne) _ _ n_ai_script_references
  have e_ai_recording_references := merge_array_no_shared (fun (x : ScenarioAIRecordingReference) => x.recording_name) _
    (fun _ _ => bne_iff_ne) _ _ n_ai_recording_references
  have e_references := merge_array_no_shared (fun (x : ScenarioReferenceBlock) => (x.reference.path, x.reference.tag_class_int)) _
    (fun _ _ => bne_or_bne_iff _ _ _ _) _ _ n_references
  have e_cutscene_flags := merge_array_no_shared (fun (x : ScenarioNamedBlock) => x.name) _
    (fun _ _ => bne_iff_ne) _ _ n_cutscene_flags
  have e_cutscene_camera_points := merge_array_no_shared (fun (x : ScenarioNamedBlock) => x.name) _
    (fun _ _ => bne_iff_ne) _ _ n_cutscene_camera_points
  have e_cutscene_titles := merge_array_no_shared (fun (x : ScenarioNamedBlock) => x.name) _
    (fun _ _ => bne_iff_ne) _ _ n_cutscene_titles
  have e_source_files := merge_array_no_shared (fun (x : ScenarioNamedBlock) => x.name) _
    (fun _ _ => bne_iff_ne) _ _ n_source_files
  have e_decal_palette := merge_array_no_shared (fun (x : ScenarioReferenceBlock) => (x.reference.path, x.reference.tag_class_int)) _
    (fun _ _ => bne_or_bne_iff _ _ _ _) _ _ n_decal_palette
  have e_scenery_palette := merge_array_no_shared (fun (x : ScenarioObjectPalette) => (x.name.path, x.name.tag_class_int)) _
    (fun _ _ => bne_or_bne_iff _ _ _ _) _ _ n_scenery_palette
  have e_biped_palette := merge_array_no_shared (fun (x : ScenarioObjectPalette) => (x.name.path, x.name.tag_class_int)) _
    (fun _ _ => bne_or_bne_iff _ _ _ _) _ _ n_biped_palette
  have e_vehicle_palette := merge_array_no_shared (fun (x : ScenarioObjectPalette) => (x.name.path, x.name.tag_class_int)) _
    (fun _ _ => bne_or_bne_iff _ _ _ _) _ _ n_vehicle_palette
  have e_equipment_palette := merge_array_no_shared (fun (x : ScenarioObjectPalette) => (x.name.path, x.name.tag_class_int)) _
    (fun _ _ => bne_or_bne_iff _ _ _ _) _ _ n_equipment_palette
  have e_weapon_palette := merge_array_no_shared (fun (x : ScenarioObjectPalette) => (x.name.path, x.name.tag_class_int)) _
    (fun _ _ => bne_or_bne_iff _ _ _ _) _ _ n_weapon_palette
  have e_machine_palette := merge_array_no_shared (fun (x : ScenarioObjectPalette) => (x.name.path, x.name.tag_class_int)) _
    (fun _ _ => bne_or_bne_iff _ _ _ _) _ _ n_machine_palette
  have e_control_palette := merge_array_no_shared (fun (x : ScenarioObjectPalette) => (x.name.path, x.name.tag_class_int)) _
    (fun _ _ => bne_or_bne_iff _ _ _ _) _ _ n_control_palette
  have e_light_fixture_palette := merge_array_no_shared (fun (x : ScenarioObjectPalette) => (x.name.path, x.name.tag_class_int)) _
    (fun _ _ => bne_or_bne_iff _ _ _ _) _ _ n_light_fixture_palette
  have e_sound_scenery_palette := merge_array_no_shared (fun (x : ScenarioObjectPalette) => (x.name.path, x.name.tag_class_int)) _
    (fun _ _ => bne_or_bne_iff _ _ _ _) _ _ n_sound_scenery_palette
  have l_ai_conversations := merge_ai_conversations_length _ _ _ _ h_ai_conversations
  have l_scenery := merge_objects_length _ _ _ _ _ h_scenery
  have l_bipeds := merge_objects_length _ _ _ _ _ h_bipeds
  have l_vehicles := merge_objects_length _ _ _ _ _ h_vehicles
  have l_equipment := merge_objects_length _ _ _ _ _ h_equipment
  have l_weapons := merge_objects_length _ _ _ _ _ h_weapons
  have l_machines := merge_devices_length _ _ _ _ _ _ h_machines
  have l_controls := merge_devices_length _ _ _ _ _ _ h_controls
  have l_light_fixtures := merge_devices_length _ _ _ _ _ _ h_light_fixtures
  have l_sound_scenery := merge_objects_length _ _ _ _ _ h_sound_scenery
  have l_decals := merge_decals_length _ _ _ _ h_decals
  have l_command_lists := merge_command_lists_length _ _ _ _ _ _ _ n_command_lists h_command_lists
  have l_encounters := merge_encounters_length _ _ _ _ _ _ n_encounters h_encounters
  simp only [merge_arrays] at l_ai_conversations l_scenery l_bipeds l_vehicles l_equipment l_weapons l_machines l_controls l_light_fixtures l_sound_scenery l_decals l_command_lists l_encounters
  simp only [Scenario.family_lengths, merge_arrays, List.zipWith, merge_array_always,
    e_object_names, e_device_groups, e_trigger_volumes, e_recorded_animations, e_actor_palette, e_ai_animation_references, e_ai_script_references, e_ai_recording_references, e_references, e_cutscene_flags, e_cutscene_camera_points, e_cutscene_titles, e_source_files, e_decal_palette, e_scenery_palette, e_biped_palette, e_vehicle_palette, e_equipment_palette, e_weapon_palette, e_machine_palette, e_control_palette, e_light_fixture_palette, e_sound_scenery_palette, l_ai_conversations, l_scenery, l_bipeds, l_vehicles, l_equipment, l_weapons, l_machines, l_controls, l_light_fixtures, l_sound_scenery, l_decals, l_command_lists, l_encounters, List.length_append]

/-- Witness for C9: a base and a child with one object name, one scenery
palette entry, one scenery instance, one command list and one encounter
each, all of different identity. -/
theorem merge_child_scenario_family_lengths_witness :
    Scenario.family_lengths
        { object_names := [{ name := "a" }, { name := "b" }],
          scenery_palette := [{ name := { path := "tree" } }, { name := { path := "rock" } }],
          scenery := [{ type := 0, name := 0 }, { type := 1, name := 1 }],
          command_lists := [{ name := "base list" }, { name := "child list" }],
          encounters := [{ name := "base encounter" },
            { name := "child encounter",
              squads := [{ starting_locations := [{ command_list := 1 }] }] }] }
      = List.zipWith (fun a b => a + b)
          (Scenario.family_lengths
            { object_names := [{ name := "a" }],
              scenery_palette := [{ name := { path := "tree" } }],
              scenery := [{ type := 0, name := 0 }],
              command_lists := [{ name := "base list" }],
              encounters := [{ name := "base encounter" }] })
          (Scenario.family_lengths
            { object_names := [{ name := "b" }],
              scenery_palette := [{ name := { path := "rock" } }],
              scenery := [{ type := 0, name := 0 }],
              command_lists := [{ name := "child list" }],
              encounters :=
                [{ name := "child encounter",
                   squads := [{ starting_locations := [{ command_list := 0 }] }] }] }) :=
  merge_child_scenario_family_lengths
    { object_names := [{ name := "a" }],
      scenery_palette := [{ name := { path := "tree" } }],
      scenery := [{ type := 0, name := 0 }],
      command_lists := [{ name := "base list" }],
      encounters := [{ name := "base encounter" }] }
    { object_names := [{ name := "b" }],
      scenery_palette := [{ name := { path := "rock" } }],
      scenery := [{ type := 0, name := 0 }],
      command_lists := [{ name := "child list" }],
      encounters :=
        [{ name := "child encounter",
           squads := [{ starting_locations := [{ command_list := 0 }] }] }] }
    { object_names := [{ name := "a" }, { name := "b" }],
      scenery_palette := [{ name := { path := "tree" } }, { name := { path := "rock" } }],
      scenery := [{ type := 0, name := 0 }, { type := 1, name := 1 }],
      command_lists := [{ name := "base list" }, { name := "child list" }],
      encounters := [{ name := "base encounter" },
        { name := "child encounter",
          squads := [{ starting_locations := [{ command_list := 1 }] }] }] }
    (by decide) (by decide)

/-- C8 (failing input): the base holds the animation reference `x`, the child
holds `a` and `b` and a command list whose command has `animation = 0`
(that is `a`). The command's animation is translated twice: `0` becomes `1`
(`a` in the merged table `x, a, b`), and `1`, read as a child index again,
becomes `2`: the merged command refers to `b`. With a base holding `x` and `y`
and a child holding only `a`, the second translation is out of bounds and
the merge throws. -/
theorem merge_child_scenario_command_animation_twice :
    merge_child_scenario
        { ai_animation_references := [{ animation_name := "x" }] }
        { ai_animation_references := [{ animation_name := "a" }, { animation_name := "b" }],
          command_lists := [{ name := "cl", commands := [{ animation := 0 }] }] }
      = .ok { ai_animation_references :=
                [{ animation_name := "x" }, { animation_name := "a" }, { animation_name := "b" }],
              command_lists := [{ name := "cl", commands := [{ animation := 2 }] }] }
    ∧ merge_child_scenario
        { ai_animation_references := [{ animation_name := "x" }, { animation_name := "y" }] }
        { ai_animation_references := [{ animation_name := "a" }],
          command_lists := [{ name := "cl", commands := [{ animation := 0 }] }] }
      = .error .OutOfBoundsException
    ∧ merge_child_scenario
        { ai_animation_references := [{ animation_name := "x" }] }
        { ai_animation_references := [{ animation_name := "a" }, { animation_name := "b" }],
          encounters := [{ name := "e", squads := [{ move_positions := [{ animation := 0 }] }] }] }
      = .ok { ai_animation_references :=
                [{ animation_name := "x" }, { animation_name := "a" }, { animation_name := "b" }],
              encounters :=
                [{ name := "e", squads := [{ move_positions := [{ animation := 1 }] }] }] } := by
  refine ⟨by decide, by decide, by decide⟩

/-! ### Child scenarios -/

theorem merge_child_scenarios_step_repeat (files : ScenarioFiles) (workload : BuildWorkload)
    (tag_index : Nat) (scenario : Scenario) (merged_scenarios : List String)
    (first : ScenarioChildScenario) (queue : List ScenarioChildScenario)
    (hq : scenario.child_scenarios = first :: queue)
    (hpath : first.child_scenario.path ≠ "")
    (hrep : first.child_scenario.path ∈ merged_scenarios) :
    ∃ message, merge_child_scenarios_step files workload tag_index scenario merged_scenarios
      = .thrown (workload.report_error .ERROR_TYPE_FATAL_ERROR message tag_index)
          .InvalidTagDataException := by
  have hany : merged_scenarios.any (fun m => decide (m = first.child_scenario.path)) = true := by
    rw [List.any_eq_true]
    exact ⟨_, hrep, by simp⟩
  unfold merge_child_scenarios_step
  rw [hq]
  simp only [hpath, ne_eq, not_false_eq_true, if_true, hany]
  split_ifs
  · exact ⟨_, rfl⟩
  · exact ⟨_, rfl⟩

theorem merge_child_scenarios_step_next (files : ScenarioFiles) (workload : BuildWorkload)
    (tag_index : Nat) (scenario scenario' : Scenario) (merged merged' : List String)
    (h : merge_child_scenarios_step files workload tag_index scenario merged
      = .next scenario' merged') :
    (∀ x ∈ merged, x ∈ merged')
      ∧ ∀ first queue, scenario.child_scenarios = first :: queue →
          first.child_scenario.path ≠ "" → first.child_scenario.path ∈ merged' := by
  unfold merge_child_scenarios_step at h
  split at h
  · cases h
  · rename_i first queue hq
    simp only [] at h
    split_ifs at h with h1 h2 h3
    · split at h
      · cases h
      · split at h
        · cases h
        · split at h
          · cases h
          · split at h
            · cases h
            · injection h with _ hm
              subst hm
              refine ⟨fun x hx => List.mem_append_left _ hx, ?_⟩
              intro f q hfq _
              rw [hq] at hfq
              injection hfq with hf _
              subst hf
              simp
    · injection h with _ hm
      subst hm
      refine ⟨fun x hx => hx, ?_⟩
      intro f q hfq hne
      rw [hq] at hfq
      injection hfq with hf _
      subst hf
      exact absurd h1 (by simpa using hne)

theorem merge_child_scenarios_after_subset (files : ScenarioFiles) (workload : BuildWorkload)
    (tag_index : Nat) (k : Nat) (scenario scenario' : Scenario) (merged merged' : List String)
    (h : merge_child_scenarios_after files workload tag_index k scenario merged
      = some (scenario', merged')) :
    ∀ x ∈ merged, x ∈ merged' := by
  induction k generalizing scenario merged with
  | zero =>
    simp only [merge_child_scenarios_after, Option.some.injEq, Prod.mk.injEq] at h
    obtain ⟨_, rfl⟩ := h
    exact fun x hx => hx
  | succ k ih =>
    simp only [merge_child_scenarios_after] at h
    split at h
    · rename_i s1 m1 hstep
      intro x hx
      exact ih _ _ h x ((merge_child_scenarios_step_next _ _ _ _ _ _ _ hstep).1 x hx)
    · cases h

theorem merge_child_scenarios_after_add (files : ScenarioFiles) (workload : BuildWorkload)
    (tag_index : Nat) (j d : Nat) (scenario scenario' : Scenario) (merged merged' : List String)
    (h : merge_child_scenarios_after files workload tag_index j scenario merged
      = some (scenario', merged')) :
    merge_child_scenarios_after files workload tag_index (j + d) scenario merged
      = merge_child_scenarios_after files workload tag_index d scenario' merged' := by
  induction j generalizing scenario merged with
  | zero =>
    simp only [merge_child_scenarios_after, Option.some.injEq, Prod.mk.injEq] at h
    obtain ⟨rfl, rfl⟩ := h
    simp
  | succ j ih =>
    simp only [merge_child_scenarios_after] at h
    rw [Nat.add_right_comm]
    simp only [merge_child_scenarios_after]
    split at h
    · exact ih _ _ h
    · cases h

theorem merge_child_scenarios_loop_after (files : ScenarioFiles) (workload : BuildWorkload)
    (tag_index : Nat) (k fuel : Nat) (scenario scenario' : Scenario)
    (merged merged' : List String)
    (h : merge_child_scenarios_after files workload tag_index k scenario merged
      = some (scenario', merged')) :
    merge_child_scenarios_loop files workload tag_index (k + fuel) scenario merged
      = merge_child_scenarios_loop files workload tag_index fuel scenario' merged' := by
  induction k generalizing scenario merged with
  | zero =>
    simp only [merge_child_scenarios_after, Option.some.injEq, Prod.mk.injEq] at h
    obtain ⟨rfl, rfl⟩ := h
    simp
  | succ k ih =>
    simp only [merge_child_scenarios_after] at h
    rw [Nat.add_right_comm]
    simp only [merge_child_scenarios_loop]
    split at h
    · rename_i s1 m1 hstep
      rw [hstep]
      exact ih _ _ h
    · cases h

/-- C10: when the loop of `merge_child_scenarios` (recursion enabled) reaches,
after `k` passes, a queue whose head has a non-empty path that is the root
scenario's own path or the path of the head of the queue in an earlier pass,
then `merge_child_scenarios` ends with a fatal error report and throws, for
every bound above `k`; `Scenario::pre_compile` throws with it before any of
its later statements runs, and the structs of the workload are unchanged. -/
theorem merge_child_scenarios_repeated_path_fatal (files : ScenarioFiles)
    (body : BuildWorkload → Nat → Nat → Scenario →
      BuildWorkload × Except ScenarioException Scenario)
    (workload : BuildWorkload) (tag_index struct_index fuel k : Nat)
    (scenario s_k : Scenario) (merged_k : List String)
    (first : ScenarioChildScenario) (queue : List ScenarioChildScenario)
    (hrec : workload.disable_recursion = false)
    (hchildren : scenario.child_scenarios ≠ [])
    (hreach : merge_child_scenarios_after files workload tag_index k scenario
      [workload.tag_path tag_index] = some (s_k, merged_k))
    (hq : s_k.child_scenarios = first :: queue)
    (hpath : first.child_scenario.path ≠ "")
    (hrep : first.child_scenario.path = workload.tag_path tag_index
      ∨ ∃ j s_j merged_j first_j queue_j, j < k
          ∧ merge_child_scenarios_after files workload tag_index j scenario
              [workload.tag_path tag_index] = some (s_j, merged_j)
          ∧ s_j.child_scenarios = first_j :: queue_j
          ∧ first_j.child_scenario.path = first.child_scenario.path)
    (hfuel : k < fuel) :
    ∃ message,
      merge_child_scenarios files fuel workload tag_index scenario
        = some (workload.report_error .ERROR_TYPE_FATAL_ERROR message tag_index,
            .error .InvalidTagDataException)
      ∧ Scenario.pre_compile files body fuel workload tag_index struct_index scenario
        = some (workload.report_error .ERROR_TYPE_FATAL_ERROR message tag_index,
            .error .InvalidTagDataException)
      ∧ (workload.report_error .ERROR_TYPE_FATAL_ERROR message tag_index).structs
        = workload.structs := by
  have hmem : first.child_scenario.path ∈ merged_k := by
    rcases hrep with hroot | ⟨j, s_j, merged_j, first_j, queue_j, hjk, hj, hqj, hsame⟩
    · exact merge_child_scenarios_after_subset _ _ _ _ _ _ _ _ hreach _
        (by rw [hroot]; exact List.mem_singleton.mpr rfl)
    · obtain ⟨d, rfl⟩ : ∃ d, k = j + (d + 1) := ⟨k - j - 1, by omega⟩
      rw [merge_child_scenarios_after_add _ _ _ _ _ _ _ _ _ hj] at hreach
      simp only [merge_child_scenarios_after] at hreach
      split at hreach
      · rename_i s1 m1 hstep
        have hin := (merge_child_scenarios_step_next _ _ _ _ _ _ _ hstep).2 first_j queue_j hqj
          (by rw [hsame]; exact hpath)
        rw [hsame] at hin
        exact merge_child_scenarios_after_subset _ _ _ _ _ _ _ _ hreach _ hin
      · cases hreach
  obtain ⟨message, hstep⟩ := merge_child_scenarios_step_repeat files workload tag_index s_k
    merged_k first queue hq hpath hmem
  obtain ⟨d, rfl⟩ : ∃ d, fuel = k + (d + 1) := ⟨fuel - k - 1, by omega⟩
  have hmerge : merge_child_scenarios files (k + (d + 1)) workload tag_index scenario
      = some (workload.report_error .ERROR_TYPE_FATAL_ERROR message tag_index,
          .error .InvalidTagDataException) := by
    unfold merge_child_scenarios
    have hlen : scenario.child_scenarios.length ≠ 0 := by
      intro h0
      exact hchildren (List.length_eq_zero.mp h0)
    simp only [hlen, hrec, ne_eq, not_false_eq_true, Bool.false_eq_true, and_self, if_true]
    rw [merge_child_scenarios_loop_after _ _ _ _ _ _ _ _ _ hreach]
    simp only [merge_child_scenarios_loop, hstep]
  refine ⟨message, hmerge, ?_, rfl⟩
  unfold Scenario.pre_compile
  rw [hmerge]

/-- Witness for C10: a root `a` that lists itself; a root `a` whose child `b`
lists `a`; and a root `a` with children `b` and `c` that both list `d`. -/
theorem merge_child_scenarios_repeated_path_fatal_witness :
    (∃ message,
      merge_child_scenarios (list_scenario_files []) 1
          { tags := [⟨"a", TagClassInt.TAG_CLASS_SCENARIO⟩] } 0
          { child_scenarios := [⟨⟨"a", TagClassInt.TAG_CLASS_SCENARIO⟩⟩] }
        = some (BuildWorkload.report_error { tags := [⟨"a", TagClassInt.TAG_CLASS_SCENARIO⟩] }
            .ERROR_TYPE_FATAL_ERROR message 0, .error .InvalidTagDataException)
      ∧ Scenario.pre_compile (list_scenario_files []) (fun w _ _ s => (w, .ok s)) 1
          { tags := [⟨"a", TagClassInt.TAG_CLASS_SCENARIO⟩] } 0 0
          { child_scenarios := [⟨⟨"a", TagClassInt.TAG_CLASS_SCENARIO⟩⟩] }
        = some (BuildWorkload.report_error { tags := [⟨"a", TagClassInt.TAG_CLASS_SCENARIO⟩] }
            .ERROR_TYPE_FATAL_ERROR message 0, .error .InvalidTagDataException)
      ∧ (BuildWorkload.report_error { tags := [⟨"a", TagClassInt.TAG_CLASS_SCENARIO⟩] }
            .ERROR_TYPE_FATAL_ERROR message 0).structs
        = BuildWorkload.structs { tags := [⟨"a", TagClassInt.TAG_CLASS_SCENARIO⟩] })
    ∧ (∃ message,
      merge_child_scenarios
          (list_scenario_files
            [("b", { child_scenarios := [⟨⟨"a", TagClassInt.TAG_CLASS_SCENARIO⟩⟩] })]) 2
          { tags := [⟨"a", TagClassInt.TAG_CLASS_SCENARIO⟩] } 0
          { child_scenarios := [⟨⟨"b", TagClassInt.TAG_CLASS_SCENARIO⟩⟩] }
        = some (BuildWorkload.report_error { tags := [⟨"a", TagClassInt.TAG_CLASS_SCENARIO⟩] }
            .ERROR_TYPE_FATAL_ERROR message 0, .error .InvalidTagDataException)
      ∧ Scenario.pre_compile
          (list_scenario_files
            [("b", { child_scenarios := [⟨⟨"a", TagClassInt.TAG_CLASS_SCENARIO⟩⟩] })])
          (fun w _ _ s => (w, .ok s)) 2
          { tags := [⟨"a", TagClassInt.TAG_CLASS_SCENARIO⟩] } 0 0
          { child_scenarios := [⟨⟨"b", TagClassInt.TAG_CLASS_SCENARIO⟩⟩] }
        = some (BuildWorkload.report_error { tags := [⟨"a", TagClassInt.TAG_CLASS_SCENARIO⟩] }
            .ERROR_TYPE_FATAL_ERROR message 0, .error .InvalidTagDataException)
      ∧ (BuildWorkload.report_error { tags := [⟨"a", TagClassInt.TAG_CLASS_SCENARIO⟩] }
            .ERROR_TYPE_FATAL_ERROR message 0).structs
        = BuildWorkload.structs { tags := [⟨"a", TagClassInt.TAG_CLASS_SCENARIO⟩] })
    ∧ (∃ message,
      merge_child_scenarios
          (list_scenario_files
            [("b", { child_scenarios := [⟨⟨"d", TagClassInt.TAG_CLASS_SCENARIO⟩⟩] }),
             ("c", { child_scenarios := [⟨⟨"d", TagClassInt.TAG_CLASS_SCENARIO⟩⟩] }),
             ("d", {})]) 4
          { tags := [⟨"a", TagClassInt.TAG_CLASS_SCENARIO⟩] } 0
          { child_scenarios := [⟨⟨"b", TagClassInt.TAG_CLASS_SCENARIO⟩⟩,
                                ⟨⟨"c", TagClassInt.TAG_CLASS_SCENARIO⟩⟩] }
        = some (BuildWorkload.report_error { tags := [⟨"a", TagClassInt.TAG_CLASS_SCENARIO⟩] }
            .ERROR_TYPE_FATAL_ERROR message 0, .error .InvalidTagDataException)
      ∧ Scenario.pre_compile
          (list_scenario_files
            [("b", { child_scenarios := [⟨⟨"d", TagClassInt.TAG_CLASS_SCENARIO⟩⟩] }),
             ("c", { child_scenarios := [⟨⟨"d", TagClassInt.TAG_CLASS_SCENARIO⟩⟩] }),
             ("d", {})])
          (fun w _ _ s => (w, .ok s)) 4
          { tags := [⟨"a", TagClassInt.TAG_CLASS_SCENARIO⟩] } 0 0
          { child_scenarios := [⟨⟨"b", TagClassInt.TAG_CLASS_SCENARIO⟩⟩,
                                ⟨⟨"c", TagClassInt.TAG_CLASS_SCENARIO⟩⟩] }
        = some (BuildWorkload.report_error { tags := [⟨"a", TagClassInt.TAG_CLASS_SCENARIO⟩] }
            .ERROR_TYPE_FATAL_ERROR message 0, .error .InvalidTagDataException)
      ∧ (BuildWorkload.report_error { tags := [⟨"a", TagClassInt.TAG_CLASS_SCENARIO⟩] }
            .ERROR_TYPE_FATAL_ERROR message 0).structs
        = BuildWorkload.structs { tags := [⟨"a", TagClassInt.TAG_CLASS_SCENARIO⟩] }) :=
  ⟨merge_child_scenarios_repeated_path_fatal (list_scenario_files []) (fun w _ _ s => (w, .ok s))
      { tags := [⟨"a", TagClassInt.TAG_CLASS_SCENARIO⟩] } 0 0 1 0
      { child_scenarios := [⟨⟨"a", TagClassInt.TAG_CLASS_SCENARIO⟩⟩] }
      { child_scenarios := [⟨⟨"a", TagClassInt.TAG_CLASS_SCENARIO⟩⟩] } ["a"]
      ⟨⟨"a", TagClassInt.TAG_CLASS_SCENARIO⟩⟩ [] rfl (by decide) (by decide) rfl (by decide)
      (Or.inl (by decide)) (by decide),
    merge_child_scenarios_repeated_path_fatal
      (list_scenario_files
        [("b", { child_scenarios := [⟨⟨"a", TagClassInt.TAG_CLASS_SCENARIO⟩⟩] })])
      (fun w _ _ s => (w, .ok s))
      { tags := [⟨"a", TagClassInt.TAG_CLASS_SCENARIO⟩] } 0 0 2 1
      { child_scenarios := [⟨⟨"b", TagClassInt.TAG_CLASS_SCENARIO⟩⟩] }
      { child_scenarios := [⟨⟨"a", TagClassInt.TAG_CLASS_SCENARIO⟩⟩] } ["a", "b"]
      ⟨⟨"a", TagClassInt.TAG_CLASS_SCENARIO⟩⟩ [] rfl (by decide) (by decide) rfl (by decide)
      (Or.inl (by decide)) (by decide),
    merge_child_scenarios_repeated_path_fatal
      (list_scenario_files
        [("b", { child_scenarios := [⟨⟨"d", TagClassInt.TAG_CLASS_SCENARIO⟩⟩] }),
         ("c", { child_scenarios := [⟨⟨"d", TagClassInt.TAG_CLASS_SCENARIO⟩⟩] }),
         ("d", {})])
      (fun w _ _ s => (w, .ok s))
      { tags := [⟨"a", TagClassInt.TAG_CLASS_SCENARIO⟩] } 0 0 4 3
      { child_scenarios := [⟨⟨"b", TagClassInt.TAG_CLASS_SCENARIO⟩⟩,
                            ⟨⟨"c", TagClassInt.TAG_CLASS_SCENARIO⟩⟩] }
      { child_scenarios := [⟨⟨"d", TagClassInt.TAG_CLASS_SCENARIO⟩⟩] } ["a", "b", "c", "d"]
      ⟨⟨"d", TagClassInt.TAG_CLASS_SCENARIO⟩⟩ [] rfl (by decide) (by decide) rfl (by decide)
      (Or.inr ⟨2, { child_scenarios := [⟨⟨"d", TagClassInt.TAG_CLASS_SCENARIO⟩⟩,
                                        ⟨⟨"d", TagClassInt.TAG_CLASS_SCENARIO⟩⟩] },
        ["a", "b", "c"], ⟨⟨"d", TagClassInt.TAG_CLASS_SCENARIO⟩⟩,
        [⟨⟨"d", TagClassInt.TAG_CLASS_SCENARIO⟩⟩], by decide, by decide, rfl, rfl⟩)
      (by decide)⟩

/-! ### Cube maps -/

theorem dimensions_at_eq_mip_dimension (data : BitmapData) (i : Nat) :
    dimensions_at data i
      = (mip_dimension (if data.flags.compressed then 4 else 1) data.width i,
         mip_dimension (if data.flags.compressed then 4 else 1) data.height i,
         mip_dimension 1 data.depth i) := by
  induction i with
  | zero => rfl
  | succ i ih =>
    simp only [dimensions_at, ih, next_extent_eq_max, next_depth_eq_max, mip_dimension]

theorem size_of_bitmap_decompile_eq (data : BitmapData) :
    size_of_bitmap_decompile calculate_bits_per_pixel data = size_of_bitmap data := by
  unfold size_of_bitmap size_of_bitmap_decompile
  cases hf : bits_per_pixel_of_format data.format with
  | none =>
    cases hfm : data.format <;> simp [hfm, bits_per_pixel_of_format] at hf
    simp [calculate_bits_per_pixel]
  | some bpp =>
    obtain ⟨_, hne, hcalc⟩ := bits_per_pixel_of_format_some _ _ hf
    simp only [hcalc, hne, if_false]
    rw [size_of_bitmap_loop_eq_decompile]

theorem size_of_bitmap_eq_sum (data : BitmapData) (bpp : Nat) (hfit : data.fits_fields)
    (hfmt : bits_per_pixel_of_format data.format = some bpp) :
    size_of_bitmap data
      = some (∑ i in Finset.range (data.mipmap_count + 1),
          (dimensions_at data i).1 * (dimensions_at data i).2.1 * (dimensions_at data i).2.2
            * face_multiplier data.type * bpp / 8) := by
  obtain ⟨hw, hh, hd, hn⟩ := hfit
  obtain ⟨hbpp, _, _⟩ := bits_per_pixel_of_format_some _ _ hfmt
  unfold size_of_bitmap
  rw [hfmt]
  simp only []
  rw [size_of_bitmap_loop_eq_decompile,
    size_of_bitmap_loop_decompile_total _ _ _ _ _ _ _ (by split_ifs <;> omega)
      (face_multiplier_le _) hbpp hw hh hd (by omega)]
  simp only [dimensions_at_eq_mip_dimension]

theorem six_mul_div_eight (p bpp : Nat) (h : 8 ∣ p * bpp) :
    p * 6 * bpp / 8 = 6 * (p * 1 * bpp / 8) := by
  obtain ⟨k, hk⟩ := h
  have h1 : p * 6 * bpp = 8 * (6 * k) := by
    have : p * 6 * bpp = 6 * (p * bpp) := by ring
    rw [this, hk]; ring
  have h2 : p * 1 * bpp = 8 * k := by rw [Nat.mul_one, hk]
  rw [h1, h2, Nat.mul_div_cancel_left _ (by norm_num), Nat.mul_div_cancel_left _ (by norm_num)]

/-- C20 (as stated) fails: `size_of_bitmap` divides each level's bit count by 8
rounding down, so a 1x1x1 DXT1 bitmap has size 0 as a 2D texture and 3 as a
cube map, and a compressed 10x10x1 DXT1 bitmap with one mipmap has size 62
as a 2D texture and 375 (not 372) as a cube map. -/
theorem size_of_bitmap_cube_map_not_six_times :
    size_of_bitmap
        { width := 1, height := 1, depth := 1, type := .BITMAP_DATA_TYPE_2D_TEXTURE,
          format := .BITMAP_DATA_FORMAT_DXT1, flags := {}, mipmap_count := 0 } = some 0
    ∧ size_of_bitmap
        { width := 1, height := 1, depth := 1, type := .BITMAP_DATA_TYPE_CUBE_MAP,
          format := .BITMAP_DATA_FORMAT_DXT1, flags := {}, mipmap_count := 0 } = some 3
    ∧ size_of_bitmap
        { width := 10, height := 10, depth := 1, type := .BITMAP_DATA_TYPE_2D_TEXTURE,
          format := .BITMAP_DATA_FORMAT_DXT1, flags := { compressed := true },
          mipmap_count := 1 } = some 62
    ∧ size_of_bitmap
        { width := 10, height := 10, depth := 1, type := .BITMAP_DATA_TYPE_CUBE_MAP,
          format := .BITMAP_DATA_FORMAT_DXT1, flags := { compressed := true },
          mipmap_count := 1 } = some 375
    ∧ ¬ (∀ (data : BitmapData) (n c : Nat), data.fits_fields →
          size_of_bitmap { data with type := .BITMAP_DATA_TYPE_2D_TEXTURE } = some n →
          size_of_bitmap { data with type := .BITMAP_DATA_TYPE_CUBE_MAP } = some c →
          c = 6 * n) := by
  have h0 : size_of_bitmap
        { width := 1, height := 1, depth := 1, type := .BITMAP_DATA_TYPE_2D_TEXTURE,
          format := .BITMAP_DATA_FORMAT_DXT1, flags := {}, mipmap_count := 0 } = some 0 := by
    simp [size_of_bitmap, bits_per_pixel_of_format, size_of_bitmap_loop, level_size,
      face_multiplier, size_t_modulus]
  have h1 : size_of_bitmap
        { width := 1, height := 1, depth := 1, type := .BITMAP_DATA_TYPE_CUBE_MAP,
          format := .BITMAP_DATA_FORMAT_DXT1, flags := {}, mipmap_count := 0 } = some 3 := by
    simp [size_of_bitmap, bits_per_pixel_of_format, size_of_bitmap_loop, level_size,
      face_multiplier, size_t_modulus]
  refine ⟨h0, h1, ?_, ?_, ?_⟩
  · simp [size_of_bitmap, bits_per_pixel_of_format, size_of_bitmap_loop, level_size,
      face_multiplier, size_t_modulus, next_extent, next_depth]
  · simp [size_of_bitmap, bits_per_pixel_of_format, size_of_bitmap_loop, level_size,
      face_multiplier, size_t_modulus, next_extent, next_depth]
  · intro h
    have := h { width := 1, height := 1, depth := 1, type := .BITMAP_DATA_TYPE_2D_TEXTURE,
                format := .BITMAP_DATA_FORMAT_DXT1, flags := {}, mipmap_count := 0 } 0 3
      (by unfold BitmapData.fits_fields uint16_modulus; norm_num) h0 h1
    omega

/-- C20 (amended): for a format other than DXT1, and for a DXT1 bitmap data whose
`width * height * depth` is even at every level `0 .. mipmap_count`, both
versions of `size_of_bitmap` give for the cube map exactly 6 times the size of
the same bitmap data with a non-cube type, and each level adds 6 times the
non-cube amount. -/
theorem size_of_bitmap_cube_map_six_times (data : BitmapData) (bpp : Nat)
    (type : BitmapDataType) (hfit : data.fits_fields)
    (hfmt : bits_per_pixel_of_format data.format = some bpp)
    (htype : type ≠ .BITMAP_DATA_TYPE_CUBE_MAP)
    (heven : data.format ≠ .BITMAP_DATA_FORMAT_DXT1
      ∨ ∀ i, i ≤ data.mipmap_count →
          2 ∣ (dimensions_at data i).1 * (dimensions_at data i).2.1 * (dimensions_at data i).2.2) :
    ∃ n, size_of_bitmap { data with type := type } = some n
      ∧ size_of_bitmap { data with type := .BITMAP_DATA_TYPE_CUBE_MAP } = some (6 * n)
      ∧ size_of_bitmap_decompile calculate_bits_per_pixel { data with type := type } = some n
      ∧ size_of_bitmap_decompile calculate_bits_per_pixel
          { data with type := .BITMAP_DATA_TYPE_CUBE_MAP } = some (6 * n)
      ∧ ∀ i, i ≤ data.mipmap_count →
          level_size_at { data with type := .BITMAP_DATA_TYPE_CUBE_MAP } bpp i
            = 6 * level_size_at { data with type := type } bpp i := by
  obtain ⟨hbpp, _, _⟩ := bits_per_pixel_of_format_some _ _ hfmt
  have hdims : ∀ (t : BitmapDataType) (i : Nat),
      dimensions_at { data with type := t } i = dimensions_at data i := by
    intro t i
    induction i with
    | zero => rfl
    | succ i ih => simp only [dimensions_at, ih]
  have hdiv : ∀ i, i ≤ data.mipmap_count →
      8 ∣ (dimensions_at data i).1 * (dimensions_at data i).2.1 * (dimensions_at data i).2.2
        * bpp := by
    intro i hi
    rcases heven with hne | hev
    · have h8 : 8 ∣ bpp := by
        cases hf : data.format <;> simp [hf, bits_per_pixel_of_format] at hfmt hne <;>
          subst hfmt <;> norm_num
      exact Dvd.dvd.mul_left h8 _
    · have h4 : 4 ∣ bpp := by
        cases hf : data.format <;> simp [hf, bits_per_pixel_of_format] at hfmt <;>
          subst hfmt <;> norm_num
      obtain ⟨a, ha⟩ := hev i hi
      obtain ⟨b, hb⟩ := h4
      exact ⟨a * b, by rw [ha, hb]; ring⟩
  have hcube : face_multiplier BitmapDataType.BITMAP_DATA_TYPE_CUBE_MAP = 6 := by
    simp [face_multiplier]
  have hother : face_multiplier type = 1 := by
    simp [face_multiplier, htype]
  have hs1 := size_of_bitmap_eq_sum { data with type := type } bpp hfit hfmt
  have hs6 := size_of_bitmap_eq_sum { data with type := .BITMAP_DATA_TYPE_CUBE_MAP } bpp hfit hfmt
  simp only [hdims, hcube, hother] at hs1 hs6
  have hsum : ∑ i in Finset.range (data.mipmap_count + 1),
        (dimensions_at data i).1 * (dimensions_at data i).2.1 * (dimensions_at data i).2.2
          * 6 * bpp / 8
      = 6 * ∑ i in Finset.range (data.mipmap_count + 1),
        (dimensions_at data i).1 * (dimensions_at data i).2.1 * (dimensions_at data i).2.2
          * 1 * bpp / 8 := by
    rw [Finset.mul_sum]
    apply Finset.sum_congr rfl
    intro i hi
    exact six_mul_div_eight _ _ (hdiv i (by have := Finset.mem_range.mp hi; omega))
  refine ⟨_, hs1, by rw [hs6, hsum], by rw [size_of_bitmap_decompile_eq, hs1],
    by rw [size_of_bitmap_decompile_eq, hs6, hsum], ?_⟩
  intro i hi
  obtain ⟨u1, u2, u3⟩ := dimensions_at_le_field data hfit i
  simp only [level_size_at, hdims, hcube, hother]
  rw [level_size_eq_div _ _ _ _ _ u1 u2 u3 (by norm_num) hbpp,
    level_size_eq_div _ _ _ _ _ u1 u2 u3 (by norm_num) hbpp]
  exact six_mul_div_eight _ _ (hdiv i hi)

/-- Witness for C20 (amended): a 4x4x1 A8R8G8B8 bitmap data with two mipmaps. -/
theorem size_of_bitmap_cube_map_six_times_witness :
    ∃ n, size_of_bitmap
          { width := 4, height := 4, depth := 1, type := .BITMAP_DATA_TYPE_2D_TEXTURE,
            format := .BITMAP_DATA_FORMAT_A8R8G8B8, flags := {}, mipmap_count := 2 } = some n
      ∧ size_of_bitmap
          { width := 4, height := 4, depth := 1, type := .BITMAP_DATA_TYPE_CUBE_MAP,
            format := .BITMAP_DATA_FORMAT_A8R8G8B8, flags := {}, mipmap_count := 2 }
          = some (6 * n)
      ∧ size_of_bitmap_decompile calculate_bits_per_pixel
          { width := 4, height := 4, depth := 1, type := .BITMAP_DATA_TYPE_2D_TEXTURE,
            format := .BITMAP_DATA_FORMAT_A8R8G8B8, flags := {}, mipmap_count := 2 } = some n
      ∧ size_of_bitmap_decompile calculate_bits_per_pixel
          { width := 4, height := 4, depth := 1, type := .BITMAP_DATA_TYPE_CUBE_MAP,
            format := .BITMAP_DATA_FORMAT_A8R8G8B8, flags := {}, mipmap_count := 2 }
          = some (6 * n)
      ∧ ∀ i, i ≤ 2 →
          level_size_at
            { width := 4, height := 4, depth := 1, type := .BITMAP_DATA_TYPE_CUBE_MAP,
              format := .BITMAP_DATA_FORMAT_A8R8G8B8, flags := {}, mipmap_count := 2 } 32 i
          = 6 * level_size_at
            { width := 4, height := 4, depth := 1, type := .BITMAP_DATA_TYPE_2D_TEXTURE,
              format := .BITMAP_DATA_FORMAT_A8R8G8B8, flags := {}, mipmap_count := 2 } 32 i :=
  size_of_bitmap_cube_map_six_times
    { width := 4, height := 4, depth := 1, type := .BITMAP_DATA_TYPE_WHITE,
      format := .BITMAP_DATA_FORMAT_A8R8G8B8, flags := {}, mipmap_count := 2 } 32
    .BITMAP_DATA_TYPE_2D_TEXTURE
    (by unfold BitmapData.fits_fields uint16_modulus; norm_num) rfl (by decide)
    (Or.inl (by decide))

/-! ### Which child elements the merge appends -/

theorem merge_array_eq_append_new {α κ : Type} [DecidableEq κ] (key : α → κ)
    (condition : α → α → Bool) (hcond : ∀ m b, condition m b = true ↔ key m ≠ key b)
    (base child : List α) :
    merge_array condition base child = append_new_by_identity key base child := by
  induction child generalizing base with
  | nil => rfl
  | cons m rest ih =>
    simp only [merge_array, append_new_by_identity]
    by_cases hex : ∃ b ∈ base, key b = key m
    · have hall : ¬ (base.all (fun b => condition m b) = true) := by
        rw [List.all_eq_true]
        intro h
        obtain ⟨b, hb, hkey⟩ := hex
        exact (hcond m b).mp (h b hb) hkey.symm
      simp only [hall, hex, if_true, if_false]
      exact ih base
    · have hall : base.all (fun b => condition m b) = true := by
        rw [List.all_eq_true]
        intro b hb
        exact (hcond m b).mpr (fun e => hex ⟨b, hb, e.symm⟩)
      simp only [hall, hex, if_true, if_false]
      exact ih _

theorem append_new_by_identity_sublist {α κ : Type} [DecidableEq κ] (key : α → κ)
    (base child : List α) :
    ∃ added, append_new_by_identity key base child = base ++ added ∧ added.Sublist child := by
  induction child generalizing base with
  | nil => exact ⟨[], by simp [append_new_by_identity], List.Sublist.refl _⟩
  | cons m rest ih =>
    simp only [append_new_by_identity]
    split_ifs with hex
    · obtain ⟨added, h1, h2⟩ := ih base
      exact ⟨added, h1, List.Sublist.cons _ h2⟩
    · obtain ⟨added, h1, h2⟩ := ih (base ++ [m])
      exact ⟨m :: added, by rw [h1]; simp, List.Sublist.cons₂ _ h2⟩

theorem merge_command_lists_names
    (t1 t2 t3 t4 : Nat → Except ScenarioException Nat)
    (base child result : List ScenarioCommandList)
    (h : merge_command_lists t1 t2 t3 t4 base child = .ok result) :
    result.map (fun x => x.name)
        = append_new_by_identity id (base.map (fun x => x.name)) (child.map (fun x => x.name))
      ∧ base <+: result := by
  induction child generalizing base with
  | nil =>
    simp only [merge_command_lists, Except.ok.injEq] at h
    subst h
    exact ⟨rfl, List.prefix_refl _⟩
  | cons m rest ih =>
    simp only [merge_command_lists] at h
    simp only [List.map_cons, append_new_by_identity]
    by_cases hany : base.any (fun e => decide (e.name = m.name)) = true
    · have hex : ∃ b ∈ base.map (fun x => x.name), id b = id m.name := by
        rw [List.any_eq_true] at hany
        obtain ⟨e, he, hname⟩ := hany
        exact ⟨e.name, List.mem_map_of_mem _ he, by simpa using hname⟩
      simp only [hany, if_true] at h
      simp only [hex, if_true]
      exact ih base h
    · have hex : ¬ ∃ b ∈ base.map (fun x => x.name), id b = id m.name := by
        rintro ⟨b, hb, hkey⟩
        rw [List.mem_map] at hb
        obtain ⟨e, he, rfl⟩ := hb
        exact hany (List.any_eq_true.mpr ⟨e, he, by simpa using hkey⟩)
      have hany' := Bool.not_eq_true _ ▸ hany
      simp only [hany', Bool.false_eq_true, if_false] at h
      simp only [hex, if_false]
      split at h
      · cases h
      · rename_i commands _
        obtain ⟨h1, h2⟩ := ih _ h
        refine ⟨?_, List.IsPrefix.trans (List.prefix_append _ _) h2⟩
        rw [h1]
        simp

theorem merge_encounters_names
    (t1 t2 t3 : Nat → Except ScenarioException Nat)
    (base child result : List ScenarioEncounter)
    (h : merge_encounters t1 t2 t3 base child = .ok result) :
    result.map (fun x => x.name)
        = append_new_by_identity id (base.map (fun x => x.name)) (child.map (fun x => x.name))
      ∧ base <+: result := by
  induction child generalizing base with
  | nil =>
    simp only [merge_encounters, Except.ok.injEq] at h
    subst h
    exact ⟨rfl, List.prefix_refl _⟩
  | cons m rest ih =>
    simp only [merge_encounters] at h
    simp only [List.map_cons, append_new_by_identity]
    by_cases hany : base.any (fun e => decide (e.name = m.name)) = true
    · have hex : ∃ b ∈ base.map (fun x => x.name), id b = id m.name := by
        rw [List.any_eq_true] at hany
        obtain ⟨e, he, hname⟩ := hany
        exact ⟨e.name, List.mem_map_of_mem _ he, by simpa using hname⟩
      simp only [hany, if_true] at h
      simp only [hex, if_true]
      exact ih base h
    · have hex : ¬ ∃ b ∈ base.map (fun x => x.name), id b = id m.name := by
        rintro ⟨b, hb, hkey⟩
        rw [List.mem_map] at hb
        obtain ⟨e, he, rfl⟩ := hb
        exact hany (List.any_eq_true.mpr ⟨e, he, by simpa using hkey⟩)
      have hany' := Bool.not_eq_true _ ▸ hany
      simp only [hany', Bool.false_eq_true, if_false] at h
      simp only [hex, if_false]
      split at h
      · cases h
      · rename_i squads _
        obtain ⟨h1, h2⟩ := ih _ h
        refine ⟨?_, List.IsPrefix.trans (List.prefix_append _ _) h2⟩
        rw [h1]
        simp

/-- C19: after a successful `merge_child_scenario base child`, every keyed
array of the result is the base array followed, in child order, by exactly
those child elements whose identity (name, or reference path and class) no
element held at that moment has; the command lists and encounters are the
base ones followed by the new ones, with the names chosen the same way; the
unkeyed arrays are the base array followed by all child elements; and what
is appended is always a sublist of the child behind the unchanged base. -/
theorem merge_child_scenario_appends_new (base child merged : Scenario)
    (h : merge_child_scenario base child = .ok merged) :
    (merged.object_names = append_new_by_identity (fun (x : ScenarioObjectName) => x.name)
          base.object_names child.object_names
      ∧ merged.device_groups = append_new_by_identity (fun (x : ScenarioNamedBlock) => x.name)
          base.device_groups child.device_groups
      ∧ merged.trigger_volumes = append_new_by_identity (fun (x : ScenarioNamedBlock) => x.name)
          base.trigger_volumes child.trigger_volumes
      ∧ merged.recorded_animations = append_new_by_identity (fun (x : ScenarioNamedBlock) => x.name)
          base.recorded_animations child.recorded_animations
      ∧ merged.actor_palette = append_new_by_identity (fun (x : ScenarioReferenceBlock) => (x.reference.path, x.reference.tag_class_int))
          base.actor_palette child.actor_palette
      ∧ merged.ai_animation_references = append_new_by_identity (fun (x : ScenarioAIAnimationReference) => x.animation_name)
          base.ai_animation_references child.ai_animation_references
      ∧ merged.ai_script_references = append_new_by_identity (fun (x : ScenarioAIScriptReference) => x.script_name)
          base.ai_script_references child.ai_script_references
      ∧ merged.ai_recording_references = append_new_by_identity (fun (x : ScenarioAIRecordingReference) => x.recording_name)
          base.ai_recording_references child.ai_recording_references
      ∧ merged.references = append_new_by_identity (fun (x : ScenarioReferenceBlock) => (x.reference.path, x.reference.tag_class_int))
          base.references child.references
      ∧ merged.cutscene_flags = append_new_by_identity (fun (x : ScenarioNamedBlock) => x.name)
          base.cutscene_flags child.cutscene_flags
      ∧ merged.cutscene_camera_points = append_new_by_identity (fun (x : ScenarioNamedBlock) => x.name)
          base.cutscene_camera_points child.cutscene_camera_points
      ∧ merged.cutscene_titles = append_new_by_identity (fun (x : ScenarioNamedBlock) => x.name)
          base.cutscene_titles child.cutscene_titles
      ∧ merged.source_files = append_new_by_identity (fun (x : ScenarioNamedBlock) => x.name)
          base.source_files child.source_files
      ∧ merged.decal_palette = append_new_by_identity (fun (x : ScenarioReferenceBlock) => (x.reference.path, x.reference.tag_class_int))
          base.decal_palette child.decal_palette
      ∧ merged.scenery_palette = append_new_by_identity (fun (x : ScenarioObjectPalette) => (x.name.path, x.name.tag_class_int))
          base.scenery_palette child.scenery_palette
      ∧ merged.biped_palette = append_new_by_identity (fun (x : ScenarioObjectPalette) => (x.name.path, x.name.tag_class_int))
          base.biped_palette child.biped_palette
      ∧ merged.vehicle_palette = append_new_by_identity (fun (x : ScenarioObjectPalette) => (x.name.path, x.name.tag_class_int))
          base.vehicle_palette child.vehicle_palette
      ∧ merged.equipment_palette = append_new_by_identity (fun (x : ScenarioObjectPalette) => (x.name.path, x.name.tag_class_int))
          base.equipment_palette child.equipment_palette
      ∧ merged.weapon_palette = append_new_by_identity (fun (x : ScenarioObjectPalette) => (x.name.path, x.name.tag_class_int))
          base.weapon_palette child.weapon_palette
      ∧ merged.machine_palette = append_new_by_identity (fun (x : ScenarioObjectPalette) => (x.name.path, x.name.tag_class_int))
          base.machine_palette child.machine_palette
      ∧ merged.control_palette = append_new_by_identity (fun (x : ScenarioObjectPalette) => (x.name.path, x.name.tag_class_int))
          base.control_palette child.control_palette
      ∧ merged.light_fixture_palette = append_new_by_identity (fun (x : ScenarioObjectPalette) => (x.name.path, x.name.tag_class_int))
          base.light_fixture_palette child.light_fixture_palette
      ∧ merged.sound_scenery_palette = append_new_by_identity (fun (x : ScenarioObjectPalette) => (x.name.path, x.name.tag_class_int))
          base.sound_scenery_palette child.sound_scenery_palette)
    ∧ (merged.command_lists.map (fun x => x.name)
          = append_new_by_identity id (base.command_lists.map (fun x => x.name))
              (child.command_lists.map (fun x => x.name))
        ∧ base.command_lists <+: merged.command_lists
        ∧ merged.encounters.map (fun x => x.name)
          = append_new_by_identity id (base.encounters.map (fun x => x.name))
              (child.encounters.map (fun x => x.name))
        ∧ base.encounters <+: merged.encounters)
    ∧ (merged.child_scenarios = base.child_scenarios ++ child.child_scenarios
      ∧ merged.functions = base.functions ++ child.functions
      ∧ merged.comments = base.comments ++ child.comments
      ∧ merged.player_starting_profile = base.player_starting_profile ++ child.player_starting_profile
      ∧ merged.player_starting_locations = base.player_starting_locations ++ child.player_starting_locations
      ∧ merged.netgame_flags = base.netgame_flags ++ child.netgame_flags
      ∧ merged.netgame_equipment = base.netgame_equipment ++ child.netgame_equipment
      ∧ merged.starting_equipment = base.starting_equipment ++ child.starting_equipment)
    ∧ (∀ (α κ : Type) (_ : DecidableEq κ) (key : α → κ) (b c : List α),
        ∃ added, append_new_by_identity key b c = b ++ added ∧ added.Sublist c) := by
  simp only [merge_child_scenario, except_bind_eq_ok, except_pure_eq_ok] at h
  obtain ⟨r_ai_conversations, h_ai_conversations, r_scenery, h_scenery, r_bipeds, h_bipeds, r_vehicles, h_vehicles, r_equipment, h_equipment, r_weapons, h_weapons, r_machines, h_machines, r_controls, h_controls, r_light_fixtures, h_light_fixtures, r_sound_scenery, h_sound_scenery, r_decals, h_decals, r_command_lists, h_command_lists, r_encounters, h_encounters, rfl⟩ := h
  have hcl := merge_command_lists_names _ _ _ _ _ _ _ h_command_lists
  have hen := merge_encounters_names _ _ _ _ _ _ h_encounters
  simp only [merge_arrays] at hcl hen
  refine ⟨?_, ⟨hcl.1, hcl.2, hen.1, hen.2⟩, ?_,
    fun α κ _ key b c => append_new_by_identity_sublist key b c⟩
  · simp only [merge_arrays]
    refine ⟨?_, ?_, ?_, ?_, ?_, ?_, ?_, ?_, ?_, ?_, ?_, ?_, ?_, ?_, ?_, ?_, ?_, ?_, ?_, ?_, ?_, ?_, ?_⟩
    · exact merge_array_eq_append_new (fun (x : ScenarioObjectName) => x.name) _
        (fun _ _ => bne_iff_ne) _ _
    · exact merge_array_eq_append_new (fun (x : ScenarioNamedBlock) => x.name) _
        (fun _ _ => bne_iff_ne) _ _
    · exact merge_array_eq_append_new (fun (x : ScenarioNamedBlock) => x.name) _
        (fun _ _ => bne_iff_ne) _ _
    · exact merge_array_eq_append_new (fun (x : ScenarioNamedBlock) => x.name) _
        (fun _ _ => bne_iff_ne) _ _
    · exact merge_array_eq_append_new (fun (x : ScenarioReferenceBlock) => (x.reference.path, x.reference.tag_class_int)) _
        (fun _ _ => bne_or_bne_iff _ _ _ _) _ _
    · exact merge_array_eq_append_new (fun (x : ScenarioAIAnimationReference) => x.animation_name) _
        (fun _ _ => bne_iff_ne) _ _
    · exact merge_array_eq_append_new (fun (x : ScenarioAIScriptReference) => x.script_name) _
        (fun _ _ => bne_iff_ne) _ _
    · exact merge_array_eq_append_new (fun (x : ScenarioAIRecordingReference) => x.recording_name) _
        (fun _ _ => bne_iff_ne) _ _
    · exact merge_array_eq_append_new (fun (x : ScenarioReferenceBlock) => (x.reference.path, x.reference.tag_class_int)) _
        (fun _ _ => bne_or_bne_iff _ _ _ _) _ _
    · exact merge_array_eq_append_new (fun (x : ScenarioNamedBlock) => x.name) _
        (fun _ _ => bne_iff_ne) _ _
    · exact merge_array_eq_append_new (fun (x : ScenarioNamedBlock) => x.name) _
        (fun _ _ => bne_iff_ne) _ _
    · exact merge_array_eq_append_new (fun (x : ScenarioNamedBlock) => x.name) _
        (fun _ _ => bne_iff_ne) _ _
    · exact merge_array_eq_append_new (fun (x : ScenarioNamedBlock) => x.name) _
        (fun _ _ => bne_iff_ne) _ _
    · exact merge_array_eq_append_new (fun (x : ScenarioReferenceBlock) => (x.reference.path, x.reference.tag_class_int)) _
        (fun _ _ => bne_or_bne_iff _ _ _ _) _ _
    · exact merge_array_eq_append_new (fun (x : ScenarioObjectPalette) => (x.name.path, x.name.tag_class_int)) _
        (fun _ _ => bne_or_bne_iff _ _ _ _) _ _
    · exact merge_array_eq_append_new (fun (x : ScenarioObjectPalette) => (x.name.path, x.name.tag_class_int)) _
        (fun _ _ => bne_or_bne_iff _ _ _ _) _ _
    · exact merge_array_eq_append_new (fun (x : ScenarioObjectPalette) => (x.name.path, x.name.tag_class_int)) _
        (fun _ _ => bne_or_bne_iff _ _ _ _) _ _
    · exact merge_array_eq_append_new (fun (x : ScenarioObjectPalette) => (x.name.path, x.name.tag_class_int)) _
        (fun _ _ => bne_or_bne_iff _ _ _ _) _ _
    · exact merge_array_eq_append_new (fun (x : ScenarioObjectPalette) => (x.name.path, x.name.tag_class_int)) _
        (fun _ _ => bne_or_bne_iff _ _ _ _) _ _
    · exact merge_array_eq_append_new (fun (x : ScenarioObjectPalette) => (x.name.path, x.name.tag_class_int)) _
        (fun _ _ => bne_or_bne_iff _ _ _ _) _ _
    · exact merge_array_eq_append_new (fun (x : ScenarioObjectPalette) => (x.name.path, x.name.tag_class_int)) _
        (fun _ _ => bne_or_bne_iff _ _ _ _) _ _
    · exact merge_array_eq_append_new (fun (x : ScenarioObjectPalette) => (x.name.path, x.name.tag_class_int)) _
        (fun _ _ => bne_or_bne_iff _ _ _ _) _ _
    · exact merge_array_eq_append_new (fun (x : ScenarioObjectPalette) => (x.name.path, x.name.tag_class_int)) _
        (fun _ _ => bne_or_bne_iff _ _ _ _) _ _
  · simp only [merge_arrays]
    refine ⟨?_, ?_, ?_, ?_, ?_, ?_, ?_, ?_⟩
    · exact merge_array_always _ _
    · exact merge_array_always _ _
    · exact merge_array_always _ _
    · exact merge_array_always _ _
    · exact merge_array_always _ _
    · exact merge_array_always _ _
    · exact merge_array_always _ _
    · exact merge_array_always _ _

/-- Witness for C19: the base holds the object names `a` and `b`, the child
holds `b`, `c` and `c` again; the merged scenario holds `a`, `b`, `c`. -/
theorem merge_child_scenario_appends_new_witness :
    Scenario.object_names
        { object_names := [{ name := "a" }, { name := "b" }, { name := "c" }] }
      = append_new_by_identity (fun (x : ScenarioObjectName) => x.name)
          (Scenario.object_names { object_names := [{ name := "a" }, { name := "b" }] })
          (Scenario.object_names
            { object_names := [{ name := "b" }, { name := "c" }, { name := "c" }] }) :=
  (merge_child_scenario_appends_new
    { object_names := [{ name := "a" }, { name := "b" }] }
    { object_names := [{ name := "b" }, { name := "c" }, { name := "c" }] }
    { object_names := [{ name := "a" }, { name := "b" }, { name := "c" }] }
    (by decide)).1.1

/-! ### Swizzled and compressed bitmap data -/

theorem report_error_raw_data (workload : BuildWorkload) (type : ErrorType) (message : String)
    (tag_index : Nat) :
    (workload.report_error type message tag_index).raw_data = workload.raw_data := rfl

theorem pre_compile_warnings_raw_data (bitmap_type : BitmapType) (tag_index : Nat)
    (workload : BuildWorkload) (data : BitmapData) :
    (pre_compile_warnings bitmap_type tag_index workload data).raw_data = workload.raw_data := by
  unfold pre_compile_warnings
  simp only []
  split_ifs <;> (try split) <;> simp only [report_error_raw_data]

theorem pre_compile_bitmap_data_raw_data (bitmap_type : BitmapType) (pixel_data : List Nat)
    (tag_index : Nat) (workload : BuildWorkload) (data : BitmapData) :
    workload.raw_data <+: (pre_compile_bitmap_data bitmap_type pixel_data tag_index workload data).1.raw_data
      ∧ (pre_compile_bitmap_data bitmap_type pixel_data tag_index workload data).1.raw_data.length
          ≤ workload.raw_data.length + 1 := by
  have key : ∀ (w3 : BuildWorkload) (d' : BitmapData) (start : Nat),
      w3.raw_data = workload.raw_data →
      workload.raw_data <+:
          (match size_of_bitmap d' with
            | none => (w3, (Except.error ScenarioException.std_exception :
                Except ScenarioException BitmapData))
            | some size =>
              if start > pixel_data.length ∨ size > pixel_data.length
                  ∨ (start + size) % size_t_modulus > pixel_data.length then
                (w3.report_error .ERROR_TYPE_FATAL_ERROR
                  "Bitmap data range exceeds the processed pixel data size" tag_index,
                  .error .InvalidTagDataException)
              else
                ({ w3 with
                    raw_data := w3.raw_data
                      ++ [(pixel_data.drop start).take ((start + size) % size_t_modulus - start)],
                    asset_data := w3.asset_data ++ [(tag_index, w3.raw_data.length)] },
                  .ok { d' with pixel_data_size := size % uint32_modulus })).1.raw_data
        ∧ (match size_of_bitmap d' with
            | none => (w3, (Except.error ScenarioException.std_exception :
                Except ScenarioException BitmapData))
            | some size =>
              if start > pixel_data.length ∨ size > pixel_data.length
                  ∨ (start + size) % size_t_modulus > pixel_data.length then
                (w3.report_error .ERROR_TYPE_FATAL_ERROR
                  "Bitmap data range exceeds the processed pixel data size" tag_index,
                  .error .InvalidTagDataException)
              else
                ({ w3 with
                    raw_data := w3.raw_data
                      ++ [(pixel_data.drop start).take ((start + size) % size_t_modulus - start)],
                    asset_data := w3.asset_data ++ [(tag_index, w3.raw_data.length)] },
                  .ok { d' with pixel_data_size := size % uint32_modulus })).1.raw_data.length
          ≤ workload.raw_data.length + 1 := by
    intro w3 d' start hw3
    split
    · simp [hw3]
    · split_ifs
      · simp [report_error_raw_data, hw3]
      · simp [hw3]
  unfold pre_compile_bitmap_data
  by_cases h1 : data.flags.swizzled = true ∧ data.flags.compressed = true
  · rw [if_pos h1]
    exact ⟨List.prefix_refl _, by simp⟩
  · by_cases h2 : data.flags.swizzled = true
    · rw [if_neg h1, if_pos h2]
      exact ⟨List.prefix_refl _, by simp⟩
    · rw [if_neg h1, if_neg h2]
      apply key
      split_ifs <;> simp only [pre_compile_warnings_raw_data, report_error_raw_data]

theorem pre_compile_bitmap_data_swizzled_compressed (bitmap_type : BitmapType)
    (pixel_data : List Nat) (tag_index : Nat) (workload : BuildWorkload) (d : BitmapData)
    (hs : d.flags.swizzled = true) (hc : d.flags.compressed = true) :
    pre_compile_bitmap_data bitmap_type pixel_data tag_index workload d
      = (workload, .error .InvalidTagDataException) := by
  unfold pre_compile_bitmap_data
  rw [if_pos ⟨hs, hc⟩]

theorem pre_compile_bitmap_data_loop_swizzled_compressed (bitmap_type : BitmapType)
    (pixel_data : List Nat) (tag_index : Nat) (pre post : List BitmapData) (d : BitmapData)
    (hs : d.flags.swizzled = true) (hc : d.flags.compressed = true)
    (workload : BuildWorkload) (done : List BitmapData) :
    ∃ w e, pre_compile_bitmap_data_loop bitmap_type pixel_data tag_index workload
          (pre ++ d :: post) done = (w, .error e)
      ∧ workload.raw_data <+: w.raw_data
      ∧ w.raw_data.length ≤ workload.raw_data.length + pre.length := by
  induction pre generalizing workload done with
  | nil =>
    refine ⟨workload, .InvalidTagDataException, ?_, List.prefix_refl _, by simp⟩
    simp only [List.nil_append, pre_compile_bitmap_data_loop,
      pre_compile_bitmap_data_swizzled_compressed _ _ _ _ _ hs hc]
  | cons x pre ih =>
    obtain ⟨hp, hl⟩ := pre_compile_bitmap_data_raw_data bitmap_type pixel_data tag_index workload x
    simp only [List.cons_append, pre_compile_bitmap_data_loop]
    rcases hx : pre_compile_bitmap_data bitmap_type pixel_data tag_index workload x with ⟨w1, r1⟩
    rw [hx] at hp hl
    dsimp only at hp hl
    cases r1 with
    | error e =>
      exact ⟨w1, e, rfl, hp, by simp only [List.length_cons]; omega⟩
    | ok x' =>
      obtain ⟨w, e, h1, h2, h3⟩ := ih w1 (done ++ [x'])
      exact ⟨w, e, h1, List.IsPrefix.trans hp h2, by simp only [List.length_cons]; omega⟩

theorem post_cache_parse_bitmap_data_swizzled_compressed (map : CacheMap) (bd : Nat)
    (processed_pixel_data : List Nat) (d : BitmapData)
    (hs : d.flags.swizzled = true) (hc : d.flags.compressed = true) :
    post_cache_parse_bitmap_data map bd processed_pixel_data d
      = .error .InvalidTagDataException := by
  unfold post_cache_parse_bitmap_data
  simp only [hs, hc]
  split_ifs <;> first | rfl | simp_all

theorem post_cache_parse_loop_swizzled_compressed (map : CacheMap)
    (pre post : List BitmapData) (d : BitmapData)
    (hs : d.flags.swizzled = true) (hc : d.flags.compressed = true)
    (bd : Nat) (done : List BitmapData) (processed_pixel_data : List Nat) :
    (post_cache_parse_loop map bd (pre ++ d :: post) done processed_pixel_data).2.2.2 ≠ none
      ∧ (post_cache_parse_loop map bd (pre ++ d :: post) done processed_pixel_data).2.2.1
          ≤ bd + pre.length := by
  induction pre generalizing bd done processed_pixel_data with
  | nil =>
    simp only [List.nil_append, post_cache_parse_loop,
      post_cache_parse_bitmap_data_swizzled_compressed _ _ _ _ hs hc]
    simp
  | cons x pre ih =>
    simp only [List.cons_append, post_cache_parse_loop]
    split
    · simp
    · rename_i x' p' _
      obtain ⟨h1, h2⟩ := ih (bd + 1) (done ++ [x']) p'
      refine ⟨h1, ?_⟩
      simp only [List.length_cons, List.append_eq] at h2 ⊢
      omega

/-- C17: a bitmap tag that holds, behind the bitmap data `pre`, a bitmap data
`d` with both the swizzled and the compressed flag set is rejected, whatever
its format and geometry: `do_pre_compile` (bitmap.cpp) throws and adds raw
data for bitmap data of `pre` at most, and `do_post_cache_parse`
(decompile.cpp) throws and has inserted the pixel data of bitmap data of
`pre` at most; no pixel data is emitted for `d`. -/
theorem swizzled_compressed_rejected (bitmap : Bitmap) (pre post : List BitmapData)
    (d : BitmapData) (hdata : bitmap.bitmap_data = pre ++ d :: post)
    (hs : d.flags.swizzled = true) (hc : d.flags.compressed = true) :
    (∀ (workload : BuildWorkload) (tag_index : Nat),
      ∃ w e, do_pre_compile bitmap workload tag_index = (w, .error e)
        ∧ workload.raw_data <+: w.raw_data
        ∧ w.raw_data.length ≤ workload.raw_data.length + pre.length)
    ∧ (∀ (map : CacheMap),
      (do_post_cache_parse map bitmap).exception ≠ none
        ∧ (do_post_cache_parse map bitmap).inserted ≤ pre.length) := by
  constructor
  · intro workload tag_index
    unfold do_pre_compile
    split_ifs
    · exact ⟨_, _, rfl, List.prefix_refl _, by simp [report_error_raw_data]⟩
    · obtain ⟨w, e, h1, h2, h3⟩ := pre_compile_bitmap_data_loop_swizzled_compressed bitmap.type
        bitmap.processed_pixel_data tag_index pre post d hs hc workload []
      rw [hdata]
      simp only [h1]
      exact ⟨w, e, rfl, h2, h3⟩
  · intro map
    have hloop := fun (p : List Nat) =>
      post_cache_parse_loop_swizzled_compressed map pre post d hs hc 0 [] p
    unfold do_post_cache_parse
    simp only []
    have hpixels := hloop bitmap.processed_pixel_data
    split_ifs <;> simp only [hdata] <;> simpa using hpixels

/-- Witness for C17: a bitmap tag whose second bitmap data is a swizzled and
compressed 4x4 DXT1 bitmap. -/
theorem swizzled_compressed_rejected_witness :
    (∀ (workload : BuildWorkload) (tag_index : Nat),
      ∃ w e, do_pre_compile
            { processed_pixel_data := [1, 2, 3, 4],
              bitmap_data :=
                [{ width := 1, height := 1, depth := 1, type := .BITMAP_DATA_TYPE_2D_TEXTURE,
                   format := .BITMAP_DATA_FORMAT_A8R8G8B8, flags := {}, mipmap_count := 0 },
                 { width := 4, height := 4, depth := 1, type := .BITMAP_DATA_TYPE_2D_TEXTURE,
                   format := .BITMAP_DATA_FORMAT_DXT1,
                   flags := { compressed := true, swizzled := true }, mipmap_count := 0 }] }
            workload tag_index = (w, .error e)
        ∧ workload.raw_data <+: w.raw_data
        ∧ w.raw_data.length ≤ workload.raw_data.length + 1)
    ∧ (∀ (map : CacheMap),
      (do_post_cache_parse map
            { processed_pixel_data := [1, 2, 3, 4],
              bitmap_data :=
                [{ width := 1, height := 1, depth := 1, type := .BITMAP_DATA_TYPE_2D_TEXTURE,
                   format := .BITMAP_DATA_FORMAT_A8R8G8B8, flags := {}, mipmap_count := 0 },
                 { width := 4, height := 4, depth := 1, type := .BITMAP_DATA_TYPE_2D_TEXTURE,
                   format := .BITMAP_DATA_FORMAT_DXT1,
                   flags := { compressed := true, swizzled := true }, mipmap_count := 0 }] }
          ).exception ≠ none
        ∧ (do_post_cache_parse map
            { processed_pixel_data := [1, 2, 3, 4],
              bitmap_data :=
                [{ width := 1, height := 1, depth := 1, type := .BITMAP_DATA_TYPE_2D_TEXTURE,
                   format := .BITMAP_DATA_FORMAT_A8R8G8B8, flags := {}, mipmap_count := 0 },
                 { width := 4, height := 4, depth := 1, type := .BITMAP_DATA_TYPE_2D_TEXTURE,
                   format := .BITMAP_DATA_FORMAT_DXT1,
                   flags := { compressed := true, swizzled := true }, mipmap_count := 0 }] }
          ).inserted ≤ 1) :=
  swizzled_compressed_rejected _
    [{ width := 1, height := 1, depth := 1, type := .BITMAP_DATA_TYPE_2D_TEXTURE,
       format := .BITMAP_DATA_FORMAT_A8R8G8B8, flags := {}, mipmap_count := 0 }]
    []
    { width := 4, height := 4, depth := 1, type := .BITMAP_DATA_TYPE_2D_TEXTURE,
      format := .BITMAP_DATA_FORMAT_DXT1,
      flags := { compressed := true, swizzled := true }, mipmap_count := 0 }
    rfl rfl rfl

/-! ### Script node table -/

theorem read_u16_be_lt (data : List Nat) (offset : Nat) : read_u16_be data offset < 65536 := by
  unfold read_u16_be
  omega

/-- C18: for non-empty script syntax data, the script table step of
`Scenario::pre_compile` reports a fatal error and throws if and only if the
data is shorter than the table header, or the header's element size is not
the node size, or the data length is not `maximum_count * node_size +
header_size`; otherwise it makes no report and goes on with the converted
table. -/
theorem pre_compile_script_syntax_data_fatal_iff (layout : ScriptNodeTableLayout)
    (workload : BuildWorkload) (tag_index : Nat) (script_syntax_data : List Nat)
    (hne : script_syntax_data.length ≠ 0)
    (hnode : layout.node_size < uint32_modulus) (hheader : layout.header_size < uint32_modulus) :
    ((∃ e, (pre_compile_script_syntax_data layout workload tag_index script_syntax_data).2
          = .error e)
      ↔ (script_syntax_data.length < layout.header_size
          ∨ read_u16_be script_syntax_data layout.element_size_offset ≠ layout.node_size
          ∨ script_syntax_data.length
              ≠ read_u16_be script_syntax_data layout.maximum_count_offset * layout.node_size
                + layout.header_size))
    ∧ ((script_syntax_data.length < layout.header_size
          ∨ read_u16_be script_syntax_data layout.element_size_offset ≠ layout.node_size
          ∨ script_syntax_data.length
              ≠ read_u16_be script_syntax_data layout.maximum_count_offset * layout.node_size
                + layout.header_size) →
        ∃ message, pre_compile_script_syntax_data layout workload tag_index script_syntax_data
          = (workload.report_error .ERROR_TYPE_FATAL_ERROR message tag_index,
              .error .InvalidTagDataException))
    ∧ (¬ (script_syntax_data.length < layout.header_size
          ∨ read_u16_be script_syntax_data layout.element_size_offset ≠ layout.node_size
          ∨ script_syntax_data.length
              ≠ read_u16_be script_syntax_data layout.maximum_count_offset * layout.node_size
                + layout.header_size) →
        ∃ table, pre_compile_script_syntax_data layout workload tag_index script_syntax_data
          = (workload, .ok table)) := by
  have hmod : (read_u16_be script_syntax_data layout.maximum_count_offset * layout.node_size
      + layout.header_size) % size_t_modulus
      = read_u16_be script_syntax_data layout.maximum_count_offset * layout.node_size
        + layout.header_size := by
    apply Nat.mod_eq_of_lt
    have h1 := read_u16_be_lt script_syntax_data layout.maximum_count_offset
    have h2 : read_u16_be script_syntax_data layout.maximum_count_offset * layout.node_size
        ≤ 65535 * 4294967295 :=
      Nat.mul_le_mul (by omega) (by unfold uint32_modulus at hnode; omega)
    unfold uint32_modulus at hheader
    unfold size_t_modulus
    omega
  have hfail : (script_syntax_data.length < layout.header_size
          ∨ read_u16_be script_syntax_data layout.element_size_offset ≠ layout.node_size
          ∨ script_syntax_data.length
              ≠ read_u16_be script_syntax_data layout.maximum_count_offset * layout.node_size
                + layout.header_size) →
        ∃ message, pre_compile_script_syntax_data layout workload tag_index script_syntax_data
          = (workload.report_error .ERROR_TYPE_FATAL_ERROR message tag_index,
              .error .InvalidTagDataException) := by
    intro hc
    unfold pre_compile_script_syntax_data
    rw [if_neg hne]
    simp only [hmod]
    split_ifs with h1 h2 h3
    · exact ⟨_, rfl⟩
    · exact ⟨_, rfl⟩
    · exact ⟨_, rfl⟩
    · exfalso
      rcases hc with hc | hc | hc
      · exact h1 hc
      · exact h2 hc
      · exact h3 hc
  have hok : ¬ (script_syntax_data.length < layout.header_size
          ∨ read_u16_be script_syntax_data layout.element_size_offset ≠ layout.node_size
          ∨ script_syntax_data.length
              ≠ read_u16_be script_syntax_data layout.maximum_count_offset * layout.node_size
                + layout.header_size) →
        ∃ table, pre_compile_script_syntax_data layout workload tag_index script_syntax_data
          = (workload, .ok table) := by
    intro hc
    rw [not_or, not_or] at hc
    obtain ⟨h1, h2, h3⟩ := hc
    unfold pre_compile_script_syntax_data
    rw [if_neg hne]
    simp only [hmod]
    rw [if_neg h1, if_neg h2, if_neg h3]
    exact ⟨_, rfl⟩
  refine ⟨⟨?_, ?_⟩, hfail, hok⟩
  · rintro ⟨e, he⟩
    by_contra hc
    obtain ⟨table, ht⟩ := hok hc
    rw [ht] at he
    cases he
  · intro hc
    obtain ⟨message, hm⟩ := hfail hc
    exact ⟨_, by rw [hm]⟩

/-- Witness for C18: a table with a 4-byte header (maximum count, then element
size, both big endian) and 2-byte nodes; the data holds the header and the
three nodes it announces. -/
theorem pre_compile_script_syntax_data_fatal_iff_witness :
    ¬ (∃ e, (pre_compile_script_syntax_data
          { header_size := 4, node_size := 2, maximum_count_offset := 0,
            element_size_offset := 2, to_little_header := id, to_little_node := id,
            default_table := [] }
          {} 0 [0, 3, 0, 2, 1, 1, 2, 2, 3, 3]).2 = .error e) := by
  have h := (pre_compile_script_syntax_data_fatal_iff
    { header_size := 4, node_size := 2, maximum_count_offset := 0,
      element_size_offset := 2, to_little_header := id, to_little_node := id,
      default_table := [] }
    {} 0 [0, 3, 0, 2, 1, 1, 2, 2, 3, 3] (by decide) (by decide) (by decide)).1
  rw [h]
  decide

/-! ### Bytes -/

theorem length_store (data : List Nat) (position : Nat) (bytes : List Nat) :
    (store data position bytes).length = data.length := by
  simp [store]

theorem getD_store (data : List Nat) (position : Nat) (bytes : List Nat) (i : Nat) :
    (store data position bytes).getD i 0
      = if position ≤ i ∧ i < position + bytes.length ∧ i < data.length then
          bytes.getD (i - position) 0
        else data.getD i 0 := by
  unfold store
  rw [List.getD_eq_getElem?_getD, List.getElem?_map]
  by_cases hi : i < data.length
  · rw [List.getElem?_range hi]
    simp only [Option.map_some', Option.getD_some, hi, and_true]
  · have hnone : (List.range data.length)[i]? = none := by
      apply List.getElem?_eq_none
      simpa using hi
    have hd : data[i]? = none := List.getElem?_eq_none (by omega)
    simp [hnone, hi, hd]

theorem getD_store_outside (data : List Nat) (position : Nat) (bytes : List Nat) (i : Nat)
    (h : i < position ∨ position + bytes.length ≤ i) :
    (store data position bytes).getD i 0 = data.getD i 0 := by
  rw [getD_store, if_neg]
  omega

theorem read_u32_le_congr (a b : List Nat) (q : Nat)
    (h : ∀ i, q ≤ i → i < q + 4 → a.getD i 0 = b.getD i 0) :
    read_u32_le a q = read_u32_le b q := by
  unfold read_u32_le
  rw [h q (by omega) (by omega), h (q + 1) (by omega) (by omega),
    h (q + 2) (by omega) (by omega), h (q + 3) (by omega) (by omega)]

theorem read_u16_le_congr (a b : List Nat) (q : Nat)
    (h : ∀ i, q ≤ i → i < q + 2 → a.getD i 0 = b.getD i 0) :
    read_u16_le a q = read_u16_le b q := by
  unfold read_u16_le
  rw [h q (by omega) (by omega), h (q + 1) (by omega) (by omega)]

theorem read_u32_le_of_bytes (a : List Nat) (q v : Nat)
    (h : ∀ j, j < 4 → a.getD (q + j) 0 = (u32_le_bytes v).getD j 0) :
    read_u32_le a q = v % 4294967296 := by
  unfold read_u32_le
  have h0 := h 0 (by omega)
  have h1 := h 1 (by omega)
  have h2 := h 2 (by omega)
  have h3 := h 3 (by omega)
  simp only [u32_le_bytes, List.getD_cons_zero, List.getD_cons_succ, Nat.add_zero] at h0 h1 h2 h3
  rw [h0, h1, h2, h3]
  omega

theorem read_u16_le_of_bytes (a : List Nat) (q v : Nat)
    (h : ∀ j, j < 2 → a.getD (q + j) 0 = (u16_le_bytes v).getD j 0) :
    read_u16_le a q = v % 65536 := by
  unfold read_u16_le
  have h0 := h 0 (by omega)
  have h1 := h 1 (by omega)
  simp only [u16_le_bytes, List.getD_cons_zero, List.getD_cons_succ, Nat.add_zero] at h0 h1
  rw [h0, h1]
  omega

theorem read_u32_le_store_same (data : List Nat) (q v : Nat) (hq : q + 4 ≤ data.length) :
    read_u32_le (store data q (u32_le_bytes v)) q = v % 4294967296 := by
  apply read_u32_le_of_bytes
  intro j hj
  rw [getD_store, if_pos]
  · simp
  · simp only [u32_le_bytes, List.length_cons, List.length_nil]
    omega

theorem read_u16_le_store_same (data : List Nat) (q v : Nat) (hq : q + 2 ≤ data.length) :
    read_u16_le (store data q (u16_le_bytes v)) q = v % 65536 := by
  apply read_u16_le_of_bytes
  intro j hj
  rw [getD_store, if_pos]
  · simp
  · simp only [u16_le_bytes, List.length_cons, List.length_nil]
    omega

theorem read_u32_le_store_disjoint (data : List Nat) (position : Nat) (bytes : List Nat)
    (q : Nat) (h : q + 4 ≤ position ∨ position + bytes.length ≤ q) :
    read_u32_le (store data position bytes) q = read_u32_le data q :=
  read_u32_le_congr _ _ _ (fun i h1 h2 => getD_store_outside _ _ _ _ (by omega))

theorem read_u16_le_store_disjoint (data : List Nat) (position : Nat) (bytes : List Nat)
    (q : Nat) (h : q + 2 ≤ position ∨ position + bytes.length ≤ q) :
    read_u16_le (store data position bytes) q = read_u16_le data q :=
  read_u16_le_congr _ _ _ (fun i h1 h2 => getD_store_outside _ _ _ _ (by omega))

theorem read_u32_le_lt (data : List Nat) (q : Nat) : read_u32_le data q < 4294967296 := by
  unfold read_u32_le
  omega

/-! ### The lambda `write_pointers` -/

theorem write_pointers_copy_eq (compiled : List BuildWorkloadStruct) (data structs : List Nat) :
    write_pointers_copy compiled data structs
      = (data ++ (compiled.map (fun s => s.data)).flatten,
         structs ++ (List.range compiled.length).map (fun k =>
            data.length + ((compiled.take k).map (fun s => s.data.length)).sum)) := by
  induction compiled generalizing data structs with
  | nil => simp [write_pointers_copy]
  | cons s rest ih =>
    simp only [write_pointers_copy, ih, List.map_cons, List.flatten_cons, List.length_cons,
      List.range_succ_eq_map, List.map_cons, List.take_zero, List.map_nil, List.sum_nil,
      Nat.add_zero, List.map_map, List.append_assoc, List.singleton_append, List.length_append]
    refine Prod.ext rfl ?_
    simp only [List.cons.injEq, true_and, List.append_cancel_left_eq]
    apply List.map_congr_left
    intro k _
    simp only [Function.comp, List.take_succ_cons, List.map_cons, List.sum_cons]
    omega

theorem write_pointers_of_struct_eq_foldl (so : Nat) (structs : List Nat) (struct_offset : Nat)
    (pointers : List BuildWorkloadStructPointer) (data : List Nat) :
    write_pointers_of_struct so structs struct_offset pointers data
      = (pointers.map (fun ptr => (struct_offset + ptr.offset, ptr))).foldl
          (fun d f => store d f.1 (u32_le_bytes (pointer_value so structs f.2))) data := by
  induction pointers generalizing data with
  | nil => rfl
  | cons p rest ih => simp only [write_pointers_of_struct, ih, List.map_cons, List.foldl_cons]

theorem write_pointers_of_structs_eq_foldl (so : Nat) (structs : List Nat)
    (compiled : List BuildWorkloadStruct) (k : Nat) (data : List Nat) :
    write_pointers_of_structs so structs compiled k data
      = (pointer_fields structs compiled k).foldl
          (fun d f => store d f.1 (u32_le_bytes (pointer_value so structs f.2))) data := by
  induction compiled generalizing k data with
  | nil => rfl
  | cons s rest ih =>
    simp only [write_pointers_of_structs, pointer_fields, List.foldl_append, ih,
      write_pointers_of_struct_eq_foldl]

theorem foldl_store_length (val : BuildWorkloadStructPointer → Nat)
    (fields : List (Nat × BuildWorkloadStructPointer)) (data : List Nat) :
    (fields.foldl (fun d f => store d f.1 (u32_le_bytes (val f.2))) data).length
      = data.length := by
  induction fields generalizing data with
  | nil => rfl
  | cons f rest ih => simp only [List.foldl_cons, ih, length_store]

theorem foldl_store_getD_outside (val : BuildWorkloadStructPointer → Nat)
    (fields : List (Nat × BuildWorkloadStructPointer)) (data : List Nat) (i : Nat)
    (h : ∀ f ∈ fields, i < f.1 ∨ f.1 + 4 ≤ i) :
    (fields.foldl (fun d f => store d f.1 (u32_le_bytes (val f.2))) data).getD i 0
      = data.getD i 0 := by
  induction fields generalizing data with
  | nil => rfl
  | cons f rest ih =>
    simp only [List.foldl_cons]
    rw [ih _ (fun g hg => h g (List.mem_cons_of_mem _ hg))]
    apply getD_store_outside
    have := h f (List.mem_cons_self _ _)
    simp only [u32_le_bytes, List.length_cons, List.length_nil]
    omega

theorem foldl_store_read (val : BuildWorkloadStructPointer → Nat)
    (fields : List (Nat × BuildWorkloadStructPointer)) (data : List Nat)
    (hdisjoint : fields.Pairwise (fun a b => a.1 + 4 ≤ b.1 ∨ b.1 + 4 ≤ a.1))
    (f : Nat × BuildWorkloadStructPointer) (hf : f ∈ fields) (hbound : f.1 + 4 ≤ data.length) :
    read_u32_le (fields.foldl (fun d f => store d f.1 (u32_le_bytes (val f.2))) data) f.1
      = val f.2 % 4294967296 := by
  induction fields generalizing data with
  | nil => cases hf
  | cons g rest ih =>
    rw [List.pairwise_cons] at hdisjoint
    simp only [List.foldl_cons]
    rcases List.mem_cons.mp hf with rfl | hmem
    · rw [read_u32_le_congr _ (store data f.1 (u32_le_bytes (val f.2))) f.1]
      · exact read_u32_le_store_same _ _ _ hbound
      · intro i h1 h2
        apply foldl_store_getD_outside
        intro g hg
        have := hdisjoint.1 g hg
        omega
    · exact ih _ hdisjoint.2 hmem (by rw [length_store]; exact hbound)

theorem mem_pointer_fields (structs : List Nat) (compiled : List BuildWorkloadStruct)
    (base k : Nat) (s : BuildWorkloadStruct) (p : BuildWorkloadStructPointer)
    (hs : compiled[k]? = some s) (hp : p ∈ s.pointers) :
    (structs.getD (base + k) 0 + p.offset, p) ∈ pointer_fields structs compiled base := by
  induction compiled generalizing base k with
  | nil => simp at hs
  | cons s0 rest ih =>
    simp only [pointer_fields, List.mem_append]
    cases k with
    | zero =>
      simp only [List.getElem?_cons_zero, Option.some.injEq] at hs
      subst hs
      exact Or.inl (List.mem_map.mpr ⟨p, hp, rfl⟩)
    | succ k =>
      simp only [List.getElem?_cons_succ] at hs
      right
      have := ih (base + 1) k hs
      rwa [Nat.add_assoc, Nat.add_comm 1 k] at this

theorem pointer_fields_mem (structs : List Nat) (compiled : List BuildWorkloadStruct)
    (base : Nat) (f : Nat × BuildWorkloadStructPointer)
    (hf : f ∈ pointer_fields structs compiled base) :
    ∃ k s, compiled[k]? = some s ∧ f.2 ∈ s.pointers
      ∧ f.1 = structs.getD (base + k) 0 + f.2.offset := by
  induction compiled generalizing base with
  | nil => cases hf
  | cons s0 rest ih =>
    simp only [pointer_fields, List.mem_append, List.mem_map] at hf
    rcases hf with ⟨p, hp, rfl⟩ | hrest
    · exact ⟨0, s0, by simp, hp, rfl⟩
    · obtain ⟨k, s, h1, h2, h3⟩ := ih (base + 1) hrest
      exact ⟨k + 1, s, by simpa using h1, h2, by rw [h3, Nat.add_assoc, Nat.add_comm 1 k]⟩

theorem struct_offset_add_le (compiled : List BuildWorkloadStruct) (k : Nat)
    (s : BuildWorkloadStruct) (hs : compiled[k]? = some s) :
    ((compiled.take k).map (fun s => s.data.length)).sum + s.data.length
      ≤ (compiled.map (fun s => s.data.length)).sum := by
  induction compiled generalizing k with
  | nil => simp at hs
  | cons s0 rest ih =>
    cases k with
    | zero =>
      simp only [List.getElem?_cons_zero, Option.some.injEq] at hs
      subst hs
      simp
    | succ k =>
      simp only [List.getElem?_cons_succ] at hs
      have := ih k hs
      simp only [List.take_succ_cons, List.map_cons, List.sum_cons]
      omega

theorem struct_data_at_offset (compiled : List BuildWorkloadStruct) (k : Nat)
    (s : BuildWorkloadStruct) (hs : compiled[k]? = some s) :
    (((compiled.map (fun s => s.data)).flatten.drop
        ((compiled.take k).map (fun s => s.data.length)).sum).take s.data.length) = s.data := by
  induction compiled generalizing k with
  | nil => simp at hs
  | cons s0 rest ih =>
    cases k with
    | zero =>
      simp only [List.getElem?_cons_zero, Option.some.injEq] at hs
      subst hs
      simp
    | succ k =>
      simp only [List.getElem?_cons_succ] at hs
      have := ih k hs
      simp only [List.take_succ_cons, List.map_cons, List.sum_cons, List.flatten_cons]
      rw [List.drop_append_eq_append_drop]
      simp only [List.drop_eq_nil_of_le (Nat.le_add_right _ _), List.nil_append,
        Nat.add_sub_cancel_left]
      exact this

/-- C14: `write_pointers` lays the structs out in list order, struct `k` at the
sum of the data lengths of the structs before it, one after the other over
the whole of `data`; when every pointer field lies inside its struct and no
two fields overlap, each pointer field holds, as a 32-bit little-endian
value, the position of the struct it points to, less `sizeof(Sound)` modulo
`2^32` for a sound map, and every byte outside the pointer fields is the byte
of the struct data. -/
theorem write_pointers_resolves (layout : ResourceLayout) (type : ResourceMapType)
    (compiled : List BuildWorkloadStruct)
    (hbounds : ∀ s ∈ compiled, ∀ p ∈ s.pointers, p.offset + 4 ≤ s.data.length)
    (hdisjoint : (pointer_fields (write_pointers layout type compiled).2 compiled 0).Pairwise
      (fun a b => a.1 + 4 ≤ b.1 ∨ b.1 + 4 ≤ a.1)) :
    (write_pointers layout type compiled).2
        = (List.range compiled.length).map (fun k =>
            ((compiled.take k).map (fun s => s.data.length)).sum)
    ∧ (write_pointers layout type compiled).1.length
        = (compiled.map (fun s => s.data.length)).sum
    ∧ (∀ k s, compiled[k]? = some s →
        (((compiled.map (fun s => s.data)).flatten.drop
          ((compiled.take k).map (fun s => s.data.length)).sum).take s.data.length) = s.data)
    ∧ (∀ k s p, compiled[k]? = some s → p ∈ s.pointers → p.struct_index < compiled.length →
        read_u32_le (write_pointers layout type compiled).1
            (((compiled.take k).map (fun s => s.data.length)).sum + p.offset)
          = (((compiled.take p.struct_index).map (fun s => s.data.length)).sum + size_t_modulus
              - (if type = .RESOURCE_MAP_SOUND then layout.sizeof_Sound else 0))
            % size_t_modulus % uint32_modulus)
    ∧ (type ≠ .RESOURCE_MAP_SOUND →
        ∀ k s p, compiled[k]? = some s → p ∈ s.pointers → p.struct_index < compiled.length →
          ((compiled.take p.struct_index).map (fun s => s.data.length)).sum < uint32_modulus →
          read_u32_le (write_pointers layout type compiled).1
              (((compiled.take k).map (fun s => s.data.length)).sum + p.offset)
            = ((compiled.take p.struct_index).map (fun s => s.data.length)).sum)
    ∧ (∀ i,
        (∀ k s p, compiled[k]? = some s → p ∈ s.pointers →
          i < ((compiled.take k).map (fun s => s.data.length)).sum + p.offset
            ∨ ((compiled.take k).map (fun s => s.data.length)).sum + p.offset + 4 ≤ i) →
        (write_pointers layout type compiled).1.getD i 0
          = ((compiled.map (fun s => s.data)).flatten).getD i 0) := by
  have hstructs : (write_pointers layout type compiled).2
        = (List.range compiled.length).map (fun k =>
            ((compiled.take k).map (fun s => s.data.length)).sum) := by
    simp [write_pointers, write_pointers_copy_eq]
  have hget : ∀ k, k < compiled.length →
      (write_pointers layout type compiled).2.getD k 0
        = ((compiled.take k).map (fun s => s.data.length)).sum := by
    intro k hk
    rw [hstructs, List.getD_eq_getElem?_getD, List.getElem?_map, List.getElem?_range hk]
    rfl
  have hdata : (write_pointers layout type compiled).1
        = (pointer_fields (write_pointers layout type compiled).2 compiled 0).foldl
            (fun d f => store d f.1 (u32_le_bytes
              (pointer_value (if type = .RESOURCE_MAP_SOUND then layout.sizeof_Sound else 0)
                (write_pointers layout type compiled).2 f.2)))
            ((compiled.map (fun s => s.data)).flatten) := by
    simp [write_pointers, write_pointers_copy_eq, write_pointers_of_structs_eq_foldl]
  have hlen : (write_pointers layout type compiled).1.length
        = (compiled.map (fun s => s.data.length)).sum := by
    rw [hdata, foldl_store_length, List.length_flatten, List.map_map]
    rfl
  have hread : ∀ k s p, compiled[k]? = some s → p ∈ s.pointers →
      p.struct_index < compiled.length →
        read_u32_le (write_pointers layout type compiled).1
            (((compiled.take k).map (fun s => s.data.length)).sum + p.offset)
          = (((compiled.take p.struct_index).map (fun s => s.data.length)).sum + size_t_modulus
              - (if type = .RESOURCE_MAP_SOUND then layout.sizeof_Sound else 0))
            % size_t_modulus % uint32_modulus := by
    intro k s p hs hp hidx
    have hk : k < compiled.length := by
      by_contra hk
      rw [List.getElem?_eq_none (by omega)] at hs
      cases hs
    have hmem := mem_pointer_fields (write_pointers layout type compiled).2 compiled 0 k s p hs hp
    rw [Nat.zero_add, hget k hk] at hmem
    have hb : ((compiled.take k).map (fun s => s.data.length)).sum + p.offset + 4
        ≤ ((compiled.map (fun s => s.data)).flatten).length := by
      have h1 := struct_offset_add_le compiled k s hs
      have h2 := hbounds s (List.getElem?_mem hs) p hp
      rw [List.length_flatten, List.map_map]
      have : (List.map (List.length ∘ fun s => s.data) compiled).sum
          = (compiled.map (fun s => s.data.length)).sum := rfl
      omega
    have := foldl_store_read
      (pointer_value (if type = .RESOURCE_MAP_SOUND then layout.sizeof_Sound else 0)
        (write_pointers layout type compiled).2) _ _ hdisjoint _ hmem hb
    rw [← hdata] at this
    rw [this]
    simp only [pointer_value, hget _ hidx]
    unfold uint32_modulus
    omega
  refine ⟨hstructs, hlen, fun k s hs => struct_data_at_offset compiled k s hs, hread, ?_, ?_⟩
  · intro htype k s p hs hp hidx hsmall
    rw [hread k s p hs hp hidx, if_neg htype]
    unfold size_t_modulus uint32_modulus at *
    omega
  · intro i hi
    rw [hdata]
    apply foldl_store_getD_outside
    intro f hf
    obtain ⟨k, s, h1, h2, h3⟩ := pointer_fields_mem _ _ _ f hf
    have hk : k < compiled.length := by
      by_contra hk
      rw [List.getElem?_eq_none (by omega)] at h1
      cases h1
    rw [Nat.zero_add, hget k hk] at h3
    rw [h3]
    exact hi k s f.2 h1 h2

/-- Witness for C14: two structs of 8 and 4 bytes in a loc map; the pointer
field at the start of the first struct points to the second struct and reads
back as 8, the position of the second struct. -/
theorem write_pointers_resolves_witness :
    read_u32_le (write_pointers small_layout .RESOURCE_MAP_LOC
      [{ data := [0, 0, 0, 0, 7, 7, 7, 7], pointers := [{ offset := 0, struct_index := 1 }] },
       { data := [9, 9, 9, 9] }]).1 0 = 8 :=
  (write_pointers_resolves small_layout .RESOURCE_MAP_LOC
      [{ data := [0, 0, 0, 0, 7, 7, 7, 7], pointers := [{ offset := 0, struct_index := 1 }] },
       { data := [9, 9, 9, 9] }] (by decide) (by decide)).2.2.2.2.1 (by decide) 0
    { data := [0, 0, 0, 0, 7, 7, 7, 7], pointers := [{ offset := 0, struct_index := 1 }] }
    { offset := 0, struct_index := 1 } rfl (by decide) (by decide) (by decide)

theorem required_padding_aligned (n : Nat) : (n + REQUIRED_PADDING_32_BIT n) % 4 = 0 := by
  unfold REQUIRED_PADDING_32_BIT
  omega

theorem push_resource_data (s : ResourceBuild) (r : Resource) :
    (push_resource s r).resource_data
      = s.resource_data ++ (r.payload ++ List.replicate
          (REQUIRED_PADDING_32_BIT (s.resource_data.length + r.payload.length)) 0) := by
  simp [push_resource, PAD_RESOURCES_32_BIT]

theorem push_resource_length_aligned (s : ResourceBuild) (r : Resource) :
    (push_resource s r).resource_data.length % 4 = 0 := by
  rw [push_resource_data]
  simp only [List.length_append, List.length_replicate]
  have := required_padding_aligned (s.resource_data.length + r.payload.length)
  omega

theorem foldl_push_resource_snoc (s : ResourceBuild) (rs : List Resource) (r : Resource) :
    (rs ++ [r]).foldl push_resource s = push_resource (rs.foldl push_resource s) r := by
  simp [List.foldl_append]

theorem foldl_push_resource_sizes (rs : List Resource) (s : ResourceBuild) :
    (rs.foldl push_resource s).sizes = s.sizes ++ rs.map (fun r => r.size)
    ∧ (rs.foldl push_resource s).paths = s.paths ++ rs.map (fun r => r.path) := by
  induction rs generalizing s with
  | nil => simp
  | cons r rest ih =>
    have := ih (push_resource s r)
    simp only [List.foldl_cons, List.map_cons]
    rw [this.1, this.2]
    simp [push_resource]

theorem foldl_push_resource_layout (s : ResourceBuild) (rs : List Resource)
    (hs : s.resource_data.length % 4 = 0) (hoff : s.offsets = []) :
    (rs.foldl push_resource s).offsets.length = rs.length
    ∧ (rs.foldl push_resource s).resource_data.length % 4 = 0
    ∧ s.resource_data.length ≤ (rs.foldl push_resource s).resource_data.length
    ∧ (∀ i r, rs[i]? = some r →
        (rs.foldl push_resource s).offsets.getD i 0 % 4 = 0
        ∧ s.resource_data.length ≤ (rs.foldl push_resource s).offsets.getD i 0
        ∧ (rs.foldl push_resource s).offsets.getD i 0 + r.payload.length
            ≤ (rs.foldl push_resource s).resource_data.length
        ∧ ((rs.foldl push_resource s).resource_data.drop
            ((rs.foldl push_resource s).offsets.getD i 0)).take r.payload.length = r.payload)
    ∧ (∀ i j r, i < j → j < rs.length → rs[i]? = some r →
        (rs.foldl push_resource s).offsets.getD i 0 + r.payload.length
          ≤ (rs.foldl push_resource s).offsets.getD j 0) := by
  induction rs using List.reverseRecOn with
  | nil =>
    refine ⟨by simp [hoff], by simpa using hs, by simp, ?_, ?_⟩
    · intro i r h
      simp at h
    · intro i j r _ h
      simp at h
  | append_singleton rs r0 ih =>
    obtain ⟨hlen, hal, hge, hslice, hord⟩ := ih
    rw [foldl_push_resource_snoc]
    generalize rs.foldl push_resource s = st at hlen hal hge hslice hord
    have hoffs : (push_resource st r0).offsets = st.offsets ++ [st.resource_data.length] := rfl
    have hdat := push_resource_data st r0
    have hget_lt : ∀ i, i < rs.length →
        (push_resource st r0).offsets.getD i 0 = st.offsets.getD i 0 := by
      intro i hi
      rw [hoffs, List.getD_append _ _ _ _ (by omega)]
    have hget_eq : (push_resource st r0).offsets.getD rs.length 0 = st.resource_data.length := by
      rw [hoffs, List.getD_append_right _ _ _ _ (by omega), hlen]
      simp
    have hlen2 : (push_resource st r0).resource_data.length
        = st.resource_data.length + (r0.payload.length
          + REQUIRED_PADDING_32_BIT (st.resource_data.length + r0.payload.length)) := by
      rw [hdat]
      simp
    refine ⟨by simp [hoffs, hlen], push_resource_length_aligned st r0, by omega, ?_, ?_⟩
    · intro i r h
      by_cases hi : i < rs.length
      · rw [List.getElem?_append_left hi] at h
        obtain ⟨h1, h2, h3, h4⟩ := hslice i r h
        rw [hget_lt i hi]
        refine ⟨h1, h2, by omega, ?_⟩
        rw [hdat, List.drop_append_of_le_length (by omega),
          List.take_append_of_le_length (by rw [List.length_drop]; omega)]
        exact h4
      · have hi2 : i = rs.length := by
          have := (List.getElem?_eq_some_iff.1 h).1
          simp at this
          omega
        subst hi2
        rw [List.getElem?_append_right (le_refl _)] at h
        simp at h
        subst h
        rw [hget_eq]
        refine ⟨hal, hge, by omega, ?_⟩
        rw [hdat, List.drop_left, List.take_left]
    · intro i j r hij hj h
      simp only [List.length_append, List.length_singleton] at hj
      have hi : i < rs.length := by omega
      rw [List.getElem?_append_left hi] at h
      rw [hget_lt i hi]
      by_cases hj2 : j < rs.length
      · rw [hget_lt j hj2]
        exact hord i j r hij hj2 h
      · have : j = rs.length := by omega
        subst this
        rw [hget_eq]
        exact (hslice i r h).2.2.1

theorem build_resources_eq_foldl (fs : TagFileSystem) (layout : ResourceLayout)
    (compile_single_tag : String → TagClassInt → List String → Option SingleTagWorkload)
    (resource_options : ResourceOption) (tags_list : List String) (state result : ResourceBuild)
    (h : build_resources fs layout compile_single_tag resource_options tags_list state
      = .ok result) :
    result = (pushed_resources fs layout compile_single_tag resource_options tags_list
      state).foldl push_resource state := by
  induction tags_list generalizing state with
  | nil =>
    simp only [build_resources, Except.ok.injEq] at h
    simp [pushed_resources, h]
  | cons listed_tag rest ih =>
    simp only [build_resources] at h
    simp only [pushed_resources]
    cases hopen : open_listed_tag fs resource_options (fs.halo_path_to_preferred_path listed_tag) with
    | error e => simp [hopen] at h
    | ok tag_class_int =>
      simp only [hopen] at h ⊢
      cases hcomp : compile_single_tag (fs.halo_path_to_preferred_path listed_tag) tag_class_int
          resource_options.tags with
      | none => simp [hcomp] at h
      | some compiled_tag =>
        simp only [hcomp] at h ⊢
        rw [List.foldl_append]
        exact ih _ h

theorem build_indices_names (sizes offsets : List Nat) (paths : List String) (i : Nat)
    (names : List Nat) :
    (build_indices sizes offsets paths i names).2
      = names ++ (paths.map (fun p => string_bytes p ++ [0])).flatten := by
  induction paths generalizing i names with
  | nil => simp [build_indices]
  | cons p rest ih =>
    simp only [build_indices, List.map_cons, List.flatten_cons]
    rw [ih]
    simp

theorem build_indices_length (sizes offsets : List Nat) (paths : List String) (i : Nat)
    (names : List Nat) :
    (build_indices sizes offsets paths i names).1.length = paths.length := by
  induction paths generalizing i names with
  | nil => simp [build_indices]
  | cons p rest ih =>
    simp only [build_indices, List.length_cons]
    rw [ih]

theorem build_indices_get (sizes offsets : List Nat) (paths : List String) (i : Nat)
    (names : List Nat) (k : Nat) (hk : k < paths.length) :
    (build_indices sizes offsets paths i names).1[k]?
      = some { size := sizes.getD (i + k) 0 % uint32_modulus,
               data_offset := offsets.getD (i + k) 0 % uint32_modulus,
               path_offset := (names.length
                 + ((paths.take k).map (fun p => (string_bytes p).length + 1)).sum)
                 % uint32_modulus } := by
  induction paths generalizing i names k with
  | nil => simp at hk
  | cons p rest ih =>
    cases k with
    | zero => simp [build_indices]
    | succ k =>
      simp only [build_indices, List.getElem?_cons_succ]
      rw [ih (i + 1) _ k (by simpa using hk)]
      simp only [List.length_append, List.length_singleton, List.take_succ_cons, List.map_cons,
        List.sum_cons]
      congr 2
      · congr 2
        omega
      · congr 2
        omega
      · congr 1
        omega

theorem read_c_string_at (paths : List String) (k : Nat) (p : String)
    (hp : paths[k]? = some p) (hnul : ∀ byte ∈ string_bytes p, byte ≠ 0) :
    read_c_string ((paths.map (fun p => string_bytes p ++ [0])).flatten)
      (((paths.take k).map (fun p => (string_bytes p).length + 1)).sum) = string_bytes p := by
  induction paths generalizing k with
  | nil => simp at hp
  | cons p0 rest ih =>
    cases k with
    | zero =>
      simp only [List.getElem?_cons_zero, Option.some.injEq] at hp
      subst hp
      simp only [read_c_string, List.take_zero, List.map_nil, List.sum_nil, List.drop_zero,
        List.map_cons, List.flatten_cons, List.append_assoc]
      rw [List.takeWhile_append_of_pos (by simpa using hnul)]
      simp
    | succ k =>
      simp only [List.getElem?_cons_succ] at hp
      have := ih k hp
      simp only [read_c_string] at this ⊢
      simp only [List.take_succ_cons, List.map_cons, List.sum_cons, List.flatten_cons]
      rw [List.drop_append_eq_append_drop]
      rw [List.drop_eq_nil_of_le (by simp), List.nil_append]
      simp only [List.length_append, List.length_singleton, Nat.add_sub_cancel_left]
      exact this

theorem finish_resource_map_ok (type : ResourceMapType) (output_opens : Bool)
    (state : ResourceBuild) (file : ResourceMapFile)
    (h : finish_resource_map type output_opens state = .ok file) :
    state.resource_data.length < 4294967295
    ∧ output_opens = true
    ∧ file.resource_data = state.resource_data
    ∧ file.resource_names_arr = (build_indices state.sizes state.offsets state.paths 0 []).2
    ∧ file.resource_indices = (build_indices state.sizes state.offsets state.paths 0 []).1
    ∧ file.header.type = type
    ∧ file.header.resource_count = state.paths.length % uint32_modulus
    ∧ file.header.paths = state.resource_data.length % uint32_modulus
    ∧ file.header.resources
        = ((build_indices state.sizes state.offsets state.paths 0 []).2.length
            + state.resource_data.length) % size_t_modulus % uint32_modulus := by
  unfold finish_resource_map at h
  simp only at h
  split_ifs at h with h1 h2
  · simp only [Except.ok.injEq] at h
    subst h
    refine ⟨by omega, by simpa using h2, rfl, rfl, rfl, rfl, rfl, rfl, rfl⟩

theorem main_eq (fs : TagFileSystem) (layout : ResourceLayout)
    (compile_single_tag : String → TagClassInt → List String → Option SingleTagWorkload)
    (output_opens : Bool) (resource_options : ResourceOption) (tags_list : List String) :
    main fs layout compile_single_tag output_opens resource_options tags_list
      = if resource_options.resource_map_set = false then .error .no_resource_map_type
        else if resource_options.retail = true ∧ resource_options.type = .RESOURCE_MAP_LOC then
          .error .retail_loc
        else
          match build_resources fs layout compile_single_tag (default_tags resource_options)
              tags_list { resource_data := List.replicate sizeof_ResourceMapHeader 0 } with
          | .error e => .error e
          | .ok state => finish_resource_map (default_tags resource_options).type output_opens
              state := rfl

theorem default_tags_type (resource_options : ResourceOption) :
    (default_tags resource_options).type = resource_options.type
    ∧ (default_tags resource_options).retail = resource_options.retail := by
  unfold default_tags
  split_ifs <;> exact ⟨rfl, rfl⟩

theorem main_ok (fs : TagFileSystem) (layout : ResourceLayout)
    (compile_single_tag : String → TagClassInt → List String → Option SingleTagWorkload)
    (output_opens : Bool) (resource_options : ResourceOption) (tags_list : List String)
    (file : ResourceMapFile)
    (h : main fs layout compile_single_tag output_opens resource_options tags_list = .ok file) :
    resource_options.resource_map_set = true
    ∧ ¬ (resource_options.retail = true ∧ resource_options.type = .RESOURCE_MAP_LOC)
    ∧ ∃ state, build_resources fs layout compile_single_tag (default_tags resource_options)
          tags_list { resource_data := List.replicate sizeof_ResourceMapHeader 0 } = .ok state
        ∧ finish_resource_map resource_options.type output_opens state = .ok file := by
  rw [main_eq] at h
  split_ifs at h with h1 h2
  refine ⟨by simpa using h1, h2, ?_⟩
  cases hb : build_resources fs layout compile_single_tag (default_tags resource_options)
      tags_list { resource_data := List.replicate sizeof_ResourceMapHeader 0 } with
  | error e => simp [hb] at h
  | ok state =>
    simp only [hb] at h
    exact ⟨state, rfl, (default_tags_type resource_options).1 ▸ h⟩

theorem main_index_record (fs : TagFileSystem) (layout : ResourceLayout)
    (compile_single_tag : String → TagClassInt → List String → Option SingleTagWorkload)
    (output_opens : Bool) (resource_options : ResourceOption) (tags_list : List String)
    (file : ResourceMapFile)
    (h : main fs layout compile_single_tag output_opens resource_options tags_list = .ok file) :
    ∃ state, build_resources fs layout compile_single_tag (default_tags resource_options)
          tags_list { resource_data := List.replicate sizeof_ResourceMapHeader 0 } = .ok state
      ∧ state = (pushed_resources fs layout compile_single_tag (default_tags resource_options)
          tags_list { resource_data := List.replicate sizeof_ResourceMapHeader 0 }).foldl
          push_resource { resource_data := List.replicate sizeof_ResourceMapHeader 0 }
      ∧ state.resource_data.length < 4294967295
      ∧ file.resource_data = state.resource_data
      ∧ file.header.paths = state.resource_data.length
      ∧ file.resource_names_arr = (state.paths.map (fun p => string_bytes p ++ [0])).flatten
      ∧ file.resource_indices.length = state.paths.length
      ∧ state.paths.length = (pushed_resources fs layout compile_single_tag
          (default_tags resource_options) tags_list
          { resource_data := List.replicate sizeof_ResourceMapHeader 0 }).length
      ∧ ∀ k, k < state.paths.length →
          file.resource_indices[k]?
            = some { size := state.sizes.getD k 0 % uint32_modulus,
                     data_offset := state.offsets.getD k 0 % uint32_modulus,
                     path_offset := ((state.paths.take k).map
                       (fun p => (string_bytes p).length + 1)).sum % uint32_modulus } := by
  obtain ⟨_, _, state, hb, hf⟩ := main_ok _ _ _ _ _ _ _ h
  obtain ⟨h1, _, h3, h4, h5, _, _, h8, _⟩ := finish_resource_map_ok _ _ _ _ hf
  have hfold := build_resources_eq_foldl _ _ _ _ _ _ _ hb
  refine ⟨state, hb, hfold, h1, h3, ?_, ?_, ?_, ?_, ?_⟩
  · rw [h8]
    unfold uint32_modulus
    omega
  · rw [h4, build_indices_names]
    simp
  · rw [h5, build_indices_length]
  · rw [hfold, (foldl_push_resource_sizes _ _).2]
    simp
  · intro k hk
    rw [h5, build_indices_get _ _ _ _ _ _ hk]
    simp

/-- C13: in a build that `main` completes, `resource_data` has a length that
is a multiple of 4 after each entry is pushed; every index record's
`data_offset` and `header.paths` are multiples of 4; for consecutive entries
`data_offset[i]` plus the number of bytes inserted for entry `i` is at most
`data_offset[i + 1]`, and for every entry it is at most `header.paths`, with
the bytes inserted found unchanged at `data_offset[i]`. -/
theorem main_data_offsets_aligned (fs : TagFileSystem) (layout : ResourceLayout)
    (compile_single_tag : String → TagClassInt → List String → Option SingleTagWorkload)
    (output_opens : Bool) (resource_options : ResourceOption) (tags_list : List String)
    (file : ResourceMapFile)
    (h : main fs layout compile_single_tag output_opens resource_options tags_list = .ok file) :
    (∀ n, (((pushed_resources fs layout compile_single_tag (default_tags resource_options)
          tags_list { resource_data := List.replicate sizeof_ResourceMapHeader 0 }).take n).foldl
          push_resource { resource_data := List.replicate sizeof_ResourceMapHeader 0 }
        ).resource_data.length % 4 = 0)
    ∧ file.resource_indices.length = (pushed_resources fs layout compile_single_tag
        (default_tags resource_options) tags_list
        { resource_data := List.replicate sizeof_ResourceMapHeader 0 }).length
    ∧ file.header.paths % 4 = 0
    ∧ (∀ (i : Nat) (record : ResourceMapResource),
        file.resource_indices[i]? = some record → record.data_offset % 4 = 0)
    ∧ (∀ (i : Nat) (record next : ResourceMapResource) (r : Resource),
        file.resource_indices[i]? = some record →
        file.resource_indices[i + 1]? = some next →
        (pushed_resources fs layout compile_single_tag (default_tags resource_options)
          tags_list { resource_data := List.replicate sizeof_ResourceMapHeader 0 })[i]? = some r →
        record.data_offset + r.payload.length ≤ next.data_offset)
    ∧ (∀ (i : Nat) (record : ResourceMapResource) (r : Resource),
        file.resource_indices[i]? = some record →
        (pushed_resources fs layout compile_single_tag (default_tags resource_options)
          tags_list { resource_data := List.replicate sizeof_ResourceMapHeader 0 })[i]? = some r →
        sizeof_ResourceMapHeader ≤ record.data_offset
        ∧ record.data_offset + r.payload.length ≤ file.header.paths
        ∧ (file.resource_data.drop record.data_offset).take r.payload.length = r.payload) := by
  obtain ⟨state, _, hfold, hlt, hdata, hpaths, _, hlen, hlen2, hrec⟩ :=
    main_index_record _ _ _ _ _ _ _ h
  have hinit : ({ resource_data := List.replicate sizeof_ResourceMapHeader 0 } :
      ResourceBuild).resource_data.length % 4 = 0 := by
    simp [sizeof_ResourceMapHeader]
  have hinit16 : ({ resource_data := List.replicate sizeof_ResourceMapHeader 0 } :
      ResourceBuild).resource_data.length = sizeof_ResourceMapHeader := by
    simp
  obtain ⟨holen, hal, _, hslice, hord⟩ := foldl_push_resource_layout
    { resource_data := List.replicate sizeof_ResourceMapHeader 0 }
    (pushed_resources fs layout compile_single_tag (default_tags resource_options)
      tags_list { resource_data := List.replicate sizeof_ResourceMapHeader 0 }) hinit rfl
  rw [← hfold] at holen hal hslice hord
  rw [hinit16] at hslice
  have hoff : ∀ (i : Nat) (r : Resource), (pushed_resources fs layout compile_single_tag
      (default_tags resource_options) tags_list
      { resource_data := List.replicate sizeof_ResourceMapHeader 0 })[i]? = some r →
      state.offsets.getD i 0 % uint32_modulus = state.offsets.getD i 0 := by
    intro i r hr
    have := (hslice i r hr).2.2.1
    apply Nat.mod_eq_of_lt
    unfold uint32_modulus
    omega
  have hrec2 : ∀ (i : Nat) (record : ResourceMapResource),
      file.resource_indices[i]? = some record →
      i < state.paths.length ∧ record.data_offset = state.offsets.getD i 0 % uint32_modulus := by
    intro i record hi
    have hi2 : i < state.paths.length := by
      have := (List.getElem?_eq_some_iff.1 hi).1
      omega
    rw [hrec i hi2] at hi
    simp only [Option.some.injEq] at hi
    subst hi
    exact ⟨hi2, rfl⟩
  refine ⟨?_, by omega, by omega, ?_, ?_, ?_⟩
  · intro n
    exact (foldl_push_resource_layout _ _ hinit rfl).2.1
  · intro i record hi
    obtain ⟨hi2, hd⟩ := hrec2 i record hi
    obtain ⟨r, hr⟩ : ∃ r, (pushed_resources fs layout compile_single_tag
        (default_tags resource_options) tags_list
        { resource_data := List.replicate sizeof_ResourceMapHeader 0 })[i]? = some r :=
      ⟨_, List.getElem?_eq_getElem (by omega)⟩
    rw [hd, hoff i r hr]
    exact (hslice i r hr).1
  · intro i record next r hi hn hr
    obtain ⟨hi2, hd⟩ := hrec2 i record hi
    obtain ⟨hn2, hdn⟩ := hrec2 (i + 1) next hn
    obtain ⟨r2, hr2⟩ : ∃ r, (pushed_resources fs layout compile_single_tag
        (default_tags resource_options) tags_list
        { resource_data := List.replicate sizeof_ResourceMapHeader 0 })[i + 1]? = some r :=
      ⟨_, List.getElem?_eq_getElem (by omega)⟩
    rw [hd, hdn, hoff i r hr, hoff (i + 1) r2 hr2]
    exact hord i (i + 1) r (by omega) (by omega) hr
  · intro i record r hi hr
    obtain ⟨hi2, hd⟩ := hrec2 i record hi
    rw [hd, hoff i r hr, hdata, hpaths]
    exact ⟨(hslice i r hr).2.1, (hslice i r hr).2.2.1, (hslice i r hr).2.2.2⟩

/-- Witness for C13: a loc map of the two fonts `a` and `b`; the build
completes and the path table starts at a multiple of 4. -/
theorem main_data_offsets_aligned_witness :
    ∃ file, main small_file_system small_layout small_compile_single_tag true
        { type := .RESOURCE_MAP_LOC, resource_map_set := true } ["a", "b"] = .ok file
      ∧ file.header.paths % 4 = 0 :=
  ⟨_, rfl, (main_data_offsets_aligned small_file_system small_layout small_compile_single_tag
      true { type := .RESOURCE_MAP_LOC, resource_map_set := true } ["a", "b"] _ rfl).2.2.1⟩

/-! ### Recorded sizes -/

theorem length_foldl_append (raw_data : List (List Nat)) (start : List Nat) :
    (raw_data.foldl (fun all r => all ++ r) start).length
      = start.length + (raw_data.map List.length).sum := by
  induction raw_data generalizing start with
  | nil => simp
  | cons r rest ih =>
    simp only [List.foldl_cons, List.map_cons, List.sum_cons]
    rw [ih]
    simp
    omega

theorem embedded_resources_size (halo_tag_path suffix : String) (raw_data : List (List Nat))
    (data : List Nat) :
    ∀ r ∈ embedded_resources halo_tag_path suffix raw_data data,
      r.size < uint32_modulus ∨ r.size ≤ r.payload.length := by
  intro r hr
  simp only [embedded_resources, List.mem_cons, List.mem_singleton, List.not_mem_nil,
    or_false] at hr
  rcases hr with rfl | rfl
  · right
    simp only [length_foldl_append, List.length_nil, Nat.zero_add]
    exact Nat.mod_le _ _
  · right
    exact le_refl _

theorem bitmap_retail_resources_size (layout : ResourceLayout) (halo_tag_path : String)
    (bitmaps : List Nat) (raw_data : List (List Nat)) (remaining b : Nat) :
    ∀ r ∈ bitmap_retail_resources layout halo_tag_path bitmaps raw_data remaining b,
      r.size < uint32_modulus ∨ r.size ≤ r.payload.length := by
  induction remaining generalizing b with
  | zero => simp [bitmap_retail_resources]
  | succ n ih =>
    intro r hr
    simp only [bitmap_retail_resources, List.mem_cons] at hr
    rcases hr with rfl | hr
    · left
      exact read_u32_le_lt _ _
    · exact ih _ r hr

theorem sound_permutation_size (layout : ResourceLayout) (retail : Bool) (halo_tag_path : String)
    (resource_data_size : Nat) (raw_data : List (List Nat)) (permutations_index pr p : Nat)
    (state : SoundLoop)
    (h : ∀ r ∈ state.resources, r.size < uint32_modulus ∨ r.size ≤ r.payload.length) :
    ∀ r ∈ (sound_permutation layout retail halo_tag_path resource_data_size raw_data
        permutations_index pr p state).resources,
      r.size < uint32_modulus ∨ r.size ≤ r.payload.length := by
  unfold sound_permutation
  cases retail with
  | false => simpa using h
  | true =>
    intro r hr
    simp only [if_true, List.mem_append, List.mem_singleton] at hr
    rcases hr with hr | rfl
    · exact h r hr
    · left
      exact read_u32_le_lt _ _

theorem sound_permutations_size (layout : ResourceLayout) (retail : Bool) (halo_tag_path : String)
    (resource_data_size : Nat) (raw_data : List (List Nat)) (permutations_index pr : Nat)
    (remaining p : Nat) (state : SoundLoop)
    (h : ∀ r ∈ state.resources, r.size < uint32_modulus ∨ r.size ≤ r.payload.length) :
    ∀ r ∈ (sound_permutations layout retail halo_tag_path resource_data_size raw_data
        permutations_index pr remaining p state).resources,
      r.size < uint32_modulus ∨ r.size ≤ r.payload.length := by
  induction remaining generalizing p state with
  | zero => simpa [sound_permutations] using h
  | succ n ih =>
    simp only [sound_permutations]
    exact ih _ _ (sound_permutation_size _ _ _ _ _ _ _ _ _ h)

theorem sound_pitch_ranges_size (layout : ResourceLayout) (retail : Bool) (halo_tag_path : String)
    (resource_data_size : Nat) (raw_data : List (List Nat)) (pitch_ranges_index : Nat)
    (remaining pr : Nat) (state : SoundLoop)
    (h : ∀ r ∈ state.resources, r.size < uint32_modulus ∨ r.size ≤ r.payload.length) :
    ∀ r ∈ (sound_pitch_ranges layout retail halo_tag_path resource_data_size raw_data
        pitch_ranges_index remaining pr state).resources,
      r.size < uint32_modulus ∨ r.size ≤ r.payload.length := by
  induction remaining generalizing pr state with
  | zero => simpa [sound_pitch_ranges] using h
  | succ n ih =>
    simp only [sound_pitch_ranges]
    apply ih
    split_ifs
    · exact sound_permutations_size _ _ _ _ _ _ _ _ _ _ h
    · exact h

theorem tag_resources_size (layout : ResourceLayout) (type : ResourceMapType) (retail : Bool)
    (halo_tag_path : String) (resource_data_size : Nat) (compiled_tag : SingleTagWorkload) :
    ∀ r ∈ tag_resources layout type retail halo_tag_path resource_data_size compiled_tag,
      r.size < uint32_modulus ∨ r.size ≤ r.payload.length := by
  cases type with
  | RESOURCE_MAP_BITMAP =>
    simp only [tag_resources, bitmap_resources]
    cases retail with
    | true =>
      simp only [if_true]
      split_ifs
      · exact bitmap_retail_resources_size _ _ _ _ _ _
      · simp
    | false => exact embedded_resources_size _ _ _ _
  | RESOURCE_MAP_SOUND =>
    simp only [tag_resources, sound_resources]
    cases retail with
    | true =>
      simp only [if_true]
      split_ifs
      · exact sound_pitch_ranges_size _ _ _ _ _ _ _ _ _ (by simp)
      · simp
    | false => exact embedded_resources_size _ _ _ _
  | RESOURCE_MAP_LOC =>
    intro r hr
    simp only [tag_resources, List.mem_singleton] at hr
    subst hr
    right
    exact le_refl _

theorem pushed_resources_size (fs : TagFileSystem) (layout : ResourceLayout)
    (compile_single_tag : String → TagClassInt → List String → Option SingleTagWorkload)
    (resource_options : ResourceOption) (tags_list : List String) (state : ResourceBuild) :
    ∀ r ∈ pushed_resources fs layout compile_single_tag resource_options tags_list state,
      r.size < uint32_modulus ∨ r.size ≤ r.payload.length := by
  induction tags_list generalizing state with
  | nil => simp [pushed_resources]
  | cons listed_tag rest ih =>
    simp only [pushed_resources]
    cases hopen : open_listed_tag fs resource_options (fs.halo_path_to_preferred_path listed_tag) with
    | error e => simp
    | ok tag_class_int =>
      simp only
      cases hcomp : compile_single_tag (fs.halo_path_to_preferred_path listed_tag) tag_class_int
          resource_options.tags with
      | none => simp
      | some compiled_tag =>
        simp only
        intro r hr
        rcases List.mem_append.1 hr with hr | hr
        · exact tag_resources_size _ _ _ _ _ _ r hr
        · exact ih _ r hr

/-! ### The finished container -/

theorem sum_map_take_le (paths : List String) (k : Nat) :
    ((paths.take k).map (fun p => (string_bytes p).length + 1)).sum
      ≤ (paths.map (fun p => (string_bytes p).length + 1)).sum := by
  induction paths generalizing k with
  | nil => simp
  | cons p rest ih =>
    cases k with
    | zero => simp
    | succ k =>
      simp only [List.take_succ_cons, List.map_cons, List.sum_cons]
      have := ih k
      omega

theorem length_le_sum_map (paths : List String) :
    paths.length ≤ (paths.map (fun p => (string_bytes p).length + 1)).sum := by
  induction paths with
  | nil => simp
  | cons p rest ih =>
    simp only [List.length_cons, List.map_cons, List.sum_cons]
    omega

theorem length_path_table (paths : List String) :
    ((paths.map (fun p => string_bytes p ++ [0])).flatten).length
      = (paths.map (fun p => (string_bytes p).length + 1)).sum := by
  induction paths with
  | nil => simp
  | cons p rest ih =>
    simp only [List.map_cons, List.flatten_cons, List.length_append, List.sum_cons, ih]
    simp

theorem main_layout (fs : TagFileSystem) (layout : ResourceLayout)
    (compile_single_tag : String → TagClassInt → List String → Option SingleTagWorkload)
    (output_opens : Bool) (resource_options : ResourceOption) (tags_list : List String)
    (file : ResourceMapFile)
    (h : main fs layout compile_single_tag output_opens resource_options tags_list = .ok file)
    (hsize : file.resource_data.length + file.resource_names_arr.length < uint32_modulus) :
    ∃ state, build_resources fs layout compile_single_tag (default_tags resource_options)
          tags_list { resource_data := List.replicate sizeof_ResourceMapHeader 0 } = .ok state
      ∧ file.resource_data = state.resource_data
      ∧ sizeof_ResourceMapHeader ≤ file.resource_data.length
      ∧ file.header.type = resource_options.type
      ∧ file.header.paths = file.resource_data.length
      ∧ file.header.resources = file.header.paths + file.resource_names_arr.length
      ∧ file.header.resource_count = file.resource_indices.length
      ∧ file.resource_indices.length = state.paths.length
      ∧ state.sizes.length = state.paths.length
      ∧ state.offsets.length = state.paths.length
      ∧ ∀ (i : Nat) (p : String), state.paths[i]? = some p →
          file.resource_indices[i]?
            = some { size := state.sizes.getD i 0,
                     data_offset := state.offsets.getD i 0,
                     path_offset := ((state.paths.take i).map
                       (fun q => (string_bytes q).length + 1)).sum }
          ∧ ((∀ byte ∈ string_bytes p, byte ≠ 0) →
              read_c_string file.resource_names_arr
                (((state.paths.take i).map (fun q => (string_bytes q).length + 1)).sum)
                = string_bytes p) := by
  obtain ⟨state, hb, hfold, hlt, hdata, hpaths, hnames, hlen, hlen2, hrec⟩ :=
    main_index_record _ _ _ _ _ _ _ h
  obtain ⟨_, _, state2, hb2, hf2⟩ := main_ok _ _ _ _ _ _ _ h
  rw [hb] at hb2
  simp only [Except.ok.injEq] at hb2
  subst hb2
  obtain ⟨_, _, _, hn2, _, htype, hcount, _, hres⟩ := finish_resource_map_ok _ _ _ _ hf2
  have hinit : ({ resource_data := List.replicate sizeof_ResourceMapHeader 0 } :
      ResourceBuild).resource_data.length % 4 = 0 := by
    simp [sizeof_ResourceMapHeader]
  obtain ⟨holen, _, hge, hslice, _⟩ := foldl_push_resource_layout
    { resource_data := List.replicate sizeof_ResourceMapHeader 0 }
    (pushed_resources fs layout compile_single_tag (default_tags resource_options)
      tags_list { resource_data := List.replicate sizeof_ResourceMapHeader 0 }) hinit rfl
  have hsizes := (foldl_push_resource_sizes (pushed_resources fs layout compile_single_tag
      (default_tags resource_options) tags_list
      { resource_data := List.replicate sizeof_ResourceMapHeader 0 })
      { resource_data := List.replicate sizeof_ResourceMapHeader 0 }).1
  rw [← hfold] at holen hge hslice hsizes
  simp only [List.length_replicate, List.nil_append] at hge hslice hsizes
  have hnl : file.resource_names_arr.length
      = (state.paths.map (fun p => (string_bytes p).length + 1)).sum := by
    rw [hnames, length_path_table]
  have hcnt := length_le_sum_map state.paths
  refine ⟨state, hb, hdata, by rw [hdata]; exact hge, htype, by rw [hpaths, hdata], ?_, ?_, hlen,
    by rw [hsizes]; simp [hlen2], by omega, ?_⟩
  · rw [hres, hpaths, ← hdata]
    have h64 : file.resource_names_arr.length + file.resource_data.length < size_t_modulus := by
      unfold size_t_modulus
      unfold uint32_modulus at hsize
      omega
    rw [← hn2, Nat.mod_eq_of_lt h64, Nat.mod_eq_of_lt (by omega)]
    omega
  · rw [hcount, hlen, Nat.mod_eq_of_lt (by omega)]
  · intro i p hp
    have hi : i < state.paths.length := (List.getElem?_eq_some_iff.1 hp).1
    obtain ⟨r, hr⟩ : ∃ r, (pushed_resources fs layout compile_single_tag
        (default_tags resource_options) tags_list
        { resource_data := List.replicate sizeof_ResourceMapHeader 0 })[i]? = some r :=
      ⟨_, List.getElem?_eq_getElem (by omega)⟩
    have hsl := hslice i r hr
    have hsz : state.sizes.getD i 0 = r.size := by
      rw [hsizes, List.getD_eq_getElem?_getD, List.getElem?_map, hr]
      rfl
    have hrsize := pushed_resources_size _ _ _ _ _ _ r (List.getElem?_mem hr)
    have hpo := sum_map_take_le state.paths i
    refine ⟨?_, ?_⟩
    · rw [hrec i hi]
      congr 2
      · apply Nat.mod_eq_of_lt
        rw [hsz]
        unfold uint32_modulus at *
        omega
      · apply Nat.mod_eq_of_lt
        unfold uint32_modulus
        omega
      · apply Nat.mod_eq_of_lt
        omega
    · intro hnul
      rw [hnames]
      exact read_c_string_at state.paths i p hp hnul

/-- C12: when `main` completes and the header, the data segment and the path
table together stay below `2^32` bytes, the container holds what was placed:
`header.paths` is the length of header plus data segment, `header.resources`
is `header.paths` plus the length of the path table, `header.resource_count`
is the number of index records, and index record `i` holds `sizes[i]`,
`offsets[i]` and the sum of `len(paths[j]) + 1` over `j < i`, at which the
path table holds `paths[i]` up to its NUL when `paths[i]` has no NUL byte. -/
theorem main_container_layout (fs : TagFileSystem) (layout : ResourceLayout)
    (compile_single_tag : String → TagClassInt → List String → Option SingleTagWorkload)
    (output_opens : Bool) (resource_options : ResourceOption) (tags_list : List String)
    (file : ResourceMapFile)
    (h : main fs layout compile_single_tag output_opens resource_options tags_list = .ok file)
    (hsize : file.resource_data.length + file.resource_names_arr.length < uint32_modulus) :
    ∃ state, build_resources fs layout compile_single_tag (default_tags resource_options)
          tags_list { resource_data := List.replicate sizeof_ResourceMapHeader 0 } = .ok state
      ∧ file.resource_data = state.resource_data
      ∧ sizeof_ResourceMapHeader ≤ file.resource_data.length
      ∧ file.header.type = resource_options.type
      ∧ file.header.paths = file.resource_data.length
      ∧ file.header.resources = file.header.paths + file.resource_names_arr.length
      ∧ file.header.resource_count = file.resource_indices.length
      ∧ file.resource_indices.length = state.paths.length
      ∧ state.sizes.length = state.paths.length
      ∧ state.offsets.length = state.paths.length
      ∧ ∀ (i : Nat) (p : String), state.paths[i]? = some p →
          file.resource_indices[i]?
            = some { size := state.sizes.getD i 0,
                     data_offset := state.offsets.getD i 0,
                     path_offset := ((state.paths.take i).map
                       (fun q => (string_bytes q).length + 1)).sum }
          ∧ ((∀ byte ∈ string_bytes p, byte ≠ 0) →
              read_c_string file.resource_names_arr
                (((state.paths.take i).map (fun q => (string_bytes q).length + 1)).sum)
                = string_bytes p) :=
  main_layout fs layout compile_single_tag output_opens resource_options tags_list file h hsize

/-- Witness for C12: a bitmap map of the bitmap `a` in retail mode; the build
completes below `2^32` bytes and the index table starts where the path table
ends. -/
theorem main_container_layout_witness :
    ∃ file, main small_file_system small_layout small_compile_single_tag true
        { type := .RESOURCE_MAP_BITMAP, resource_map_set := true, retail := true } ["a"]
          = .ok file
      ∧ file.resource_data.length + file.resource_names_arr.length < uint32_modulus
      ∧ file.header.resources = file.header.paths + file.resource_names_arr.length :=
  ⟨_, rfl, by decide,
    (main_container_layout small_file_system small_layout small_compile_single_tag true
      { type := .RESOURCE_MAP_BITMAP, resource_map_set := true, retail := true } ["a"] _ rfl
      (by decide)).elim (fun _ hstate => hstate.2.2.2.2.2.1)⟩

/-! ### The entries of a tag -/

/-- The paths pushed for one listed tag when `retail` is not set. -/
theorem tag_resources_paths (layout : ResourceLayout) (type : ResourceMapType)
    (halo_tag_path : String) (resource_data_size : Nat) (compiled_tag : SingleTagWorkload) :
    (tag_resources layout type false halo_tag_path resource_data_size compiled_tag).map
        (fun r => r.path)
      = match type with
        | .RESOURCE_MAP_BITMAP => [halo_tag_path ++ "__pixels", halo_tag_path]
        | .RESOURCE_MAP_SOUND => [halo_tag_path ++ "__permutations", halo_tag_path]
        | .RESOURCE_MAP_LOC => [halo_tag_path] := by
  cases type <;>
    simp [tag_resources, bitmap_resources, sound_resources, embedded_resources]

theorem build_resources_paths (fs : TagFileSystem) (layout : ResourceLayout)
    (compile_single_tag : String → TagClassInt → List String → Option SingleTagWorkload)
    (resource_options : ResourceOption) (hretail : resource_options.retail = false)
    (tags_list : List String) (state result : ResourceBuild)
    (h : build_resources fs layout compile_single_tag resource_options tags_list state
      = .ok result) :
    result.paths = state.paths ++ (tags_list.map (fun listed_tag =>
      match resource_options.type with
      | .RESOURCE_MAP_BITMAP =>
        [fs.preferred_path_to_halo_path listed_tag ++ "__pixels",
         fs.preferred_path_to_halo_path listed_tag]
      | .RESOURCE_MAP_SOUND =>
        [fs.preferred_path_to_halo_path listed_tag ++ "__permutations",
         fs.preferred_path_to_halo_path listed_tag]
      | .RESOURCE_MAP_LOC => [fs.preferred_path_to_halo_path listed_tag])).flatten := by
  induction tags_list generalizing state with
  | nil =>
    simp only [build_resources, Except.ok.injEq] at h
    simp [h]
  | cons listed_tag rest ih =>
    simp only [build_resources] at h
    cases hopen : open_listed_tag fs resource_options (fs.halo_path_to_preferred_path listed_tag) with
    | error e => simp [hopen] at h
    | ok tag_class_int =>
      simp only [hopen] at h
      cases hcomp : compile_single_tag (fs.halo_path_to_preferred_path listed_tag) tag_class_int
          resource_options.tags with
      | none => simp [hcomp] at h
      | some compiled_tag =>
        simp only [hcomp] at h
        rw [ih _ h, (foldl_push_resource_sizes _ _).2, hretail, tag_resources_paths]
        simp

theorem flatten_pairs_get {α β : Type} (l : List α) (f g : α → β) (i : Nat) (a : α)
    (h : l[i]? = some a) :
    ((l.map (fun x => [f x, g x])).flatten)[2 * i]? = some (f a)
    ∧ ((l.map (fun x => [f x, g x])).flatten)[2 * i + 1]? = some (g a) := by
  induction l generalizing i with
  | nil => simp at h
  | cons x rest ih =>
    cases i with
    | zero =>
      simp only [List.getElem?_cons_zero, Option.some.injEq] at h
      subst h
      simp
    | succ i =>
      simp only [List.getElem?_cons_succ] at h
      have := ih i h
      have e1 : 2 * (i + 1) = 2 * i + 1 + 1 := by omega
      rw [e1]
      simpa using this

theorem flatten_pairs_length {α β : Type} (l : List α) (f g : α → β) :
    ((l.map (fun x => [f x, g x])).flatten).length = 2 * l.length := by
  induction l with
  | nil => simp
  | cons x rest ih =>
    simp only [List.map_cons, List.flatten_cons, List.length_append, ih, List.length_cons,
      List.length_nil]
    omega

theorem flatten_singletons {α β : Type} (l : List α) (f : α → β) :
    (l.map (fun x => [f x])).flatten = l.map f := by
  induction l with
  | nil => simp
  | cons x rest ih => simp [ih]

theorem string_bytes_append (a b : String) :
    string_bytes (a ++ b) = string_bytes a ++ string_bytes b := by
  simp [string_bytes, String.toList]

/-- Counterexample for C11: a bitmap map built in embed mode from the one
listed tag `a` has two index entries, and the path read back for the first
is `a__pixels`. -/
theorem main_embed_bitmap_two_entries :
    ∃ file, main small_file_system small_layout small_compile_single_tag true
        { type := .RESOURCE_MAP_BITMAP, resource_map_set := true } ["a"] = .ok file
      ∧ file.header.resource_count = 2
      ∧ file.header.resource_count ≠ ["a"].length
      ∧ file.resource_indices.length = 2
      ∧ read_c_string file.resource_names_arr 0 = string_bytes "a__pixels"
      ∧ read_c_string file.resource_names_arr 0 ≠ string_bytes "a" :=
  ⟨_, rfl, by decide, by decide, by decide, by decide, by decide⟩

/-- C11 (amended): when `main` completes with `retail` not set, the header,
the data segment and the path table stay below `2^32` bytes, the listed tag
paths are in the Halo form (the conversion `File::preferred_path_to_halo_path`
leaves them unchanged) and none holds a NUL byte, `header.resource_count` is
the number of index records; a loc map of `N` listed tags has `N` records, and
the path read back for record `i` is the path of listed tag `i`, byte for
byte; a bitmap or sound map has `2 * N` records, and the paths read back for
records `2 * i` and `2 * i + 1` are the path of listed tag `i` followed by
`__pixels` or `__permutations`, and the path of listed tag `i`. -/
theorem main_entries_of_listed_tags (fs : TagFileSystem) (layout : ResourceLayout)
    (compile_single_tag : String → TagClassInt → List String → Option SingleTagWorkload)
    (output_opens : Bool) (resource_options : ResourceOption) (tags_list : List String)
    (file : ResourceMapFile)
    (h : main fs layout compile_single_tag output_opens resource_options tags_list = .ok file)
    (hretail : resource_options.retail = false)
    (hsize : file.resource_data.length + file.resource_names_arr.length < uint32_modulus)
    (hhalo : ∀ listed_tag ∈ tags_list, fs.preferred_path_to_halo_path listed_tag = listed_tag)
    (hnul : ∀ listed_tag ∈ tags_list, ∀ byte ∈ string_bytes listed_tag, byte ≠ 0) :
    file.header.resource_count = file.resource_indices.length
    ∧ file.resource_indices.length
        = (match resource_options.type with
           | .RESOURCE_MAP_LOC => tags_list.length
           | _ => 2 * tags_list.length)
    ∧ ∀ (i : Nat) (listed_tag : String), tags_list[i]? = some listed_tag →
        match resource_options.type with
        | .RESOURCE_MAP_LOC =>
          ∃ record, file.resource_indices[i]? = some record
            ∧ read_c_string file.resource_names_arr record.path_offset
                = string_bytes listed_tag
        | .RESOURCE_MAP_BITMAP =>
          (∃ record, file.resource_indices[2 * i]? = some record
            ∧ read_c_string file.resource_names_arr record.path_offset
                = string_bytes (listed_tag ++ "__pixels"))
          ∧ (∃ record, file.resource_indices[2 * i + 1]? = some record
            ∧ read_c_string file.resource_names_arr record.path_offset
                = string_bytes listed_tag)
        | .RESOURCE_MAP_SOUND =>
          (∃ record, file.resource_indices[2 * i]? = some record
            ∧ read_c_string file.resource_names_arr record.path_offset
                = string_bytes (listed_tag ++ "__permutations"))
          ∧ (∃ record, file.resource_indices[2 * i + 1]? = some record
            ∧ read_c_string file.resource_names_arr record.path_offset
                = string_bytes listed_tag) := by
  obtain ⟨state, hb, _, _, _, _, _, hcount, hlen, _, _, hrec⟩ :=
    main_layout _ _ _ _ _ _ _ h hsize
  have hp := build_resources_paths fs layout compile_single_tag (default_tags resource_options)
    (by rw [(default_tags_type resource_options).2, hretail]) tags_list _ _ hb
  rw [(default_tags_type resource_options).1] at hp
  simp only [List.nil_append] at hp
  have hread : ∀ (k : Nat) (p : String), state.paths[k]? = some p →
      (∀ byte ∈ string_bytes p, byte ≠ 0) →
      ∃ record, file.resource_indices[k]? = some record
        ∧ read_c_string file.resource_names_arr record.path_offset = string_bytes p := by
    intro k p hk hn
    exact ⟨_, (hrec k p hk).1, (hrec k p hk).2 hn⟩
  have hsuffix : ∀ (t suffix : String), t ∈ tags_list →
      (∀ byte ∈ string_bytes suffix, byte ≠ 0) →
      ∀ byte ∈ string_bytes (t ++ suffix), byte ≠ 0 := by
    intro t suffix ht hs byte hbyte
    rw [string_bytes_append] at hbyte
    rcases List.mem_append.1 hbyte with hbyte | hbyte
    · exact hnul t ht byte hbyte
    · exact hs byte hbyte
  refine ⟨hcount, ?_, ?_⟩
  · rw [hlen, hp]
    cases resource_options.type
    · simp only
      exact flatten_pairs_length _ _ _
    · simp only
      exact flatten_pairs_length _ _ _
    · simp only
      rw [flatten_singletons, List.length_map]
  · intro i t ht
    have hmem : t ∈ tags_list := List.getElem?_mem ht
    have hconv := hhalo t hmem
    cases htype : resource_options.type
    · simp only
      rw [htype] at hp
      simp only at hp
      have hg := flatten_pairs_get tags_list
        (fun x => fs.preferred_path_to_halo_path x ++ "__pixels")
        (fun x => fs.preferred_path_to_halo_path x) i t ht
      rw [← hp] at hg
      simp only [hconv] at hg
      exact ⟨hread _ _ hg.1 (hsuffix t "__pixels" hmem (by decide)),
        hread _ _ hg.2 (hnul t hmem)⟩
    · simp only
      rw [htype] at hp
      simp only at hp
      have hg := flatten_pairs_get tags_list
        (fun x => fs.preferred_path_to_halo_path x ++ "__permutations")
        (fun x => fs.preferred_path_to_halo_path x) i t ht
      rw [← hp] at hg
      simp only [hconv] at hg
      exact ⟨hread _ _ hg.1 (hsuffix t "__permutations" hmem (by decide)),
        hread _ _ hg.2 (hnul t hmem)⟩
    · simp only
      rw [htype] at hp
      simp only at hp
      rw [flatten_singletons] at hp
      have hg : state.paths[i]? = some (fs.preferred_path_to_halo_path t) := by
        rw [hp, List.getElem?_map, ht]
        rfl
      rw [hconv] at hg
      exact hread _ _ hg (hnul t hmem)

/-- Witness for C11 (amended): a loc map of the two fonts `a` and `b` has two
index records, and the path read back for record 1 is `b`. -/
theorem main_entries_of_listed_tags_witness :
    ∃ file, main small_file_system small_layout small_compile_single_tag true
        { type := .RESOURCE_MAP_LOC, resource_map_set := true } ["a", "b"] = .ok file
      ∧ file.resource_data.length + file.resource_names_arr.length < uint32_modulus
      ∧ file.header.resource_count = file.resource_indices.length
      ∧ file.resource_indices.length = 2
      ∧ ∃ record, file.resource_indices[1]? = some record
          ∧ read_c_string file.resource_names_arr record.path_offset = string_bytes "b" :=
  ⟨_, rfl, by decide,
    (main_entries_of_listed_tags small_file_system small_layout small_compile_single_tag true
      { type := .RESOURCE_MAP_LOC, resource_map_set := true } ["a", "b"] _ rfl rfl
      (by decide) (fun _ _ => rfl) (by decide)).1,
    (main_entries_of_listed_tags small_file_system small_layout small_compile_single_tag true
      { type := .RESOURCE_MAP_LOC, resource_map_set := true } ["a", "b"] _ rfl rfl
      (by decide) (fun _ _ => rfl) (by decide)).2.1,
    (main_entries_of_listed_tags small_file_system small_layout small_compile_single_tag true
      { type := .RESOURCE_MAP_LOC, resource_map_set := true } ["a", "b"] _ rfl rfl
      (by decide) (fun _ _ => rfl) (by decide)).2.2 1 "b" rfl⟩

theorem finish_resource_map_of_lt (type : ResourceMapType) (state : ResourceBuild)
    (h : state.resource_data.length < 4294967295) :
    finish_resource_map type true state
      = .ok { header :=
                { type := type,
                  resource_count := state.paths.length % uint32_modulus,
                  paths := state.resource_data.length % uint32_modulus,
                  resources :=
                    ((build_indices state.sizes state.offsets state.paths 0 []).2.length
                      + state.resource_data.length) % size_t_modulus % uint32_modulus },
              resource_data := state.resource_data,
              resource_names_arr := (build_indices state.sizes state.offsets state.paths 0 []).2,
              resource_indices := (build_indices state.sizes state.offsets state.paths 0 []).1 } := by
  unfold finish_resource_map
  simp only
  rw [if_neg (by omega), if_neg (by simp)]

theorem finish_resource_map_wraps_of_length (resource_data : List Nat)
    (hlen : resource_data.length = 4294967292) :
    ∃ file, finish_resource_map .RESOURCE_MAP_LOC true
        { resource_data := resource_data, offsets := [16],
          sizes := [4294967276], paths := ["abc"] } = .ok file
      ∧ file.header.paths = 4294967292
      ∧ file.resource_names_arr = [97, 98, 99, 0]
      ∧ file.header.resources = 0 := by
  have hnames : (build_indices [4294967276] [16] ["abc"] 0 []).2 = [97, 98, 99, 0] := by decide
  refine ⟨_, finish_resource_map_of_lt _ _ ?_, ?_, ?_, ?_⟩
  · show resource_data.length < 4294967295
    omega
  · show resource_data.length % uint32_modulus = 4294967292
    rw [hlen]
    norm_num [uint32_modulus]
  · exact hnames
  · show ((build_indices [4294967276] [16] ["abc"] 0 []).2.length
      + resource_data.length) % size_t_modulus % uint32_modulus = 0
    rw [hlen, hnames]
    norm_num [uint32_modulus, size_t_modulus]

/-- C15: a state of `main` at "Finish up building up the map" with a header
and data segment of 4294967292 bytes and the one path `abc`. The path table
is 4 bytes long and ends at `2^32`, the index table follows it, and the build
goes on to open and write the file, with `header.resources` wrapped to 0. -/
theorem finish_resource_map_wraps :
    ∃ file, finish_resource_map .RESOURCE_MAP_LOC true
        { resource_data := List.replicate 4294967292 0, offsets := [16],
          sizes := [4294967276], paths := ["abc"] } = .ok file
      ∧ file.header.paths = 4294967292
      ∧ file.resource_names_arr = [97, 98, 99, 0]
      ∧ file.header.resources = 0 :=
  finish_resource_map_wraps_of_length (List.replicate 4294967292 0) (List.length_replicate _ _)

/-! ### Split and embed mode -/

theorem c_str_eq_self (s : String) (h : ∀ c ∈ s.toList, c ≠ Char.ofNat 0) : c_str s = s := by
  unfold c_str
  have : s.toList.takeWhile (fun c => c ≠ Char.ofNat 0) = s.toList := by
    rw [List.takeWhile_eq_self_iff]
    intro c hc
    simpa using h c hc
  rw [this]
  rfl

theorem path_temp_eq_self (formatted : String) (h : formatted.length ≤ 255) :
    path_temp formatted = formatted := by
  unfold path_temp
  rw [List.take_of_length_le (by simpa using h)]
  rfl

set_option maxRecDepth 100000 in
/-- Counterexample for C16: in retail mode, the bitmap data 0 of a bitmap tag
whose path is 255 letters long is pushed under the tag path itself, the first
255 characters of the formatted path, and not under the tag path followed by
`_0`. -/
theorem retail_path_truncated :
    (tag_resources small_layout .RESOURCE_MAP_BITMAP true (String.mk (List.replicate 255 'a')) 16
        { base_struct := 0,
          structs := [{ data := [1, 0, 0, 0, 0, 0, 0, 0],
                        pointers := [{ offset := 4, struct_index := 1 }] },
                      { data := [3, 0, 0, 0, 0, 0, 0, 0, 0, 0, 0, 0] }],
          raw_data := [[5, 6, 7]] }).map (fun r => r.path)
      = [String.mk (List.replicate 255 'a')]
    ∧ String.mk (List.replicate 255 'a') ≠ String.mk (List.replicate 255 'a') ++ "_0" := by
  constructor
  · decide
  · decide

theorem bitmap_retail_resources_eq (layout : ResourceLayout) (halo_tag_path : String)
    (bitmaps : List Nat) (raw_data : List (List Nat)) (remaining b : Nat) :
    bitmap_retail_resources layout halo_tag_path bitmaps raw_data remaining b
      = (List.range remaining).map (fun k =>
          { path := path_temp (c_str halo_tag_path ++ "_" ++ toString (b + k)),
            size := read_u32_le bitmaps
              ((b + k) * layout.sizeof_BitmapData + layout.BitmapData_pixel_data_size),
            payload := raw_data.getD (b + k) [] }) := by
  induction remaining generalizing b with
  | zero => simp [bitmap_retail_resources]
  | succ n ih =>
    rw [bitmap_retail_resources, ih, List.range_succ_eq_map, List.map_cons, List.map_map]
    congr 1
    apply List.map_congr_left
    intro k _
    simp only [Function.comp, Nat.add_assoc, Nat.add_comm 1 k]

theorem sound_permutation_retail (layout : ResourceLayout) (halo_tag_path : String)
    (resource_data_size : Nat) (raw_data : List (List Nat)) (permutations_index pr p : Nat)
    (state : SoundLoop) :
    (sound_permutation layout true halo_tag_path resource_data_size raw_data
        permutations_index pr p state).structs = state.structs
    ∧ (sound_permutation layout true halo_tag_path resource_data_size raw_data
        permutations_index pr p state).resources.map (fun r => r.path)
      = state.resources.map (fun r => r.path)
        ++ [path_temp (c_str halo_tag_path ++ "__" ++ toString pr ++ "__" ++ toString p)] := by
  simp [sound_permutation]

theorem sound_permutations_retail (layout : ResourceLayout) (halo_tag_path : String)
    (resource_data_size : Nat) (raw_data : List (List Nat)) (permutations_index pr : Nat)
    (remaining p : Nat) (state : SoundLoop) :
    (sound_permutations layout true halo_tag_path resource_data_size raw_data
        permutations_index pr remaining p state).structs = state.structs
    ∧ (sound_permutations layout true halo_tag_path resource_data_size raw_data
        permutations_index pr remaining p state).resources.map (fun r => r.path)
      = state.resources.map (fun r => r.path)
        ++ (List.range remaining).map (fun k =>
            path_temp (c_str halo_tag_path ++ "__" ++ toString pr ++ "__" ++ toString (p + k))) := by
  induction remaining generalizing p state with
  | zero => simp [sound_permutations]
  | succ n ih =>
    rw [sound_permutations]
    obtain ⟨h1, h2⟩ := ih (p + 1) (sound_permutation layout true halo_tag_path resource_data_size
      raw_data permutations_index pr p state)
    obtain ⟨h3, h4⟩ := sound_permutation_retail layout halo_tag_path resource_data_size raw_data
      permutations_index pr p state
    refine ⟨h1.trans h3, ?_⟩
    rw [h2, h4, List.range_succ_eq_map, List.map_cons, List.map_map, List.append_assoc]
    congr 1
    simp only [List.singleton_append, Nat.add_zero]
    congr 1
    apply List.map_congr_left
    intro k _
    simp only [Function.comp, Nat.add_assoc, Nat.add_comm 1 k]

/-- The paths pushed by the loop over the pitch ranges in retail mode, from
pitch range `pr` on; `pitch_range_struct` holds the pitch ranges. -/
theorem sound_pitch_ranges_retail (layout : ResourceLayout) (halo_tag_path : String)
    (resource_data_size : Nat) (raw_data : List (List Nat)) (pitch_ranges_index : Nat)
    (remaining pr : Nat) (state : SoundLoop) :
    (sound_pitch_ranges layout true halo_tag_path resource_data_size raw_data
        pitch_ranges_index remaining pr state).structs = state.structs
    ∧ (sound_pitch_ranges layout true halo_tag_path resource_data_size raw_data
        pitch_ranges_index remaining pr state).resources.map (fun r => r.path)
      = state.resources.map (fun r => r.path)
        ++ ((List.range remaining).map (fun j =>
            (List.range (read_u32_le (state.structs.getD pitch_ranges_index {}).data
                ((pr + j) * layout.sizeof_SoundPitchRange
                  + layout.SoundPitchRange_permutations_count))).map (fun k =>
              path_temp (c_str halo_tag_path ++ "__" ++ toString (pr + j) ++ "__"
                ++ toString k)))).flatten := by
  induction remaining generalizing pr state with
  | zero => simp [sound_pitch_ranges]
  | succ n ih =>
    rw [sound_pitch_ranges]
    by_cases hcount : read_u32_le (state.structs.getD pitch_ranges_index {}).data
        (pr * layout.sizeof_SoundPitchRange + layout.SoundPitchRange_permutations_count) ≠ 0
    · rw [if_pos hcount]
      obtain ⟨h3, h4⟩ := sound_permutations_retail layout halo_tag_path resource_data_size
        raw_data ((layout.resolve_pointer (state.structs.getD pitch_ranges_index {})
          (pr * layout.sizeof_SoundPitchRange
            + layout.SoundPitchRange_permutations_pointer)).getD 0) pr
        (read_u32_le (state.structs.getD pitch_ranges_index {}).data
          (pr * layout.sizeof_SoundPitchRange + layout.SoundPitchRange_permutations_count)) 0
        state
      obtain ⟨h1, h2⟩ := ih (pr + 1) (sound_permutations layout true halo_tag_path
        resource_data_size raw_data ((layout.resolve_pointer
          (state.structs.getD pitch_ranges_index {})
          (pr * layout.sizeof_SoundPitchRange
            + layout.SoundPitchRange_permutations_pointer)).getD 0) pr
        (read_u32_le (state.structs.getD pitch_ranges_index {}).data
          (pr * layout.sizeof_SoundPitchRange + layout.SoundPitchRange_permutations_count)) 0
        state)
      refine ⟨h1.trans h3, ?_⟩
      rw [h2, h4, h3, List.range_succ_eq_map, List.map_cons, List.map_map, List.flatten_cons,
        List.append_assoc]
      simp only [Nat.add_zero, Nat.zero_add, Function.comp, Nat.add_assoc, Nat.add_comm 1]
      rfl
    · rw [if_neg hcount]
      obtain ⟨h1, h2⟩ := ih (pr + 1) state
      refine ⟨h1, ?_⟩
      rw [h2, List.range_succ_eq_map, List.map_cons, List.map_map, List.flatten_cons]
      have hzero : read_u32_le (state.structs.getD pitch_ranges_index {}).data
          (pr * layout.sizeof_SoundPitchRange + layout.SoundPitchRange_permutations_count) = 0 := by
        simpa using hcount
      simp only [Nat.add_zero, hzero, List.range_zero, List.map_nil, List.nil_append,
        Function.comp, Nat.add_assoc, Nat.add_comm 1]
      rfl

theorem getD_store_u32_outside (data : List Nat) (q v i : Nat) (h : i < q ∨ q + 4 ≤ i) :
    (store data q (u32_le_bytes v)).getD i 0 = data.getD i 0 :=
  getD_store_outside _ _ _ _ h

theorem getD_store_u16_outside (data : List Nat) (q v i : Nat) (h : i < q ∨ q + 2 ≤ i) :
    (store data q (u16_le_bytes v)).getD i 0 = data.getD i 0 :=
  getD_store_outside _ _ _ _ h

theorem read_u32_le_store_u16 (data : List Nat) (p v q : Nat) (h : q + 4 ≤ p ∨ p + 2 ≤ q) :
    read_u32_le (store data p (u16_le_bytes v)) q = read_u32_le data q :=
  read_u32_le_store_disjoint _ _ _ _ h

theorem read_u32_le_store_u32 (data : List Nat) (p v q : Nat) (h : q + 4 ≤ p ∨ p + 4 ≤ q) :
    read_u32_le (store data p (u32_le_bytes v)) q = read_u32_le data q :=
  read_u32_le_store_disjoint _ _ _ _ h

theorem read_u16_le_store_u32 (data : List Nat) (p v q : Nat) (h : q + 2 ≤ p ∨ p + 4 ≤ q) :
    read_u16_le (store data p (u32_le_bytes v)) q = read_u16_le data q :=
  read_u16_le_store_disjoint _ _ _ _ h

theorem bitmap_data_set_external_spec (layout : ResourceLayout) (resource_data_size b : Nat)
    (bitmaps : List Nat)
    (hpo : layout.BitmapData_pixel_data_offset + 4 ≤ layout.sizeof_BitmapData)
    (hfl : layout.BitmapData_flags + 2 ≤ layout.sizeof_BitmapData)
    (hdis : layout.BitmapData_pixel_data_offset + 4 ≤ layout.BitmapData_flags
      ∨ layout.BitmapData_flags + 2 ≤ layout.BitmapData_pixel_data_offset) :
    (bitmap_data_set_external layout resource_data_size b bitmaps).length = bitmaps.length
    ∧ (∀ i, i < b * layout.sizeof_BitmapData
          ∨ b * layout.sizeof_BitmapData + layout.sizeof_BitmapData ≤ i →
        (bitmap_data_set_external layout resource_data_size b bitmaps).getD i 0
          = bitmaps.getD i 0)
    ∧ (b * layout.sizeof_BitmapData + layout.sizeof_BitmapData ≤ bitmaps.length →
        read_u32_le (bitmap_data_set_external layout resource_data_size b bitmaps)
            (b * layout.sizeof_BitmapData + layout.BitmapData_pixel_data_offset)
          = (resource_data_size + read_u32_le bitmaps
              (b * layout.sizeof_BitmapData + layout.BitmapData_pixel_data_offset))
            % size_t_modulus % uint32_modulus
        ∧ read_u16_le (bitmap_data_set_external layout resource_data_size b bitmaps)
            (b * layout.sizeof_BitmapData + layout.BitmapData_flags)
          = (read_u16_le bitmaps (b * layout.sizeof_BitmapData + layout.BitmapData_flags)
              ||| layout.BitmapData_flags_external) % 65536) := by
  unfold bitmap_data_set_external
  simp only
  refine ⟨by simp [length_store], ?_, ?_⟩
  · intro i hi
    rw [getD_store_u16_outside _ _ _ _ (by omega), getD_store_u32_outside _ _ _ _ (by omega)]
  · intro hlen
    constructor
    · rw [read_u32_le_store_u16 _ _ _ _ (by omega), read_u32_le_store_same _ _ _ (by omega)]
      unfold uint32_modulus
      omega
    · rw [read_u16_le_store_same _ _ _ (by rw [length_store]; omega),
        read_u16_le_store_u32 _ _ _ _ (by omega)]

theorem bitmap_set_external_spec (layout : ResourceLayout) (resource_data_size : Nat)
    (hpo : layout.BitmapData_pixel_data_offset + 4 ≤ layout.sizeof_BitmapData)
    (hfl : layout.BitmapData_flags + 2 ≤ layout.sizeof_BitmapData)
    (hdis : layout.BitmapData_pixel_data_offset + 4 ≤ layout.BitmapData_flags
      ∨ layout.BitmapData_flags + 2 ≤ layout.BitmapData_pixel_data_offset)
    (remaining b : Nat) (bitmaps : List Nat)
    (hlen : (b + remaining) * layout.sizeof_BitmapData ≤ bitmaps.length) :
    (bitmap_set_external layout resource_data_size remaining b bitmaps).length = bitmaps.length
    ∧ (∀ i, i < b * layout.sizeof_BitmapData
          ∨ (b + remaining) * layout.sizeof_BitmapData ≤ i →
        (bitmap_set_external layout resource_data_size remaining b bitmaps).getD i 0
          = bitmaps.getD i 0)
    ∧ (∀ k, b ≤ k → k < b + remaining →
        read_u32_le (bitmap_set_external layout resource_data_size remaining b bitmaps)
            (k * layout.sizeof_BitmapData + layout.BitmapData_pixel_data_offset)
          = (resource_data_size + read_u32_le bitmaps
              (k * layout.sizeof_BitmapData + layout.BitmapData_pixel_data_offset))
            % size_t_modulus % uint32_modulus
        ∧ read_u16_le (bitmap_set_external layout resource_data_size remaining b bitmaps)
            (k * layout.sizeof_BitmapData + layout.BitmapData_flags)
          = (read_u16_le bitmaps (k * layout.sizeof_BitmapData + layout.BitmapData_flags)
              ||| layout.BitmapData_flags_external) % 65536) := by
  induction remaining generalizing b bitmaps with
  | zero =>
    refine ⟨rfl, fun _ _ => rfl, ?_⟩
    intro k h1 h2
    omega
  | succ n ih =>
    rw [bitmap_set_external]
    obtain ⟨s1, s2, s3⟩ := bitmap_data_set_external_spec layout resource_data_size b bitmaps
      hpo hfl hdis
    have e1 : (b + 1) * layout.sizeof_BitmapData
        = b * layout.sizeof_BitmapData + layout.sizeof_BitmapData := Nat.succ_mul _ _
    have e2 : b + (n + 1) = b + 1 + n := by omega
    have e3 : (b + 1) * layout.sizeof_BitmapData ≤ (b + 1 + n) * layout.sizeof_BitmapData :=
      Nat.mul_le_mul_right _ (by omega)
    rw [e2] at hlen ⊢
    obtain ⟨i1, i2, i3⟩ := ih (b + 1)
      (bitmap_data_set_external layout resource_data_size b bitmaps) (by rw [s1]; exact hlen)
    refine ⟨i1.trans s1, ?_, ?_⟩
    · intro i hi
      rw [i2 i (by omega), s2 i (by omega)]
    · intro k h1 h2
      by_cases hk : k = b
      · subst hk
        obtain ⟨r1, r2⟩ := s3 (by omega)
        rw [← r1, ← r2]
        exact ⟨read_u32_le_congr _ _ _ (fun i _ _ => i2 i (by omega)),
          read_u16_le_congr _ _ _ (fun i _ _ => i2 i (by omega))⟩
      · have e4 : (b + 1) * layout.sizeof_BitmapData ≤ k * layout.sizeof_BitmapData :=
          Nat.mul_le_mul_right _ (by omega)
        obtain ⟨r1, r2⟩ := i3 k (by omega) (by omega)
        rw [r1, r2, read_u32_le_congr _ bitmaps _ (fun i _ _ => s2 i (by omega)),
          read_u16_le_congr _ bitmaps _ (fun i _ _ => s2 i (by omega))]
        exact ⟨rfl, rfl⟩

theorem length_set_struct_data (structs : List BuildWorkloadStruct) (index : Nat)
    (data : List Nat) : (set_struct_data structs index data).length = structs.length := by
  simp [set_struct_data]

theorem getD_set_struct_data_same (structs : List BuildWorkloadStruct) (index : Nat)
    (data : List Nat) (h : index < structs.length) :
    (set_struct_data structs index data).getD index {}
      = { structs.getD index {} with data := data } := by
  simp [set_struct_data, List.getD_eq_getElem?_getD, List.getElem?_set_self h]

theorem getD_set_struct_data_ne (structs : List BuildWorkloadStruct) (index j : Nat)
    (data : List Nat) (h : index ≠ j) :
    (set_struct_data structs index data).getD j {} = structs.getD j {} := by
  simp [set_struct_data, List.getD_eq_getElem?_getD, List.getElem?_set_ne h]

theorem sound_permutation_embed (layout : ResourceLayout) (halo_tag_path : String)
    (resource_data_size : Nat) (raw_data : List (List Nat)) (permutations_index pr p : Nat)
    (state : SoundLoop)
    (hext : layout.SoundPermutation_samples_external + 4 ≤ layout.sizeof_SoundPermutation)
    (hfo : layout.SoundPermutation_samples_file_offset + 4 ≤ layout.sizeof_SoundPermutation)
    (hdis : layout.SoundPermutation_samples_external + 4
        ≤ layout.SoundPermutation_samples_file_offset
      ∨ layout.SoundPermutation_samples_file_offset + 4
        ≤ layout.SoundPermutation_samples_external)
    (hidx : permutations_index < state.structs.length) :
    (sound_permutation layout false halo_tag_path resource_data_size raw_data
        permutations_index pr p state).resources = state.resources
    ∧ (sound_permutation layout false halo_tag_path resource_data_size raw_data
        permutations_index pr p state).structs.length = state.structs.length
    ∧ (∀ j, permutations_index ≠ j →
        (sound_permutation layout false halo_tag_path resource_data_size raw_data
          permutations_index pr p state).structs.getD j {} = state.structs.getD j {})
    ∧ ((sound_permutation layout false halo_tag_path resource_data_size raw_data
        permutations_index pr p state).structs.getD permutations_index {}).data.length
        = (state.structs.getD permutations_index {}).data.length
    ∧ (∀ i, i < p * layout.sizeof_SoundPermutation
          ∨ p * layout.sizeof_SoundPermutation + layout.sizeof_SoundPermutation ≤ i →
        ((sound_permutation layout false halo_tag_path resource_data_size raw_data
          permutations_index pr p state).structs.getD permutations_index {}).data.getD i 0
          = (state.structs.getD permutations_index {}).data.getD i 0)
    ∧ (p * layout.sizeof_SoundPermutation + layout.sizeof_SoundPermutation
          ≤ (state.structs.getD permutations_index {}).data.length →
        read_u32_le ((sound_permutation layout false halo_tag_path resource_data_size raw_data
            permutations_index pr p state).structs.getD permutations_index {}).data
            (p * layout.sizeof_SoundPermutation + layout.SoundPermutation_samples_external) = 1
        ∧ read_u32_le ((sound_permutation layout false halo_tag_path resource_data_size raw_data
            permutations_index pr p state).structs.getD permutations_index {}).data
            (p * layout.sizeof_SoundPermutation + layout.SoundPermutation_samples_file_offset)
          = (resource_data_size + read_u32_le (state.structs.getD permutations_index {}).data
              (p * layout.sizeof_SoundPermutation
                + layout.SoundPermutation_samples_file_offset))
            % size_t_modulus % uint32_modulus) := by
  unfold sound_permutation
  simp only [Bool.false_eq_true, if_false]
  refine ⟨trivial, length_set_struct_data _ _ _,
    fun j hj => getD_set_struct_data_ne _ _ _ _ hj, ?_, ?_, ?_⟩
  · rw [getD_set_struct_data_same _ _ _ hidx]
    simp [length_store]
  · intro i hi
    rw [getD_set_struct_data_same _ _ _ hidx]
    show (store (store _ _ _) _ _).getD i 0 = _
    rw [getD_store_u32_outside _ _ _ _ (by omega), getD_store_u32_outside _ _ _ _ (by omega)]
  · intro hlen
    rw [getD_set_struct_data_same _ _ _ hidx]
    constructor
    · show read_u32_le (store (store _ _ _) _ _) _ = _
      rw [read_u32_le_store_u32 _ _ _ _ (by omega), read_u32_le_store_same _ _ _ (by omega)]
    · show read_u32_le (store (store _ _ _) _ _) _ = _
      rw [read_u32_le_store_same _ _ _ (by rw [length_store]; omega),
        read_u32_le_store_u32 _ _ _ _ (by omega)]
      unfold uint32_modulus
      omega

theorem sound_permutations_embed (layout : ResourceLayout) (halo_tag_path : String)
    (resource_data_size : Nat) (raw_data : List (List Nat)) (permutations_index pr : Nat)
    (hext : layout.SoundPermutation_samples_external + 4 ≤ layout.sizeof_SoundPermutation)
    (hfo : layout.SoundPermutation_samples_file_offset + 4 ≤ layout.sizeof_SoundPermutation)
    (hdis : layout.SoundPermutation_samples_external + 4
        ≤ layout.SoundPermutation_samples_file_offset
      ∨ layout.SoundPermutation_samples_file_offset + 4
        ≤ layout.SoundPermutation_samples_external)
    (remaining p : Nat) (state : SoundLoop)
    (hidx : permutations_index < state.structs.length)
    (hlen : (p + remaining) * layout.sizeof_SoundPermutation
      ≤ (state.structs.getD permutations_index {}).data.length) :
    (sound_permutations layout false halo_tag_path resource_data_size raw_data
        permutations_index pr remaining p state).resources = state.resources
    ∧ (sound_permutations layout false halo_tag_path resource_data_size raw_data
        permutations_index pr remaining p state).structs.length = state.structs.length
    ∧ (∀ j, permutations_index ≠ j →
        (sound_permutations layout false halo_tag_path resource_data_size raw_data
          permutations_index pr remaining p state).structs.getD j {} = state.structs.getD j {})
    ∧ ((sound_permutations layout false halo_tag_path resource_data_size raw_data
        permutations_index pr remaining p state).structs.getD permutations_index {}).data.length
        = (state.structs.getD permutations_index {}).data.length
    ∧ (∀ i, i < p * layout.sizeof_SoundPermutation
          ∨ (p + remaining) * layout.sizeof_SoundPermutation ≤ i →
        ((sound_permutations layout false halo_tag_path resource_data_size raw_data
          permutations_index pr remaining p state).structs.getD permutations_index {}).data.getD
            i 0
          = (state.structs.getD permutations_index {}).data.getD i 0)
    ∧ (∀ k, p ≤ k → k < p + remaining →
        read_u32_le ((sound_permutations layout false halo_tag_path resource_data_size raw_data
            permutations_index pr remaining p state).structs.getD permutations_index {}).data
            (k * layout.sizeof_SoundPermutation + layout.SoundPermutation_samples_external) = 1
        ∧ read_u32_le ((sound_permutations layout false halo_tag_path resource_data_size raw_data
            permutations_index pr remaining p state).structs.getD permutations_index {}).data
            (k * layout.sizeof_SoundPermutation + layout.SoundPermutation_samples_file_offset)
          = (resource_data_size + read_u32_le (state.structs.getD permutations_index {}).data
              (k * layout.sizeof_SoundPermutation
                + layout.SoundPermutation_samples_file_offset))
            % size_t_modulus % uint32_modulus) := by
  induction remaining generalizing p state with
  | zero =>
    refine ⟨rfl, rfl, fun _ _ => rfl, rfl, fun _ _ => rfl, ?_⟩
    intro k h1 h2
    omega
  | succ n ih =>
    rw [sound_permutations]
    obtain ⟨s1, s2, s3, s4, s5, s6⟩ := sound_permutation_embed layout halo_tag_path
      resource_data_size raw_data permutations_index pr p state hext hfo hdis hidx
    have e1 : (p + 1) * layout.sizeof_SoundPermutation
        = p * layout.sizeof_SoundPermutation + layout.sizeof_SoundPermutation := Nat.succ_mul _ _
    have e2 : p + (n + 1) = p + 1 + n := by omega
    have e3 : (p + 1) * layout.sizeof_SoundPermutation
        ≤ (p + 1 + n) * layout.sizeof_SoundPermutation := Nat.mul_le_mul_right _ (by omega)
    rw [e2] at hlen ⊢
    obtain ⟨i1, i2, i3, i4, i5, i6⟩ := ih (p + 1)
      (sound_permutation layout false halo_tag_path resource_data_size raw_data
        permutations_index pr p state) (by rw [s2]; exact hidx) (by rw [s4]; exact hlen)
    refine ⟨i1.trans s1, i2.trans s2, fun j hj => (i3 j hj).trans (s3 j hj), i4.trans s4, ?_, ?_⟩
    · intro i hi
      rw [i5 i (by omega), s5 i (by omega)]
    · intro k h1 h2
      by_cases hk : k = p
      · subst hk
        obtain ⟨r1, r2⟩ := s6 (by omega)
        exact ⟨(read_u32_le_congr _ _ _ (fun i _ _ => i5 i (by omega))).trans r1,
          (read_u32_le_congr _ _ _ (fun i _ _ => i5 i (by omega))).trans r2⟩
      · have e4 : (p + 1) * layout.sizeof_SoundPermutation
            ≤ k * layout.sizeof_SoundPermutation := Nat.mul_le_mul_right _ (by omega)
        obtain ⟨r1, r2⟩ := i6 k (by omega) (by omega)
        rw [r1, r2, read_u32_le_congr _ (state.structs.getD permutations_index {}).data _
          (fun i _ _ => s5 i (by omega))]
        exact ⟨rfl, rfl⟩

theorem sound_pitch_ranges_embed (layout : ResourceLayout) (halo_tag_path : String)
    (resource_data_size : Nat) (raw_data : List (List Nat)) (pitch_ranges_index : Nat)
    (hext : layout.SoundPermutation_samples_external + 4 ≤ layout.sizeof_SoundPermutation)
    (hfo : layout.SoundPermutation_samples_file_offset + 4 ≤ layout.sizeof_SoundPermutation)
    (hdis : layout.SoundPermutation_samples_external + 4
        ≤ layout.SoundPermutation_samples_file_offset
      ∨ layout.SoundPermutation_samples_file_offset + 4
        ≤ layout.SoundPermutation_samples_external)
    (pitch_range_struct : BuildWorkloadStruct) (count index : Nat → Nat)
    (hcount : ∀ pr, count pr = read_u32_le pitch_range_struct.data
      (pr * layout.sizeof_SoundPitchRange + layout.SoundPitchRange_permutations_count))
    (hindex : ∀ pr, index pr = (layout.resolve_pointer pitch_range_struct
      (pr * layout.sizeof_SoundPitchRange + layout.SoundPitchRange_permutations_pointer)).getD 0)
    (remaining pr0 : Nat) (state : SoundLoop)
    (hstruct : state.structs.getD pitch_ranges_index {} = pitch_range_struct)
    (H : ∀ pr, pr0 ≤ pr → pr < pr0 + remaining → count pr ≠ 0 →
      index pr < state.structs.length ∧ index pr ≠ pitch_ranges_index
      ∧ count pr * layout.sizeof_SoundPermutation
          ≤ (state.structs.getD (index pr) {}).data.length
      ∧ ∀ other, pr0 ≤ other → other < pr0 + remaining → other ≠ pr → count other ≠ 0 →
          index other ≠ index pr) :
    (sound_pitch_ranges layout false halo_tag_path resource_data_size raw_data
        pitch_ranges_index remaining pr0 state).resources = state.resources
    ∧ (sound_pitch_ranges layout false halo_tag_path resource_data_size raw_data
        pitch_ranges_index remaining pr0 state).structs.length = state.structs.length
    ∧ (∀ j, (∀ pr, pr0 ≤ pr → pr < pr0 + remaining → count pr ≠ 0 → index pr ≠ j) →
        (sound_pitch_ranges layout false halo_tag_path resource_data_size raw_data
          pitch_ranges_index remaining pr0 state).structs.getD j {} = state.structs.getD j {})
    ∧ (∀ pr, pr0 ≤ pr → pr < pr0 + remaining → ∀ p, p < count pr →
        read_u32_le ((sound_pitch_ranges layout false halo_tag_path resource_data_size raw_data
            pitch_ranges_index remaining pr0 state).structs.getD (index pr) {}).data
            (p * layout.sizeof_SoundPermutation + layout.SoundPermutation_samples_external) = 1
        ∧ read_u32_le ((sound_pitch_ranges layout false halo_tag_path resource_data_size raw_data
            pitch_ranges_index remaining pr0 state).structs.getD (index pr) {}).data
            (p * layout.sizeof_SoundPermutation + layout.SoundPermutation_samples_file_offset)
          = (resource_data_size + read_u32_le (state.structs.getD (index pr) {}).data
              (p * layout.sizeof_SoundPermutation
                + layout.SoundPermutation_samples_file_offset))
            % size_t_modulus % uint32_modulus) := by
  induction remaining generalizing pr0 state with
  | zero =>
    refine ⟨rfl, rfl, fun _ _ => rfl, ?_⟩
    intro pr h1 h2
    omega
  | succ n ih =>
    rw [sound_pitch_ranges]
    simp only [hstruct, ← hcount, ← hindex]
    have key : ∃ next : SoundLoop,
        (if count pr0 ≠ 0 then
          sound_permutations layout false halo_tag_path resource_data_size raw_data
            (index pr0) pr0 (count pr0) 0 state
        else state) = next
        ∧ next.resources = state.resources
        ∧ next.structs.length = state.structs.length
        ∧ (∀ j, (count pr0 ≠ 0 → index pr0 ≠ j) →
            next.structs.getD j {} = state.structs.getD j {})
        ∧ (∀ p, p < count pr0 →
            read_u32_le (next.structs.getD (index pr0) {}).data
              (p * layout.sizeof_SoundPermutation + layout.SoundPermutation_samples_external) = 1
            ∧ read_u32_le (next.structs.getD (index pr0) {}).data
              (p * layout.sizeof_SoundPermutation + layout.SoundPermutation_samples_file_offset)
              = (resource_data_size + read_u32_le (state.structs.getD (index pr0) {}).data
                  (p * layout.sizeof_SoundPermutation
                    + layout.SoundPermutation_samples_file_offset))
                % size_t_modulus % uint32_modulus) := by
      by_cases hc : count pr0 ≠ 0
      · rw [if_pos hc]
        obtain ⟨h1, _, h3, _⟩ := H pr0 (le_refl _) (by omega) hc
        obtain ⟨s1, s2, s3, _, _, s6⟩ := sound_permutations_embed layout halo_tag_path
          resource_data_size raw_data (index pr0) pr0 hext hfo hdis (count pr0) 0 state h1
          (by rw [Nat.zero_add]; exact h3)
        exact ⟨_, rfl, s1, s2, fun j hj => s3 j (hj hc),
          fun p hp => s6 p (Nat.zero_le _) (by omega)⟩
      · rw [if_neg hc]
        refine ⟨_, rfl, rfl, rfl, fun _ _ => rfl, ?_⟩
        intro p hp
        have : count pr0 = 0 := by simpa using hc
        omega
    obtain ⟨next, hnext, n1, n2, n3, n4⟩ := key
    rw [hnext]
    have hnext_struct : next.structs.getD pitch_ranges_index {} = pitch_range_struct := by
      rw [n3 _ (fun hc => (H pr0 (le_refl _) (by omega) hc).2.1), hstruct]
    have hother : ∀ pr, pr0 + 1 ≤ pr → pr < pr0 + 1 + n → count pr ≠ 0 →
        next.structs.getD (index pr) {} = state.structs.getD (index pr) {} := by
      intro pr h1 h2 hc
      apply n3
      intro hc0
      exact (H pr (by omega) (by omega) hc).2.2.2 pr0 (le_refl _) (by omega) (by omega) hc0
    have Hnext : ∀ pr, pr0 + 1 ≤ pr → pr < pr0 + 1 + n → count pr ≠ 0 →
        index pr < next.structs.length ∧ index pr ≠ pitch_ranges_index
        ∧ count pr * layout.sizeof_SoundPermutation
            ≤ (next.structs.getD (index pr) {}).data.length
        ∧ ∀ other, pr0 + 1 ≤ other → other < pr0 + 1 + n → other ≠ pr → count other ≠ 0 →
            index other ≠ index pr := by
      intro pr h1 h2 hc
      obtain ⟨a1, a2, a3, a4⟩ := H pr (by omega) (by omega) hc
      refine ⟨by rw [n2]; exact a1, a2, by rw [hother pr h1 h2 hc]; exact a3, ?_⟩
      intro other o1 o2 o3 o4
      exact a4 other (by omega) (by omega) o3 o4
    obtain ⟨i1, i2, i3, i4⟩ := ih (pr0 + 1) next hnext_struct Hnext
    refine ⟨i1.trans n1, i2.trans n2, ?_, ?_⟩
    · intro j hj
      rw [i3 j (fun pr h1 h2 hc => hj pr (by omega) (by omega) hc),
        n3 j (fun hc => hj pr0 (le_refl _) (by omega) hc)]
    · intro pr h1 h2 p hp
      by_cases hpr : pr = pr0
      · subst hpr
        have hc : count pr ≠ 0 := by omega
        rw [i3 (index pr) (fun other o1 o2 oc =>
          (H pr (le_refl _) (by omega) hc).2.2.2 other (by omega) (by omega) (by omega) oc)]
        exact n4 p hp
      · have hc : count pr ≠ 0 := by omega
        obtain ⟨r1, r2⟩ := i4 pr (by omega) (by omega) p hp
        rw [hother pr (by omega) (by omega) hc] at r2
        exact ⟨r1, r2⟩

theorem bitmap_resources_retail (layout : ResourceLayout) (halo_tag_path : String)
    (resource_data_size : Nat) (compiled_tag : SingleTagWorkload)
    (hnul : ∀ c ∈ halo_tag_path.toList, c ≠ Char.ofNat 0)
    (hfit : ∀ b, b < (read_u32_le (compiled_tag.structs.getD compiled_tag.base_struct {}).data
        layout.Bitmap_bitmap_data_count) → (halo_tag_path ++ "_" ++ toString b).length ≤ 255) :
    bitmap_resources layout true halo_tag_path resource_data_size compiled_tag
      = (compiled_tag.structs, (List.range (read_u32_le (compiled_tag.structs.getD
          compiled_tag.base_struct {}).data layout.Bitmap_bitmap_data_count)).map (fun b =>
          { path := halo_tag_path ++ "_" ++ toString b,
            size := read_u32_le (compiled_tag.structs.getD ((layout.resolve_pointer
                (compiled_tag.structs.getD compiled_tag.base_struct {})
                layout.Bitmap_bitmap_data_pointer).getD 0) {}).data (b * layout.sizeof_BitmapData +
                layout.BitmapData_pixel_data_size),
            payload := compiled_tag.raw_data.getD b [] })) := by
  unfold bitmap_resources
  simp only [if_true]
  congr 1
  split_ifs with hc
  · rw [bitmap_retail_resources_eq]
    apply List.map_congr_left
    intro b hb
    rw [List.mem_range] at hb
    simp only [Nat.zero_add, c_str_eq_self _ hnul, path_temp_eq_self _ (hfit b hb)]
  · have hzero : (read_u32_le (compiled_tag.structs.getD compiled_tag.base_struct {}).data
      layout.Bitmap_bitmap_data_count) = 0 := by simpa using hc
    rw [hzero]
    rfl

theorem sound_resources_retail (layout : ResourceLayout) (halo_tag_path : String)
    (resource_data_size : Nat) (compiled_tag : SingleTagWorkload)
    (hnul : ∀ c ∈ halo_tag_path.toList, c ≠ Char.ofNat 0)
    (hfit : ∀ pr, pr < (read_u32_le (compiled_tag.structs.getD compiled_tag.base_struct {}).data
        layout.Sound_pitch_ranges_count) → ∀ p, p < (read_u32_le (compiled_tag.structs.getD
        ((layout.resolve_pointer (compiled_tag.structs.getD compiled_tag.base_struct {})
        layout.Sound_pitch_ranges_pointer).getD 0) {}).data (pr * layout.sizeof_SoundPitchRange +
        layout.SoundPitchRange_permutations_count)) → (halo_tag_path ++ "__" ++ toString pr ++ "__"
        ++ toString p).length ≤ 255) :
    (sound_resources layout true halo_tag_path resource_data_size compiled_tag).1
      = compiled_tag.structs
    ∧ (sound_resources layout true halo_tag_path resource_data_size compiled_tag).2.map
        (fun r => r.path)
      = ((List.range (read_u32_le (compiled_tag.structs.getD compiled_tag.base_struct {}).data
          layout.Sound_pitch_ranges_count)).map (fun pr =>
          (List.range (read_u32_le (compiled_tag.structs.getD ((layout.resolve_pointer
              (compiled_tag.structs.getD compiled_tag.base_struct {})
              layout.Sound_pitch_ranges_pointer).getD 0) {}).data (pr *
              layout.sizeof_SoundPitchRange + layout.SoundPitchRange_permutations_count))).map (fun
              p =>
            halo_tag_path ++ "__" ++ toString pr ++ "__" ++ toString p))).flatten := by
  unfold sound_resources
  simp only [if_true]
  split_ifs with hc
  · obtain ⟨h1, h2⟩ := sound_pitch_ranges_retail layout halo_tag_path resource_data_size
      compiled_tag.raw_data ((layout.resolve_pointer (compiled_tag.structs.getD
          compiled_tag.base_struct {}) layout.Sound_pitch_ranges_pointer).getD 0) (read_u32_le
          (compiled_tag.structs.getD compiled_tag.base_struct {}).data
          layout.Sound_pitch_ranges_count) 0 { structs := compiled_tag.structs }
    refine ⟨h1, ?_⟩
    rw [h2]
    simp only [List.map_nil, List.nil_append, Nat.zero_add]
    congr 1
    apply List.map_congr_left
    intro pr hpr
    rw [List.mem_range] at hpr
    apply List.map_congr_left
    intro p hp
    rw [List.mem_range] at hp
    simp only [c_str_eq_self _ hnul, path_temp_eq_self _ (hfit pr hpr p hp)]
  · have hzero : (read_u32_le (compiled_tag.structs.getD compiled_tag.base_struct {}).data
      layout.Sound_pitch_ranges_count) = 0 := by simpa using hc
    rw [hzero]
    exact ⟨rfl, rfl⟩

theorem mod_size_t_mod_uint32 (x : Nat) :
    x % size_t_modulus % uint32_modulus = x % uint32_modulus := by
  unfold size_t_modulus uint32_modulus
  omega

theorem bitmap_resources_embed (layout : ResourceLayout) (halo_tag_path : String)
    (resource_data_size : Nat) (compiled_tag : SingleTagWorkload)
    (hpo : layout.BitmapData_pixel_data_offset + 4 ≤ layout.sizeof_BitmapData)
    (hfl : layout.BitmapData_flags + 2 ≤ layout.sizeof_BitmapData)
    (hdis : layout.BitmapData_pixel_data_offset + 4 ≤ layout.BitmapData_flags
      ∨ layout.BitmapData_flags + 2 ≤ layout.BitmapData_pixel_data_offset)
    (hbit : layout.BitmapData_flags_external < 65536)
    (hindex : ((layout.resolve_pointer (compiled_tag.structs.getD compiled_tag.base_struct {})
        layout.Bitmap_bitmap_data_pointer).getD 0) < compiled_tag.structs.length)
    (hlen : (read_u32_le (compiled_tag.structs.getD compiled_tag.base_struct {}).data
        layout.Bitmap_bitmap_data_count) * layout.sizeof_BitmapData ≤ (compiled_tag.structs.getD
        ((layout.resolve_pointer (compiled_tag.structs.getD compiled_tag.base_struct {})
        layout.Bitmap_bitmap_data_pointer).getD 0) {}).data.length) :
    ∀ b, b < (read_u32_le (compiled_tag.structs.getD compiled_tag.base_struct {}).data
        layout.Bitmap_bitmap_data_count) →
      read_u32_le ((bitmap_resources layout false halo_tag_path resource_data_size
          compiled_tag).1.getD ((layout.resolve_pointer (compiled_tag.structs.getD
          compiled_tag.base_struct {}) layout.Bitmap_bitmap_data_pointer).getD 0) {}).data (b *
          layout.sizeof_BitmapData + layout.BitmapData_pixel_data_offset)
        = (resource_data_size + read_u32_le (compiled_tag.structs.getD ((layout.resolve_pointer
            (compiled_tag.structs.getD compiled_tag.base_struct {})
            layout.Bitmap_bitmap_data_pointer).getD 0) {}).data (b * layout.sizeof_BitmapData +
            layout.BitmapData_pixel_data_offset)) % uint32_modulus
      ∧ read_u16_le ((bitmap_resources layout false halo_tag_path resource_data_size
          compiled_tag).1.getD ((layout.resolve_pointer (compiled_tag.structs.getD
          compiled_tag.base_struct {}) layout.Bitmap_bitmap_data_pointer).getD 0) {}).data (b *
          layout.sizeof_BitmapData + layout.BitmapData_flags)
        = read_u16_le (compiled_tag.structs.getD ((layout.resolve_pointer
            (compiled_tag.structs.getD compiled_tag.base_struct {})
            layout.Bitmap_bitmap_data_pointer).getD 0) {}).data (b * layout.sizeof_BitmapData +
            layout.BitmapData_flags) ||| layout.BitmapData_flags_external := by
  intro b hb
  have hc : (read_u32_le (compiled_tag.structs.getD compiled_tag.base_struct {}).data
      layout.Bitmap_bitmap_data_count) ≠ 0 := by
    omega
  have hlen0 : (0 + (read_u32_le (compiled_tag.structs.getD compiled_tag.base_struct {}).data
      layout.Bitmap_bitmap_data_count)) * layout.sizeof_BitmapData ≤ (compiled_tag.structs.getD
      ((layout.resolve_pointer (compiled_tag.structs.getD compiled_tag.base_struct {})
      layout.Bitmap_bitmap_data_pointer).getD 0) {}).data.length := by
    rw [Nat.zero_add]
    exact hlen
  unfold bitmap_resources
  simp only [Bool.false_eq_true, if_false, if_pos hc]
  rw [getD_set_struct_data_same _ _ _ hindex]
  obtain ⟨_, _, h3⟩ := bitmap_set_external_spec layout resource_data_size hpo hfl hdis _ 0 _ hlen0
  have hb0 : b < 0 + (read_u32_le (compiled_tag.structs.getD compiled_tag.base_struct {}).data
      layout.Bitmap_bitmap_data_count) := by
    omega
  obtain ⟨r1, r2⟩ := h3 b (Nat.zero_le _) hb0
  refine ⟨r1.trans (mod_size_t_mod_uint32 _), r2.trans ?_⟩
  · apply Nat.mod_eq_of_lt
    have hflags : read_u16_le (compiled_tag.structs.getD ((layout.resolve_pointer
        (compiled_tag.structs.getD compiled_tag.base_struct {})
        layout.Bitmap_bitmap_data_pointer).getD 0) {}).data (b * layout.sizeof_BitmapData +
        layout.BitmapData_flags) < 65536 := by
      unfold read_u16_le
      omega
    exact Nat.or_lt_two_pow (n := 16) hflags hbit

theorem sound_resources_embed (layout : ResourceLayout) (halo_tag_path : String)
    (resource_data_size : Nat) (compiled_tag : SingleTagWorkload)
    (hext : layout.SoundPermutation_samples_external + 4 ≤ layout.sizeof_SoundPermutation)
    (hfo : layout.SoundPermutation_samples_file_offset + 4 ≤ layout.sizeof_SoundPermutation)
    (hdis : layout.SoundPermutation_samples_external + 4
        ≤ layout.SoundPermutation_samples_file_offset
      ∨ layout.SoundPermutation_samples_file_offset + 4
        ≤ layout.SoundPermutation_samples_external)
    (H : ∀ pr, pr < (read_u32_le (compiled_tag.structs.getD compiled_tag.base_struct {}).data
        layout.Sound_pitch_ranges_count) → (read_u32_le (compiled_tag.structs.getD
        ((layout.resolve_pointer (compiled_tag.structs.getD compiled_tag.base_struct {})
        layout.Sound_pitch_ranges_pointer).getD 0) {}).data (pr * layout.sizeof_SoundPitchRange +
        layout.SoundPitchRange_permutations_count)) ≠ 0 →
      ((layout.resolve_pointer (compiled_tag.structs.getD ((layout.resolve_pointer
          (compiled_tag.structs.getD compiled_tag.base_struct {})
          layout.Sound_pitch_ranges_pointer).getD 0) {}) (pr * layout.sizeof_SoundPitchRange +
          layout.SoundPitchRange_permutations_pointer)).getD 0) < compiled_tag.structs.length
      ∧ ((layout.resolve_pointer (compiled_tag.structs.getD ((layout.resolve_pointer
          (compiled_tag.structs.getD compiled_tag.base_struct {})
          layout.Sound_pitch_ranges_pointer).getD 0) {}) (pr * layout.sizeof_SoundPitchRange +
          layout.SoundPitchRange_permutations_pointer)).getD 0) ≠ ((layout.resolve_pointer
          (compiled_tag.structs.getD compiled_tag.base_struct {})
          layout.Sound_pitch_ranges_pointer).getD 0)
      ∧ (read_u32_le (compiled_tag.structs.getD ((layout.resolve_pointer (compiled_tag.structs.getD
          compiled_tag.base_struct {}) layout.Sound_pitch_ranges_pointer).getD 0) {}).data (pr *
          layout.sizeof_SoundPitchRange + layout.SoundPitchRange_permutations_count)) *
          layout.sizeof_SoundPermutation ≤ (compiled_tag.structs.getD ((layout.resolve_pointer
          (compiled_tag.structs.getD ((layout.resolve_pointer (compiled_tag.structs.getD
          compiled_tag.base_struct {}) layout.Sound_pitch_ranges_pointer).getD 0) {}) (pr *
          layout.sizeof_SoundPitchRange + layout.SoundPitchRange_permutations_pointer)).getD 0)
          {}).data.length
      ∧ ∀ other, other < (read_u32_le (compiled_tag.structs.getD compiled_tag.base_struct {}).data
          layout.Sound_pitch_ranges_count) → other ≠ pr → (read_u32_le (compiled_tag.structs.getD
          ((layout.resolve_pointer (compiled_tag.structs.getD compiled_tag.base_struct {})
          layout.Sound_pitch_ranges_pointer).getD 0) {}).data (other *
          layout.sizeof_SoundPitchRange + layout.SoundPitchRange_permutations_count)) ≠ 0 →
          ((layout.resolve_pointer (compiled_tag.structs.getD ((layout.resolve_pointer
          (compiled_tag.structs.getD compiled_tag.base_struct {})
          layout.Sound_pitch_ranges_pointer).getD 0) {}) (other * layout.sizeof_SoundPitchRange +
          layout.SoundPitchRange_permutations_pointer)).getD 0) ≠ ((layout.resolve_pointer
          (compiled_tag.structs.getD ((layout.resolve_pointer (compiled_tag.structs.getD
          compiled_tag.base_struct {}) layout.Sound_pitch_ranges_pointer).getD 0) {}) (pr *
          layout.sizeof_SoundPitchRange + layout.SoundPitchRange_permutations_pointer)).getD 0)) :
    ∀ pr, pr < (read_u32_le (compiled_tag.structs.getD compiled_tag.base_struct {}).data
        layout.Sound_pitch_ranges_count) → ∀ p, p < (read_u32_le (compiled_tag.structs.getD
        ((layout.resolve_pointer (compiled_tag.structs.getD compiled_tag.base_struct {})
        layout.Sound_pitch_ranges_pointer).getD 0) {}).data (pr * layout.sizeof_SoundPitchRange +
        layout.SoundPitchRange_permutations_count)) →
      read_u32_le ((sound_resources layout false halo_tag_path resource_data_size
          compiled_tag).1.getD ((layout.resolve_pointer (compiled_tag.structs.getD
          ((layout.resolve_pointer (compiled_tag.structs.getD compiled_tag.base_struct {})
          layout.Sound_pitch_ranges_pointer).getD 0) {}) (pr * layout.sizeof_SoundPitchRange +
          layout.SoundPitchRange_permutations_pointer)).getD 0) {}).data (p *
          layout.sizeof_SoundPermutation + layout.SoundPermutation_samples_external) = 1
      ∧ read_u32_le ((sound_resources layout false halo_tag_path resource_data_size
          compiled_tag).1.getD ((layout.resolve_pointer (compiled_tag.structs.getD
          ((layout.resolve_pointer (compiled_tag.structs.getD compiled_tag.base_struct {})
          layout.Sound_pitch_ranges_pointer).getD 0) {}) (pr * layout.sizeof_SoundPitchRange +
          layout.SoundPitchRange_permutations_pointer)).getD 0) {}).data (p *
          layout.sizeof_SoundPermutation + layout.SoundPermutation_samples_file_offset)
        = (resource_data_size + read_u32_le (compiled_tag.structs.getD ((layout.resolve_pointer
            (compiled_tag.structs.getD ((layout.resolve_pointer (compiled_tag.structs.getD
            compiled_tag.base_struct {}) layout.Sound_pitch_ranges_pointer).getD 0) {}) (pr *
            layout.sizeof_SoundPitchRange + layout.SoundPitchRange_permutations_pointer)).getD 0)
            {}).data (p * layout.sizeof_SoundPermutation +
            layout.SoundPermutation_samples_file_offset)) % uint32_modulus := by
  intro pr hpr p hp
  have hc : (read_u32_le (compiled_tag.structs.getD compiled_tag.base_struct {}).data
      layout.Sound_pitch_ranges_count) ≠ 0 := by
    omega
  have hpr0 : pr < 0 + (read_u32_le (compiled_tag.structs.getD compiled_tag.base_struct {}).data
      layout.Sound_pitch_ranges_count) := by
    omega
  unfold sound_resources
  simp only [Bool.false_eq_true, if_false, if_pos hc]
  have H0 : ∀ pr, 0 ≤ pr → pr < 0 + (read_u32_le (compiled_tag.structs.getD
      compiled_tag.base_struct {}).data layout.Sound_pitch_ranges_count) → (fun pr => (read_u32_le
      (compiled_tag.structs.getD ((layout.resolve_pointer (compiled_tag.structs.getD
      compiled_tag.base_struct {}) layout.Sound_pitch_ranges_pointer).getD 0) {}).data (pr *
      layout.sizeof_SoundPitchRange + layout.SoundPitchRange_permutations_count))) pr ≠ 0 →
      (fun pr => ((layout.resolve_pointer (compiled_tag.structs.getD ((layout.resolve_pointer
          (compiled_tag.structs.getD compiled_tag.base_struct {})
          layout.Sound_pitch_ranges_pointer).getD 0) {}) (pr * layout.sizeof_SoundPitchRange +
          layout.SoundPitchRange_permutations_pointer)).getD 0)) pr < compiled_tag.structs.length
      ∧ (fun pr => ((layout.resolve_pointer (compiled_tag.structs.getD ((layout.resolve_pointer
          (compiled_tag.structs.getD compiled_tag.base_struct {})
          layout.Sound_pitch_ranges_pointer).getD 0) {}) (pr * layout.sizeof_SoundPitchRange +
          layout.SoundPitchRange_permutations_pointer)).getD 0)) pr ≠ ((layout.resolve_pointer
          (compiled_tag.structs.getD compiled_tag.base_struct {})
          layout.Sound_pitch_ranges_pointer).getD 0)
      ∧ (fun pr => (read_u32_le (compiled_tag.structs.getD ((layout.resolve_pointer
          (compiled_tag.structs.getD compiled_tag.base_struct {})
          layout.Sound_pitch_ranges_pointer).getD 0) {}).data (pr * layout.sizeof_SoundPitchRange +
          layout.SoundPitchRange_permutations_count))) pr * layout.sizeof_SoundPermutation ≤
          (compiled_tag.structs.getD ((fun pr => ((layout.resolve_pointer
          (compiled_tag.structs.getD ((layout.resolve_pointer (compiled_tag.structs.getD
          compiled_tag.base_struct {}) layout.Sound_pitch_ranges_pointer).getD 0) {}) (pr *
          layout.sizeof_SoundPitchRange + layout.SoundPitchRange_permutations_pointer)).getD 0))
          pr) {}).data.length
      ∧ ∀ other, 0 ≤ other → other < 0 + (read_u32_le (compiled_tag.structs.getD
          compiled_tag.base_struct {}).data layout.Sound_pitch_ranges_count) → other ≠ pr → (fun pr
          => (read_u32_le (compiled_tag.structs.getD ((layout.resolve_pointer
          (compiled_tag.structs.getD compiled_tag.base_struct {})
          layout.Sound_pitch_ranges_pointer).getD 0) {}).data (pr * layout.sizeof_SoundPitchRange +
          layout.SoundPitchRange_permutations_count))) other ≠ 0 → (fun pr =>
          ((layout.resolve_pointer (compiled_tag.structs.getD ((layout.resolve_pointer
          (compiled_tag.structs.getD compiled_tag.base_struct {})
          layout.Sound_pitch_ranges_pointer).getD 0) {}) (pr * layout.sizeof_SoundPitchRange +
          layout.SoundPitchRange_permutations_pointer)).getD 0)) other ≠ (fun pr =>
          ((layout.resolve_pointer (compiled_tag.structs.getD ((layout.resolve_pointer
          (compiled_tag.structs.getD compiled_tag.base_struct {})
          layout.Sound_pitch_ranges_pointer).getD 0) {}) (pr * layout.sizeof_SoundPitchRange +
          layout.SoundPitchRange_permutations_pointer)).getD 0)) pr := by
    intro pr _ h2 h3
    rw [Nat.zero_add] at h2
    obtain ⟨a1, a2, a3, a4⟩ := H pr h2 h3
    refine ⟨a1, a2, a3, ?_⟩
    intro other _ o2 o3 o4
    rw [Nat.zero_add] at o2
    exact a4 other o2 o3 o4
  obtain ⟨_, _, _, h4⟩ := sound_pitch_ranges_embed layout halo_tag_path resource_data_size
      compiled_tag.raw_data _ hext hfo hdis _ _ _ (fun _ => rfl) (fun _ => rfl) _ 0 { structs :=
      compiled_tag.structs } rfl H0
  obtain ⟨r1, r2⟩ := h4 pr (Nat.zero_le _) hpr0 p hp
  exact ⟨r1, r2.trans (mod_size_t_mod_uint32 _)⟩

/-- C16 (amended): for one compiled tag whose path holds no NUL. In retail
mode, when every formatted path fits the 256-byte buffer, a bitmap tag pushes
exactly one entry per bitmap data `b`, under the tag path followed by `_b`, a
sound tag pushes exactly one entry per permutation `p` of pitch range `pr`,
under the tag path followed by `__pr__p`, and the structs of the tag are left
as they were. When `retail` is not set, the entries are the raw data under the
tag path followed by `__pixels` or `__permutations`, recorded at the size
`resource_data` has when the case is entered, and the tag data; when the
fields lie inside their structs without overlapping, every bitmap data has
`external` or-ed into its flags and `pixel_data_offset` raised by that size
modulo `2^32`, and, when the pitch ranges point to distinct permutation
structs other than the pitch range struct, every permutation has
`samples.external` set to 1 and `samples.file_offset` raised by that size
modulo `2^32`. -/
theorem split_and_embed_entries (layout : ResourceLayout) (halo_tag_path : String)
    (resource_data_size : Nat) (compiled_tag : SingleTagWorkload)
    (hnul : ∀ c ∈ halo_tag_path.toList, c ≠ Char.ofNat 0) :
    ((∀ b, b < (read_u32_le (compiled_tag.structs.getD compiled_tag.base_struct {}).data
        layout.Bitmap_bitmap_data_count) → (halo_tag_path ++ "_" ++ toString b).length ≤ 255) →
      bitmap_resources layout true halo_tag_path resource_data_size compiled_tag
        = (compiled_tag.structs, (List.range (read_u32_le (compiled_tag.structs.getD
            compiled_tag.base_struct {}).data layout.Bitmap_bitmap_data_count)).map (fun b =>
            { path := halo_tag_path ++ "_" ++ toString b,
              size := read_u32_le (compiled_tag.structs.getD ((layout.resolve_pointer
                  (compiled_tag.structs.getD compiled_tag.base_struct {})
                  layout.Bitmap_bitmap_data_pointer).getD 0) {}).data (b * layout.sizeof_BitmapData
                  + layout.BitmapData_pixel_data_size),
              payload := compiled_tag.raw_data.getD b [] })))
    ∧ ((∀ pr, pr < (read_u32_le (compiled_tag.structs.getD compiled_tag.base_struct {}).data
        layout.Sound_pitch_ranges_count) → ∀ p, p < (read_u32_le (compiled_tag.structs.getD
        ((layout.resolve_pointer (compiled_tag.structs.getD compiled_tag.base_struct {})
        layout.Sound_pitch_ranges_pointer).getD 0) {}).data (pr * layout.sizeof_SoundPitchRange +
        layout.SoundPitchRange_permutations_count)) → (halo_tag_path ++ "__" ++ toString pr ++ "__"
        ++ toString p).length ≤ 255) →
      (sound_resources layout true halo_tag_path resource_data_size compiled_tag).1
        = compiled_tag.structs
      ∧ (sound_resources layout true halo_tag_path resource_data_size compiled_tag).2.map
          (fun r => r.path)
        = ((List.range (read_u32_le (compiled_tag.structs.getD compiled_tag.base_struct {}).data
            layout.Sound_pitch_ranges_count)).map (fun pr =>
            (List.range (read_u32_le (compiled_tag.structs.getD ((layout.resolve_pointer
                (compiled_tag.structs.getD compiled_tag.base_struct {})
                layout.Sound_pitch_ranges_pointer).getD 0) {}).data (pr *
                layout.sizeof_SoundPitchRange + layout.SoundPitchRange_permutations_count))).map
                (fun p =>
              halo_tag_path ++ "__" ++ toString pr ++ "__" ++ toString p))).flatten)
    ∧ (bitmap_resources layout false halo_tag_path resource_data_size compiled_tag).2 =
        embedded_resources halo_tag_path "__pixels" compiled_tag.raw_data (write_pointers layout
        .RESOURCE_MAP_BITMAP (bitmap_resources layout false halo_tag_path resource_data_size
        compiled_tag).1).1
    ∧ (sound_resources layout false halo_tag_path resource_data_size compiled_tag).2 =
        embedded_resources halo_tag_path "__permutations" compiled_tag.raw_data (write_pointers
        layout .RESOURCE_MAP_SOUND (sound_resources layout false halo_tag_path resource_data_size
        compiled_tag).1).1
    ∧ (∀ (state : ResourceBuild) (suffix : String) (data : List Nat),
        state.resource_data.length = resource_data_size →
        ((embedded_resources halo_tag_path suffix compiled_tag.raw_data data).foldl
            push_resource state).offsets
          = state.offsets ++ [resource_data_size,
              (PAD_RESOURCES_32_BIT (state.resource_data
                ++ compiled_tag.raw_data.foldl (fun all r => all ++ r) [])).length])
    ∧ (layout.BitmapData_pixel_data_offset + 4 ≤ layout.sizeof_BitmapData →
      layout.BitmapData_flags + 2 ≤ layout.sizeof_BitmapData →
      (layout.BitmapData_pixel_data_offset + 4 ≤ layout.BitmapData_flags
        ∨ layout.BitmapData_flags + 2 ≤ layout.BitmapData_pixel_data_offset) →
      layout.BitmapData_flags_external < 65536 →
      ((layout.resolve_pointer (compiled_tag.structs.getD compiled_tag.base_struct {})
          layout.Bitmap_bitmap_data_pointer).getD 0) < compiled_tag.structs.length →
      (read_u32_le (compiled_tag.structs.getD compiled_tag.base_struct {}).data
          layout.Bitmap_bitmap_data_count) * layout.sizeof_BitmapData ≤ (compiled_tag.structs.getD
          ((layout.resolve_pointer (compiled_tag.structs.getD compiled_tag.base_struct {})
          layout.Bitmap_bitmap_data_pointer).getD 0) {}).data.length →
      ∀ b, b < (read_u32_le (compiled_tag.structs.getD compiled_tag.base_struct {}).data
          layout.Bitmap_bitmap_data_count) →
        read_u32_le ((bitmap_resources layout false halo_tag_path resource_data_size
            compiled_tag).1.getD ((layout.resolve_pointer (compiled_tag.structs.getD
            compiled_tag.base_struct {}) layout.Bitmap_bitmap_data_pointer).getD 0) {}).data (b *
            layout.sizeof_BitmapData + layout.BitmapData_pixel_data_offset)
          = (resource_data_size + read_u32_le (compiled_tag.structs.getD ((layout.resolve_pointer
              (compiled_tag.structs.getD compiled_tag.base_struct {})
              layout.Bitmap_bitmap_data_pointer).getD 0) {}).data (b * layout.sizeof_BitmapData +
              layout.BitmapData_pixel_data_offset)) % uint32_modulus
        ∧ read_u16_le ((bitmap_resources layout false halo_tag_path resource_data_size
            compiled_tag).1.getD ((layout.resolve_pointer (compiled_tag.structs.getD
            compiled_tag.base_struct {}) layout.Bitmap_bitmap_data_pointer).getD 0) {}).data (b *
            layout.sizeof_BitmapData + layout.BitmapData_flags)
          = read_u16_le (compiled_tag.structs.getD ((layout.resolve_pointer
              (compiled_tag.structs.getD compiled_tag.base_struct {})
              layout.Bitmap_bitmap_data_pointer).getD 0) {}).data (b * layout.sizeof_BitmapData +
              layout.BitmapData_flags) ||| layout.BitmapData_flags_external)
    ∧ (layout.SoundPermutation_samples_external + 4 ≤ layout.sizeof_SoundPermutation →
      layout.SoundPermutation_samples_file_offset + 4 ≤ layout.sizeof_SoundPermutation →
      (layout.SoundPermutation_samples_external + 4
          ≤ layout.SoundPermutation_samples_file_offset
        ∨ layout.SoundPermutation_samples_file_offset + 4
          ≤ layout.SoundPermutation_samples_external) →
      (∀ pr, pr < (read_u32_le (compiled_tag.structs.getD compiled_tag.base_struct {}).data
          layout.Sound_pitch_ranges_count) → (read_u32_le (compiled_tag.structs.getD
          ((layout.resolve_pointer (compiled_tag.structs.getD compiled_tag.base_struct {})
          layout.Sound_pitch_ranges_pointer).getD 0) {}).data (pr * layout.sizeof_SoundPitchRange +
          layout.SoundPitchRange_permutations_count)) ≠ 0 →
        ((layout.resolve_pointer (compiled_tag.structs.getD ((layout.resolve_pointer
            (compiled_tag.structs.getD compiled_tag.base_struct {})
            layout.Sound_pitch_ranges_pointer).getD 0) {}) (pr * layout.sizeof_SoundPitchRange +
            layout.SoundPitchRange_permutations_pointer)).getD 0) < compiled_tag.structs.length
        ∧ ((layout.resolve_pointer (compiled_tag.structs.getD ((layout.resolve_pointer
            (compiled_tag.structs.getD compiled_tag.base_struct {})
            layout.Sound_pitch_ranges_pointer).getD 0) {}) (pr * layout.sizeof_SoundPitchRange +
            layout.SoundPitchRange_permutations_pointer)).getD 0) ≠ ((layout.resolve_pointer
            (compiled_tag.structs.getD compiled_tag.base_struct {})
            layout.Sound_pitch_ranges_pointer).getD 0)
        ∧ (read_u32_le (compiled_tag.structs.getD ((layout.resolve_pointer
            (compiled_tag.structs.getD compiled_tag.base_struct {})
            layout.Sound_pitch_ranges_pointer).getD 0) {}).data (pr * layout.sizeof_SoundPitchRange
            + layout.SoundPitchRange_permutations_count)) * layout.sizeof_SoundPermutation ≤
            (compiled_tag.structs.getD ((layout.resolve_pointer (compiled_tag.structs.getD
            ((layout.resolve_pointer (compiled_tag.structs.getD compiled_tag.base_struct {})
            layout.Sound_pitch_ranges_pointer).getD 0) {}) (pr * layout.sizeof_SoundPitchRange +
            layout.SoundPitchRange_permutations_pointer)).getD 0) {}).data.length
        ∧ ∀ other, other < (read_u32_le (compiled_tag.structs.getD compiled_tag.base_struct
            {}).data layout.Sound_pitch_ranges_count) → other ≠ pr → (read_u32_le
            (compiled_tag.structs.getD ((layout.resolve_pointer (compiled_tag.structs.getD
            compiled_tag.base_struct {}) layout.Sound_pitch_ranges_pointer).getD 0) {}).data (other
            * layout.sizeof_SoundPitchRange + layout.SoundPitchRange_permutations_count)) ≠ 0 →
            ((layout.resolve_pointer (compiled_tag.structs.getD ((layout.resolve_pointer
            (compiled_tag.structs.getD compiled_tag.base_struct {})
            layout.Sound_pitch_ranges_pointer).getD 0) {}) (other * layout.sizeof_SoundPitchRange +
            layout.SoundPitchRange_permutations_pointer)).getD 0) ≠ ((layout.resolve_pointer
            (compiled_tag.structs.getD ((layout.resolve_pointer (compiled_tag.structs.getD
            compiled_tag.base_struct {}) layout.Sound_pitch_ranges_pointer).getD 0) {}) (pr *
            layout.sizeof_SoundPitchRange + layout.SoundPitchRange_permutations_pointer)).getD 0)) →
      ∀ pr, pr < (read_u32_le (compiled_tag.structs.getD compiled_tag.base_struct {}).data
          layout.Sound_pitch_ranges_count) → ∀ p, p < (read_u32_le (compiled_tag.structs.getD
          ((layout.resolve_pointer (compiled_tag.structs.getD compiled_tag.base_struct {})
          layout.Sound_pitch_ranges_pointer).getD 0) {}).data (pr * layout.sizeof_SoundPitchRange +
          layout.SoundPitchRange_permutations_count)) →
        read_u32_le ((sound_resources layout false halo_tag_path resource_data_size
            compiled_tag).1.getD ((layout.resolve_pointer (compiled_tag.structs.getD
            ((layout.resolve_pointer (compiled_tag.structs.getD compiled_tag.base_struct {})
            layout.Sound_pitch_ranges_pointer).getD 0) {}) (pr * layout.sizeof_SoundPitchRange +
            layout.SoundPitchRange_permutations_pointer)).getD 0) {}).data (p *
            layout.sizeof_SoundPermutation + layout.SoundPermutation_samples_external) = 1
        ∧ read_u32_le ((sound_resources layout false halo_tag_path resource_data_size
            compiled_tag).1.getD ((layout.resolve_pointer (compiled_tag.structs.getD
            ((layout.resolve_pointer (compiled_tag.structs.getD compiled_tag.base_struct {})
            layout.Sound_pitch_ranges_pointer).getD 0) {}) (pr * layout.sizeof_SoundPitchRange +
            layout.SoundPitchRange_permutations_pointer)).getD 0) {}).data (p *
            layout.sizeof_SoundPermutation + layout.SoundPermutation_samples_file_offset)
          = (resource_data_size + read_u32_le (compiled_tag.structs.getD ((layout.resolve_pointer
              (compiled_tag.structs.getD ((layout.resolve_pointer (compiled_tag.structs.getD
              compiled_tag.base_struct {}) layout.Sound_pitch_ranges_pointer).getD 0) {}) (pr *
              layout.sizeof_SoundPitchRange + layout.SoundPitchRange_permutations_pointer)).getD 0)
              {}).data (p * layout.sizeof_SoundPermutation +
              layout.SoundPermutation_samples_file_offset)) % uint32_modulus) := by
  refine ⟨fun hfit => bitmap_resources_retail layout halo_tag_path resource_data_size
      compiled_tag hnul hfit,
    fun hfit => sound_resources_retail layout halo_tag_path resource_data_size compiled_tag
      hnul hfit, ?_, ?_, ?_,
    fun hpo hfl hdis hbit hindex hlen => bitmap_resources_embed layout halo_tag_path
      resource_data_size compiled_tag hpo hfl hdis hbit hindex hlen,
    fun hext hfo hdis H => sound_resources_embed layout halo_tag_path resource_data_size
      compiled_tag hext hfo hdis H⟩
  · simp [bitmap_resources]
  · simp [sound_resources]
  · intro state suffix data hstate
    simp only [embedded_resources, List.foldl_cons, List.foldl_nil, push_resource,
      List.append_assoc, List.singleton_append, hstate]

/-- Witness for C16 (amended): the bitmap tag `a` with one bitmap data and the
sound tag `a` with one pitch range of two permutations, entered at a
`resource_data` of 16 bytes. In retail mode the bitmap data is pushed under
`a_0`; otherwise its `pixel_data_offset` 0 becomes 16, and the `file_offset`
2 of the second permutation becomes 18. -/
theorem split_and_embed_entries_witness :
    (∀ c ∈ "a".toList, c ≠ Char.ofNat 0)
    ∧ (bitmap_resources small_layout true "a" 16 small_bitmap_tag).2.map (fun r => r.path)
        = ["a_0"]
    ∧ read_u32_le ((bitmap_resources small_layout false "a" 16 small_bitmap_tag).1.getD 1
        {}).data 4 = 16
    ∧ read_u32_le ((sound_resources small_layout false "a" 16 small_sound_tag).1.getD 2
        {}).data 20 = 18 :=
  ⟨by decide,
    (congrArg (fun x => x.2.map (fun r => r.path))
      ((split_and_embed_entries small_layout "a" 16 small_bitmap_tag (by decide)).1
        (by decide))).trans (by decide),
    ((split_and_embed_entries small_layout "a" 16 small_bitmap_tag (by decide)).2.2.2.2.2.1
      (by decide) (by decide) (by decide) (by decide) (by decide) (by decide) 0
      (by decide)).1.trans (by decide),
    ((split_and_embed_entries small_layout "a" 16 small_sound_tag (by decide)).2.2.2.2.2.2
      (by decide) (by decide) (by decide)
      (by
        intro pr hpr _
        have hpr1 : pr < 1 := hpr
        have hzero : pr = 0 := by omega
        subst hzero
        refine ⟨by decide, by decide, by decide, ?_⟩
        intro other hother hne
        have hother1 : other < 1 := hother
        omega)
      0 (by decide) 1 (by decide)).2.trans (by decide)⟩

/-! ### The two `size_of_bitmap` functions -/

/-- C28: the `size_of_bitmap` of decompile.cpp, over a bits-per-pixel lookup
that gives for the format of the data what the switch of bitmap.cpp gives and
`0` where that switch throws, returns what the `size_of_bitmap` of bitmap.cpp
returns, for every bitmap data; the one throws exactly when the other does,
which is when the format has no bits per pixel. -/
theorem size_of_bitmap_decompile_agrees (bpp_of : BitmapDataFormat → Nat) (data : BitmapData)
    (hbpp : bpp_of data.format = (bits_per_pixel_of_format data.format).getD 0) :
    size_of_bitmap_decompile bpp_of data = size_of_bitmap data
      ∧ (size_of_bitmap_decompile bpp_of data = none ↔ size_of_bitmap data = none)
      ∧ (size_of_bitmap data = none ↔ bits_per_pixel_of_format data.format = none) := by
  have heq : size_of_bitmap_decompile bpp_of data = size_of_bitmap data := by
    unfold size_of_bitmap size_of_bitmap_decompile
    cases hf : bits_per_pixel_of_format data.format with
    | none => simp [hbpp, hf]
    | some bpp =>
      obtain ⟨_, hne, _⟩ := bits_per_pixel_of_format_some _ _ hf
      simp only [hbpp, hf, Option.getD_some, hne, if_false]
      rw [size_of_bitmap_loop_eq_decompile]
  refine ⟨heq, by rw [heq], ?_⟩
  unfold size_of_bitmap
  cases hf : bits_per_pixel_of_format data.format <;> simp

/-- Witness for C28: a compressed 10x6 DXT1 bitmap data with 3 mipmaps, with
the lookup `calculate_bits_per_pixel`. -/
theorem size_of_bitmap_decompile_agrees_witness :
    size_of_bitmap_decompile calculate_bits_per_pixel
        { width := 10, height := 6, depth := 1, type := .BITMAP_DATA_TYPE_2D_TEXTURE,
          format := .BITMAP_DATA_FORMAT_DXT1, flags := { compressed := true },
          mipmap_count := 3 }
      = size_of_bitmap
        { width := 10, height := 6, depth := 1, type := .BITMAP_DATA_TYPE_2D_TEXTURE,
          format := .BITMAP_DATA_FORMAT_DXT1, flags := { compressed := true },
          mipmap_count := 3 } :=
  (size_of_bitmap_decompile_agrees calculate_bits_per_pixel
    { width := 10, height := 6, depth := 1, type := .BITMAP_DATA_TYPE_2D_TEXTURE,
      format := .BITMAP_DATA_FORMAT_DXT1, flags := { compressed := true },
      mipmap_count := 3 } rfl).1

/-! ### The power-of-two flag -/

/-- C26 (failing input): `fix_power_of_two` tests the width twice and never the depth.
On a 4x4x3 3D texture whose flag is not set it sets the flag and returns
`true`, although 3 is no power of two; the check of `do_pre_compile` on the
data just fixed then reports the error that the flag is set on
non-power-of-two data. -/
theorem fix_power_of_two_ignores_depth :
    power_of_two 3 = false
      ∧ fix_power_of_two
          { width := 4, height := 4, depth := 3, type := .BITMAP_DATA_TYPE_3D_TEXTURE,
            format := .BITMAP_DATA_FORMAT_A8R8G8B8, flags := {}, mipmap_count := 0 } true
        = ({ width := 4, height := 4, depth := 3, type := .BITMAP_DATA_TYPE_3D_TEXTURE,
             format := .BITMAP_DATA_FORMAT_A8R8G8B8,
             flags := { power_of_two_dimensions := true }, mipmap_count := 0 }, true)
      ∧ (pre_compile_warnings .BITMAP_TYPE_3D_TEXTURES 0 {}
          (fix_power_of_two
            { width := 4, height := 4, depth := 3, type := .BITMAP_DATA_TYPE_3D_TEXTURE,
              format := .BITMAP_DATA_FORMAT_A8R8G8B8, flags := {}, mipmap_count := 0 }
            true).1).reports
        = [{ type := .ERROR_TYPE_WARNING_PEDANTIC, message := "Data is non-power-of-two",
             tag_index := 0 },
           { type := .ERROR_TYPE_ERROR,
             message := "Data is non-power-of-two but that flag is set", tag_index := 0 }] := by
  refine ⟨by decide, by decide, by decide⟩

/-- C27 (failing input): the two power-of-two flag errors of `do_pre_compile` are
reported inside the block `if(!workload.hide_pedantic_warnings)`. For a bitmap
tag with one 4x4x1 A8R8G8B8 bitmap data whose flag is not set, the workload
that shows pedantic warnings gets the error "Data is power-of-two but that
flag is not set", the workload that hides them gets no report at all; both
calls succeed with the same tag. -/
theorem do_pre_compile_error_hidden :
    (do_pre_compile
        { processed_pixel_data := List.replicate 64 0,
          bitmap_data :=
            [{ width := 4, height := 4, depth := 1, type := .BITMAP_DATA_TYPE_2D_TEXTURE,
               format := .BITMAP_DATA_FORMAT_A8R8G8B8, flags := {}, mipmap_count := 0 }] }
        { hide_pedantic_warnings := false } 0).1.reports
      = [{ type := .ERROR_TYPE_ERROR,
           message := "Data is power-of-two but that flag is not set", tag_index := 0 }]
    ∧ (do_pre_compile
        { processed_pixel_data := List.replicate 64 0,
          bitmap_data :=
            [{ width := 4, height := 4, depth := 1, type := .BITMAP_DATA_TYPE_2D_TEXTURE,
               format := .BITMAP_DATA_FORMAT_A8R8G8B8, flags := {}, mipmap_count := 0 }] }
        { hide_pedantic_warnings := true } 0).1.reports = []
    ∧ (do_pre_compile
        { processed_pixel_data := List.replicate 64 0,
          bitmap_data :=
            [{ width := 4, height := 4, depth := 1, type := .BITMAP_DATA_TYPE_2D_TEXTURE,
               format := .BITMAP_DATA_FORMAT_A8R8G8B8, flags := {}, mipmap_count := 0 }] }
        { hide_pedantic_warnings := false } 0).2
      = (do_pre_compile
        { processed_pixel_data := List.replicate 64 0,
          bitmap_data :=
            [{ width := 4, height := 4, depth := 1, type := .BITMAP_DATA_TYPE_2D_TEXTURE,
               format := .BITMAP_DATA_FORMAT_A8R8G8B8, flags := {}, mipmap_count := 0 }] }
        { hide_pedantic_warnings := true } 0).2
    ∧ ((do_pre_compile
        { processed_pixel_data := List.replicate 64 0,
          bitmap_data :=
            [{ width := 4, height := 4, depth := 1, type := .BITMAP_DATA_TYPE_2D_TEXTURE,
               format := .BITMAP_DATA_FORMAT_A8R8G8B8, flags := {}, mipmap_count := 0 }] }
        { hide_pedantic_warnings := true } 0).2.toOption.map (fun b => b.bitmap_data))
      = some [{ width := 4, height := 4, depth := 1, type := .BITMAP_DATA_TYPE_2D_TEXTURE,
                format := .BITMAP_DATA_FORMAT_A8R8G8B8, flags := {}, mipmap_count := 0,
                pixel_data_size := 64 }] := by
  refine ⟨by decide, by decide, by decide, by decide⟩

/-! ### The buffer of the Xbox conversion -/

/-- C25 (failing input): `xbox_to_pc_buffer` is sized from the declared dimensions,
`copy_texture` copies the dimensions rounded up to 4. For a compressed 6x4x1
DXT1 2D texture without mipmaps and 128 bytes of pixel data the buffer has 12
bytes and the one `std::memcpy` writes 16 bytes at its start; for a compressed
2x2x1 DXT1 2D texture with one mipmap the buffer has 10 bytes and the two
calls write 8 bytes at 0 and 8 bytes at 8. -/
theorem copy_texture_exceeds_buffer :
    size_of_bitmap_decompile calculate_bits_per_pixel
        { width := 6, height := 4, depth := 1, type := .BITMAP_DATA_TYPE_2D_TEXTURE,
          format := .BITMAP_DATA_FORMAT_DXT1, flags := { compressed := true },
          mipmap_count := 0, pixel_data_size := 128 } = some 12
    ∧ copy_texture
        { width := 6, height := 4, depth := 1, type := .BITMAP_DATA_TYPE_2D_TEXTURE,
          format := .BITMAP_DATA_FORMAT_DXT1, flags := { compressed := true },
          mipmap_count := 0, pixel_data_size := 128 } false true 128 none none
      = .ok ([{ output := 0, input := 0, size := 16 }], 16)
    ∧ size_of_bitmap_decompile calculate_bits_per_pixel
        { width := 2, height := 2, depth := 1, type := .BITMAP_DATA_TYPE_2D_TEXTURE,
          format := .BITMAP_DATA_FORMAT_DXT1, flags := { compressed := true },
          mipmap_count := 1, pixel_data_size := 128 } = some 10
    ∧ copy_texture
        { width := 2, height := 2, depth := 1, type := .BITMAP_DATA_TYPE_2D_TEXTURE,
          format := .BITMAP_DATA_FORMAT_DXT1, flags := { compressed := true },
          mipmap_count := 1, pixel_data_size := 128 } false true 128 none none
      = .ok ([{ output := 0, input := 0, size := 8 }, { output := 8, input := 0, size := 8 }],
          8) := by
  refine ⟨by decide, by decide, by decide, by decide⟩

/-! ### Indices of `Scenario::pre_compile` -/

/-- C23 (failing input): the guard of the pass over the participants is `new_name >
name_count`, so a participant whose `set_new_name` equals the number of object
names is not skipped. For a scenario without object names and one participant
with `set_new_name = 0` the pass reads `name_used[0]` of the empty vector; with
two object names and `set_new_name = 2` it reads `name_used[2]` of a vector of
two elements, while `set_new_name = 1` and `set_new_name = 3` are handled. -/
theorem check_set_new_name_outside_vector :
    check_set_new_name
        { ai_conversations := [{ participants := [{ set_new_name := 0 }] }] } [] = none
    ∧ check_set_new_name
        { object_names := [{ name := "a" }, { name := "b" }],
          ai_conversations := [{ participants := [{ set_new_name := 2 }] }] } [[], []] = none
    ∧ check_set_new_name
        { object_names := [{ name := "a" }, { name := "b" }],
          ai_conversations := [{ participants := [{ set_new_name := 1 }] }] } [[], []]
      = some [[], [("", 0)]]
    ∧ check_set_new_name
        { object_names := [{ name := "a" }, { name := "b" }],
          ai_conversations := [{ participants := [{ set_new_name := 3 }] }] } [[], []]
      = some [[], []] := by
  refine ⟨by decide, by decide, by decide, by decide⟩

/-- C24 (failing input): the validation of the script syntax data compares its size
with `maximum_count` nodes, the rewrite loop runs over `size` nodes, and
nothing compares the two fields. With a header of 6 bytes and nodes of 2
bytes, syntax data of 6 bytes with `maximum_count = 0` and `size = 1` passes
the validation, and the first pass of the loop reads `nodes[0]`, which lies
behind the end of the data, whatever the loop body does. -/
theorem rewrite_script_nodes_outside_data :
    pre_compile_script_syntax_data small_table_layout {} 0 [0, 0, 0, 2, 0, 1]
      = ({}, .ok [0, 0, 2, 0, 1, 0])
    ∧ read_u16_le [0, 0, 2, 0, 1, 0] small_table_layout.maximum_count_offset = 0
    ∧ read_u16_le [0, 0, 2, 0, 1, 0] small_table_layout.size_offset = 1
    ∧ ∀ (σ : Type) (body : Nat → List Nat → σ → List Nat × σ × Bool) (state : σ),
        rewrite_script_nodes small_table_layout body [0, 0, 2, 0, 1, 0] state = none := by
  refine ⟨by decide, by decide, by decide, ?_⟩
  intro σ body state
  rfl

/-! ### What the merge leaves in place -/

theorem merge_array_keeps_base {α : Type} (condition : α → α → Bool) (base child : List α) :
    base <+: merge_array condition base child := by
  induction child generalizing base with
  | nil => exact List.prefix_refl _
  | cons m rest ih =>
    simp only [merge_array]
    split_ifs
    · exact List.IsPrefix.trans (List.prefix_append _ _) (ih _)
    · exact ih _

theorem merge_ai_conversations_keeps_base (t : Nat → Except ScenarioException Nat)
    (base child result : List ScenarioAIConversation)
    (h : merge_ai_conversations t base child = .ok result) : base <+: result := by
  simp only [merge_ai_conversations, except_bind_eq_ok, except_pure_eq_ok] at h
  obtain ⟨added, _, rfl⟩ := h
  exact List.prefix_append _ _

theorem merge_objects_keeps_base (t1 t2 : Nat → Except ScenarioException Nat)
    (base child result : List ScenarioObject)
    (h : merge_objects t1 t2 base child = .ok result) : base <+: result := by
  simp only [merge_objects, except_bind_eq_ok, except_pure_eq_ok] at h
  obtain ⟨added, _, rfl⟩ := h
  exact List.prefix_append _ _

theorem merge_devices_keeps_base (t1 t2 t3 : Nat → Except ScenarioException Nat)
    (base child result : List ScenarioDevice)
    (h : merge_devices t1 t2 t3 base child = .ok result) : base <+: result := by
  simp only [merge_devices, except_bind_eq_ok, except_pure_eq_ok] at h
  obtain ⟨added, _, rfl⟩ := h
  exact List.prefix_append _ _

theorem merge_decals_keeps_base (t : Nat → Except ScenarioException Nat)
    (base child result : List ScenarioDecal)
    (h : merge_decals t base child = .ok result) : base <+: result := by
  simp only [merge_decals, except_bind_eq_ok, except_pure_eq_ok] at h
  obtain ⟨added, _, rfl⟩ := h
  exact List.prefix_append _ _

theorem same_element_at_index {α : Type} (l₁ l₂ : List α) (i : Nat) (x : α) (h : l₁ <+: l₂)
    (hx : l₁[i]? = some x) : l₂[i]? = some x := by
  obtain ⟨t, rfl⟩ := h
  have hi : i < l₁.length := by
    by_contra hge
    rw [List.getElem?_eq_none (by omega)] at hx
    cases hx
  rw [List.getElem?_append_left hi]
  exact hx

/-- C29: after a successful `merge_child_scenario base child`, the array of
the base is a prefix of the merged array for every one of the 44 arrays the
function names, so an index valid in the base denotes the same element in the
merged scenario; every other member of the scenario is unchanged. -/
theorem merge_child_scenario_keeps_base (base child merged : Scenario)
    (h : merge_child_scenario base child = .ok merged) :
    (base.child_scenarios <+: merged.child_scenarios
      ∧ base.functions <+: merged.functions
      ∧ base.comments <+: merged.comments
      ∧ base.object_names <+: merged.object_names
      ∧ base.device_groups <+: merged.device_groups
      ∧ base.player_starting_profile <+: merged.player_starting_profile
      ∧ base.player_starting_locations <+: merged.player_starting_locations
      ∧ base.trigger_volumes <+: merged.trigger_volumes
      ∧ base.recorded_animations <+: merged.recorded_animations
      ∧ base.netgame_flags <+: merged.netgame_flags
      ∧ base.netgame_equipment <+: merged.netgame_equipment
      ∧ base.starting_equipment <+: merged.starting_equipment
      ∧ base.actor_palette <+: merged.actor_palette
      ∧ base.ai_animation_references <+: merged.ai_animation_references
      ∧ base.ai_script_references <+: merged.ai_script_references
      ∧ base.ai_recording_references <+: merged.ai_recording_references
      ∧ base.references <+: merged.references
      ∧ base.cutscene_flags <+: merged.cutscene_flags
      ∧ base.cutscene_camera_points <+: merged.cutscene_camera_points
      ∧ base.cutscene_titles <+: merged.cutscene_titles
      ∧ base.source_files <+: merged.source_files
      ∧ base.decal_palette <+: merged.decal_palette
      ∧ base.scenery_palette <+: merged.scenery_palette
      ∧ base.biped_palette <+: merged.biped_palette
      ∧ base.vehicle_palette <+: merged.vehicle_palette
      ∧ base.equipment_palette <+: merged.equipment_palette
      ∧ base.weapon_palette <+: merged.weapon_palette
      ∧ base.machine_palette <+: merged.machine_palette
      ∧ base.control_palette <+: merged.control_palette
      ∧ base.light_fixture_palette <+: merged.light_fixture_palette
      ∧ base.sound_scenery_palette <+: merged.sound_scenery_palette
      ∧ base.scenery <+: merged.scenery
      ∧ base.bipeds <+: merged.bipeds
      ∧ base.vehicles <+: merged.vehicles
      ∧ base.equipment <+: merged.equipment
      ∧ base.weapons <+: merged.weapons
      ∧ base.machines <+: merged.machines
      ∧ base.controls <+: merged.controls
      ∧ base.light_fixtures <+: merged.light_fixtures
      ∧ base.sound_scenery <+: merged.sound_scenery
      ∧ base.decals <+: merged.decals
      ∧ base.ai_conversations <+: merged.ai_conversations
      ∧ base.command_lists <+: merged.command_lists
      ∧ base.encounters <+: merged.encounters)
    ∧ merged.unmerged = base.unmerged
    ∧ (∀ (α : Type) (l₁ l₂ : List α) (i : Nat) (x : α),
        l₁ <+: l₂ → l₁[i]? = some x → l₂[i]? = some x) := by
  simp only [merge_child_scenario, except_bind_eq_ok, except_pure_eq_ok] at h
  obtain ⟨r_ai_conversations, h_ai_conversations, r_scenery, h_scenery, r_bipeds, h_bipeds, r_vehicles, h_vehicles, r_equipment, h_equipment, r_weapons, h_weapons, r_machines, h_machines, r_controls, h_controls, r_light_fixtures, h_light_fixtures, r_sound_scenery, h_sound_scenery, r_decals, h_decals, r_command_lists, h_command_lists, r_encounters, h_encounters, rfl⟩ := h
  simp only [merge_arrays] at h_ai_conversations h_scenery h_bipeds h_vehicles h_equipment h_weapons h_machines h_controls h_light_fixtures h_sound_scenery h_decals h_command_lists h_encounters
  refine ⟨⟨?_, ?_, ?_, ?_, ?_, ?_, ?_, ?_, ?_, ?_, ?_, ?_, ?_, ?_, ?_, ?_, ?_, ?_, ?_, ?_, ?_, ?_, ?_, ?_, ?_, ?_, ?_, ?_, ?_, ?_, ?_, ?_, ?_, ?_, ?_, ?_, ?_, ?_, ?_, ?_, ?_, ?_, ?_, ?_⟩, rfl,
    fun α l₁ l₂ i x hp hx => same_element_at_index l₁ l₂ i x hp hx⟩
  · exact merge_array_keeps_base _ _ _
  · exact merge_array_keeps_base _ _ _
  · exact merge_array_keeps_base _ _ _
  · exact merge_array_keeps_base _ _ _
  · exact merge_array_keeps_base _ _ _
  · exact merge_array_keeps_base _ _ _
  · exact merge_array_keeps_base _ _ _
  · exact merge_array_keeps_base _ _ _
  · exact merge_array_keeps_base _ _ _
  · exact merge_array_keeps_base _ _ _
  · exact merge_array_keeps_base _ _ _
  · exact merge_array_keeps_base _ _ _
  · exact merge_array_keeps_base _ _ _
  · exact merge_array_keeps_base _ _ _
  · exact merge_array_keeps_base _ _ _
  · exact merge_array_keeps_base _ _ _
  · exact merge_array_keeps_base _ _ _
  · exact merge_array_keeps_base _ _ _
  · exact merge_array_keeps_base _ _ _
  · exact merge_array_keeps_base _ _ _
  · exact merge_array_keeps_base _ _ _
  · exact merge_array_keeps_base _ _ _
  · exact merge_array_keeps_base _ _ _
  · exact merge_array_keeps_base _ _ _
  · exact merge_array_keeps_base _ _ _
  · exact merge_array_keeps_base _ _ _
  · exact merge_array_keeps_base _ _ _
  · exact merge_array_keeps_base _ _ _
  · exact merge_array_keeps_base _ _ _
  · exact merge_array_keeps_base _ _ _
  · exact merge_array_keeps_base _ _ _
  · exact merge_objects_keeps_base _ _ _ _ _ h_scenery
  · exact merge_objects_keeps_base _ _ _ _ _ h_bipeds
  · exact merge_objects_keeps_base _ _ _ _ _ h_vehicles
  · exact merge_objects_keeps_base _ _ _ _ _ h_equipment
  · exact merge_objects_keeps_base _ _ _ _ _ h_weapons
  · exact merge_devices_keeps_base _ _ _ _ _ _ h_machines
  · exact merge_devices_keeps_base _ _ _ _ _ _ h_controls
  · exact merge_devices_keeps_base _ _ _ _ _ _ h_light_fixtures
  · exact merge_objects_keeps_base _ _ _ _ _ h_sound_scenery
  · exact merge_decals_keeps_base _ _ _ _ h_decals
  · exact merge_ai_conversations_keeps_base _ _ _ _ h_ai_conversations
  · exact (merge_command_lists_names _ _ _ _ _ _ _ h_command_lists).2
  · exact (merge_encounters_names _ _ _ _ _ _ h_encounters).2

/-- Witness for C29: the base holds the object names `a` and `b`, one scenery
palette entry and one scenery object; the child holds the object names `b`
and `c` and a scenery object named `c`. -/
theorem merge_child_scenario_keeps_base_witness :
    ∃ merged,
      merge_child_scenario
          { object_names := [{ name := "a" }, { name := "b" }],
            scenery_palette := [{ name := { path := "tree" } }],
            scenery := [{ type := 0, name := 1 }], unmerged := [7] }
          { object_names := [{ name := "b" }, { name := "c" }],
            scenery_palette := [{ name := { path := "tree" } }],
            scenery := [{ type := 0, name := 1 }] } = .ok merged
      ∧ [{ name := "a" }, { name := "b" }] <+: merged.object_names
      ∧ merged.scenery = [{ type := 0, name := 1 }, { type := 0, name := 2 }]
      ∧ merged.unmerged = [7] :=
  ⟨_, rfl,
    (merge_child_scenario_keeps_base
      { object_names := [{ name := "a" }, { name := "b" }],
        scenery_palette := [{ name := { path := "tree" } }],
        scenery := [{ type := 0, name := 1 }], unmerged := [7] }
      { object_names := [{ name := "b" }, { name := "c" }],
        scenery_palette := [{ name := { path := "tree" } }],
        scenery := [{ type := 0, name := 1 }] } _ rfl).1.2.2.2.1,
    rfl,
    (merge_child_scenario_keeps_base
      { object_names := [{ name := "a" }, { name := "b" }],
        scenery_palette := [{ name := { path := "tree" } }],
        scenery := [{ type := 0, name := 1 }], unmerged := [7] }
      { object_names := [{ name := "b" }, { name := "c" }],
        scenery_palette := [{ name := { path := "tree" } }],
        scenery := [{ type := 0, name := 1 }] } _ rfl).2.1⟩

/-! ### Merging the same child again -/

theorem append_new_by_identity_covers {α κ : Type} [DecidableEq κ] (key : α → κ)
    (base child : List α) :
    ∀ m ∈ child, ∃ b ∈ append_new_by_identity key base child, key b = key m := by
  induction child generalizing base with
  | nil => intro m hm; cases hm
  | cons c rest ih =>
    intro m hm
    simp only [append_new_by_identity]
    rw [List.mem_cons] at hm
    split_ifs with hex
    · rcases hm with rfl | hm
      · obtain ⟨b, hb, hkey⟩ := hex
        obtain ⟨added, h1, _⟩ := append_new_by_identity_sublist key base rest
        exact ⟨b, by rw [h1]; exact List.mem_append_left _ hb, hkey⟩
      · exact ih base m hm
    · rcases hm with rfl | hm
      · obtain ⟨added, h1, _⟩ := append_new_by_identity_sublist key (base ++ [m]) rest
        exact ⟨m, by rw [h1]; simp, rfl⟩
      · exact ih _ m hm

theorem append_new_by_identity_covered {α κ : Type} [DecidableEq κ] (key : α → κ)
    (base child : List α) (hcov : ∀ m ∈ child, ∃ b ∈ base, key b = key m) :
    append_new_by_identity key base child = base := by
  induction child with
  | nil => rfl
  | cons c rest ih =>
    simp only [append_new_by_identity]
    rw [if_pos (hcov c (List.mem_cons_self _ _))]
    exact ih (fun m hm => hcov m (List.mem_cons_of_mem _ hm))

theorem merge_array_idempotent {α κ : Type} [DecidableEq κ] (key : α → κ)
    (condition : α → α → Bool) (hcond : ∀ m b, condition m b = true ↔ key m ≠ key b)
    (base child : List α) :
    merge_array condition (merge_array condition base child) child
      = merge_array condition base child := by
  rw [merge_array_eq_append_new key condition hcond, merge_array_eq_append_new key condition hcond]
  exact append_new_by_identity_covered key _ _ (append_new_by_identity_covers key base child)

theorem merge_command_lists_covered (t1 t2 t3 t4 : Nat → Except ScenarioException Nat)
    (base child : List ScenarioCommandList)
    (hcov : ∀ m ∈ child, ∃ b ∈ base, b.name = m.name) :
    merge_command_lists t1 t2 t3 t4 base child = .ok base := by
  induction child with
  | nil => rfl
  | cons c rest ih =>
    have hany : base.any (fun e => decide (e.name = c.name)) = true := by
      rw [List.any_eq_true]
      obtain ⟨b, hb, hname⟩ := hcov c (List.mem_cons_self _ _)
      exact ⟨b, hb, by simpa using hname⟩
    simp only [merge_command_lists, hany, if_true]
    exact ih (fun m hm => hcov m (List.mem_cons_of_mem _ hm))

theorem merge_encounters_covered (t1 t2 t3 : Nat → Except ScenarioException Nat)
    (base child : List ScenarioEncounter)
    (hcov : ∀ m ∈ child, ∃ b ∈ base, b.name = m.name) :
    merge_encounters t1 t2 t3 base child = .ok base := by
  induction child with
  | nil => rfl
  | cons c rest ih =>
    have hany : base.any (fun e => decide (e.name = c.name)) = true := by
      rw [List.any_eq_true]
      obtain ⟨b, hb, hname⟩ := hcov c (List.mem_cons_self _ _)
      exact ⟨b, hb, by simpa using hname⟩
    simp only [merge_encounters, hany, if_true]
    exact ih (fun m hm => hcov m (List.mem_cons_of_mem _ hm))

theorem names_covered {α : Type} (name : α → String) (base child result : List α)
    (h : result.map name = append_new_by_identity id (base.map name) (child.map name)) :
    ∀ m ∈ child, ∃ b ∈ result, name b = name m := by
  intro m hm
  obtain ⟨n, hn, hkey⟩ := append_new_by_identity_covers id (base.map name) (child.map name)
    (name m) (List.mem_map_of_mem _ hm)
  rw [← h, List.mem_map] at hn
  obtain ⟨b, hb, rfl⟩ := hn
  exact ⟨b, hb, hkey⟩

theorem merge_command_lists_again (t1 t2 t3 t4 s1 s2 s3 s4 : Nat → Except ScenarioException Nat)
    (base child result : List ScenarioCommandList)
    (h : merge_command_lists t1 t2 t3 t4 base child = .ok result) :
    merge_command_lists s1 s2 s3 s4 result child = .ok result :=
  merge_command_lists_covered s1 s2 s3 s4 result child
    (names_covered (fun x => x.name) base child result
      (merge_command_lists_names t1 t2 t3 t4 base child result h).1)

theorem merge_encounters_again (t1 t2 t3 s1 s2 s3 : Nat → Except ScenarioException Nat)
    (base child result : List ScenarioEncounter)
    (h : merge_encounters t1 t2 t3 base child = .ok result) :
    merge_encounters s1 s2 s3 result child = .ok result :=
  merge_encounters_covered s1 s2 s3 result child
    (names_covered (fun x => x.name) base child result
      (merge_encounters_names t1 t2 t3 base child result h).1)

theorem merge_ai_conversations_again (t : Nat → Except ScenarioException Nat)
    (base base2 child result : List ScenarioAIConversation)
    (h : merge_ai_conversations t base child = .ok result) :
    ∃ result2, merge_ai_conversations t base2 child = .ok result2 := by
  simp only [merge_ai_conversations, except_bind_eq_ok, except_pure_eq_ok] at h ⊢
  obtain ⟨added, h1, _⟩ := h
  exact ⟨_, added, h1, rfl⟩

theorem merge_objects_again (t1 t2 : Nat → Except ScenarioException Nat)
    (base base2 child result : List ScenarioObject)
    (h : merge_objects t1 t2 base child = .ok result) :
    ∃ result2, merge_objects t1 t2 base2 child = .ok result2 := by
  simp only [merge_objects, except_bind_eq_ok, except_pure_eq_ok] at h ⊢
  obtain ⟨added, h1, _⟩ := h
  exact ⟨_, added, h1, rfl⟩

theorem merge_devices_again (t1 t2 t3 : Nat → Except ScenarioException Nat)
    (base base2 child result : List ScenarioDevice)
    (h : merge_devices t1 t2 t3 base child = .ok result) :
    ∃ result2, merge_devices t1 t2 t3 base2 child = .ok result2 := by
  simp only [merge_devices, except_bind_eq_ok, except_pure_eq_ok] at h ⊢
  obtain ⟨added, h1, _⟩ := h
  exact ⟨_, added, h1, rfl⟩

theorem merge_decals_again (t : Nat → Except ScenarioException Nat)
    (base base2 child result : List ScenarioDecal)
    (h : merge_decals t base child = .ok result) :
    ∃ result2, merge_decals t base2 child = .ok result2 := by
  simp only [merge_decals, except_bind_eq_ok, except_pure_eq_ok] at h ⊢
  obtain ⟨added, h1, _⟩ := h
  exact ⟨_, added, h1, rfl⟩

theorem merge_child_scenario_empty (base : Scenario) (unmerged : List Nat) :
    merge_child_scenario base { unmerged := unmerged } = .ok base := by
  simp [merge_child_scenario, merge_arrays, merge_array, merge_ai_conversations, merge_objects,
    merge_devices, merge_decals, merge_command_lists, merge_encounters, for_each, bind,
    Except.bind, pure, Except.pure]

/-- C30: when `merge_child_scenario base child` succeeds with `merged`, merging
the same child into `merged` succeeds too, and every keyed array (object
names, device groups, trigger volumes, recorded animations, the palettes, the
reference tables, the cutscene tables, source files, command lists and
encounters) of the result equals that of `merged`; merging a child whose
arrays are all empty gives the base back. -/
theorem merge_child_scenario_twice (base child merged : Scenario)
    (h : merge_child_scenario base child = .ok merged) :
    (∃ merged2, merge_child_scenario merged child = .ok merged2
        ∧ merged2.object_names = merged.object_names
        ∧ merged2.device_groups = merged.device_groups
        ∧ merged2.trigger_volumes = merged.trigger_volumes
        ∧ merged2.recorded_animations = merged.recorded_animations
        ∧ merged2.actor_palette = merged.actor_palette
        ∧ merged2.ai_animation_references = merged.ai_animation_references
        ∧ merged2.ai_script_references = merged.ai_script_references
        ∧ merged2.ai_recording_references = merged.ai_recording_references
        ∧ merged2.references = merged.references
        ∧ merged2.cutscene_flags = merged.cutscene_flags
        ∧ merged2.cutscene_camera_points = merged.cutscene_camera_points
        ∧ merged2.cutscene_titles = merged.cutscene_titles
        ∧ merged2.source_files = merged.source_files
        ∧ merged2.decal_palette = merged.decal_palette
        ∧ merged2.scenery_palette = merged.scenery_palette
        ∧ merged2.biped_palette = merged.biped_palette
        ∧ merged2.vehicle_palette = merged.vehicle_palette
        ∧ merged2.equipment_palette = merged.equipment_palette
        ∧ merged2.weapon_palette = merged.weapon_palette
        ∧ merged2.machine_palette = merged.machine_palette
        ∧ merged2.control_palette = merged.control_palette
        ∧ merged2.light_fixture_palette = merged.light_fixture_palette
        ∧ merged2.sound_scenery_palette = merged.sound_scenery_palette
        ∧ merged2.command_lists = merged.command_lists
        ∧ merged2.encounters = merged.encounters)
    ∧ (∀ unmerged, merge_child_scenario base { unmerged := unmerged } = .ok base) := by
  refine ⟨?_, fun unmerged => merge_child_scenario_empty base unmerged⟩
  simp only [merge_child_scenario, except_bind_eq_ok, except_pure_eq_ok] at h
  obtain ⟨r_ai_conversations, h_ai_conversations, r_scenery, h_scenery, r_bipeds, h_bipeds, r_vehicles, h_vehicles, r_equipment, h_equipment, r_weapons, h_weapons, r_machines, h_machines, r_controls, h_controls, r_light_fixtures, h_light_fixtures, r_sound_scenery, h_sound_scenery, r_decals, h_decals, r_command_lists, h_command_lists, r_encounters, h_encounters, rfl⟩ := h
  simp only [merge_arrays] at h_ai_conversations h_scenery h_bipeds h_vehicles h_equipment h_weapons h_machines h_controls h_light_fixtures h_sound_scenery h_decals h_command_lists h_encounters
  have e_object_names := merge_array_idempotent (fun (x : ScenarioObjectName) => x.name) _
    (fun _ _ => bne_iff_ne) base.object_names child.object_names
  have e_device_groups := merge_array_idempotent (fun (x : ScenarioNamedBlock) => x.name) _
    (fun _ _ => bne_iff_ne) base.device_groups child.device_groups
  have e_trigger_volumes := merge_array_idempotent (fun (x : ScenarioNamedBlock) => x.name) _
    (fun _ _ => bne_iff_ne) base.trigger_volumes child.trigger_volumes
  have e_recorded_animations := merge_array_idempotent (fun (x : ScenarioNamedBlock) => x.name) _
    (fun _ _ => bne_iff_ne) base.recorded_animations child.recorded_animations
  have e_actor_palette := merge_array_idempotent (fun (x : ScenarioReferenceBlock) => (x.reference.path, x.reference.tag_class_int)) _
    (fun _ _ => bne_or_bne_iff _ _ _ _) base.actor_palette child.actor_palette
  have e_ai_animation_references := merge_array_idempotent (fun (x : ScenarioAIAnimationReference) => x.animation_name) _
    (fun _ _ => bne_iff_ne) base.ai_animation_references child.ai_animation_references
  have e_ai_script_references := merge_array_idempotent (fun (x : ScenarioAIScriptReference) => x.script_name) _
    (fun _ _ => bne_iff_ne) base.ai_script_references child.ai_script_references
  have e_ai_recording_references := merge_array_idempotent (fun (x : ScenarioAIRecordingReference) => x.recording_name) _
    (fun _ _ => bne_iff_ne) base.ai_recording_references child.ai_recording_references
  have e_references := merge_array_idempotent (fun (x : ScenarioReferenceBlock) => (x.reference.path, x.reference.tag_class_int)) _
    (fun _ _ => bne_or_bne_iff _ _ _ _) base.references child.references
  have e_cutscene_flags := merge_array_idempotent (fun (x : ScenarioNamedBlock) => x.name) _
    (fun _ _ => bne_iff_ne) base.cutscene_flags child.cutscene_flags
  have e_cutscene_camera_points := merge_array_idempotent (fun (x : ScenarioNamedBlock) => x.name) _
    (fun _ _ => bne_iff_ne) base.cutscene_camera_points child.cutscene_camera_points
  have e_cutscene_titles := merge_array_idempotent (fun (x : ScenarioNamedBlock) => x.name) _
    (fun _ _ => bne_iff_ne) base.cutscene_titles child.cutscene_titles
  have e_source_files := merge_array_idempotent (fun (x : ScenarioNamedBlock) => x.name) _
    (fun _ _ => bne_iff_ne) base.source_files child.source_files
  have e_decal_palette := merge_array_idempotent (fun (x : ScenarioReferenceBlock) => (x.reference.path, x.reference.tag_class_int)) _
    (fun _ _ => bne_or_bne_iff _ _ _ _) base.decal_palette child.decal_palette
  have e_scenery_palette := merge_array_idempotent (fun (x : ScenarioObjectPalette) => (x.name.path, x.name.tag_class_int)) _
    (fun _ _ => bne_or_bne_iff _ _ _ _) base.scenery_palette child.scenery_palette
  have e_biped_palette := merge_array_idempotent (fun (x : ScenarioObjectPalette) => (x.name.path, x.name.tag_class_int)) _
    (fun _ _ => bne_or_bne_iff _ _ _ _) base.biped_palette child.biped_palette
  have e_vehicle_palette := merge_array_idempotent (fun (x : ScenarioObjectPalette) => (x.name.path, x.name.tag_class_int)) _
    (fun _ _ => bne_or_bne_iff _ _ _ _) base.vehicle_palette child.vehicle_palette
  have e_equipment_palette := merge_array_idempotent (fun (x : ScenarioObjectPalette) => (x.name.path, x.name.tag_class_int)) _
    (fun _ _ => bne_or_bne_iff _ _ _ _) base.equipment_palette child.equipment_palette
  have e_weapon_palette := merge_array_idempotent (fun (x : ScenarioObjectPalette) => (x.name.path, x.name.tag_class_int)) _
    (fun _ _ => bne_or_bne_iff _ _ _ _) base.weapon_palette child.weapon_palette
  have e_machine_palette := merge_array_idempotent (fun (x : ScenarioObjectPalette) => (x.name.path, x.name.tag_class_int)) _
    (fun _ _ => bne_or_bne_iff _ _ _ _) base.machine_palette child.machine_palette
  have e_control_palette := merge_array_idempotent (fun (x : ScenarioObjectPalette) => (x.name.path, x.name.tag_class_int)) _
    (fun _ _ => bne_or_bne_iff _ _ _ _) base.control_palette child.control_palette
  have e_light_fixture_palette := merge_array_idempotent (fun (x : ScenarioObjectPalette) => (x.name.path, x.name.tag_class_int)) _
    (fun _ _ => bne_or_bne_iff _ _ _ _) base.light_fixture_palette child.light_fixture_palette
  have e_sound_scenery_palette := merge_array_idempotent (fun (x : ScenarioObjectPalette) => (x.name.path, x.name.tag_class_int)) _
    (fun _ _ => bne_or_bne_iff _ _ _ _) base.sound_scenery_palette child.sound_scenery_palette
  obtain ⟨q_ai_conversations, g_ai_conversations⟩ := merge_ai_conversations_again _ _ r_ai_conversations _ _ h_ai_conversations
  obtain ⟨q_scenery, g_scenery⟩ := merge_objects_again _ _ _ r_scenery _ _ h_scenery
  obtain ⟨q_bipeds, g_bipeds⟩ := merge_objects_again _ _ _ r_bipeds _ _ h_bipeds
  obtain ⟨q_vehicles, g_vehicles⟩ := merge_objects_again _ _ _ r_vehicles _ _ h_vehicles
  obtain ⟨q_equipment, g_equipment⟩ := merge_objects_again _ _ _ r_equipment _ _ h_equipment
  obtain ⟨q_weapons, g_weapons⟩ := merge_objects_again _ _ _ r_weapons _ _ h_weapons
  obtain ⟨q_machines, g_machines⟩ := merge_devices_again _ _ _ _ r_machines _ _ h_machines
  obtain ⟨q_controls, g_controls⟩ := merge_devices_again _ _ _ _ r_controls _ _ h_controls
  obtain ⟨q_light_fixtures, g_light_fixtures⟩ := merge_devices_again _ _ _ _ r_light_fixtures _ _ h_light_fixtures
  obtain ⟨q_sound_scenery, g_sound_scenery⟩ := merge_objects_again _ _ _ r_sound_scenery _ _ h_sound_scenery
  obtain ⟨q_decals, g_decals⟩ := merge_decals_again _ _ r_decals _ _ h_decals
  have g_command_lists := fun s1 s2 s3 s4 =>
    merge_command_lists_again _ _ _ _ s1 s2 s3 s4 _ _ _ h_command_lists
  have g_encounters := fun s1 s2 s3 =>
    merge_encounters_again _ _ _ s1 s2 s3 _ _ _ h_encounters
  simp only [merge_child_scenario, merge_arrays, except_bind_eq_ok, except_pure_eq_ok,
    e_object_names, e_device_groups, e_trigger_volumes, e_recorded_animations, e_actor_palette, e_ai_animation_references, e_ai_script_references, e_ai_recording_references, e_references, e_cutscene_flags, e_cutscene_camera_points, e_cutscene_titles, e_source_files, e_decal_palette, e_scenery_palette, e_biped_palette, e_vehicle_palette, e_equipment_palette, e_weapon_palette, e_machine_palette, e_control_palette, e_light_fixture_palette, e_sound_scenery_palette]
  exact ⟨_, ⟨q_ai_conversations, g_ai_conversations, q_scenery, g_scenery, q_bipeds, g_bipeds, q_vehicles, g_vehicles, q_equipment, g_equipment, q_weapons, g_weapons, q_machines, g_machines, q_controls, g_controls, q_light_fixtures, g_light_fixtures, q_sound_scenery, g_sound_scenery, q_decals, g_decals, r_command_lists, g_command_lists _ _ _ _, r_encounters, g_encounters _ _ _, rfl⟩,
    rfl, rfl, rfl, rfl, rfl, rfl, rfl, rfl, rfl, rfl, rfl, rfl, rfl, rfl, rfl, rfl, rfl, rfl, rfl, rfl, rfl, rfl, rfl, rfl, rfl⟩

/-- Witness for C30: the base holds the object names `a` and `b` and one
scenery object, the child the object names `b` and `c` and one scenery object
named `c`; the first merge gives the names `a`, `b`, `c` and two scenery
objects, and the second merge keeps these three names. -/
theorem merge_child_scenario_twice_witness :
    ∃ merged2,
      merge_child_scenario
          { object_names := [{ name := "a" }, { name := "b" }, { name := "c" }],
            scenery_palette := [{ name := { path := "tree" } }],
            scenery := [{ type := 0, name := 1 }, { type := 0, name := 2 }] }
          { object_names := [{ name := "b" }, { name := "c" }],
            scenery_palette := [{ name := { path := "tree" } }],
            scenery := [{ type := 0, name := 1 }] } = .ok merged2
      ∧ merged2.object_names = [{ name := "a" }, { name := "b" }, { name := "c" }] := by
  obtain ⟨merged2, h2, hnames, _⟩ :=
    (merge_child_scenario_twice
      { object_names := [{ name := "a" }, { name := "b" }],
        scenery_palette := [{ name := { path := "tree" } }],
        scenery := [{ type := 0, name := 1 }] }
      { object_names := [{ name := "b" }, { name := "c" }],
        scenery_palette := [{ name := { path := "tree" } }],
        scenery := [{ type := 0, name := 1 }] }
      { object_names := [{ name := "a" }, { name := "b" }, { name := "c" }],
        scenery_palette := [{ name := { path := "tree" } }],
        scenery := [{ type := 0, name := 1 }, { type := 0, name := 2 }] }
      (by decide)).1
  exact ⟨merged2, h2, hnames⟩

/-! ### The copies of `copy_texture` -/

theorem mipmap_size_lt (w h d bpp : Nat) : mipmap_size w h d bpp < size_t_modulus := by
  unfold mipmap_size
  have h1 : w * h * d * bpp % size_t_modulus < size_t_modulus :=
    Nat.mod_lt _ (by unfold size_t_modulus; norm_num)
  have h2 := Nat.div_le_self (w * h * d * bpp % size_t_modulus) 8
  omega

theorem copy_texture_loop_none (swizzled : Bool) (bpp size base md n : Nat)
    (st : CopyTextureLoop)
    (hsize : st.input + ∑ i in Finset.range n,
        mipmap_size (mip_dimension md st.mipmap_width i) (mip_dimension md st.mipmap_height i)
          (mip_dimension 1 st.mipmap_depth i) bpp ≤ size) :
    copy_texture_loop swizzled bpp size base md none n st
      = .ok
        { input := st.input + ∑ i in Finset.range n,
            mipmap_size (mip_dimension md st.mipmap_width i)
              (mip_dimension md st.mipmap_height i) (mip_dimension 1 st.mipmap_depth i) bpp,
          output := st.output + ∑ i in Finset.range n,
            mipmap_size (mip_dimension md st.mipmap_width i)
              (mip_dimension md st.mipmap_height i) (mip_dimension 1 st.mipmap_depth i) bpp,
          mipmap_width := mip_dimension md st.mipmap_width n,
          mipmap_height := mip_dimension md st.mipmap_height n,
          mipmap_depth := mip_dimension 1 st.mipmap_depth n,
          copies := st.copies ++ (List.range n).map (fun i =>
            { output := st.output + ∑ j in Finset.range i,
                mipmap_size (mip_dimension md st.mipmap_width j)
                  (mip_dimension md st.mipmap_height j) (mip_dimension 1 st.mipmap_depth j) bpp,
              input := ((base + (st.input + ∑ j in Finset.range i,
                mipmap_size (mip_dimension md st.mipmap_width j)
                  (mip_dimension md st.mipmap_height j)
                  (mip_dimension 1 st.mipmap_depth j) bpp) : Nat) : Int),
              size := mipmap_size (mip_dimension md st.mipmap_width i)
                (mip_dimension md st.mipmap_height i) (mip_dimension 1 st.mipmap_depth i) bpp,
              swizzle :=
                if swizzled then
                  some (bpp, mip_dimension md st.mipmap_width i,
                    mip_dimension md st.mipmap_height i, mip_dimension 1 st.mipmap_depth i)
                else none }) } := by
  induction n generalizing st with
  | zero =>
    cases st
    simp [copy_texture_loop, mip_dimension]
  | succ n ih =>
    rw [Finset.sum_range_succ'] at hsize
    have hw0 : mip_dimension md st.mipmap_width 0 = st.mipmap_width := rfl
    have hh0 : mip_dimension md st.mipmap_height 0 = st.mipmap_height := rfl
    have hd0 : mip_dimension 1 st.mipmap_depth 0 = st.mipmap_depth := rfl
    rw [hw0, hh0, hd0] at hsize
    have h0 : ¬ ((st.input + mipmap_size st.mipmap_width st.mipmap_height st.mipmap_depth bpp)
        % size_t_modulus > size) := by
      have := Nat.mod_le
        (st.input + mipmap_size st.mipmap_width st.mipmap_height st.mipmap_depth bpp)
        size_t_modulus
      omega
    have h1 : 1 * mipmap_size st.mipmap_width st.mipmap_height st.mipmap_depth bpp
        % size_t_modulus = mipmap_size st.mipmap_width st.mipmap_height st.mipmap_depth bpp := by
      rw [Nat.one_mul, Nat.mod_eq_of_lt (mipmap_size_lt _ _ _ _)]
    simp only [copy_texture_loop, h0, if_false, h1]
    rw [ih]
    · simp only [mip_dimension_shift, Finset.sum_range_succ' _ n, List.range_succ_eq_map,
        List.map_cons, List.map_map, Finset.sum_range_zero, mip_dimension,
        List.append_assoc, List.singleton_append, Except.ok.injEq, CopyTextureLoop.mk.injEq,
        List.append_cancel_left_eq, List.cons.injEq]
      refine ⟨by omega, by omega, trivial, trivial, trivial, ?_, ?_⟩
      · simp
      · apply List.map_congr_left
        intro i _
        simp only [Function.comp, Finset.sum_range_succ' _ i, mip_dimension, Memcpy.mk.injEq]
        refine ⟨by omega, ?_, trivial, trivial⟩
        push_cast
        omega
    · simp only [mip_dimension_shift]
      omega

theorem real_mipmap_count_loop_le (height width mipmap_count : Nat) :
    real_mipmap_count_loop height width mipmap_count ≤ mipmap_count := by
  induction mipmap_count with
  | zero => exact Nat.le_refl _
  | succ n ih =>
    simp only [real_mipmap_count_loop]
    split_ifs
    · omega
    · exact Nat.le_refl _

theorem real_mipmap_count_loop_spec (height width mipmap_count : Nat)
    (hcount : mipmap_count < 64) :
    real_mipmap_count_loop height width mipmap_count ≤ mipmap_count
      ∧ (real_mipmap_count_loop height width mipmap_count = 0
          ∨ 4 ≤ width >>> real_mipmap_count_loop height width mipmap_count
          ∨ 4 ≤ height >>> real_mipmap_count_loop height width mipmap_count)
      ∧ ∀ m, real_mipmap_count_loop height width mipmap_count < m → m ≤ mipmap_count →
          width >>> m < 4 ∧ height >>> m < 4 := by
  induction mipmap_count with
  | zero =>
    refine ⟨Nat.le_refl _, Or.inl rfl, ?_⟩
    intro m h1 h2
    simp only [real_mipmap_count_loop] at h1
    omega
  | succ n ih =>
    have hmod : (n + 1) % 64 = n + 1 := Nat.mod_eq_of_lt hcount
    simp only [real_mipmap_count_loop, hmod]
    split_ifs with hc
    · obtain ⟨h1, h2, h3⟩ := ih (by omega)
      refine ⟨by omega, h2, ?_⟩
      intro m hm1 hm2
      rcases Nat.lt_or_ge m (n + 1) with hlt | hge
      · exact h3 m hm1 (by omega)
      · have : m = n + 1 := by omega
        subst this
        exact ⟨hc.2, hc.1⟩
    · refine ⟨Nat.le_refl _, ?_, ?_⟩
      · rw [not_and_or] at hc
        rcases hc with hc | hc
        · exact Or.inr (Or.inr (by omega))
        · exact Or.inr (Or.inl (by omega))
      · intro m hm1 hm2
        omega

theorem mip_dimension_eq_max (b x i : Nat) (hi : 1 ≤ i) :
    mip_dimension b x i = max (x / 2 ^ i) b := by
  induction i with
  | zero => omega
  | succ i ih =>
    rcases Nat.eq_zero_or_pos i with h0 | hpos
    · subst h0
      simp [mip_dimension]
    · have h1 : x / 2 ^ (i + 1) = x / 2 ^ i / 2 := by
        rw [pow_succ, Nat.div_div_eq_div_mul]
      show max (mip_dimension b x i / 2) b = max (x / 2 ^ (i + 1)) b
      rw [ih hpos, h1]
      rcases le_total (x / 2 ^ i) b with h | h
      · rw [max_eq_right h]
        have h2 : x / 2 ^ i / 2 ≤ b := le_trans (Nat.div_le_self _ _) h
        have h3 : b / 2 ≤ b := Nat.div_le_self _ _
        rw [max_eq_right h2, max_eq_right h3]
      · rw [max_eq_left h]

theorem mip_dimension_one_one (i : Nat) : mip_dimension 1 1 i = 1 := by
  induction i with
  | zero => rfl
  | succ i ih =>
    show max (mip_dimension 1 1 i / 2) 1 = 1
    rw [ih]
    rfl

theorem mipmap_size_eq_div (w h d bpp : Nat) (hw : w ≤ 65535) (hh : h ≤ 65535)
    (hd : d ≤ 65535) (hb : bpp ≤ 32) :
    mipmap_size w h d bpp = w * h * d * bpp / 8 := by
  unfold mipmap_size
  have h1 : w * h * d * bpp ≤ 65535 * 65535 * 65535 * 32 :=
    Nat.mul_le_mul (Nat.mul_le_mul (Nat.mul_le_mul hw hh) hd) hb
  rw [Nat.mod_eq_of_lt]
  unfold size_t_modulus
  omega

theorem copy_missing_mipmaps_eq (input : Int) (block_size : Nat)
    (hblock : block_size < size_t_modulus) (n output : Nat) :
    copy_missing_mipmaps input block_size 1 n output
      = (List.range n).map (fun k =>
          { output := output + k * block_size, input := input, size := block_size }) := by
  induction n generalizing output with
  | zero => rfl
  | succ n ih =>
    simp only [copy_missing_mipmaps, Nat.one_mul, Nat.mod_eq_of_lt hblock, ih,
      List.range_succ_eq_map, List.map_cons, List.map_map, Nat.zero_mul, Nat.add_zero,
      List.cons.injEq, true_and]
    apply List.map_congr_left
    intro k _
    simp only [Function.comp, Memcpy.mk.injEq, and_true]
    rw [Nat.succ_mul]
    omega

theorem sum_range_add_const (s : Nat → Nat) (block a : Nat) (k : Nat)
    (h : ∀ i, a ≤ i → i < a + k → s i = block) :
    ∑ i in Finset.range (a + k), s i = ∑ i in Finset.range a, s i + k * block := by
  induction k with
  | zero => simp
  | succ k ih =>
    rw [← Nat.add_assoc, Finset.sum_range_succ, ih (fun i h1 h2 => h i h1 (by omega)),
      h (a + k) (by omega) (by omega), Nat.succ_mul]
    omega

/-- Below 64 mipmaps, where every shift of the loop is defined: for a
compressed DXT bitmap data that is no cube map, has depth 1 and a width and
height that are multiples of 4, and whose pixel data holds the levels read,
`copy_texture` first copies the levels `0 .. r` unchanged, level
`m` of `s m` bytes from the input position `s 0 + .. + s (m - 1)` to the same
output position, and then makes `mipmap_count - r` copies of the last
`block` bytes of the input consumed, one behind the other. `r` is the largest
level up to `mipmap_count` at which the shifted width or height is at least 4,
or 0. The copies fill the positions from 0 up to `size_of_bitmap(bitmap_data)`
without gap or overlap, and the value returned is the number of input bytes
consumed. When width and height are not 0 the block lies within level `r`. -/
theorem copy_texture_compressed_levels (data : BitmapData) (size bpp r block consumed : Nat)
    (s : Nat → Nat)
    (hfit : data.fits_fields)
    (hformat : data.format = .BITMAP_DATA_FORMAT_DXT1 ∨ data.format = .BITMAP_DATA_FORMAT_DXT3
      ∨ data.format = .BITMAP_DATA_FORMAT_DXT5)
    (hflag : data.flags.compressed = true)
    (htype : data.type ≠ .BITMAP_DATA_TYPE_CUBE_MAP)
    (hdepth : data.depth = 1) (hwidth : data.width % 4 = 0) (hheight : data.height % 4 = 0)
    (hbpp : bpp = calculate_bits_per_pixel data.format)
    (hr : r = real_mipmap_count_loop data.height data.width data.mipmap_count)
    (hs : ∀ i, s i = mip_dimension 4 data.width i * mip_dimension 4 data.height i * bpp / 8)
    (hblock : block = 4 * 4 * bpp / 8)
    (hconsumed : consumed = ∑ i in Finset.range (r + 1), s i)
    (hsize : consumed ≤ size) (hlt : size < size_t_modulus)
    (hcount : data.mipmap_count < 64) :
    copy_texture data false true size none none
        = .ok ((List.range (r + 1)).map (fun m =>
              { output := ∑ i in Finset.range m, s i,
                input := ((∑ i in Finset.range m, s i : Nat) : Int), size := s m })
            ++ (List.range (data.mipmap_count - r)).map (fun k =>
              { output := consumed + k * block, input := (consumed : Int) - (block : Int),
                size := block }),
          consumed)
      ∧ r ≤ data.mipmap_count
      ∧ (r = 0 ∨ 4 ≤ data.width >>> r ∨ 4 ≤ data.height >>> r)
      ∧ (∀ m, r < m → m ≤ data.mipmap_count → data.width >>> m < 4 ∧ data.height >>> m < 4)
      ∧ size_of_bitmap_decompile calculate_bits_per_pixel data
          = some (consumed + (data.mipmap_count - r) * block)
      ∧ (data.width ≠ 0 → data.height ≠ 0 → block ≤ s r) := by
  obtain ⟨hw, hh, hd, hn⟩ := hfit
  obtain ⟨hr1, hr2, hr3⟩ :=
    real_mipmap_count_loop_spec data.height data.width data.mipmap_count hcount
  rw [← hr] at hr1 hr2 hr3
  have hbpp32 : bpp ≤ 32 ∧ bpp ≠ 0 := by
    rcases hformat with hf | hf | hf <;> rw [hbpp, hf] <;> decide
  have hms : ∀ i, mipmap_size (mip_dimension 4 data.width i) (mip_dimension 4 data.height i)
      (mip_dimension 1 1 i) bpp = s i := by
    intro i
    rw [mipmap_size_eq_div _ _ _ _ (mip_dimension_le_field 4 _ i (by norm_num) hw)
      (mip_dimension_le_field 4 _ i (by norm_num) hh)
      (by rw [mip_dimension_one_one]; norm_num) hbpp32.1, mip_dimension_one_one, Nat.mul_one, hs]
  have hblock_lt : block < size_t_modulus := by
    rw [hblock]
    unfold size_t_modulus
    omega
  have hlater : ∀ i, r + 1 ≤ i → i < r + 1 + (data.mipmap_count - r) → s i = block := by
    intro i h1 h2
    obtain ⟨h3, h4⟩ := hr3 i (by omega) (by omega)
    rw [Nat.shiftRight_eq_div_pow] at h3 h4
    rw [hs, hblock, mip_dimension_eq_max 4 _ i (by omega), mip_dimension_eq_max 4 _ i (by omega),
      max_eq_right (by omega), max_eq_right (by omega)]
  refine ⟨?_, hr1, hr2, hr3, ?_, ?_⟩
  · have hloop := copy_texture_loop_none false bpp size 0 4 (r + 1)
      { input := 0, output := 0, mipmap_width := data.width, mipmap_height := data.height,
        mipmap_depth := 1 }
      (by simp only [hms, Nat.zero_add]; rw [← hconsumed]; exact hsize)
    simp only [hms, Nat.zero_add, List.nil_append] at hloop
    have hmod : (4 * 4 * bpp % size_t_modulus) / 8 = block := by
      rw [hblock, Nat.mod_eq_of_lt]
      unfold size_t_modulus
      omega
    have hret : (((consumed : Int) - (block : Int) + (block : Int)) % (size_t_modulus : Int)).toNat
        = consumed := by
      have hc : (consumed : Int) < (size_t_modulus : Int) := by exact_mod_cast (by omega)
      have : ((consumed : Int) - (block : Int) + (block : Int)) = (consumed : Int) := by ring
      rw [this, Int.emod_eq_of_lt (Int.natCast_nonneg _) hc, Int.toNat_natCast]
    simp only [copy_texture, hwidth, hheight, hdepth, ne_eq, not_true_eq_false, and_false,
      if_false, if_true, Option.getD_none, ← hbpp, ← hr, hloop, hmod, Option.isSome_none,
      Bool.false_eq_true, ← hconsumed, copy_missing_mipmaps_eq _ _ hblock_lt, hret,
      Nat.cast_zero, Int.zero_add]
  · have htotal := size_of_bitmap_loop_decompile_total 4 1 bpp (data.mipmap_count + 1)
      data.width data.height data.depth (by norm_num) (by norm_num) hbpp32.1 hw hh hd
      (by unfold uint16_modulus at hn ⊢; omega)
    have hface : face_multiplier data.type = 1 := by
      unfold face_multiplier
      rw [if_neg htype]
    unfold size_of_bitmap_decompile
    rw [hdepth] at htotal
    have htotal2 : size_of_bitmap_loop_decompile 4 1 bpp (data.mipmap_count + 1) 0
        data.width data.height 1 = ∑ i in Finset.range (data.mipmap_count + 1), s i := by
      rw [htotal]
      apply Finset.sum_congr rfl
      intro i _
      rw [mip_dimension_one_one, Nat.mul_one, Nat.mul_one, hs]
    simp only [← hbpp, hbpp32.2, if_false, hflag, if_true, hface, hdepth, htotal2,
      Option.some.injEq]
    have hsplit := sum_range_add_const s block (r + 1) (data.mipmap_count - r) hlater
    have hidx : r + 1 + (data.mipmap_count - r) = data.mipmap_count + 1 := by omega
    rw [hidx] at hsplit
    rw [hsplit, hconsumed]
  · intro hw0 hh0
    have hwr : 4 ≤ mip_dimension 4 data.width r := by
      rcases Nat.eq_zero_or_pos r with h0 | hpos
      · rw [h0]
        show 4 ≤ data.width
        omega
      · rw [mip_dimension_eq_max 4 _ r hpos]
        exact le_max_right _ _
    have hhr : 4 ≤ mip_dimension 4 data.height r := by
      rcases Nat.eq_zero_or_pos r with h0 | hpos
      · rw [h0]
        show 4 ≤ data.height
        omega
      · rw [mip_dimension_eq_max 4 _ r hpos]
        exact le_max_right _ _
    rw [hs, hblock]
    exact Nat.div_le_div_right (Nat.mul_le_mul (Nat.mul_le_mul hwr hhr) (Nat.le_refl _))

/-- Example: a compressed 8x8x1 DXT1 2D texture with 3 mipmaps and 128
bytes of pixel data. Levels 0 and 1 (32 and 8 bytes) are copied, levels 2 and
3 are copies of the 8 bytes at input position 32; 40 bytes are consumed and
56 bytes written, which is `size_of_bitmap`. -/
theorem copy_texture_compressed_levels_example :
    copy_texture
        { width := 8, height := 8, depth := 1, type := .BITMAP_DATA_TYPE_2D_TEXTURE,
          format := .BITMAP_DATA_FORMAT_DXT1, flags := { compressed := true },
          mipmap_count := 3, pixel_data_size := 128 } false true 128 none none
      = .ok ([{ output := 0, input := 0, size := 32 }, { output := 32, input := 32, size := 8 },
              { output := 40, input := 32, size := 8 }, { output := 48, input := 32, size := 8 }],
          40)
    ∧ size_of_bitmap_decompile calculate_bits_per_pixel
        { width := 8, height := 8, depth := 1, type := .BITMAP_DATA_TYPE_2D_TEXTURE,
          format := .BITMAP_DATA_FORMAT_DXT1, flags := { compressed := true },
          mipmap_count := 3, pixel_data_size := 128 } = some 56 := by
  have h := copy_texture_compressed_levels
    { width := 8, height := 8, depth := 1, type := .BITMAP_DATA_TYPE_2D_TEXTURE,
      format := .BITMAP_DATA_FORMAT_DXT1, flags := { compressed := true },
      mipmap_count := 3, pixel_data_size := 128 } 128 4 1 8 40
    (fun i => mip_dimension 4 8 i * mip_dimension 4 8 i * 4 / 8)
    (by decide) (Or.inl rfl) rfl (by decide) rfl rfl rfl rfl (by decide) (fun _ => rfl) rfl
    (by simp [Finset.sum_range_succ, mip_dimension]) (by decide) (by decide) (by decide)
  refine ⟨h.1.trans ?_, h.2.2.2.2.1⟩
  simp [Finset.sum_range_succ, mip_dimension, List.range_succ]

/-! ### The copies of `copy_cube_map` -/

theorem mipmap_size_le (w h d bpp : Nat) : 8 * mipmap_size w h d bpp < size_t_modulus := by
  unfold mipmap_size
  have h1 : w * h * d * bpp % size_t_modulus < size_t_modulus :=
    Nat.mod_lt _ (by unfold size_t_modulus; norm_num)
  omega

theorem face_stride_mod (face size_of_mipmap : Nat) (hface : face ≤ 5)
    (hs : 8 * size_of_mipmap < size_t_modulus) :
    (6 + size_t_modulus - face) % size_t_modulus * size_of_mipmap % size_t_modulus
      = (6 - face) * size_of_mipmap := by
  have h1 : (6 + size_t_modulus - face) % size_t_modulus = 6 - face := by
    have : 6 + size_t_modulus - face = (6 - face) + size_t_modulus := by omega
    rw [this, Nat.add_mod_right, Nat.mod_eq_of_lt]
    unfold size_t_modulus
    omega
  rw [h1, Nat.mod_eq_of_lt]
  have : (6 - face) * size_of_mipmap ≤ 6 * size_of_mipmap :=
    Nat.mul_le_mul_right _ (by omega)
  omega

theorem face_skip_mod (face size_of_mipmap : Nat) (hface : face ≤ 5)
    (hs : 8 * size_of_mipmap < size_t_modulus) :
    face * size_of_mipmap % size_t_modulus = face * size_of_mipmap := by
  rw [Nat.mod_eq_of_lt]
  have : face * size_of_mipmap ≤ 5 * size_of_mipmap := Nat.mul_le_mul_right _ hface
  omega

theorem copy_texture_loop_face (swizzled : Bool) (bpp size base md face n : Nat)
    (st : CopyTextureLoop) (hface : face ≤ 5)
    (hsize : st.input + ∑ i in Finset.range n,
        mipmap_size (mip_dimension md st.mipmap_width i) (mip_dimension md st.mipmap_height i)
          (mip_dimension 1 st.mipmap_depth i) bpp ≤ size) :
    copy_texture_loop swizzled bpp size base md (some face) n st
      = .ok
        { input := st.input + ∑ i in Finset.range n,
            mipmap_size (mip_dimension md st.mipmap_width i)
              (mip_dimension md st.mipmap_height i) (mip_dimension 1 st.mipmap_depth i) bpp,
          output := st.output + ∑ i in Finset.range n,
            ((6 - face) * mipmap_size (mip_dimension md st.mipmap_width i)
                (mip_dimension md st.mipmap_height i) (mip_dimension 1 st.mipmap_depth i) bpp
              + face * mipmap_size (mip_dimension md st.mipmap_width (i + 1))
                (mip_dimension md st.mipmap_height (i + 1))
                (mip_dimension 1 st.mipmap_depth (i + 1)) bpp),
          mipmap_width := mip_dimension md st.mipmap_width n,
          mipmap_height := mip_dimension md st.mipmap_height n,
          mipmap_depth := mip_dimension 1 st.mipmap_depth n,
          copies := st.copies ++ (List.range n).map (fun i =>
            { output := st.output + ∑ j in Finset.range i,
                ((6 - face) * mipmap_size (mip_dimension md st.mipmap_width j)
                    (mip_dimension md st.mipmap_height j)
                    (mip_dimension 1 st.mipmap_depth j) bpp
                  + face * mipmap_size (mip_dimension md st.mipmap_width (j + 1))
                    (mip_dimension md st.mipmap_height (j + 1))
                    (mip_dimension 1 st.mipmap_depth (j + 1)) bpp),
              input := ((base + (st.input + ∑ j in Finset.range i,
                mipmap_size (mip_dimension md st.mipmap_width j)
                  (mip_dimension md st.mipmap_height j)
                  (mip_dimension 1 st.mipmap_depth j) bpp) : Nat) : Int),
              size := mipmap_size (mip_dimension md st.mipmap_width i)
                (mip_dimension md st.mipmap_height i) (mip_dimension 1 st.mipmap_depth i) bpp,
              swizzle :=
                if swizzled then
                  some (bpp, mip_dimension md st.mipmap_width i,
                    mip_dimension md st.mipmap_height i, mip_dimension 1 st.mipmap_depth i)
                else none }) } := by
  induction n generalizing st with
  | zero =>
    cases st
    simp [copy_texture_loop, mip_dimension]
  | succ n ih =>
    rw [Finset.sum_range_succ'] at hsize
    have hw0 : mip_dimension md st.mipmap_width 0 = st.mipmap_width := rfl
    have hh0 : mip_dimension md st.mipmap_height 0 = st.mipmap_height := rfl
    have hd0 : mip_dimension 1 st.mipmap_depth 0 = st.mipmap_depth := rfl
    rw [hw0, hh0, hd0] at hsize
    have h0 : ¬ ((st.input + mipmap_size st.mipmap_width st.mipmap_height st.mipmap_depth bpp)
        % size_t_modulus > size) := by
      have := Nat.mod_le
        (st.input + mipmap_size st.mipmap_width st.mipmap_height st.mipmap_depth bpp)
        size_t_modulus
      omega
    simp only [copy_texture_loop, h0, if_false, face_stride_mod _ _ hface (mipmap_size_le _ _ _ _),
      face_skip_mod _ _ hface (mipmap_size_le _ _ _ _)]
    rw [ih]
    · simp only [mip_dimension_shift, Finset.sum_range_succ' _ n, List.range_succ_eq_map,
        List.map_cons, List.map_map, Finset.sum_range_zero, mip_dimension,
        List.append_assoc, List.singleton_append, Except.ok.injEq, CopyTextureLoop.mk.injEq,
        List.append_cancel_left_eq, List.cons.injEq]
      refine ⟨by omega, by omega, trivial, trivial, trivial, ?_, ?_⟩
      · simp
      · apply List.map_congr_left
        intro i _
        simp only [Function.comp, Finset.sum_range_succ' _ i, mip_dimension, Memcpy.mk.injEq]
        refine ⟨by omega, ?_, trivial, trivial⟩
        push_cast
        omega
    · simp only [mip_dimension_shift]
      omega

theorem face_output_telescope (s : Nat → Nat) (face m : Nat) (hface : face ≤ 5) :
    s 0 * face + ∑ j in Finset.range m, ((6 - face) * s j + face * s (j + 1))
      = 6 * ∑ j in Finset.range m, s j + face * s m := by
  induction m with
  | zero => simp [Nat.mul_comm]
  | succ m ih =>
    rw [Finset.sum_range_succ, Finset.sum_range_succ, ← Nat.add_assoc, ih]
    have h1 : (6 - face) * s m + face * s m = 6 * s m := by
      rw [← Nat.add_mul]
      congr 1
      omega
    rw [Nat.mul_add]
    omega

theorem copy_texture_face (data : BitmapData) (swizzled : Bool) (size bpp offset face : Nat)
    (s : Nat → Nat) (hfit : data.fits_fields) (hdepth : data.depth = 1)
    (hbpp : bpp = calculate_bits_per_pixel data.format) (hb32 : bpp ≤ 32)
    (hs : ∀ m, s m = mip_dimension 1 data.width m * mip_dimension 1 data.height m * bpp / 8)
    (hface : face ≤ 5)
    (hsize : ∑ m in Finset.range (data.mipmap_count + 1), s m ≤ size) :
    copy_texture data swizzled false size (some offset) (some face)
      = .ok ((List.range (data.mipmap_count + 1)).map (fun m =>
            { output := 6 * ∑ j in Finset.range m, s j + face * s m,
              input := ((offset + ∑ j in Finset.range m, s j : Nat) : Int),
              size := s m,
              swizzle :=
                if swizzled then
                  some (bpp, mip_dimension 1 data.width m, mip_dimension 1 data.height m, 1)
                else none }),
          ∑ m in Finset.range (data.mipmap_count + 1), s m) := by
  obtain ⟨hw, hh, hd, hn⟩ := hfit
  have hms : ∀ i, mipmap_size (mip_dimension 1 data.width i) (mip_dimension 1 data.height i)
      1 bpp = s i := by
    intro i
    rw [mipmap_size_eq_div _ _ _ _ (mip_dimension_le_field 1 _ i (by norm_num) hw)
      (mip_dimension_le_field 1 _ i (by norm_num) hh) (by norm_num) hb32, Nat.mul_one, hs]
  have hout : (data.height * data.width * 1 * bpp % size_t_modulus) / 8 * face % size_t_modulus
      = s 0 * face := by
    have h1 : (data.height * data.width * 1 * bpp % size_t_modulus) / 8 = s 0 := by
      have := hms 0
      rw [← this]
      show _ = mipmap_size data.width data.height 1 bpp
      unfold mipmap_size
      rw [Nat.mul_comm data.height data.width]
    rw [h1, Nat.mul_comm, face_skip_mod _ _ hface (by rw [← hms 0]; exact mipmap_size_le _ _ _ _),
      Nat.mul_comm]
  have hloop := copy_texture_loop_face swizzled bpp size offset 1 face (data.mipmap_count + 1)
    { input := 0, output := s 0 * face, mipmap_width := data.width,
      mipmap_height := data.height, mipmap_depth := 1 } hface
    (by simp only [mip_dimension_one_one, hms, Nat.zero_add]; exact hsize)
  simp only [mip_dimension_one_one, hms, Nat.zero_add, List.nil_append,
    face_output_telescope s face _ hface] at hloop
  simp only [copy_texture, hdepth, Bool.false_eq_true, false_and, if_false, ← hbpp, hout,
    Option.getD_some, hloop]

theorem padded_offset (offset face_size : Nat) (hdiv : offset % 128 = 0)
    (hlt : offset + face_size + 128 < size_t_modulus) :
    ((offset + face_size) % size_t_modulus
        + REQUIRED_PADDING_N_BYTES ((offset + face_size) % size_t_modulus)
            CACHE_FILE_XBOX_BITMAP_SIZE_GRANULARITY) % size_t_modulus
      = offset + (face_size
          + REQUIRED_PADDING_N_BYTES face_size CACHE_FILE_XBOX_BITMAP_SIZE_GRANULARITY) := by
  have h1 : (offset + face_size) % size_t_modulus = offset + face_size :=
    Nat.mod_eq_of_lt (by omega)
  rw [h1]
  unfold REQUIRED_PADDING_N_BYTES CACHE_FILE_XBOX_BITMAP_SIZE_GRANULARITY
  rw [Nat.mod_eq_of_lt]
  · omega
  · omega

theorem padded_size_mod (face_size : Nat) :
    (face_size + REQUIRED_PADDING_N_BYTES face_size CACHE_FILE_XBOX_BITMAP_SIZE_GRANULARITY)
        % 128 = 0
      ∧ REQUIRED_PADDING_N_BYTES face_size CACHE_FILE_XBOX_BITMAP_SIZE_GRANULARITY < 128 := by
  unfold REQUIRED_PADDING_N_BYTES CACHE_FILE_XBOX_BITMAP_SIZE_GRANULARITY
  omega

theorem face_size_le (data : BitmapData) (bpp : Nat) (s : Nat → Nat) (hfit : data.fits_fields)
    (hb32 : bpp ≤ 32)
    (hs : ∀ m, s m = mip_dimension 1 data.width m * mip_dimension 1 data.height m * bpp / 8) :
    ∑ m in Finset.range (data.mipmap_count + 1), s m ≤ 65536 * 17179344900 := by
  obtain ⟨hw, hh, hd, hn⟩ := hfit
  have hle : ∀ m ∈ Finset.range (data.mipmap_count + 1), s m ≤ 17179344900 := by
    intro m _
    rw [hs]
    have h1 := mip_dimension_le_field 1 data.width m (by norm_num) hw
    have h2 := mip_dimension_le_field 1 data.height m (by norm_num) hh
    have h3 : mip_dimension 1 data.width m * mip_dimension 1 data.height m * bpp
        ≤ 65535 * 65535 * 32 := Nat.mul_le_mul (Nat.mul_le_mul h1 h2) hb32
    omega
  have h := Finset.sum_le_card_nsmul _ _ _ hle
  simp only [Finset.card_range, smul_eq_mul] at h
  unfold uint16_modulus at hn
  have h2 : (data.mipmap_count + 1) * 17179344900 ≤ 65536 * 17179344900 :=
    Nat.mul_le_mul_right _ (by omega)
  exact le_trans h h2

theorem copy_cube_map_loop_step (data : BitmapData) (swizzled : Bool)
    (size bpp n i offset : Nat) (copies : List Memcpy) (s : Nat → Nat)
    (hfit : data.fits_fields) (hdepth : data.depth = 1)
    (hbpp : bpp = calculate_bits_per_pixel data.format) (hb32 : bpp ≤ 32)
    (hs : ∀ m, s m = mip_dimension 1 data.width m * mip_dimension 1 data.height m * bpp / 8)
    (hi : i ≤ 5) (hdiv : offset % 128 = 0) (hoff : offset ≤ 5 * (65536 * 17179344900 + 128))
    (hsize : ∑ m in Finset.range (data.mipmap_count + 1), s m ≤ size) :
    copy_cube_map_loop data swizzled false size (n + 1) i offset copies
      = copy_cube_map_loop data swizzled false size n (i + 1)
          (offset + (∑ m in Finset.range (data.mipmap_count + 1), s m
            + REQUIRED_PADDING_N_BYTES (∑ m in Finset.range (data.mipmap_count + 1), s m)
                CACHE_FILE_XBOX_BITMAP_SIZE_GRANULARITY))
          (copies ++ (List.range (data.mipmap_count + 1)).map (fun m =>
            { output := 6 * ∑ j in Finset.range m, s j
                + (if i = 1 then 2 else if i = 2 then 1 else i) * s m,
              input := ((offset + ∑ j in Finset.range m, s j : Nat) : Int),
              size := s m,
              swizzle :=
                if swizzled then
                  some (bpp, mip_dimension 1 data.width m, mip_dimension 1 data.height m, 1)
                else none })) := by
  have hface : (if i = 1 then 2 else if i = 2 then 1 else i) ≤ 5 := by
    split_ifs <;> omega
  have hle := face_size_le data bpp s hfit hb32 hs
  have hpad := padded_offset offset (∑ m in Finset.range (data.mipmap_count + 1), s m) hdiv
    (by unfold size_t_modulus; omega)
  simp only [copy_cube_map_loop,
    copy_texture_face data swizzled size bpp offset _ s hfit hdepth hbpp hb32 hs hface hsize,
    hpad]

theorem sum_range_succ_le (s : Nat → Nat) (m n : Nat) (h : m < n) :
    ∑ j in Finset.range m, s j + s m ≤ ∑ j in Finset.range n, s j := by
  rw [← Finset.sum_range_succ]
  exact Finset.sum_le_sum_of_subset (Finset.range_mono h)

theorem face_region_le (s : Nat → Nat) (face m n : Nat) (hface : face < 6) (h : m < n) :
    6 * ∑ j in Finset.range m, s j + face * s m + s m ≤ 6 * ∑ j in Finset.range n, s j := by
  have h1 := sum_range_succ_le s m n h
  have h2 : (face + 1) * s m ≤ 6 * s m := Nat.mul_le_mul_right _ (by omega)
  rw [Nat.succ_mul] at h2
  omega

theorem face_regions_disjoint (s : Nat → Nat) (face m face2 m2 : Nat) (hface : face < 6)
    (hface2 : face2 < 6) (hne : (face, m) ≠ (face2, m2)) :
    6 * ∑ j in Finset.range m, s j + face * s m + s m
        ≤ 6 * ∑ j in Finset.range m2, s j + face2 * s m2
      ∨ 6 * ∑ j in Finset.range m2, s j + face2 * s m2 + s m2
        ≤ 6 * ∑ j in Finset.range m, s j + face * s m := by
  rcases Nat.lt_trichotomy m m2 with hlt | heq | hgt
  · left
    have := face_region_le s face m m2 hface hlt
    omega
  · subst heq
    have hf : face ≠ face2 := fun e => hne (by rw [e])
    rcases Nat.lt_or_gt_of_ne hf with h | h
    · left
      have h2 : (face + 1) * s m ≤ face2 * s m := Nat.mul_le_mul_right _ h
      rw [Nat.succ_mul] at h2
      omega
    · right
      have h2 : (face2 + 1) * s m ≤ face * s m := Nat.mul_le_mul_right _ h
      rw [Nat.succ_mul] at h2
      omega
  · right
    have := face_region_le s face2 m2 m hface2 hgt
    omega

theorem face_regions_cover (s : Nat → Nat) (n p : Nat) :
    p < 6 * ∑ j in Finset.range n, s j
      ↔ ∃ face m, face < 6 ∧ m < n ∧ 6 * ∑ j in Finset.range m, s j + face * s m ≤ p
          ∧ p < 6 * ∑ j in Finset.range m, s j + face * s m + s m := by
  constructor
  · intro hp
    induction n with
    | zero => simp at hp
    | succ n ih =>
      rcases Nat.lt_or_ge p (6 * ∑ j in Finset.range n, s j) with hlt | hge
      · obtain ⟨face, m, h1, h2, h3, h4⟩ := ih hlt
        exact ⟨face, m, h1, by omega, h3, h4⟩
      · rw [Finset.sum_range_succ] at hp
        have hpos : 0 < s n := by omega
        refine ⟨(p - 6 * ∑ j in Finset.range n, s j) / s n, n, ?_, by omega, ?_, ?_⟩
        · rw [Nat.div_lt_iff_lt_mul hpos]
          omega
        · have := Nat.div_mul_le_self (p - 6 * ∑ j in Finset.range n, s j) (s n)
          omega
        · have := Nat.lt_div_mul_add (a := p - 6 * ∑ j in Finset.range n, s j) hpos
          omega
  · rintro ⟨face, m, h1, h2, _, h4⟩
    have := face_region_le s face m n h1 h2
    omega

/-- C22: for an uncompressed cube map of depth 1 whose pixel data holds one
face, `copy_cube_map` makes, for each of the six slabs `i` in turn, one copy
per level `m`: `s m` bytes from the input position `i * padded + s 0 + .. +
s (m - 1)` to the output position `6 * (s 0 + .. + s (m - 1)) + f i * s m`.
`padded` is the size of a face rounded up to the granularity of 128, so every
slab starts at a multiple of 128; `f` swaps 1 and 2 and fixes 0, 3, 4 and 5.
The regions written for different faces or levels do not overlap, and they
cover exactly the positions below `size_of_bitmap(bitmap_data)`, which is 6
times the size of a face. -/
theorem copy_cube_map_faces (data : BitmapData) (swizzled : Bool)
    (size bpp face_size padded : Nat) (s f : Nat → Nat)
    (hfit : data.fits_fields)
    (htype : data.type = .BITMAP_DATA_TYPE_CUBE_MAP)
    (hflag : data.flags.compressed = false)
    (hformat : data.format ≠ .BITMAP_DATA_FORMAT_DXT1 ∧ data.format ≠ .BITMAP_DATA_FORMAT_DXT3
      ∧ data.format ≠ .BITMAP_DATA_FORMAT_DXT5)
    (hdepth : data.depth = 1)
    (hbpp : bpp = calculate_bits_per_pixel data.format) (hknown : bpp ≠ 0)
    (hs : ∀ m, s m = mip_dimension 1 data.width m * mip_dimension 1 data.height m * bpp / 8)
    (hf : ∀ i, f i = if i = 1 then 2 else if i = 2 then 1 else i)
    (hface : face_size = ∑ m in Finset.range (data.mipmap_count + 1), s m)
    (hpadded : padded = face_size
      + REQUIRED_PADDING_N_BYTES face_size CACHE_FILE_XBOX_BITMAP_SIZE_GRANULARITY)
    (hsize : face_size ≤ size) :
    copy_cube_map data swizzled false size
        = .ok ((List.range 6).flatMap (fun i =>
            (List.range (data.mipmap_count + 1)).map (fun m =>
              { output := 6 * ∑ j in Finset.range m, s j + f i * s m,
                input := ((i * padded + ∑ j in Finset.range m, s j : Nat) : Int),
                size := s m,
                swizzle :=
                  if swizzled then
                    some (bpp, mip_dimension 1 data.width m, mip_dimension 1 data.height m, 1)
                  else none })))
      ∧ (∀ i, i * padded % 128 = 0)
      ∧ face_size ≤ padded
      ∧ (f 0 = 0 ∧ f 1 = 2 ∧ f 2 = 1 ∧ f 3 = 3 ∧ f 4 = 4 ∧ f 5 = 5)
      ∧ size_of_bitmap_decompile calculate_bits_per_pixel data = some (6 * face_size)
      ∧ (∀ face m face2 m2, face < 6 → face2 < 6 → (face, m) ≠ (face2, m2) →
          6 * ∑ j in Finset.range m, s j + face * s m + s m
              ≤ 6 * ∑ j in Finset.range m2, s j + face2 * s m2
            ∨ 6 * ∑ j in Finset.range m2, s j + face2 * s m2 + s m2
              ≤ 6 * ∑ j in Finset.range m, s j + face * s m)
      ∧ (∀ p, p < 6 * face_size
          ↔ ∃ face m, face < 6 ∧ m < data.mipmap_count + 1
              ∧ 6 * ∑ j in Finset.range m, s j + face * s m ≤ p
              ∧ p < 6 * ∑ j in Finset.range m, s j + face * s m + s m) := by
  have hb : bpp = 8 ∨ bpp = 16 ∨ bpp = 32 := by
    obtain ⟨h1, h2, h3⟩ := hformat
    rw [hbpp] at hknown ⊢
    cases hfm : data.format <;> simp_all [calculate_bits_per_pixel]
  have hb32 : bpp ≤ 32 := by omega
  have hb8 : 8 ∣ bpp := by
    rcases hb with h | h | h <;> rw [h] <;> norm_num
  obtain ⟨hpad0, hpad1⟩ := padded_size_mod face_size
  rw [← hpadded] at hpad0
  have hle := face_size_le data bpp s hfit hb32 hs
  rw [← hface] at hle
  have hmul : ∀ i, i * padded % 128 = 0 := by
    intro i
    rw [Nat.mul_mod, hpad0, Nat.mul_zero, Nat.zero_mod]
  refine ⟨?_, hmul, by omega, by simp [hf], ?_, ?_, ?_⟩
  · have hsize2 : ∑ m in Finset.range (data.mipmap_count + 1), s m ≤ size := by
      rw [← hface]; exact hsize
    have hstep := fun n i offset copies hi hdiv hoff =>
      copy_cube_map_loop_step data swizzled size bpp n i offset copies s hfit hdepth hbpp hb32 hs
        hi hdiv hoff hsize2
    simp only [← hface, ← hpadded] at hstep
    have hp1 : padded ≤ 65536 * 17179344900 + 128 := by omega
    have e0 : 0 + padded = 1 * padded := by omega
    have e1 : 1 * padded + padded = 2 * padded := by omega
    have e2 : 2 * padded + padded = 3 * padded := by omega
    have e3 : 3 * padded + padded = 4 * padded := by omega
    have e4 : 4 * padded + padded = 5 * padded := by omega
    have e5 : 5 * padded + padded = 6 * padded := by omega
    unfold copy_cube_map
    rw [hstep 5 0 0 [] (by omega) (by omega) (by omega), e0,
      hstep 4 1 (1 * padded) _ (by omega) (hmul 1) (by omega), e1,
      hstep 3 2 (2 * padded) _ (by omega) (hmul 2) (by omega), e2,
      hstep 2 3 (3 * padded) _ (by omega) (hmul 3) (by omega), e3,
      hstep 1 4 (4 * padded) _ (by omega) (hmul 4) (by omega), e4,
      hstep 0 5 (5 * padded) _ (by omega) (hmul 5) (by omega), e5]
    simp [copy_cube_map_loop, List.range_succ, List.flatMap, hf]
  · obtain ⟨hw, hh, hd, hn⟩ := hfit
    have htotal := size_of_bitmap_loop_decompile_total 1 6 bpp (data.mipmap_count + 1)
      data.width data.height data.depth (by norm_num) (by norm_num) hb32 hw hh hd
      (by unfold uint16_modulus at hn ⊢; omega)
    rw [hdepth] at htotal
    have htotal2 : size_of_bitmap_loop_decompile 1 6 bpp (data.mipmap_count + 1) 0
        data.width data.height 1 = 6 * face_size := by
      rw [htotal, hface, Finset.mul_sum]
      apply Finset.sum_congr rfl
      intro i _
      rw [mip_dimension_one_one, Nat.mul_one, hs]
      obtain ⟨k, hk⟩ := hb8
      rw [hk]
      have h1 : mip_dimension 1 data.width i * mip_dimension 1 data.height i * 6 * (8 * k)
          = 8 * (6 * (mip_dimension 1 data.width i * mip_dimension 1 data.height i * k)) := by
        ring
      have h2 : mip_dimension 1 data.width i * mip_dimension 1 data.height i * (8 * k)
          = 8 * (mip_dimension 1 data.width i * mip_dimension 1 data.height i * k) := by
        ring
      rw [h1, h2, Nat.mul_div_cancel_left _ (by norm_num),
        Nat.mul_div_cancel_left _ (by norm_num)]
    have hfm : face_multiplier data.type = 6 := by
      unfold face_multiplier
      rw [if_pos htype]
    unfold size_of_bitmap_decompile
    simp only [← hbpp, hknown, if_false, hflag, Bool.false_eq_true, hfm, hdepth, htotal2]
  · intro face m face2 m2 h1 h2 hne
    exact face_regions_disjoint s face m face2 m2 h1 h2 hne
  · intro p
    rw [hface]
    exact face_regions_cover s (data.mipmap_count + 1) p

/-- Witness for C22: a swizzled 4x4x1 A8R8G8B8 cube map with 2 mipmaps and 768
bytes of pixel data. A face has 64 + 16 + 4 = 84 bytes and a slab 128; the 18
copies fill the 504 bytes of `size_of_bitmap`. -/
theorem copy_cube_map_faces_witness :
    copy_cube_map
        { width := 4, height := 4, depth := 1, type := .BITMAP_DATA_TYPE_CUBE_MAP,
          format := .BITMAP_DATA_FORMAT_A8R8G8B8, flags := { swizzled := true },
          mipmap_count := 2, pixel_data_size := 768 } true false 768
      = .ok
         [{ output := 0, input := 0, size := 64,
            swizzle := some (32, 4, 4, 1) },
          { output := 384, input := 64, size := 16,
            swizzle := some (32, 2, 2, 1) },
          { output := 480, input := 80, size := 4,
            swizzle := some (32, 1, 1, 1) },
          { output := 128, input := 128, size := 64,
            swizzle := some (32, 4, 4, 1) },
          { output := 416, input := 192, size := 16,
            swizzle := some (32, 2, 2, 1) },
          { output := 488, input := 208, size := 4,
            swizzle := some (32, 1, 1, 1) },
          { output := 64, input := 256, size := 64,
            swizzle := some (32, 4, 4, 1) },
          { output := 400, input := 320, size := 16,
            swizzle := some (32, 2, 2, 1) },
          { output := 484, input := 336, size := 4,
            swizzle := some (32, 1, 1, 1) },
          { output := 192, input := 384, size := 64,
            swizzle := some (32, 4, 4, 1) },
          { output := 432, input := 448, size := 16,
            swizzle := some (32, 2, 2, 1) },
          { output := 492, input := 464, size := 4,
            swizzle := some (32, 1, 1, 1) },
          { output := 256, input := 512, size := 64,
            swizzle := some (32, 4, 4, 1) },
          { output := 448, input := 576, size := 16,
            swizzle := some (32, 2, 2, 1) },
          { output := 496, input := 592, size := 4,
            swizzle := some (32, 1, 1, 1) },
          { output := 320, input := 640, size := 64,
            swizzle := some (32, 4, 4, 1) },
          { output := 464, input := 704, size := 16,
            swizzle := some (32, 2, 2, 1) },
          { output := 500, input := 720, size := 4,
            swizzle := some (32, 1, 1, 1) }]
    ∧ size_of_bitmap_decompile calculate_bits_per_pixel
        { width := 4, height := 4, depth := 1, type := .BITMAP_DATA_TYPE_CUBE_MAP,
          format := .BITMAP_DATA_FORMAT_A8R8G8B8, flags := { swizzled := true },
          mipmap_count := 2, pixel_data_size := 768 } = some 504 := by
  have h := copy_cube_map_faces
    { width := 4, height := 4, depth := 1, type := .BITMAP_DATA_TYPE_CUBE_MAP,
      format := .BITMAP_DATA_FORMAT_A8R8G8B8, flags := { swizzled := true },
      mipmap_count := 2, pixel_data_size := 768 } true 768 32 84 128
    (fun m => mip_dimension 1 4 m * mip_dimension 1 4 m * 32 / 8)
    (fun i => if i = 1 then 2 else if i = 2 then 1 else i)
    (by decide) rfl rfl (by decide) rfl rfl (by decide) (fun _ => rfl) (fun _ => rfl)
    (by simp [Finset.sum_range_succ, mip_dimension]) (by decide) (by decide)
  refine ⟨h.1.trans ?_, h.2.2.2.2.1⟩
  simp [Finset.sum_range_succ, mip_dimension, List.range_succ, List.flatMap]

/-! ### Pixel data that is too short -/

theorem copy_texture_loop_out_of_bounds (swizzled : Bool) (bpp size base md : Nat)
    (face : Option Nat) (n : Nat) (st : CopyTextureLoop) (hin : st.input ≤ size)
    (hgt : size < st.input + ∑ i in Finset.range n,
        mipmap_size (mip_dimension md st.mipmap_width i) (mip_dimension md st.mipmap_height i)
          (mip_dimension 1 st.mipmap_depth i) bpp)
    (hlt : st.input + ∑ i in Finset.range n,
        mipmap_size (mip_dimension md st.mipmap_width i) (mip_dimension md st.mipmap_height i)
          (mip_dimension 1 st.mipmap_depth i) bpp < size_t_modulus) :
    copy_texture_loop swizzled bpp size base md face n st = .error .OutOfBoundsException := by
  induction n generalizing st with
  | zero =>
    simp only [Finset.range_zero, Finset.sum_empty, Nat.add_zero] at hgt
    omega
  | succ n ih =>
    rw [Finset.sum_range_succ'] at hgt hlt
    have hw0 : mip_dimension md st.mipmap_width 0 = st.mipmap_width := rfl
    have hh0 : mip_dimension md st.mipmap_height 0 = st.mipmap_height := rfl
    have hd0 : mip_dimension 1 st.mipmap_depth 0 = st.mipmap_depth := rfl
    rw [hw0, hh0, hd0] at hgt hlt
    have hmod : (st.input + mipmap_size st.mipmap_width st.mipmap_height st.mipmap_depth bpp)
        % size_t_modulus
        = st.input + mipmap_size st.mipmap_width st.mipmap_height st.mipmap_depth bpp :=
      Nat.mod_eq_of_lt (by omega)
    by_cases h0 : st.input + mipmap_size st.mipmap_width st.mipmap_height st.mipmap_depth bpp
        > size
    · simp only [copy_texture_loop, hmod, h0, if_true]
    · simp only [copy_texture_loop, hmod, h0, if_false]
      apply ih
      · simp only []
        omega
      · simp only [mip_dimension_shift]
        omega
      · simp only [mip_dimension_shift]
        omega

theorem sum_level_sizes_le (b w h bpp n : Nat) (hb : b ≤ 4) (hw : w < uint16_modulus)
    (hh : h < uint16_modulus) (hb32 : bpp ≤ 32) (hn : n ≤ 65536) :
    ∑ m in Finset.range n, mipmap_size (mip_dimension b w m) (mip_dimension b h m)
        (mip_dimension 1 1 m) bpp ≤ 65536 * 17179344900 := by
  have hle : ∀ m ∈ Finset.range n, mipmap_size (mip_dimension b w m) (mip_dimension b h m)
      (mip_dimension 1 1 m) bpp ≤ 17179344900 := by
    intro m _
    have h1 := mip_dimension_le_field b w m hb hw
    have h2 := mip_dimension_le_field b h m hb hh
    rw [mipmap_size_eq_div _ _ _ _ h1 h2 (by rw [mip_dimension_one_one]; norm_num) hb32,
      mip_dimension_one_one, Nat.mul_one]
    have h3 : mip_dimension b w m * mip_dimension b h m * bpp ≤ 65535 * 65535 * 32 :=
      Nat.mul_le_mul (Nat.mul_le_mul h1 h2) hb32
    omega
  have h := Finset.sum_le_card_nsmul _ _ _ hle
  simp only [Finset.card_range, smul_eq_mul] at h
  exact le_trans h (Nat.mul_le_mul_right _ hn)

/-- The check "Bitmap data is out of bounds?" of `copy_texture`: for a
compressed DXT bitmap data of depth 1 with a width and height that are
multiples of 4, pixel data shorter than the levels `0 .. real_mipmap_count`
makes the call throw `OutOfBoundsException`. -/
theorem copy_texture_compressed_out_of_bounds (data : BitmapData) (size : Nat)
    (hfit : data.fits_fields)
    (hformat : data.format = .BITMAP_DATA_FORMAT_DXT1 ∨ data.format = .BITMAP_DATA_FORMAT_DXT3
      ∨ data.format = .BITMAP_DATA_FORMAT_DXT5)
    (hdepth : data.depth = 1) (hwidth : data.width % 4 = 0) (hheight : data.height % 4 = 0)
    (hsize : size < ∑ i in Finset.range
        (real_mipmap_count_loop data.height data.width data.mipmap_count + 1),
          mip_dimension 4 data.width i * mip_dimension 4 data.height i
            * calculate_bits_per_pixel data.format / 8) :
    copy_texture data false true size none none = .error .OutOfBoundsException := by
  obtain ⟨hw, hh, hd, hn⟩ := hfit
  have hb32 : calculate_bits_per_pixel data.format ≤ 32 := by
    rcases hformat with hf | hf | hf <;> rw [hf] <;> decide
  have hr := real_mipmap_count_loop_le data.height data.width data.mipmap_count
  have hms : ∀ i, mipmap_size (mip_dimension 4 data.width i) (mip_dimension 4 data.height i)
      (mip_dimension 1 1 i) (calculate_bits_per_pixel data.format)
      = mip_dimension 4 data.width i * mip_dimension 4 data.height i
          * calculate_bits_per_pixel data.format / 8 := by
    intro i
    rw [mipmap_size_eq_div _ _ _ _ (mip_dimension_le_field 4 _ i (by norm_num) hw)
      (mip_dimension_le_field 4 _ i (by norm_num) hh)
      (by rw [mip_dimension_one_one]; norm_num) hb32, mip_dimension_one_one, Nat.mul_one]
  have hbound := sum_level_sizes_le 4 data.width data.height
    (calculate_bits_per_pixel data.format)
    (real_mipmap_count_loop data.height data.width data.mipmap_count + 1) (by norm_num) hw hh
    hb32 (by unfold uint16_modulus at hn; omega)
  have hloop := copy_texture_loop_out_of_bounds false (calculate_bits_per_pixel data.format)
    size 0 4 none (real_mipmap_count_loop data.height data.width data.mipmap_count + 1)
    { input := 0, output := 0, mipmap_width := data.width, mipmap_height := data.height,
      mipmap_depth := 1 } (Nat.zero_le _)
    (by simp only [hms, Nat.zero_add]; exact hsize)
    (by simp only [Nat.zero_add]; unfold size_t_modulus; omega)
  simp only [copy_texture, hwidth, hheight, hdepth, ne_eq, not_true_eq_false, and_false,
    if_false, if_true, Option.getD_none, hloop]

theorem copy_cube_map_loop_error (data : BitmapData) (swizzled : Bool)
    (size n i offset : Nat) (copies : List Memcpy) (e : ScenarioException)
    (h : copy_texture data swizzled false size (some offset)
      (some (if i = 1 then 2 else if i = 2 then 1 else i)) = .error e) :
    copy_cube_map_loop data swizzled false size (n + 1) i offset copies = .error e := by
  simp only [copy_cube_map_loop, h]

/-- The same check in `copy_cube_map`: for the cube map of C22, pixel data
shorter than one face makes the first call of `copy_texture` throw
`OutOfBoundsException`. -/
theorem copy_cube_map_out_of_bounds (data : BitmapData) (swizzled : Bool) (size : Nat)
    (hfit : data.fits_fields) (hdepth : data.depth = 1)
    (hb32 : calculate_bits_per_pixel data.format ≤ 32)
    (hsize : size < ∑ m in Finset.range (data.mipmap_count + 1),
        mip_dimension 1 data.width m * mip_dimension 1 data.height m
          * calculate_bits_per_pixel data.format / 8) :
    copy_cube_map data swizzled false size = .error .OutOfBoundsException := by
  obtain ⟨hw, hh, hd, hn⟩ := hfit
  have hms : ∀ i, mipmap_size (mip_dimension 1 data.width i) (mip_dimension 1 data.height i)
      (mip_dimension 1 1 i) (calculate_bits_per_pixel data.format)
      = mip_dimension 1 data.width i * mip_dimension 1 data.height i
          * calculate_bits_per_pixel data.format / 8 := by
    intro i
    rw [mipmap_size_eq_div _ _ _ _ (mip_dimension_le_field 1 _ i (by norm_num) hw)
      (mip_dimension_le_field 1 _ i (by norm_num) hh)
      (by rw [mip_dimension_one_one]; norm_num) hb32, mip_dimension_one_one, Nat.mul_one]
  have hbound := sum_level_sizes_le 1 data.width data.height
    (calculate_bits_per_pixel data.format) (data.mipmap_count + 1) (by norm_num) hw hh
    hb32 (by unfold uint16_modulus at hn; omega)
  have hloop := fun output => copy_texture_loop_out_of_bounds swizzled
    (calculate_bits_per_pixel data.format) size 0 1 (some 0) (data.mipmap_count + 1)
    { input := 0, output := output, mipmap_width := data.width, mipmap_height := data.height,
      mipmap_depth := 1 } (Nat.zero_le _)
    (by simp only [hms, Nat.zero_add]; exact hsize)
    (by simp only [Nat.zero_add]; unfold size_t_modulus; omega)
  have hct : copy_texture data swizzled false size (some 0) (some 0)
      = .error .OutOfBoundsException := by
    simp only [copy_texture, hdepth, Bool.false_eq_true, false_and, if_false,
      Option.getD_some, hloop]
  exact copy_cube_map_loop_error data swizzled size 5 0 0 [] _ hct

/-! ### Where the pass over the participants leaves the vector -/

theorem set_new_name_participants_spec (name_count : Nat)
    (participants : List ScenarioAIConversationParticipant)
    (name_used : List (List (String × Nat))) (hlen : name_used.length = name_count) :
    (set_new_name_participants name_count participants name_used = none
        ↔ ∃ p ∈ participants, p.set_new_name = name_count ∧ p.set_new_name ≠ NULL_INDEX)
      ∧ ∀ result, set_new_name_participants name_count participants name_used = some result →
          result.length = name_count := by
  induction participants generalizing name_used with
  | nil =>
    refine ⟨?_, ?_⟩
    · simp [set_new_name_participants]
    · intro result h
      simp only [set_new_name_participants, Option.some.injEq] at h
      rw [← h, hlen]
  | cons p rest ih =>
    simp only [set_new_name_participants, List.mem_cons, exists_eq_or_imp]
    by_cases hskip : p.set_new_name > name_count ∨ p.set_new_name = NULL_INDEX
    · simp only [hskip, if_true]
      have hnot : ¬ (p.set_new_name = name_count ∧ p.set_new_name ≠ NULL_INDEX) := by
        rintro ⟨h1, h2⟩
        rcases hskip with h | h
        · omega
        · exact h2 h
      simp only [hnot, false_or]
      exact ih name_used hlen
    · simp only [hskip, if_false]
      rw [not_or] at hskip
      obtain ⟨hle, hnull⟩ := hskip
      rcases Nat.lt_or_ge p.set_new_name name_count with hlt | hge
      · have hget : name_used.get? p.set_new_name
            = some (name_used.get ⟨p.set_new_name, by omega⟩) := List.get?_eq_get (by omega)
        simp only [hget]
        have hnot : ¬ (p.set_new_name = name_count ∧ p.set_new_name ≠ NULL_INDEX) := by
          rintro ⟨h1, _⟩
          omega
        simp only [hnot, false_or]
        apply ih
        split_ifs
        · rw [List.length_set, hlen]
        · exact hlen
      · have heq : p.set_new_name = name_count := by omega
        have hget : name_used.get? p.set_new_name = none :=
          List.get?_eq_none.mpr (by omega)
        simp only [hget]
        refine ⟨⟨fun _ => Or.inl ⟨heq, hnull⟩, fun _ => trivial⟩, ?_⟩
        intro result h
        cases h

theorem set_new_name_conversations_spec (name_count : Nat)
    (conversations : List ScenarioAIConversation)
    (name_used : List (List (String × Nat))) (hlen : name_used.length = name_count) :
    set_new_name_conversations name_count conversations name_used = none
      ↔ ∃ c ∈ conversations, ∃ p ∈ c.participants,
          p.set_new_name = name_count ∧ p.set_new_name ≠ NULL_INDEX := by
  induction conversations generalizing name_used with
  | nil => simp [set_new_name_conversations]
  | cons c rest ih =>
    obtain ⟨h1, h2⟩ := set_new_name_participants_spec name_count c.participants name_used hlen
    simp only [set_new_name_conversations, List.mem_cons, exists_eq_or_imp]
    cases hp : set_new_name_participants name_count c.participants name_used with
    | none =>
      simp only [true_iff]
      exact Or.inl (h1.mp hp)
    | some result =>
      simp only []
      rw [ih result (h2 result hp)]
      have hnot : ¬ ∃ p ∈ c.participants,
          p.set_new_name = name_count ∧ p.set_new_name ≠ NULL_INDEX := by
        intro h
        rw [← h1, hp] at h
        cases h
      simp only [hnot, false_or]

/-- The pass over the participants leaves the vector `name_used` exactly when
some participant has a `set_new_name` equal to the number of object names (and
different from `NULL_INDEX`). -/
theorem check_set_new_name_none_iff (scenario : Scenario)
    (name_used : List (List (String × Nat)))
    (hlen : name_used.length = scenario.object_names.length) :
    check_set_new_name scenario name_used = none
      ↔ ∃ c ∈ scenario.ai_conversations, ∃ p ∈ c.participants,
          p.set_new_name = scenario.object_names.length ∧ p.set_new_name ≠ NULL_INDEX :=
  set_new_name_conversations_spec _ _ _ hlen

/-! ### Script nodes inside the syntax data -/

/-- The loop over the script nodes stays inside the syntax data when the data
holds all the nodes it runs over. -/
theorem script_node_loop_inside {σ : Type} (layout : ScriptNodeTableLayout)
    (body : Nat → List Nat → σ → List Nat × σ × Bool) (n i : Nat) (syntax_data : List Nat)
    (state : σ)
    (h : layout.header_size + (i + n) * layout.node_size ≤ syntax_data.length) :
    ∃ result, script_node_loop layout body n i syntax_data state = some result := by
  induction n generalizing i syntax_data state with
  | zero => exact ⟨_, rfl⟩
  | succ n ih =>
    have h1 : (i + 1) * layout.node_size ≤ (i + (n + 1)) * layout.node_size :=
      Nat.mul_le_mul_right _ (by omega)
    rw [Nat.succ_mul] at h1
    have h2 : ¬ (layout.header_size + i * layout.node_size + layout.node_size
        > syntax_data.length) := by omega
    simp only [script_node_loop, h2, if_false]
    split_ifs
    · apply ih
      rw [length_store]
      have : i + 1 + n = i + (n + 1) := by omega
      rw [this]
      exact h
    · exact ⟨_, rfl⟩

/-- The first pass of the loop over the script nodes leaves the syntax data
when the data ends before the end of `nodes[i]`. -/
theorem script_node_loop_outside {σ : Type} (layout : ScriptNodeTableLayout)
    (body : Nat → List Nat → σ → List Nat × σ × Bool) (n i : Nat) (syntax_data : List Nat)
    (state : σ)
    (h : syntax_data.length < layout.header_size + (i + 1) * layout.node_size) :
    script_node_loop layout body (n + 1) i syntax_data state = none := by
  rw [Nat.succ_mul] at h
  have h2 : layout.header_size + i * layout.node_size + layout.node_size
      > syntax_data.length := by omega
  simp only [script_node_loop, h2, if_true]

/-! ### The outcome of `do_pre_compile` and the workload -/

theorem pre_compile_bitmap_data_outcome (bitmap_type : BitmapType) (pixel_data : List Nat)
    (tag_index : Nat) (workload workload2 : BuildWorkload) (data : BitmapData) :
    (pre_compile_bitmap_data bitmap_type pixel_data tag_index workload data).2
      = (pre_compile_bitmap_data bitmap_type pixel_data tag_index workload2 data).2 := by
  have key : ∀ (w3 w4 : BuildWorkload) (d' : BitmapData) (start : Nat),
      (match size_of_bitmap d' with
        | none => (w3, (Except.error ScenarioException.std_exception :
            Except ScenarioException BitmapData))
        | some size =>
          if start > pixel_data.length ∨ size > pixel_data.length
              ∨ (start + size) % size_t_modulus > pixel_data.length then
            (w3.report_error .ERROR_TYPE_FATAL_ERROR
              "Bitmap data range exceeds the processed pixel data size" tag_index,
              .error .InvalidTagDataException)
          else
            ({ w3 with
                raw_data := w3.raw_data
                  ++ [(pixel_data.drop start).take ((start + size) % size_t_modulus - start)],
                asset_data := w3.asset_data ++ [(tag_index, w3.raw_data.length)] },
              .ok { d' with pixel_data_size := size % uint32_modulus })).2
        = (match size_of_bitmap d' with
        | none => (w4, (Except.error ScenarioException.std_exception :
            Except ScenarioException BitmapData))
        | some size =>
          if start > pixel_data.length ∨ size > pixel_data.length
              ∨ (start + size) % size_t_modulus > pixel_data.length then
            (w4.report_error .ERROR_TYPE_FATAL_ERROR
              "Bitmap data range exceeds the processed pixel data size" tag_index,
              .error .InvalidTagDataException)
          else
            ({ w4 with
                raw_data := w4.raw_data
                  ++ [(pixel_data.drop start).take ((start + size) % size_t_modulus - start)],
                asset_data := w4.asset_data ++ [(tag_index, w4.raw_data.length)] },
              .ok { d' with pixel_data_size := size % uint32_modulus })).2 := by
    intro w3 w4 d' start
    cases size_of_bitmap d' with
    | none => rfl
    | some size =>
      simp only []
      split_ifs <;> rfl
  unfold pre_compile_bitmap_data
  by_cases h1 : data.flags.swizzled = true ∧ data.flags.compressed = true
  · rw [if_pos h1, if_pos h1]
  · by_cases h2 : data.flags.swizzled = true
    · rw [if_neg h1, if_pos h2, if_neg h1, if_pos h2]
    · rw [if_neg h1, if_neg h2, if_neg h1, if_neg h2]
      exact key _ _ _ _

theorem pre_compile_bitmap_data_loop_outcome (bitmap_type : BitmapType)
    (pixel_data : List Nat) (tag_index : Nat) (workload workload2 : BuildWorkload)
    (bitmap_data done : List BitmapData) :
    (pre_compile_bitmap_data_loop bitmap_type pixel_data tag_index workload bitmap_data done).2
      = (pre_compile_bitmap_data_loop bitmap_type pixel_data tag_index workload2 bitmap_data
          done).2 := by
  induction bitmap_data generalizing workload workload2 done with
  | nil => rfl
  | cons data rest ih =>
    have h := pre_compile_bitmap_data_outcome bitmap_type pixel_data tag_index workload
      workload2 data
    simp only [pre_compile_bitmap_data_loop]
    rcases h1 : pre_compile_bitmap_data bitmap_type pixel_data tag_index workload data
      with ⟨w1, r1⟩
    rcases h2 : pre_compile_bitmap_data bitmap_type pixel_data tag_index workload2 data
      with ⟨w2, r2⟩
    rw [h1, h2] at h
    simp only at h
    subst h
    cases r1 with
    | error e => rfl
    | ok d => exact ih w1 w2 _

/-- The outcome of `do_pre_compile` (the tag written back, or the exception)
does not depend on the workload, and so not on `hide_pedantic_warnings`. -/
theorem do_pre_compile_outcome (bitmap : Bitmap) (workload workload2 : BuildWorkload)
    (tag_index : Nat) :
    (do_pre_compile bitmap workload tag_index).2
      = (do_pre_compile bitmap workload2 tag_index).2 := by
  unfold do_pre_compile
  split_ifs
  · rfl
  · have h := pre_compile_bitmap_data_loop_outcome bitmap.type bitmap.processed_pixel_data
      tag_index workload workload2 bitmap.bitmap_data []
    rcases h1 : pre_compile_bitmap_data_loop bitmap.type bitmap.processed_pixel_data tag_index
      workload bitmap.bitmap_data [] with ⟨w1, r1⟩
    rcases h2 : pre_compile_bitmap_data_loop bitmap.type bitmap.processed_pixel_data tag_index
      workload2 bitmap.bitmap_data [] with ⟨w2, r2⟩
    rw [h1, h2] at h
    simp only at h
    subst h
    cases r1 <;> rfl

/-! ### The flag after `fix_power_of_two` -/

/-- The flag after `fix_power_of_two(data, true)` tells whether width and
height are powers of two; it agrees with the check of `do_pre_compile` when
the depth is a power of two. -/
theorem fix_power_of_two_flag (data : BitmapData) :
    (fix_power_of_two data true).1.flags.power_of_two_dimensions
        = (power_of_two data.width && power_of_two data.height)
      ∧ (power_of_two data.depth = true →
          (fix_power_of_two data true).1.flags.power_of_two_dimensions
            = !(!power_of_two data.height || !power_of_two data.width
                || !power_of_two data.depth)) := by
  unfold fix_power_of_two
  cases hw : power_of_two data.width <;> cases hh : power_of_two data.height
    <;> cases hf : data.flags.power_of_two_dimensions <;> simp [hf]

/-! ### A shift by the width of the word -/

/-- C21 (failing input): a compressed 8x8x1 DXT1 2D texture with 64 mipmaps.
The largest level up to 64 at which 8 shifted right is still at least 4 is
level 1, so the claim has levels 0 and 1 copied (40 bytes consumed) and 63
copies of the last block. The loop of `copy_texture` starts with a shift by
64, which the program runs as a shift by 0: `real_mipmap_count` stays 64. With
128 bytes of pixel data the call throws `OutOfBoundsException`; with 1024
bytes it copies 65 levels from the input, no block twice, and returns 544.
With 63 mipmaps and 128 bytes it makes the 2 + 62 copies of the claim and
returns 40. -/
theorem copy_texture_shift_by_64 :
    4 ≤ 8 >>> 1
    ∧ (∀ m, m < 65 → 1 < m → 8 >>> m < 4)
    ∧ real_mipmap_count_loop 8 8 64 = 64
    ∧ copy_texture
        { width := 8, height := 8, depth := 1, type := .BITMAP_DATA_TYPE_2D_TEXTURE,
          format := .BITMAP_DATA_FORMAT_DXT1, flags := { compressed := true },
          mipmap_count := 64 } false true 128 none none
      = .error .OutOfBoundsException
    ∧ (copy_texture
        { width := 8, height := 8, depth := 1, type := .BITMAP_DATA_TYPE_2D_TEXTURE,
          format := .BITMAP_DATA_FORMAT_DXT1, flags := { compressed := true },
          mipmap_count := 64 } false true 1024 none none).toOption.map
          (fun result => (result.1.length, result.1.map (fun copy => copy.input), result.2))
      = some (65, (0 : Int) :: (List.range 64).map (fun i => (32 + 8 * i : Int)), 544)
    ∧ size_of_bitmap_decompile calculate_bits_per_pixel
        { width := 8, height := 8, depth := 1, type := .BITMAP_DATA_TYPE_2D_TEXTURE,
          format := .BITMAP_DATA_FORMAT_DXT1, flags := { compressed := true },
          mipmap_count := 64 } = some 544
    ∧ real_mipmap_count_loop 8 8 63 = 1
    ∧ (copy_texture
        { width := 8, height := 8, depth := 1, type := .BITMAP_DATA_TYPE_2D_TEXTURE,
          format := .BITMAP_DATA_FORMAT_DXT1, flags := { compressed := true },
          mipmap_count := 63 } false true 128 none none).toOption.map
          (fun result => (result.1.length, result.1.map (fun copy => copy.input), result.2))
      = some (64, (0 : Int) :: List.replicate 63 (32 : Int), 40) := by
  refine ⟨by decide, by decide, by decide, by decide, by decide, by decide, by decide,
    by decide⟩

end Invader
